import Mathlib

/-!
# lxi-gui window: chart registry, rendezvous locks, discovery, script harness, workers

A shallow embedding of `src/lxi_gui-window.c`.

* C pointers to GTK objects are natural numbers, `NULL` is `0`.
* `double` values are rationals; rounding is not modelled.
* A `GMutex` is a boolean, `true` meaning locked.  `g_mutex_lock` on a locked mutex
  blocks the calling thread: the worker functions that wait on a lock are split at
  the wait, and the wait is a step of its own (`Action.worker_resume`).
* `g_idle_add` appends an item to the main-loop queue `State.idle`; the UI thread
  runs the items one at a time, in order (`ui_run`).
* A thread started with `g_thread_new` is recorded in `State.threads`.  A thread
  function is a function on the state; the results of the library calls it makes
  (liblxi, Lua, the screenshot and benchmark modules) and the settings it reads are
  arguments, and the calls are recorded in `State.calls`.
* Indexing `gui_chart` outside `0 .. CHARTS_MAX - 1`, and passing `NULL` to `strcmp`,
  is undefined behaviour in C: the embedded function returns `none` there.
-/

namespace LxiGui

/-! ## Data model -/

/-- Capacity of the chart table (`#define CHARTS_MAX 1024`). -/
def CHARTS_MAX : Nat := 1024

/-- The C `double` (and Lua's `lua_Number`). -/
abbrev lua_Number := Rat

/-- Conversion of a 64-bit `lua_Integer` to a C `int` (wraps modulo `2^32`). -/
def c_int (v : Int) : Int := (v + 2 ^ 31) % 2 ^ 32 - 2 ^ 31

/-- The chart kinds (`GtkChartType`, declared in `gtkchart.h`); the code modelled here
only stores and compares them. -/
inductive GtkChartType where
  | GTK_CHART_TYPE_UNKNOWN
  | GTK_CHART_TYPE_LINE
  | GTK_CHART_TYPE_SCATTER
  | GTK_CHART_TYPE_GAUGE_ANGULAR
  | GTK_CHART_TYPE_GAUGE_LINEAR
  | GTK_CHART_TYPE_NUMBER
  deriving DecidableEq, Repr

open GtkChartType

/-- One slot of the chart table (`struct chart_t`). -/
structure chart_t where
  allocated : Bool
  handle : Int
  type : GtkChartType
  title : Option String
  label : Option String
  x_label : Option String
  y_label : Option String
  x : lua_Number
  y : lua_Number
  x_max : lua_Number
  y_max : lua_Number
  value : lua_Number
  value_min : lua_Number
  value_max : lua_Number
  width : Int
  autoscale : Bool
  no_csv : Bool
  widget : Nat
  window : Nat
  filename_png : Option String
  filename_csv : Option String
  deriving DecidableEq

/-- A zero-initialised slot, as every element of the static array is at program start. -/
def chart_t.zero : chart_t :=
  { allocated := false, handle := 0, type := GTK_CHART_TYPE_UNKNOWN,
    title := none, label := none, x_label := none, y_label := none,
    x := 0, y := 0, x_max := 0, y_max := 0, value := 0, value_min := 0, value_max := 0,
    width := 0, autoscale := false, no_csv := false, widget := 0, window := 0,
    filename_png := none, filename_csv := none }

/-- The table `static struct chart_t gui_chart[CHARTS_MAX]`. -/
abbrev ChartTable := Fin CHARTS_MAX → chart_t

/-- The element `gui_chart[handle]` for a C `int` index: `none` outside the array. -/
def chart_index (handle : Int) : Option (Fin CHARTS_MAX) :=
  if h : 0 ≤ handle ∧ handle < (CHARTS_MAX : Int) then
    some ⟨handle.toNat, by omega⟩
  else none

/-- The arguments of a host call as the Lua C API shows them: `lua_gettop`,
`lua_isstring`, `lua_tostring` (`NULL` is `none`), `lua_tonumber`, `lua_tointeger`,
`lua_toboolean`, each at a stack index. -/
structure lua_State where
  gettop : Nat
  isstring : Nat → Bool
  tostring : Nat → Option String
  tonumber : Nat → lua_Number
  tointeger : Nat → Int
  toboolean : Nat → Bool

/-- A widget: its name (`gtk_widget_get_name`), its label text and its children in
sibling order. -/
inductive GtkWidget where
  | mk (name : String) (text : String) (children : List GtkWidget)

/-- A chart window built by `gui_chart_new_thread`. -/
structure ChartWindow where
  window : Nat
  widget : Nat
  type : GtkChartType
  title : Option String
  width : Int
  height : Int
  save_csv_enabled : Bool
  deriving DecidableEq

/-- The text views of the window the modelled code writes to. -/
inductive GtkTextView where
  | text_view_scpi
  | text_view_script_status
  deriving DecidableEq, Repr

/-- The worker threads the window starts with `g_thread_new`, named by thread function. -/
inductive GThread where
  | search_worker_thread
  | send_worker_thread
  | screenshot_grab_worker_thread
  | benchmark_worker_function
  | script_run_worker_function
  deriving DecidableEq, Repr

/-- A toggle button: whether it reacts to input (`gtk_widget_set_sensitive`) and whether
it is pressed in (`gtk_toggle_button_set_active`). -/
structure GtkToggleButton where
  sensitive : Bool
  active : Bool
  deriving DecidableEq, Repr

/-- The message types the info bar is given. -/
inductive GtkMessageType where
  | GTK_MESSAGE_INFO
  | GTK_MESSAGE_ERROR
  deriving DecidableEq, Repr

/-- The info bar with its label (`info_bar`, `label_info_bar`). -/
structure GtkInfoBar where
  visible : Bool
  message_type : GtkMessageType
  show_close_button : Bool
  label : String
  deriving DecidableEq, Repr

/-- Calls of functions of the libraries the window drives (liblxi, the screenshot and
benchmark modules, Lua, GLib), with the arguments that matter here. -/
inductive Call where
  | lxi_connect (address : Option String) (port : Nat) (timeout : Nat) (protocol : Nat)
  | lxi_send (device : Int) (message : String) (timeout : Nat)
  | lxi_receive (device : Int) (length : Nat) (timeout : Nat)
  | lxi_disconnect (device : Int)
  | g_string_free
  | screenshot (address : Option String) (timeout : Nat)
  | benchmark (address : Option String) (port : Nat) (timeout : Nat) (protocol : Nat)
      (count : Nat)
  | lxi_discover (timeout : Nat) (type : Nat)
  | luaL_newstate
  | luaL_openlibs
  | luaL_setfuncs
  | lua_sethook
  | lua_register_lxi
  | luaL_loadbuffer (chunkname : String)
  | lua_pcall
  | lua_close
  deriving DecidableEq, Repr

/-- Work items posted to the main loop with `g_idle_add`: the callback and its data. -/
inductive IdleItem where
  | gui_chart_new_thread (chart : Fin CHARTS_MAX)
  | gui_chart_plot_thread (chart : Fin CHARTS_MAX)
  | gui_chart_set_value_thread (chart : Fin CHARTS_MAX)
  | gui_chart_close_thread (window : Nat)
  | gui_chart_save_csv_thread (chart : Fin CHARTS_MAX)
  | gui_chart_save_png_thread (chart : Fin CHARTS_MAX)
  | text_view_add_buffer_thread (text_view : GtkTextView) (buffer : Option String)
  | gui_update_search_add_instrument_thread (list_box : GtkWidget)
  | text_view_add_markup_buffer_thread (text_view : GtkTextView) (buffer : String)
  | text_view_clear_buffer_thread (view : GtkTextView)
  | show_error_thread (buffer : String)
  | show_info_thread (buffer : String)
  | gui_update_script_run_worker_function_finished_thread
  | gui_update_search_finished_thread
  | gui_update_send_worker_finished_thread
  | gui_update_search_start_thread
  | gui_update_grab_screenshot_finished_thread
  | gui_update_progress_bar_fraction_thread
  | gui_update_benchmark_finished_thread
  | gui_update_progress_bar_reset_thread

/-- A file written by the chart widget: which widget, which format, which path. -/
structure SavedFile where
  widget : Nat
  csv : Bool
  filename : Option String
  deriving DecidableEq

/-- The window object (`LxiGuiWindow`, reached through `self_global`), the chart table,
the main-loop queue and the GTK objects the modelled code acts on.  `builder n` is the
pair of addresses (window, chart widget) the allocator gives the objects of the `n`-th
chart built; `built` counts the charts built.  `presented`, `plotted`, `values_set`,
`saved`, `destroyed` and `completed` record, in order, the windows presented, the points
and values handed to chart widgets, the files chart widgets were asked to write, the
widgets `chart_destroyed_cb` ran for, and the source ids of the work items that ran.
`ip` and `id` are the selected instrument (`NULL` is `none`); `entry_scpi` is the text of
the command entry; `image_pixbuf` is what the pixbuf loader makes of the grabbed image
data (the width of the picture, `none` when it decodes none); `progress_count` is the
`static int count` of `gui_update_progress_bar_fraction_thread`; `image_benchmark` is the
pixel size and start margin of the runner image; `script_file` is the base name of the
script file, if the script was loaded from one.  `threads` lists the threads started
with `g_thread_new` whose thread function has not run yet, and `calls` records, in order,
the library calls made. -/
structure State where
  gui_chart : ChartTable
  mutex_gui_chart : Bool
  mutex_discover : Bool
  mutex_save_png : Bool
  mutex_save_csv : Bool
  lua_stop_requested : Bool
  no_instruments : Bool
  list_instruments : List GtkWidget
  text_view_script_status : List String
  idle : List (Nat × IdleItem)
  next_source : Nat
  builder : Nat → Nat × Nat
  built : Nat
  windows : List ChartWindow
  presented : List Nat
  plotted : List (Nat × lua_Number × lua_Number)
  values_set : List (Nat × lua_Number)
  saved : List SavedFile
  destroyed : List Nat
  completed : List Nat
  ip : Option String
  id : Option String
  entry_scpi : String
  text_view_scpi : List String
  info_bar : GtkInfoBar
  toggle_button_scpi_send : GtkToggleButton
  toggle_button_script_run : GtkToggleButton
  toggle_button_search : GtkToggleButton
  toggle_button_screenshot_grab : GtkToggleButton
  toggle_button_benchmark_start : GtkToggleButton
  button_screenshot_save_sensitive : Bool
  status_page_instruments_visible : Bool
  flap_reveal : Bool
  action_search_enabled : Bool
  popover_menu_popped_up : Bool
  screenshot_ready : Bool
  screenshot_loaded : Bool
  screenshot_size : Int
  image_pixbuf : Option Int
  picture_screenshot : Option Int
  benchmark_requests_count : Nat
  progress_bar_fraction : lua_Number
  progress_bar_benchmark : lua_Number
  label_benchmark_result : String
  benchmark_result_text : Option String
  progress_count : Nat
  image_benchmark : Nat × Nat
  script_file : Option String
  threads : List GThread
  calls : List Call

/-- Post of a work item, `g_idle_add(function, data)`: the item joins the end of the
queue under a fresh source id, which is returned. -/
def g_idle_add (s : State) (item : IdleItem) : State × Nat :=
  ({ s with idle := s.idle ++ [(s.next_source, item)], next_source := s.next_source + 1 },
   s.next_source)

/-- Post of a text for a text view (`text_view_add_buffer`); `g_strdup` of `NULL` is
`NULL`. -/
def text_view_add_buffer (s : State) (view : GtkTextView) (buffer : Option String) : State :=
  (g_idle_add s (IdleItem.text_view_add_buffer_thread view buffer)).1

/-- Post of a text shown in dim gray (`text_view_add_buffer_in_dimgray`). -/
def text_view_add_buffer_in_dimgray (s : State) (view : GtkTextView) (buffer : String) :
    State :=
  (g_idle_add s
    (IdleItem.text_view_add_markup_buffer_thread view
      ("<span foreground=\"dimgray\">" ++ buffer ++ "</span>"))).1

/-- Post of the clearing of a text view (`text_view_clear_buffer`). -/
def text_view_clear_buffer (s : State) (view : GtkTextView) : State :=
  (g_idle_add s (IdleItem.text_view_clear_buffer_thread view)).1

/-- Post of an error notice (`show_error`). -/
def show_error (s : State) (buffer : String) : State :=
  (g_idle_add s (IdleItem.show_error_thread buffer)).1

/-- Post of an info notice (`show_info`). -/
def show_info (s : State) (buffer : String) : State :=
  (g_idle_add s (IdleItem.show_info_thread buffer)).1

/-- Start of a worker thread, `g_thread_new(name, function, self)`. -/
def g_thread_new (s : State) (thread : GThread) : State :=
  { s with threads := s.threads ++ [thread] }

/-- A library call is made: it joins the record of calls. -/
def record_call (s : State) (c : Call) : State :=
  { s with calls := s.calls ++ [c] }

/-- The string `printf` prints for a `%s` argument. -/
def printf_s : Option String → String
  | some str => str
  | none => "(null)"

/-! ## Chart registry -/

/-- The loop of `chart_destroyed_cb` from index `handle` on: the first slot whose
`widget` field equals `widget` gets `allocated = false`, and the loop ends. -/
def chart_destroyed_cb_loop (widget : Nat) : Nat → Nat → ChartTable → ChartTable
  | 0, _, t => t
  | fuel + 1, handle, t =>
    if h : handle < CHARTS_MAX then
      if (t ⟨handle, h⟩).widget = widget then
        Function.update t ⟨handle, h⟩ { t ⟨handle, h⟩ with allocated := false }
      else chart_destroyed_cb_loop widget fuel (handle + 1) t
    else t

/-- The `destroy` signal handler of a chart widget. -/
def chart_destroyed_cb (t : ChartTable) (widget : Nat) : ChartTable :=
  chart_destroyed_cb_loop widget CHARTS_MAX 0 t

/-- The scan of `lua_gui_chart_new` from index `handle` on: the first slot with
`allocated == false` is marked allocated and its index is the result; when the loop
runs to its end the result is `CHARTS_MAX`. -/
def chart_new_scan : Nat → Nat → ChartTable → ChartTable × Nat
  | 0, handle, t => (t, handle)
  | fuel + 1, handle, t =>
    if h : handle < CHARTS_MAX then
      if (t ⟨handle, h⟩).allocated = false then
        (Function.update t ⟨handle, h⟩ { t ⟨handle, h⟩ with allocated := true }, handle)
      else chart_new_scan fuel (handle + 1) t
    else (t, handle)

/-- The chart kind named by the first argument of `chart_new`. -/
def chart_type_of_string (type : String) : GtkChartType :=
  if type = "line" then GTK_CHART_TYPE_LINE
  else if type = "scatter" then GTK_CHART_TYPE_SCATTER
  else if type = "number" then GTK_CHART_TYPE_NUMBER
  else if type = "linear-gauge" then GTK_CHART_TYPE_GAUGE_LINEAR
  else if type = "angular-gauge" then GTK_CHART_TYPE_GAUGE_ANGULAR
  else GTK_CHART_TYPE_UNKNOWN

/-- The argument parsing of `lua_gui_chart_new` (the `switch (chart->type)`). -/
def chart_new_parse (L : lua_State) (c : chart_t) : chart_t :=
  match c.type with
  | GTK_CHART_TYPE_LINE | GTK_CHART_TYPE_SCATTER =>
    { c with title := L.tostring 2, x_label := L.tostring 3, y_label := L.tostring 4,
             x_max := L.tonumber 5, y_max := L.tonumber 6,
             width := c_int (L.tointeger 7), autoscale := L.toboolean 8, no_csv := false }
  | GTK_CHART_TYPE_NUMBER =>
    { c with title := L.tostring 2, label := L.tostring 3,
             width := c_int (L.tointeger 4), no_csv := true }
  | GTK_CHART_TYPE_GAUGE_LINEAR | GTK_CHART_TYPE_GAUGE_ANGULAR =>
    { c with title := L.tostring 2, label := L.tostring 3,
             value_min := L.tonumber 4, value_max := L.tonumber 5,
             width := c_int (L.tointeger 6), no_csv := true }
  | GTK_CHART_TYPE_UNKNOWN => c

/-- The part of `lua_gui_chart_new` that runs before the wait on `mutex_gui_chart`:
the scan for a free handle, the decoding of the arguments into the slot, and the post
of `gui_chart_new_thread`.  The result is the new state, the slot and the source id of
the posted item; `none` when the slot `gui_chart[handle]` lies outside the table or
the kind string is `NULL`. -/
def lua_gui_chart_new_post (s : State) (L : lua_State) :
    Option (State × Fin CHARTS_MAX × Nat) :=
  let (t, handle) := chart_new_scan CHARTS_MAX 0 s.gui_chart
  match chart_index handle with
  | none => none
  | some chart =>
    match L.tostring 1 with
    | none => none
    | some type =>
      let c := { t chart with type := chart_type_of_string type, handle := handle }
      let c := chart_new_parse L c
      let (s, source) :=
        g_idle_add { s with gui_chart := Function.update t chart c }
          (IdleItem.gui_chart_new_thread chart)
      some (s, chart, source)

/-- The wait of `lua_gui_chart_new` is over: `lua_pushinteger(L, handle); return 1`. -/
def lua_gui_chart_new_return (chart : Fin CHARTS_MAX) : List Int := [(chart.val : Int)]

/-- The host function `chart_save_csv` up to its wait on `mutex_save_csv`: the second
component tells the slot and the source id of the posted item when the function goes
on to wait, and is `none` when it returns at once. -/
def lua_gui_chart_save_csv_post (s : State) (L : lua_State) :
    Option (State × Option (Fin CHARTS_MAX × Nat)) :=
  let handle := c_int (L.tointeger 1)
  let filename := L.tostring 2
  match chart_index handle with
  | none => none
  | some chart =>
    if (s.gui_chart chart).allocated = true then
      let t := Function.update s.gui_chart chart { s.gui_chart chart with filename_csv := filename }
      let s := { s with gui_chart := t }
      let text := "Saving " ++ printf_s filename ++ "\n"
      let s := text_view_add_buffer s GtkTextView.text_view_script_status (some text)
      let (s, source) := g_idle_add s (IdleItem.gui_chart_save_csv_thread chart)
      some (s, some (chart, source))
    else some (s, none)

/-- The host function `chart_save_png` up to its wait on `mutex_save_png`. -/
def lua_gui_chart_save_png_post (s : State) (L : lua_State) :
    Option (State × Option (Fin CHARTS_MAX × Nat)) :=
  let handle := c_int (L.tointeger 1)
  let filename := L.tostring 2
  match chart_index handle with
  | none => none
  | some chart =>
    if (s.gui_chart chart).allocated = true then
      let t := Function.update s.gui_chart chart { s.gui_chart chart with filename_png := filename }
      let s := { s with gui_chart := t }
      let text := "Saving " ++ printf_s filename ++ "\n"
      let s := text_view_add_buffer s GtkTextView.text_view_script_status (some text)
      let (s, source) := g_idle_add s (IdleItem.gui_chart_save_png_thread chart)
      some (s, some (chart, source))
    else some (s, none)

/-- The host function `chart_close`. -/
def lua_gui_chart_close (s : State) (L : lua_State) : Option State :=
  let handle := c_int (L.tointeger 1)
  match chart_index handle with
  | none => none
  | some chart =>
    if (s.gui_chart chart).allocated = true then
      some (g_idle_add s (IdleItem.gui_chart_close_thread (s.gui_chart chart).window)).1
    else some s

/-- The host function `chart_plot`. -/
def lua_gui_chart_plot (s : State) (L : lua_State) : Option State :=
  let handle := c_int (L.tointeger 1)
  let x := L.tonumber 2
  let y := L.tonumber 3
  match chart_index handle with
  | none => none
  | some chart =>
    let t := Function.update s.gui_chart chart { s.gui_chart chart with x := x, y := y }
    let s := { s with gui_chart := t }
    if (s.gui_chart chart).allocated = true then
      some (g_idle_add s (IdleItem.gui_chart_plot_thread chart)).1
    else some s

/-- The host function `chart_set_value`. -/
def lua_gui_chart_set_value (s : State) (L : lua_State) : Option State :=
  let handle := c_int (L.tointeger 1)
  let value := L.tonumber 2
  match chart_index handle with
  | none => none
  | some chart =>
    let t := Function.update s.gui_chart chart { s.gui_chart chart with value := value }
    let s := { s with gui_chart := t }
    if (s.gui_chart chart).allocated = true then
      some (g_idle_add s (IdleItem.gui_chart_set_value_thread chart)).1
    else some s

/-! ## Work items run by the UI thread -/

/-- The window title and default height `gui_chart_new_thread` sets for a chart kind
(`int` division of the width by two truncates). -/
def chart_window_geometry (type : GtkChartType) (width : Int) : Option String × Int :=
  match type with
  | GTK_CHART_TYPE_LINE => (some "Line Chart", Int.tdiv width 2)
  | GTK_CHART_TYPE_SCATTER => (some "Scatter Chart", Int.tdiv width 2)
  | GTK_CHART_TYPE_NUMBER => (some "Number Chart", Int.tdiv width 2)
  | GTK_CHART_TYPE_GAUGE_LINEAR => (some "Linear Gauge", c_int (width * 2))
  | GTK_CHART_TYPE_GAUGE_ANGULAR => (some "Angular Gauge", width)
  | GTK_CHART_TYPE_UNKNOWN => (none, 0)

/-- The work item `gui_chart_new_thread`: the builder makes a new window and chart
widget (at the addresses the allocator gives them, `State.builder`), the slot records
both, the window is configured and presented, and as the last action `mutex_gui_chart`
is unlocked. -/
def gui_chart_new_thread (s : State) (chart : Fin CHARTS_MAX) : State :=
  let c := s.gui_chart chart
  let window := (s.builder s.built).1
  let widget := (s.builder s.built).2
  let geometry := chart_window_geometry c.type c.width
  let w : ChartWindow :=
    { window := window, widget := widget, type := c.type, title := geometry.1,
      width := c.width, height := geometry.2, save_csv_enabled := !c.no_csv }
  { s with
    gui_chart := Function.update s.gui_chart chart { c with window := window, widget := widget }
    built := s.built + 1
    windows := s.windows ++ [w]
    presented := s.presented ++ [window]
    mutex_gui_chart := false }

/-- The work item `gui_chart_plot_thread`: the point stored in the slot is plotted. -/
def gui_chart_plot_thread (s : State) (chart : Fin CHARTS_MAX) : State :=
  let c := s.gui_chart chart
  { s with plotted := s.plotted ++ [(c.widget, c.x, c.y)] }

/-- The work item `gui_chart_set_value_thread`. -/
def gui_chart_set_value_thread (s : State) (chart : Fin CHARTS_MAX) : State :=
  let c := s.gui_chart chart
  { s with values_set := s.values_set ++ [(c.widget, c.value)] }

/-- The work item `gui_chart_save_csv_thread`: the chart widget writes the file named
in the slot, then `mutex_save_csv` is unlocked. -/
def gui_chart_save_csv_thread (s : State) (chart : Fin CHARTS_MAX) : State :=
  let c := s.gui_chart chart
  { s with
    saved := s.saved ++ [{ widget := c.widget, csv := true, filename := c.filename_csv }]
    mutex_save_csv := false }

/-- The work item `gui_chart_save_png_thread`. -/
def gui_chart_save_png_thread (s : State) (chart : Fin CHARTS_MAX) : State :=
  let c := s.gui_chart chart
  { s with
    saved := s.saved ++ [{ widget := c.widget, csv := false, filename := c.filename_png }]
    mutex_save_png := false }

/-- The GTK call `gtk_window_close`: the window, when open, is destroyed; the result
lists the chart widgets destroyed with it, whose `destroy` signal is then emitted. -/
def gtk_window_close (s : State) (window : Nat) : State × List Nat :=
  ({ s with windows := s.windows.filter (fun w => w.window ≠ window) },
   (s.windows.filter (fun w => w.window = window)).map ChartWindow.widget)

/-- The work item `gui_chart_close_thread`: `gtk_window_close(window)`. -/
def gui_chart_close_thread (s : State) (window : Nat) : State × List Nat :=
  gtk_window_close s window

/-- The content of a text view: the texts inserted, in order. -/
def text_view_get_buffer (s : State) : GtkTextView → List String
  | GtkTextView.text_view_scpi => s.text_view_scpi
  | GtkTextView.text_view_script_status => s.text_view_script_status

/-- The content of a text view is replaced. -/
def text_view_set_buffer (s : State) (view : GtkTextView) (content : List String) : State :=
  match view with
  | GtkTextView.text_view_scpi => { s with text_view_scpi := content }
  | GtkTextView.text_view_script_status => { s with text_view_script_status := content }

/-- The work item `text_view_add_buffer_thread`: the text is appended to the view
(`gtk_text_buffer_insert` inserts nothing for a `NULL` text). -/
def text_view_add_buffer_thread (s : State) (view : GtkTextView) (buffer : Option String) :
    State :=
  text_view_set_buffer s view (text_view_get_buffer s view ++ buffer.toList)

/-- The work item `text_view_add_markup_buffer_thread`: the marked-up text is appended
to the view. -/
def text_view_add_markup_buffer_thread (s : State) (view : GtkTextView) (buffer : String) :
    State :=
  text_view_set_buffer s view (text_view_get_buffer s view ++ [buffer])

/-- The work item `text_view_clear_buffer_thread`: the content of the view is deleted. -/
def text_view_clear_buffer_thread (s : State) (view : GtkTextView) : State :=
  text_view_set_buffer s view []

/-- The work item `show_error_thread`: the info bar shows the text as an error, with a
close button. -/
def show_error_thread (s : State) (buffer : String) : State :=
  { s with info_bar :=
      { visible := true, message_type := GtkMessageType.GTK_MESSAGE_ERROR,
        show_close_button := true, label := buffer } }

/-- The work item `show_info_thread`: the info bar shows the text as an information,
without a close button. -/
def show_info_thread (s : State) (buffer : String) : State :=
  { s with info_bar :=
      { visible := true, message_type := GtkMessageType.GTK_MESSAGE_INFO,
        show_close_button := false, label := buffer } }

/-- The function `hide_info_bar`. -/
def hide_info_bar (s : State) : State :=
  { s with info_bar := { s.info_bar with visible := false } }

/-- The work item `gui_update_script_run_worker_function_finished_thread`: the run
button is released and made sensitive. -/
def gui_update_script_run_worker_function_finished_thread (s : State) : State :=
  { s with toggle_button_script_run := { sensitive := true, active := false } }

/-- The work item `gui_update_search_finished_thread`. -/
def gui_update_search_finished_thread (s : State) : State :=
  let s := { s with toggle_button_search := { sensitive := true, active := false } }
  let s := hide_info_bar s
  let s := if s.no_instruments = true then { s with status_page_instruments_visible := true }
           else s
  { s with action_search_enabled := true }

/-- The work item `gui_update_send_worker_finished_thread`: the send button is made
sensitive and released. -/
def gui_update_send_worker_finished_thread (s : State) : State :=
  { s with toggle_button_scpi_send := { sensitive := true, active := false } }

/-- The loop of `gui_update_search_start_thread` that clears the instrument list: while
the list has a first child, that child is removed. -/
def gui_update_search_start_thread_clear : List GtkWidget → List GtkWidget
  | [] => []
  | _ :: rest => gui_update_search_start_thread_clear rest

/-- The work item `gui_update_search_start_thread`: the status page is hidden, the list
is marked unpopulated, the flap is revealed, the search button is made insensitive, the
instrument list is cleared and the search worker thread is started. -/
def gui_update_search_start_thread (s : State) : State :=
  let s := { s with status_page_instruments_visible := false, no_instruments := true }
  let s := { s with flap_reveal := true }
  let s := { s with toggle_button_search := { s.toggle_button_search with sensitive := false } }
  let s := { s with list_instruments := gui_update_search_start_thread_clear s.list_instruments }
  g_thread_new s GThread.search_worker_thread

/-- The work item `gui_update_grab_screenshot_finished_thread`. -/
def gui_update_grab_screenshot_finished_thread (s : State) : State :=
  let s :=
    if s.screenshot_ready = true then
      match s.image_pixbuf with
      | none => { show_error s "Failure handling image format" with screenshot_loaded := false }
      | some width =>
        { s with screenshot_size := width, screenshot_loaded := true,
                 picture_screenshot := some width }
    else s
  let s := { s with toggle_button_screenshot_grab := { sensitive := true, active := false } }
  if s.screenshot_loaded = true then { s with button_screenshot_save_sensitive := true } else s

/-- The work item `gui_update_progress_bar_fraction_thread`: the progress bar shows the
fraction stored in the window, and the runner image alternates between two sizes. -/
def gui_update_progress_bar_fraction_thread (s : State) : State :=
  let s := { s with progress_bar_benchmark := s.progress_bar_fraction }
  let s := if s.progress_count % 2 ≠ 0 then { s with image_benchmark := (155, 10) }
           else { s with image_benchmark := (160, 0) }
  { s with progress_count := s.progress_count + 1 }

/-- The work item `gui_update_benchmark_finished_thread`: the result label shows the
result text, and the start button is released and made sensitive. -/
def gui_update_benchmark_finished_thread (s : State) : State :=
  { s with label_benchmark_result := s.benchmark_result_text.getD ""
           toggle_button_benchmark_start := { sensitive := true, active := false } }

/-- The work item `gui_update_progress_bar_reset_thread`. -/
def gui_update_progress_bar_reset_thread (s : State) : State :=
  { s with progress_bar_benchmark := 0, label_benchmark_result := "" }

/-- The GTK call `gtk_list_box_append`: the child is wrapped in a new `GtkListBoxRow`,
which becomes the last child of the list. -/
def gtk_list_box_append (list : List GtkWidget) (child : GtkWidget) : List GtkWidget :=
  list ++ [GtkWidget.mk "GtkListBoxRow" "" [child]]

/-- The work item `gui_update_search_add_instrument_thread`: the row is appended to the
instrument list and `mutex_discover` is unlocked. -/
def gui_update_search_add_instrument_thread (s : State) (list_box : GtkWidget) : State :=
  { s with
    list_instruments := gtk_list_box_append s.list_instruments list_box
    mutex_discover := false }

/-- The statements of a work item; the second component lists the chart widgets whose
`destroy` signal the item's GTK calls emit. -/
def idle_body (s : State) : IdleItem → State × List Nat
  | IdleItem.gui_chart_new_thread chart => (gui_chart_new_thread s chart, [])
  | IdleItem.gui_chart_plot_thread chart => (gui_chart_plot_thread s chart, [])
  | IdleItem.gui_chart_set_value_thread chart => (gui_chart_set_value_thread s chart, [])
  | IdleItem.gui_chart_close_thread window => gui_chart_close_thread s window
  | IdleItem.gui_chart_save_csv_thread chart => (gui_chart_save_csv_thread s chart, [])
  | IdleItem.gui_chart_save_png_thread chart => (gui_chart_save_png_thread s chart, [])
  | IdleItem.text_view_add_buffer_thread view buffer =>
    (text_view_add_buffer_thread s view buffer, [])
  | IdleItem.gui_update_search_add_instrument_thread list_box =>
    (gui_update_search_add_instrument_thread s list_box, [])
  | IdleItem.text_view_add_markup_buffer_thread view buffer =>
    (text_view_add_markup_buffer_thread s view buffer, [])
  | IdleItem.text_view_clear_buffer_thread view => (text_view_clear_buffer_thread s view, [])
  | IdleItem.show_error_thread buffer => (show_error_thread s buffer, [])
  | IdleItem.show_info_thread buffer => (show_info_thread s buffer, [])
  | IdleItem.gui_update_script_run_worker_function_finished_thread =>
    (gui_update_script_run_worker_function_finished_thread s, [])
  | IdleItem.gui_update_search_finished_thread => (gui_update_search_finished_thread s, [])
  | IdleItem.gui_update_send_worker_finished_thread =>
    (gui_update_send_worker_finished_thread s, [])
  | IdleItem.gui_update_search_start_thread => (gui_update_search_start_thread s, [])
  | IdleItem.gui_update_grab_screenshot_finished_thread =>
    (gui_update_grab_screenshot_finished_thread s, [])
  | IdleItem.gui_update_progress_bar_fraction_thread =>
    (gui_update_progress_bar_fraction_thread s, [])
  | IdleItem.gui_update_benchmark_finished_thread =>
    (gui_update_benchmark_finished_thread s, [])
  | IdleItem.gui_update_progress_bar_reset_thread =>
    (gui_update_progress_bar_reset_thread s, [])

/-- Emission of the `destroy` signal of the given chart widgets: the connected handler
`chart_destroyed_cb` runs for each. -/
def emit_destroy (s : State) (widgets : List Nat) : State :=
  widgets.foldl
    (fun s widget =>
      { s with gui_chart := chart_destroyed_cb s.gui_chart widget
               destroyed := s.destroyed ++ [widget] })
    s

/-- One turn of the main loop: the item at the head of the queue is removed and run to
completion, signal handlers included.  `none` when the queue is empty. -/
def ui_run (s : State) : Option State :=
  match s.idle with
  | [] => none
  | (source, item) :: rest =>
    let r := idle_body { s with idle := rest } item
    let s := emit_destroy r.1 r.2
    some { s with completed := s.completed ++ [source] }

/-- The user closes a chart window with the window's close button. -/
def user_close_window (s : State) (window : Nat) : State :=
  let r := gtk_window_close s window
  emit_destroy r.1 r.2

/-! ## Discovery -/

mutual
/-- The widget search `find_child_by_name`: the widget itself when its name matches,
else the first match among its children, each searched in turn. -/
def find_child_by_name : GtkWidget → String → Option GtkWidget
  | GtkWidget.mk wname text children, name =>
    if wname = name then some (GtkWidget.mk wname text children)
    else find_child_by_name_children children name
/-- The `while (children != NULL)` loop of `find_child_by_name`. -/
def find_child_by_name_children : List GtkWidget → String → Option GtkWidget
  | [], _ => none
  | child :: rest, name =>
    match find_child_by_name child name with
    | some widget => some widget
    | none => find_child_by_name_children rest name
end

/-- The GTK call `gtk_label_get_text`. -/
def gtk_label_get_text : GtkWidget → String
  | GtkWidget.mk _ text _ => text

/-- The row content `list_add_instrument` builds for an instrument: an image and a text
box holding the title label (the address) and the subtitle label (the identifier). -/
def instrument_list_box (ip id : String) : GtkWidget :=
  GtkWidget.mk "GtkBox" ""
    [GtkWidget.mk "GtkImage" "" [],
     GtkWidget.mk "GtkBox" ""
       [GtkWidget.mk "list-title" ip [], GtkWidget.mk "list-subtitle" id []]]

/-- The function `list_add_instrument`: the row content is built, its append is posted
to the UI thread, and the list is marked populated. -/
def list_add_instrument (s : State) (ip id : String) : State :=
  let list_box := instrument_list_box ip id
  let s := (g_idle_add s (IdleItem.gui_update_search_add_instrument_thread list_box)).1
  { s with no_instruments := false }

/-- The traversal of `mdns_service` over the rows of the instrument list: `true` when
some row has a `list-subtitle` label whose text equals `id`. -/
def mdns_service_scan (id : String) : List GtkWidget → Bool
  | [] => false
  | child :: rest =>
    match find_child_by_name child "list-subtitle" with
    | some subtitle_child =>
      if id = gtk_label_get_text subtitle_child then true else mdns_service_scan id rest
    | none => mdns_service_scan id rest

/-- The discovery callback `mdns_service`.  It starts with `g_mutex_lock` on
`mutex_discover`: the result is `none` while that lock is held (the caller waits). -/
def mdns_service (s : State) (address id : String) : Option State :=
  if s.mutex_discover = true then none
  else
    let s := { s with mutex_discover := true }
    if mdns_service_scan id s.list_instruments = true then
      some { s with mutex_discover := false }
    else some (list_add_instrument s address id)

/-- The address and identifier a row of the instrument list shows, read as `pressed_cb`
reads them: the texts of its `list-title` and `list-subtitle` labels. -/
def row_instrument (row : GtkWidget) : Option String × Option String :=
  ((find_child_by_name row "list-title").map gtk_label_get_text,
   (find_child_by_name row "list-subtitle").map gtk_label_get_text)

/-! ## Script stop hook -/

/-- Hook event codes of `lua.h`. -/
def LUA_HOOKCALL : Int := 0
/-- Hook event code of `lua.h`: a function returns. -/
def LUA_HOOKRET : Int := 1
/-- Hook event code of `lua.h`: the interpreter is about to start a new line. -/
def LUA_HOOKLINE : Int := 2
/-- Hook event code of `lua.h`: the instruction count was reached. -/
def LUA_HOOKCOUNT : Int := 3
/-- Hook event code of `lua.h`: a tail call. -/
def LUA_HOOKTAILCALL : Int := 4

/-- The hook `lua_line_hook` for the event `ar->event`: `luaL_error` is the error
result, a plain return is `ok`. -/
def lua_line_hook (s : State) (event : Int) : Except String Unit :=
  if event = LUA_HOOKLINE then
    if s.lua_stop_requested = true then Except.error "Stopped by user"
    else Except.ok ()
  else Except.ok ()

/-- The handler `button_clicked_script_stop`. -/
def button_clicked_script_stop (s : State) : State :=
  { s with lua_stop_requested := true }

/-- What happens during a script run, in time order: the interpreter calls the installed
hook for an event (for a line event, before it starts executing line `line`), or the
user clicks the stop button. -/
inductive RunEvent where
  | hook (event : Int) (line : Nat)
  | stop_clicked

/-- A script run: the window state, the lines that began executing, and the first
error raised by the hook. -/
structure ScriptRun where
  st : State
  executed : List Nat
  error : Option String

/-- One event of a script run.  A line begins executing only when the hook called for
its line event returns; an error raised by the hook unwinds to the nearest protected
call, so the line it was called for does not begin. -/
def script_run_step (r : ScriptRun) : RunEvent → ScriptRun
  | RunEvent.stop_clicked => { r with st := button_clicked_script_stop r.st }
  | RunEvent.hook event line =>
    match lua_line_hook r.st event with
    | Except.error message =>
      { r with error := match r.error with
                        | some first => some first
                        | none => some message }
    | Except.ok _ =>
      if event = LUA_HOOKLINE then { r with executed := r.executed ++ [line] } else r

/-- A script run over a sequence of events. -/
def script_run (r : ScriptRun) (events : List RunEvent) : ScriptRun :=
  events.foldl script_run_step r

/-! ## The script worker, the UI thread and the user, step by step -/

/-- The chart functions of the host table `gui_lib`. -/
inductive HostCall where
  | chart_new
  | chart_plot
  | chart_set_value
  | chart_close
  | chart_save_csv
  | chart_save_png
  deriving DecidableEq, Repr

/-- How a call of a host function ends for the script: it returns the pushed values, or
it raises a Lua error (`luaL_error`). -/
inductive lua_Outcome where
  | returns (values : List Int)
  | raises (message : String)
  deriving DecidableEq, Repr

/-- Where the script worker thread is: running script code between host calls, or
waiting in `g_mutex_lock` inside one of the three host functions that wait, with the
slot it works on and the source id of the item it posted. -/
inductive Worker where
  | running
  | in_chart_new (chart : Fin CHARTS_MAX) (source : Nat)
  | in_chart_save_csv (chart : Fin CHARTS_MAX) (filename : Option String) (source : Nat)
  | in_chart_save_png (chart : Fin CHARTS_MAX) (filename : Option String) (source : Nat)
  deriving DecidableEq

/-- The whole system: the shared state, the script worker, and the record of how each
finished host call ended. -/
structure Sys where
  st : State
  worker : Worker
  outcomes : List (HostCall × lua_Outcome)

/-- The steps of the system. -/
inductive Action where
  | call (f : HostCall) (L : lua_State)
  | worker_resume
  | ui_run
  | close_window (window : Nat)
  | mdns_service (address id : String)

/-- The script worker calls host function `f`: the function runs up to its return or up
to its wait on a lock.  `none` when the function indexes the table out of range or
compares a `NULL` string. -/
def host_call (s : Sys) (f : HostCall) (L : lua_State) : Option Sys :=
  match f with
  | HostCall.chart_new =>
    (lua_gui_chart_new_post s.st L).map fun r =>
      { s with st := r.1, worker := Worker.in_chart_new r.2.1 r.2.2 }
  | HostCall.chart_plot =>
    (lua_gui_chart_plot s.st L).map fun st =>
      { s with st := st
               outcomes := s.outcomes ++ [(HostCall.chart_plot, lua_Outcome.returns [])] }
  | HostCall.chart_set_value =>
    (lua_gui_chart_set_value s.st L).map fun st =>
      { s with st := st
               outcomes := s.outcomes ++ [(HostCall.chart_set_value, lua_Outcome.returns [])] }
  | HostCall.chart_close =>
    (lua_gui_chart_close s.st L).map fun st =>
      { s with st := st
               outcomes := s.outcomes ++ [(HostCall.chart_close, lua_Outcome.returns [])] }
  | HostCall.chart_save_csv =>
    (lua_gui_chart_save_csv_post s.st L).map fun r =>
      match r.2 with
      | some w =>
        { s with st := r.1, worker := Worker.in_chart_save_csv w.1 (L.tostring 2) w.2 }
      | none =>
        { s with st := r.1
                 outcomes := s.outcomes ++ [(HostCall.chart_save_csv, lua_Outcome.returns [])] }
  | HostCall.chart_save_png =>
    (lua_gui_chart_save_png_post s.st L).map fun r =>
      match r.2 with
      | some w =>
        { s with st := r.1, worker := Worker.in_chart_save_png w.1 (L.tostring 2) w.2 }
      | none =>
        { s with st := r.1
                 outcomes := s.outcomes ++ [(HostCall.chart_save_png, lua_Outcome.returns [])] }

/-- The wait of the script worker ends: `g_mutex_lock` takes the lock, which must be
free, and the host function returns.  `none` while the lock is held, and when the
worker is not waiting. -/
def worker_resume (s : Sys) : Option Sys :=
  match s.worker with
  | Worker.running => none
  | Worker.in_chart_new chart _ =>
    if s.st.mutex_gui_chart = true then none
    else some
      { st := { s.st with mutex_gui_chart := true }
        worker := Worker.running
        outcomes := s.outcomes ++
          [(HostCall.chart_new, lua_Outcome.returns (lua_gui_chart_new_return chart))] }
  | Worker.in_chart_save_csv _ _ _ =>
    if s.st.mutex_save_csv = true then none
    else some
      { st := { s.st with mutex_save_csv := true }
        worker := Worker.running
        outcomes := s.outcomes ++ [(HostCall.chart_save_csv, lua_Outcome.returns [])] }
  | Worker.in_chart_save_png _ _ _ =>
    if s.st.mutex_save_png = true then none
    else some
      { st := { s.st with mutex_save_png := true }
        worker := Worker.running
        outcomes := s.outcomes ++ [(HostCall.chart_save_png, lua_Outcome.returns [])] }

/-- One step of the system; `none` when the step cannot be taken in this state. -/
def step (s : Sys) : Action → Option Sys
  | Action.call f L =>
    match s.worker with
    | Worker.running => host_call s f L
    | _ => none
  | Action.worker_resume => worker_resume s
  | Action.ui_run =>
    match ui_run s.st with
    | none => none
    | some st => some { s with st := st }
  | Action.close_window window => some { s with st := user_close_window s.st window }
  | Action.mdns_service address id =>
    match mdns_service s.st address id with
    | none => none
    | some st => some { s with st := st }

/-- A run of the system over a schedule of steps. -/
def run (s : Sys) : List Action → Option Sys
  | [] => some s
  | a :: rest =>
    match step s a with
    | none => none
    | some s => run s rest

/-- The state `lxi_gui_window_init` leaves: the chart table zeroed, the three
rendezvous locks of the script functions locked, the discovery lock free, the stop
flag clear, no instrument selected, and the two greeting texts of
`initialize_script_engine` posted (`lua_version` is the constant `LUA_VERSION` of
`lua.h`).  The widgets are as the window template builds them: buttons sensitive and
released, the info bar hidden, the views and the command entry empty. -/
def lxi_gui_window_init (lua_version : String) (builder : Nat → Nat × Nat) : State :=
  let s : State :=
    { gui_chart := fun _ => chart_t.zero
      mutex_gui_chart := true
      mutex_discover := false
      mutex_save_png := true
      mutex_save_csv := true
      lua_stop_requested := false
      no_instruments := true
      list_instruments := []
      text_view_script_status := []
      idle := []
      next_source := 1
      builder := builder
      built := 0
      windows := []
      presented := []
      plotted := []
      values_set := []
      saved := []
      destroyed := []
      completed := []
      ip := none
      id := none
      entry_scpi := ""
      text_view_scpi := []
      info_bar :=
        { visible := false, message_type := GtkMessageType.GTK_MESSAGE_INFO,
          show_close_button := false, label := "" }
      toggle_button_scpi_send := { sensitive := true, active := false }
      toggle_button_script_run := { sensitive := true, active := false }
      toggle_button_search := { sensitive := true, active := false }
      toggle_button_screenshot_grab := { sensitive := true, active := false }
      toggle_button_benchmark_start := { sensitive := true, active := false }
      button_screenshot_save_sensitive := false
      status_page_instruments_visible := true
      flap_reveal := true
      action_search_enabled := true
      popover_menu_popped_up := false
      screenshot_ready := false
      screenshot_loaded := false
      screenshot_size := 0
      image_pixbuf := none
      picture_screenshot := none
      benchmark_requests_count := 0
      progress_bar_fraction := 0
      progress_bar_benchmark := 0
      label_benchmark_result := ""
      benchmark_result_text := none
      progress_count := 0
      image_benchmark := (160, 0)
      script_file := none
      threads := []
      calls := [] }
  let s :=
    text_view_add_buffer s GtkTextView.text_view_script_status
      (some (lua_version ++ " engine ready\n"))
  text_view_add_buffer s GtkTextView.text_view_script_status
    (some "Loaded lxi-tools extensions\n")

/-- The system once the window is initialised: the script worker is not in a host call. -/
def Sys.init (lua_version : String) (builder : Nat → Nat × Nat) : Sys :=
  { st := lxi_gui_window_init lua_version builder, worker := Worker.running, outcomes := [] }

/-! ## Concrete inputs -/

/-- An allocator that gives every object a new address: chart `n` gets window `2n + 1`
and chart widget `2n + 2`. -/
def fresh_objects : Nat → Nat × Nat := fun n => (2 * n + 1, 2 * n + 2)

/-- An allocator that gives every chart widget the address `2`, the one freed when the
chart widget before it was destroyed; chart `n` gets window `2n + 1`. -/
def reused_objects : Nat → Nat × Nat := fun n => (2 * n + 1, 2)

/-- The initialised window, with Lua 5.4 and fresh addresses. -/
def start_state : State := lxi_gui_window_init "Lua 5.4" fresh_objects

/-- The system at the initialised window, with Lua 5.4 and fresh addresses. -/
def start_sys : Sys := Sys.init "Lua 5.4" fresh_objects

/-- The arguments of the script call `chart_new("line", "Voltage", "t", "V", 10, 5, 400, true)`. -/
def line_chart_args : lua_State :=
  { gettop := 8
    isstring := fun i => decide (1 ≤ i ∧ i ≤ 7)
    tostring := fun i =>
      if i = 1 then some "line" else if i = 2 then some "Voltage" else if i = 3 then some "t"
      else if i = 4 then some "V" else if i = 5 then some "10" else if i = 6 then some "5"
      else if i = 7 then some "400" else none
    tonumber := fun i => if i = 5 then 10 else if i = 6 then 5 else if i = 7 then 400 else 0
    tointeger := fun i => if i = 5 then 10 else if i = 6 then 5 else if i = 7 then 400 else 0
    toboolean := fun i => decide (1 ≤ i ∧ i ≤ 8) }

/-- The arguments of the script call `f(handle, 1, 2)` for an integer `handle`, as
`chart_plot`, `chart_set_value` and `chart_close` read them. -/
def plot_args (handle : Int) : lua_State :=
  { gettop := 3
    isstring := fun i => decide (1 ≤ i ∧ i ≤ 3)
    tostring := fun i =>
      if i = 1 then some (toString handle) else if i = 2 then some "1"
      else if i = 3 then some "2" else none
    tonumber := fun i => if i = 1 then (handle : Rat) else if i = 2 then 1 else if i = 3 then 2 else 0
    tointeger := fun i => if i = 1 then handle else if i = 2 then 1 else if i = 3 then 2 else 0
    toboolean := fun i => decide (1 ≤ i ∧ i ≤ 3) }

/-- The arguments of the script call `f(handle, "chart.out")` for an integer `handle`,
as `chart_save_csv` and `chart_save_png` read them. -/
def save_args (handle : Int) : lua_State :=
  { gettop := 2
    isstring := fun i => decide (1 ≤ i ∧ i ≤ 2)
    tostring := fun i =>
      if i = 1 then some (toString handle) else if i = 2 then some "chart.out" else none
    tonumber := fun i => if i = 1 then (handle : Rat) else 0
    tointeger := fun i => if i = 1 then handle else 0
    toboolean := fun i => decide (1 ≤ i ∧ i ≤ 2) }

/-- A window state in which all 1024 chart slots are allocated. -/
def full_table_state : State :=
  { start_state with
    gui_chart := fun _ => { chart_t.zero with allocated := true } }

/-- A chart table in which the free slot 0 still records the widget pointer `7` of a
chart destroyed earlier, and the allocated slot 1 records the same pointer. -/
def stale_alias_table : ChartTable := fun i =>
  if i.val = 0 then { chart_t.zero with widget := 7 }
  else if i.val = 1 then { chart_t.zero with allocated := true, handle := 1, widget := 7 }
  else chart_t.zero

/-- A chart table with two live charts: slot 0 with widget pointer `3` and slot 1 with
widget pointer `5`. -/
def two_chart_table : ChartTable := fun i =>
  if i.val = 0 then { chart_t.zero with allocated := true, handle := 0, widget := 3, window := 2 }
  else if i.val = 1 then
    { chart_t.zero with allocated := true, handle := 1, widget := 5, window := 4 }
  else chart_t.zero

/-! ## Invariants of the rendezvous locks -/

/-- Whether a work item is `gui_chart_new_thread`. -/
def IdleItem.is_chart_new : IdleItem → Bool
  | IdleItem.gui_chart_new_thread _ => true
  | _ => false

/-- Whether a work item is `gui_chart_save_csv_thread`. -/
def IdleItem.is_save_csv : IdleItem → Bool
  | IdleItem.gui_chart_save_csv_thread _ => true
  | _ => false

/-- Whether a work item is `gui_chart_save_png_thread`. -/
def IdleItem.is_save_png : IdleItem → Bool
  | IdleItem.gui_chart_save_png_thread _ => true
  | _ => false

/-- Whether a work item is one of the six chart work items. -/
def IdleItem.is_chart_item : IdleItem → Bool
  | IdleItem.gui_chart_new_thread _ => true
  | IdleItem.gui_chart_plot_thread _ => true
  | IdleItem.gui_chart_set_value_thread _ => true
  | IdleItem.gui_chart_close_thread _ => true
  | IdleItem.gui_chart_save_csv_thread _ => true
  | IdleItem.gui_chart_save_png_thread _ => true
  | _ => false

/-- Whether a work item is `show_error_thread`, the one kind of item that a work item
itself posts. -/
def IdleItem.is_show_error : IdleItem → Bool
  | IdleItem.show_error_thread _ => true
  | _ => false

/-- Whether a work item is `gui_update_search_start_thread`. -/
def IdleItem.is_search_start : IdleItem → Bool
  | IdleItem.gui_update_search_start_thread => true
  | _ => false

/-- The part of the state the chart functions and their rendezvous work on is the same
in both states. -/
def chart_frame (s s' : State) : Prop :=
  s'.gui_chart = s.gui_chart ∧ s'.presented = s.presented ∧ s'.saved = s.saved ∧
  s'.mutex_gui_chart = s.mutex_gui_chart ∧ s'.mutex_save_csv = s.mutex_save_csv ∧
  s'.mutex_save_png = s.mutex_save_png ∧ s'.destroyed = s.destroyed ∧
  s'.completed = s.completed

/-- The chart-creation rendezvous.  While the worker waits in `chart_new`, either the
lock is held and the one queued `gui_chart_new_thread` item is the one it posted, or the
lock is free, no such item is queued, the posted item has run to completion and the
window recorded in the slot has been presented.  At any other time the lock is held and
no such item is queued. -/
def chart_new_inv (s : Sys) : Prop :=
  match s.worker with
  | Worker.in_chart_new chart source =>
    (s.st.mutex_gui_chart = true ∧
      s.st.idle.filter (fun p => p.2.is_chart_new) =
        [(source, IdleItem.gui_chart_new_thread chart)]) ∨
    (s.st.mutex_gui_chart = false ∧
      s.st.idle.filter (fun p => p.2.is_chart_new) = [] ∧
      source ∈ s.st.completed ∧
      (s.st.gui_chart chart).window ∈ s.st.presented)
  | _ =>
    s.st.mutex_gui_chart = true ∧ s.st.idle.filter (fun p => p.2.is_chart_new) = []

/-- The csv-save rendezvous, in the same way; the file is the one named in the call,
written by the chart widget of the slot. -/
def save_csv_inv (s : Sys) : Prop :=
  match s.worker with
  | Worker.in_chart_save_csv chart filename source =>
    (s.st.mutex_save_csv = true ∧
      s.st.idle.filter (fun p => p.2.is_save_csv) =
        [(source, IdleItem.gui_chart_save_csv_thread chart)] ∧
      (s.st.gui_chart chart).filename_csv = filename) ∨
    (s.st.mutex_save_csv = false ∧
      s.st.idle.filter (fun p => p.2.is_save_csv) = [] ∧
      source ∈ s.st.completed ∧
      { widget := (s.st.gui_chart chart).widget, csv := true, filename := filename } ∈
        s.st.saved)
  | _ =>
    s.st.mutex_save_csv = true ∧ s.st.idle.filter (fun p => p.2.is_save_csv) = []

/-- The png-save rendezvous, in the same way. -/
def save_png_inv (s : Sys) : Prop :=
  match s.worker with
  | Worker.in_chart_save_png chart filename source =>
    (s.st.mutex_save_png = true ∧
      s.st.idle.filter (fun p => p.2.is_save_png) =
        [(source, IdleItem.gui_chart_save_png_thread chart)] ∧
      (s.st.gui_chart chart).filename_png = filename) ∨
    (s.st.mutex_save_png = false ∧
      s.st.idle.filter (fun p => p.2.is_save_png) = [] ∧
      source ∈ s.st.completed ∧
      { widget := (s.st.gui_chart chart).widget, csv := false, filename := filename } ∈
        s.st.saved)
  | _ =>
    s.st.mutex_save_png = true ∧ s.st.idle.filter (fun p => p.2.is_save_png) = []

/-- The three rendezvous invariants together. -/
structure rendezvous_inv (s : Sys) : Prop where
  chart_new : chart_new_inv s
  save_csv : save_csv_inv s
  save_png : save_png_inv s

/-! ## Delivery of discovery notifications -/

/-- The main loop runs up to `n` queued items. -/
def ui_drain_fuel : Nat → State → State
  | 0, s => s
  | n + 1, s =>
    match ui_run s with
    | none => s
    | some s' => ui_drain_fuel n s'

/-- The main loop runs until every item queued so far has run. -/
def ui_drain (s : State) : State := ui_drain_fuel s.idle.length s

/-- One notification `(address, identifier)` fully processed: the callback
`mdns_service` runs on the search worker, then the UI thread runs its queue, the posted
append included.  `none` when the callback is blocked on `mutex_discover`. -/
def mdns_deliver (s : State) (n : String × String) : Option State :=
  match mdns_service s n.1 n.2 with
  | none => none
  | some s' => some (ui_drain s')

/-- A sequence of notifications, each fully processed before the next. -/
def mdns_deliver_all : State → List (String × String) → Option State
  | s, [] => some s
  | s, n :: rest =>
    match mdns_deliver s n with
    | none => none
    | some s' => mdns_deliver_all s' rest

/-- The row content a work item appends to the instrument list, if it is
`gui_update_search_add_instrument_thread`. -/
def IdleItem.added_list_box : IdleItem → Option GtkWidget
  | IdleItem.gui_update_search_add_instrument_thread list_box => some list_box
  | _ => none

/-- The row of the instrument list that shows the entry `(address, identifier)`. -/
def instrument_row (e : String × String) : GtkWidget :=
  GtkWidget.mk "GtkListBoxRow" "" [instrument_list_box e.1 e.2]

/-- The discovery notifications of the example scenario: identifiers A, B, A, C. -/
def example_notifications : List (String × String) :=
  [("10.0.0.1", "A"), ("10.0.0.2", "B"), ("10.0.0.3", "A"), ("10.0.0.4", "C")]

/-! ## Settings and library constants -/

/-- The values of the settings keys the modelled code reads with `g_settings_get_uint`
and `g_settings_get_boolean`. -/
structure GSettings where
  timeout_discover : Nat
  use_mdns_discovery : Bool
  timeout_scpi : Nat
  show_sent_scpi : Bool
  com_protocol : Nat
  raw_port : Nat
  scpi_show_message_ip : Bool
  scpi_show_message_type : Bool
  scpi_show_message_timestamp : Bool
  timeout_screenshot : Nat

/-- The error result of the liblxi functions (`LXI_ERROR` of `lxi.h`). -/
def LXI_ERROR : Int := -1

/-- The protocol `VXI11` of `lxi.h`. -/
def VXI11 : Nat := 0

/-- The protocol `RAW` of `lxi.h`. -/
def RAW : Nat := 1

/-- The discovery type `DISCOVER_VXI11` of `lxi.h`. -/
def DISCOVER_VXI11 : Nat := 0

/-- The discovery type `DISCOVER_MDNS` of `lxi.h`. -/
def DISCOVER_MDNS : Nat := 1

/-- The secondary mouse button (`GDK_BUTTON_SECONDARY`). -/
def GDK_BUTTON_SECONDARY : Nat := 3

/-! ## Selection of an instrument -/

/-- The click handler `pressed_cb` of the instrument list.  `row` is the row GTK finds
at the pointer position (`gtk_list_box_get_row_at_y`), `button` the mouse button of the
click. -/
def pressed_cb (s : State) (row : Option GtkWidget) (button : Nat) : State :=
  match row with
  | none => s
  | some row =>
    let s :=
      match find_child_by_name row "list-title" with
      | some child => { s with ip := some (gtk_label_get_text child) }
      | none => s
    let s :=
      match find_child_by_name row "list-subtitle" with
      | some child => { s with id := some (gtk_label_get_text child) }
      | none => s
    if button = GDK_BUTTON_SECONDARY then { s with popover_menu_popped_up := true } else s

/-! ## Discovery through VXI-11 and the search worker -/

/-- The discovery callback `vxi11_broadcast`. -/
def vxi11_broadcast (s : State) (_address interface : String) : State :=
  show_info s ("Broadcasting on interface " ++ interface)

/-- The discovery callback `vxi11_device`.  It starts with `g_mutex_lock` on
`mutex_discover`: the result is `none` while that lock is held (the caller waits). -/
def vxi11_device (s : State) (address id : String) : Option State :=
  if s.mutex_discover = true then none
  else some (list_add_instrument { s with mutex_discover := true } address id)

/-- One notification `(address, identifier)` fully processed: the callback
`vxi11_device` runs on the search worker, then the UI thread runs its queue, the posted
append included.  `none` when the callback is blocked on `mutex_discover`. -/
def vxi11_deliver (s : State) (n : String × String) : Option State :=
  match vxi11_device s n.1 n.2 with
  | none => none
  | some s' => some (ui_drain s')

/-- A sequence of notifications through `vxi11_device`, each fully processed before the
next. -/
def vxi11_deliver_all : State → List (String × String) → Option State
  | s, [] => some s
  | s, n :: rest =>
    match vxi11_deliver s n with
    | none => none
    | some s' => vxi11_deliver_all s' rest

/-- A call by liblxi of one of the callbacks registered in `info`. -/
inductive lxi_info_event where
  | broadcast (address interface : String)
  | device (address id : String)
  | service (address id service : String) (port : Int)

/-- The callback registered in `info` for an event runs. -/
def lxi_info_callback (s : State) : lxi_info_event → Option State
  | lxi_info_event.broadcast address interface => some (vxi11_broadcast s address interface)
  | lxi_info_event.device address id => vxi11_device s address id
  | lxi_info_event.service address id _ _ => mdns_service s address id

/-- The library function `lxi_discover` as the window sees it: the callbacks for the
events found run in order on the calling thread, the UI thread running its queue after
each.  `none` when a callback is blocked on `mutex_discover`. -/
def lxi_discover : State → List lxi_info_event → Option State
  | s, [] => some s
  | s, e :: rest =>
    match lxi_info_callback s e with
    | none => none
    | some s' => lxi_discover (ui_drain s') rest

/-- The thread function `search_worker_thread`; `found` lists the callbacks liblxi makes
during the search. -/
def search_worker_thread (s : State) (settings : GSettings) (found : List lxi_info_event) :
    Option State :=
  let timeout := settings.timeout_discover
  let use_mdns_discovery := settings.use_mdns_discovery
  let s := { s with ip := none, id := none }
  let type := if use_mdns_discovery = true then DISCOVER_MDNS else DISCOVER_VXI11
  let s := record_call s (Call.lxi_discover timeout type)
  match lxi_discover s found with
  | none => none
  | some s => some (g_idle_add s IdleItem.gui_update_search_finished_thread).1

/-- The handler `button_clicked_search`: the start of a search is posted. -/
def button_clicked_search (s : State) : State :=
  (g_idle_add s IdleItem.gui_update_search_start_thread).1

/-! ## The send worker -/

/-- The line `scpi_print` builds: the bracketed fields chosen in the settings, then the
text (`g_string_append` of a `NULL` string appends nothing). -/
def scpi_print_string (settings : GSettings) (text : String) (sent : Bool)
    (ip : Option String) (timestamp : String) : String :=
  let show_ip := settings.scpi_show_message_ip
  let show_type := settings.scpi_show_message_type
  let show_timestamp := settings.scpi_show_message_timestamp
  let string := ""
  let string := if show_timestamp || show_ip || show_type then string ++ "[" else string
  let string := if show_timestamp then string ++ timestamp else string
  let string :=
    if show_ip then (if show_timestamp then string ++ " " else string) ++ ip.getD ""
    else string
  let string :=
    if show_type then
      (if show_timestamp || show_ip then string ++ " " else string) ++
        (if sent then "REQ" else "RSP")
    else string
  let string := if show_timestamp || show_ip || show_type then string ++ "] " else string
  string ++ text

/-- The function `scpi_print`: a sent line is posted in dim gray, followed by a newline
of its own; a received line is posted as it is. -/
def scpi_print (s : State) (settings : GSettings) (text : String) (sent : Bool)
    (ip : Option String) (timestamp : String) : State :=
  let string := scpi_print_string settings text sent ip timestamp
  if sent = true then
    let s := text_view_add_buffer_in_dimgray s GtkTextView.text_view_scpi string
    text_view_add_buffer s GtkTextView.text_view_scpi (some "\n")
  else text_view_add_buffer s GtkTextView.text_view_scpi (some string)

/-- What the send worker gets from outside the window: the results of `lxi_connect`,
`lxi_send` and `lxi_receive`, the bytes `lxi_receive` stores, the two time stamps, and
the functions `strip_trailing_space` and `question` of `misc.h`. -/
structure send_worker_env where
  lxi_connect : Int
  lxi_send : Int
  lxi_receive : Int
  rx_buffer : String
  timestamp_sent : String
  timestamp_received : String
  strip_trailing_space : String → String
  question : String → Bool

/-- The size of `rx_buffer` in `send_worker_thread`. -/
def RX_BUFFER_SIZE : Nat := 65536

/-- The GTK call `gtk_entry_buffer_delete_text(entry_buffer, 0, -1)` on the buffer of the
command entry: the entry is emptied. -/
def gtk_entry_buffer_delete_text (s : State) : State :=
  { s with entry_scpi := "" }

/-- The end of `send_worker_thread` from the labels `error_no_instrument` and
`error_no_input` on: the completion item is posted. -/
def send_worker_thread_error_no_input (s : State) : State :=
  (g_idle_add s IdleItem.gui_update_send_worker_finished_thread).1

/-- The end of `send_worker_thread` from the label `error_connect` on: the transmit
buffer is freed. -/
def send_worker_thread_error_connect (s : State) : State :=
  send_worker_thread_error_no_input (record_call s Call.g_string_free)

/-- The end of `send_worker_thread` from the labels `error_send` and `error_receive` on:
the device is disconnected. -/
def send_worker_thread_error_send (s : State) (device : Int) : State :=
  send_worker_thread_error_connect (record_call s (Call.lxi_disconnect device))

/-- The thread function `send_worker_thread`.  The text of the transmit buffer is the C
string it holds, and the response is the first `rx_bytes` characters stored in
`rx_buffer`.  `none` when the terminator of the response is written outside
`rx_buffer`. -/
def send_worker_thread (s : State) (settings : GSettings) (env : send_worker_env) :
    Option State :=
  let timeout := settings.timeout_scpi
  let show_sent_scpi := settings.show_sent_scpi
  let com_protocol := settings.com_protocol
  let raw_port := settings.raw_port
  match s.ip with
  | none => some (send_worker_thread_error_no_input (show_error s "No instrument selected"))
  | some _ =>
    let input_buffer := s.entry_scpi
    if input_buffer.length = 0 then some (send_worker_thread_error_no_input s)
    else
      let tx_buffer := env.strip_trailing_space input_buffer
      let s :=
        if com_protocol = VXI11 then record_call s (Call.lxi_connect s.ip 0 timeout VXI11)
        else s
      let device : Int := if com_protocol = VXI11 then env.lxi_connect else 0
      let tx_buffer := if com_protocol = RAW then tx_buffer ++ "\n" else tx_buffer
      let s :=
        if com_protocol = RAW then record_call s (Call.lxi_connect s.ip raw_port timeout RAW)
        else s
      let device : Int := if com_protocol = RAW then env.lxi_connect else device
      if device = LXI_ERROR then
        some (send_worker_thread_error_connect (show_error s "Error connecting"))
      else
        let s := record_call s (Call.lxi_send device tx_buffer timeout)
        if env.lxi_send = LXI_ERROR then
          some (send_worker_thread_error_send (show_error s "Error sending") device)
        else
          let tx_buffer :=
            if show_sent_scpi = true ∧ com_protocol = RAW then String.mk tx_buffer.data.dropLast
            else tx_buffer
          let s :=
            if show_sent_scpi = true then
              scpi_print s settings tx_buffer true s.ip env.timestamp_sent
            else s
          if env.question tx_buffer = true then
            let s := record_call s (Call.lxi_receive device RX_BUFFER_SIZE timeout)
            let rx_bytes := env.lxi_receive
            if rx_bytes = LXI_ERROR then
              some (send_worker_thread_error_send (show_error s "No response received") device)
            else if 0 ≤ rx_bytes ∧ rx_bytes < (RX_BUFFER_SIZE : Int) then
              let rx_buffer := String.mk (env.rx_buffer.data.take rx_bytes.toNat)
              let s := scpi_print s settings rx_buffer false s.ip env.timestamp_received
              let s := gtk_entry_buffer_delete_text s
              some (send_worker_thread_error_send s device)
            else none
          else
            let s := gtk_entry_buffer_delete_text s
            some (send_worker_thread_error_send s device)

/-- The handler `button_clicked_scpi_send`: the send button is made insensitive and the
send worker thread is started. -/
def button_clicked_scpi_send (s : State) : State :=
  let s :=
    { s with toggle_button_scpi_send := { s.toggle_button_scpi_send with sensitive := false } }
  g_thread_new s GThread.send_worker_thread

/-- The handler `entry_scpi_enter_pressed`: the send worker thread is started, then the
send button is made insensitive and pressed in. -/
def entry_scpi_enter_pressed (s : State) : State :=
  let s := g_thread_new s GThread.send_worker_thread
  { s with toggle_button_scpi_send := { sensitive := false, active := true } }

/-- What can happen next around the send control: the user clicks the send button or
presses Enter in the command entry, a started send worker thread runs its thread
function, or the main loop takes a turn. -/
inductive SendEvent where
  | button_clicked_scpi_send
  | entry_scpi_enter_pressed
  | send_worker_thread (settings : GSettings) (env : send_worker_env)
  | ui_run

/-- The number of send worker threads started that have not finished. -/
def running_send_workers (s : State) : Nat :=
  s.threads.count GThread.send_worker_thread

/-- One step around the send control; `none` when the step cannot be taken: GTK delivers
no click to an insensitive button, a thread function runs only in a started thread, and
the main loop needs a queued item. -/
def send_step (s : State) : SendEvent → Option State
  | SendEvent.button_clicked_scpi_send =>
    if s.toggle_button_scpi_send.sensitive = true then some (button_clicked_scpi_send s)
    else none
  | SendEvent.entry_scpi_enter_pressed => some (entry_scpi_enter_pressed s)
  | SendEvent.send_worker_thread settings env =>
    if GThread.send_worker_thread ∈ s.threads then
      send_worker_thread { s with threads := s.threads.erase GThread.send_worker_thread }
        settings env
    else none
  | SendEvent.ui_run => ui_run s

/-- A run of steps around the send control. -/
def send_run (s : State) : List SendEvent → Option State
  | [] => some s
  | e :: rest =>
    match send_step s e with
    | none => none
    | some s => send_run s rest

/-! ## Screenshot -/

/-- What the screenshot worker gets from outside the window: the status `screenshot`
returns and what the pixbuf loader will make of the image data it stored. -/
structure screenshot_env where
  status : Int
  pixbuf : Option Int

/-- The function `grab_screenshot`; the result `true` is the return value 1.  (The
branch for a failed `g_malloc` is left out: `g_malloc` does not return `NULL`.) -/
def grab_screenshot (s : State) (settings : GSettings) (env : screenshot_env) :
    State × Bool :=
  let timeout := settings.timeout_screenshot
  match s.ip with
  | none => (show_error s "No instrument selected", true)
  | some _ =>
    let s := record_call s (Call.screenshot s.ip timeout)
    if env.status ≠ 0 then (show_error s "Failed to grab screenshot", true)
    else ({ s with image_pixbuf := env.pixbuf }, false)

/-- The thread function `screenshot_grab_worker_thread`. -/
def screenshot_grab_worker_thread (s : State) (settings : GSettings)
    (env : screenshot_env) : State :=
  let r := grab_screenshot s settings env
  let s := if r.2 = false then { r.1 with screenshot_ready := true }
           else { r.1 with screenshot_ready := false }
  (g_idle_add s IdleItem.gui_update_grab_screenshot_finished_thread).1

/-- The handler `button_clicked_screenshot_grab`. -/
def button_clicked_screenshot_grab (s : State) : State :=
  match s.ip with
  | none =>
    let s := show_error s "No instrument selected"
    { s with toggle_button_screenshot_grab :=
        { s.toggle_button_screenshot_grab with active := false } }
  | some _ =>
    let s :=
      { s with toggle_button_screenshot_grab :=
          { s.toggle_button_screenshot_grab with sensitive := false } }
    g_thread_new s GThread.screenshot_grab_worker_thread

/-! ## Benchmark -/

/-- The progress callback `benchmark_progress_cb` for an `unsigned int` count.  `none`
when the divisor `(unsigned int) fraction_count` of the remainder is zero. -/
def benchmark_progress_cb (s : State) (count : Nat) : Option State :=
  let total_count : lua_Number := (s.benchmark_requests_count : Rat)
  let fraction_count : lua_Number := total_count / 20
  let divisor : Nat := (Rat.floor fraction_count).toNat % 2 ^ 32
  let count := (count + 1) % 2 ^ 32
  if divisor = 0 then none
  else if count % divisor = 0 then
    let s := { s with progress_bar_fraction := (count : Rat) / fraction_count / 20 }
    some (g_idle_add s IdleItem.gui_update_progress_bar_fraction_thread).1
  else some s

/-- The library function `benchmark` as the window sees it: it calls the progress
callback with the given counts, in order. -/
def benchmark : State → List Nat → Option State
  | s, [] => some s
  | s, count :: rest =>
    match benchmark_progress_cb s count with
    | none => none
    | some s' => benchmark s' rest

/-- What the benchmark worker gets from outside the window: the counts `benchmark` passes
to the progress callback and the text `printf` makes of the result. -/
structure benchmark_env where
  counts : List Nat
  result_text : String

/-- The thread function `benchmark_worker_function`. -/
def benchmark_worker_function (s : State) (settings : GSettings) (env : benchmark_env) :
    Option State :=
  let com_protocol := settings.com_protocol
  let raw_port := settings.raw_port
  let r :=
    if com_protocol = VXI11 then
      benchmark
        (record_call s (Call.benchmark s.ip 0 1000 VXI11 s.benchmark_requests_count))
        env.counts
    else some s
  match r with
  | none => none
  | some s =>
    let r :=
      if com_protocol = RAW then
        benchmark
          (record_call s (Call.benchmark s.ip raw_port 1000 RAW s.benchmark_requests_count))
          env.counts
      else some s
    match r with
    | none => none
    | some s =>
      let s := { s with benchmark_result_text := some env.result_text }
      some (g_idle_add s IdleItem.gui_update_benchmark_finished_thread).1

/-- The handler `button_clicked_benchmark_start`; `requests` is the value of the spin
button as an `unsigned int`. -/
def button_clicked_benchmark_start (s : State) (requests : Nat) : State :=
  let s := (g_idle_add s IdleItem.gui_update_progress_bar_reset_thread).1
  let s := { s with benchmark_requests_count := requests }
  match s.ip with
  | none =>
    let s := show_error s "No instrument selected"
    { s with toggle_button_benchmark_start :=
        { s.toggle_button_benchmark_start with active := true } }
  | some _ =>
    let s :=
      { s with toggle_button_benchmark_start :=
          { s.toggle_button_benchmark_start with sensitive := false } }
    g_thread_new s GThread.benchmark_worker_function

/-! ## The script harness -/

/-- The function `lua_print_error`: the text and a newline are posted for the script
status view. -/
def lua_print_error (s : State) (string : Option String) : State :=
  let s := text_view_add_buffer s GtkTextView.text_view_script_status string
  text_view_add_buffer s GtkTextView.text_view_script_status (some "\n")

/-- The function `lua_print_string`. -/
def lua_print_string (s : State) (string : Option String) : State :=
  let s := text_view_add_buffer s GtkTextView.text_view_script_status string
  text_view_add_buffer s GtkTextView.text_view_script_status (some "\n")

/-- The host function `lua_print`, which overrides `print`: the second component lists
the values it returns. -/
def lua_print (s : State) (L : lua_State) : State × List Int :=
  let nargs := L.gettop
  let s :=
    (List.range' 1 nargs).foldl
      (fun s i => if L.isstring i = true then lua_print_string s (L.tostring i) else s) s
  (s, [])

/-- The function `lua_register_gui`: the host functions are registered and the line
hook is installed. -/
def lua_register_gui (s : State) : State :=
  record_call (record_call s Call.luaL_setfuncs) Call.lua_sethook

/-- What the interpreter does with one chunk in
`luaL_loadbuffer(...) || lua_pcall(...)`: `load_error` is the value at the top of the
stack (`lua_tostring(L, -1)`) when `luaL_loadbuffer` fails; otherwise `events` lists the
hook calls made and the stop clicks that happen during `lua_pcall`, and `call_error` is
the value at the top of the stack when `lua_pcall` fails. -/
structure lua_Chunk where
  load_error : Option (Option String)
  events : List RunEvent
  call_error : Option (Option String)

/-- The expression `luaL_loadbuffer(L, ..., chunkname) || lua_pcall(L, 0, 0, 0)`: the
second component is `lua_tostring(L, -1)` when the expression is non-zero. -/
def lua_load_and_call (r : ScriptRun) (chunkname : String) (c : lua_Chunk) :
    ScriptRun × Option (Option String) :=
  let r := { r with st := record_call r.st (Call.luaL_loadbuffer chunkname) }
  match c.load_error with
  | some message => (r, some message)
  | none =>
    let r := { r with st := record_call r.st Call.lua_pcall }
    (script_run r c.events, c.call_error)

/-- The function `load_log_script`: the data logger script is loaded and run; on failure
the error message is printed. -/
def load_log_script (r : ScriptRun) (log : lua_Chunk) : ScriptRun :=
  let p := lua_load_and_call r "lxi-gui" log
  match p.2 with
  | some message => { p.1 with st := lua_print_error p.1.st message }
  | none => p.1

/-- The chunk name `script_run_worker_function` gives the script: the base name of the
script file, or `buffer` when the script comes from no file. -/
def script_chunkname (s : State) : String :=
  match s.script_file with
  | some name => name
  | none => "buffer"

/-- The thread function `script_run_worker_function`: `log` is what the interpreter does
with the data logger script and `user` what it does with the script of the editor. -/
def script_run_worker_function (s : State) (log user : lua_Chunk) : ScriptRun :=
  let s := { s with lua_stop_requested := false }
  let s := record_call s Call.luaL_newstate
  let s := record_call s Call.luaL_openlibs
  let s := lua_register_gui s
  let s := record_call s Call.lua_register_lxi
  let r := load_log_script { st := s, executed := [], error := none } log
  let chunkname := script_chunkname r.st
  let p := lua_load_and_call r chunkname user
  let r :=
    match p.2 with
    | some message => { p.1 with st := lua_print_error p.1.st message }
    | none => p.1
  let st := record_call r.st Call.lua_close
  { r with st := (g_idle_add st IdleItem.gui_update_script_run_worker_function_finished_thread).1 }

/-- The handler `toggle_button_clicked_script_run`: the run button is made insensitive,
the clearing of the script status view is posted and the script worker thread is
started. -/
def toggle_button_clicked_script_run (s : State) : State :=
  let s :=
    { s with toggle_button_script_run :=
        { s.toggle_button_script_run with sensitive := false } }
  let s := text_view_clear_buffer s GtkTextView.text_view_script_status
  g_thread_new s GThread.script_run_worker_function

/-! ## Observations used in the statements -/

/-- The work items posted between two states, in the order of posting. -/
def posted (s s' : State) : List IdleItem :=
  (s'.idle.drop s.idle.length).map Prod.snd

/-- The library calls made between two states, in order. -/
def called (s s' : State) : List Call :=
  s'.calls.drop s.calls.length

/-- The lines whose line event is among the events, in order. -/
def hook_lines : List RunEvent → List Nat
  | [] => []
  | RunEvent.hook event line :: rest =>
    if event = LUA_HOOKLINE then line :: hook_lines rest else hook_lines rest
  | RunEvent.stop_clicked :: rest => hook_lines rest

/-- Whether the stop button is clicked among the events. -/
def stop_clicked_in : List RunEvent → Bool
  | [] => false
  | RunEvent.stop_clicked :: _ => true
  | RunEvent.hook _ _ :: rest => stop_clicked_in rest

/-- The lines of a chunk for which the interpreter calls the hook: none when the chunk
does not load. -/
def lua_Chunk.lines (c : lua_Chunk) : List Nat :=
  match c.load_error with
  | some _ => []
  | none => hook_lines c.events

/-- Whether the stop button is clicked while the chunk runs. -/
def lua_Chunk.stopped (c : lua_Chunk) : Bool :=
  match c.load_error with
  | some _ => false
  | none => stop_clicked_in c.events

/-- The error of a chunk: the value `lua_tostring(L, -1)` gives when loading or calling
it fails, `none` when both succeed. -/
def lua_Chunk.failure (c : lua_Chunk) : Option (Option String) :=
  match c.load_error with
  | some message => some message
  | none => c.call_error

/-- The work items that print the error of a chunk: the message, then a newline. -/
def lua_Chunk.failure_items (c : lua_Chunk) : List IdleItem :=
  match c.failure with
  | some message =>
    [IdleItem.text_view_add_buffer_thread GtkTextView.text_view_script_status message,
     IdleItem.text_view_add_buffer_thread GtkTextView.text_view_script_status (some "\n")]
  | none => []

/-- The texts the error of a chunk adds to the script status view: the message (nothing
for a `NULL` message), then a newline. -/
def lua_Chunk.failure_texts (c : lua_Chunk) : List String :=
  match c.failure with
  | some message => message.toList ++ ["\n"]
  | none => []

/-- The library calls the harness makes for a chunk. -/
def lua_Chunk.calls (c : lua_Chunk) (chunkname : String) : List Call :=
  match c.load_error with
  | some _ => [Call.luaL_loadbuffer chunkname]
  | none => [Call.luaL_loadbuffer chunkname, Call.lua_pcall]

/-- What a work item does to the content of a text view. -/
def IdleItem.text_effect (view : GtkTextView) : IdleItem → List String → List String
  | IdleItem.text_view_add_buffer_thread v buffer, content =>
    if v = view then content ++ buffer.toList else content
  | IdleItem.text_view_add_markup_buffer_thread v buffer, content =>
    if v = view then content ++ [buffer] else content
  | IdleItem.text_view_clear_buffer_thread v, content => if v = view then [] else content
  | _, content => content

/-- The content of a text view once the given queued items have run. -/
def text_after (view : GtkTextView) (content : List String) (queue : List (Nat × IdleItem)) :
    List String :=
  queue.foldl (fun c p => p.2.text_effect view c) content

/-- The selected instrument and the stop flag are the same in both states. -/
def same_context (s s' : State) : Prop :=
  s'.ip = s.ip ∧ s'.id = s.id ∧ s'.lua_stop_requested = s.lua_stop_requested

/-- Whether a work item is `gui_update_send_worker_finished_thread`. -/
def IdleItem.is_send_finished : IdleItem → Bool
  | IdleItem.gui_update_send_worker_finished_thread => true
  | _ => false

/-- From the first state to the second, the selected instrument, the stop flag, the
started threads and the send button stay as they are, and the queue grows by posted
items, `n` of which are completion items of the send worker. -/
def send_frame (n : Nat) (s s' : State) : Prop :=
  same_context s s' ∧ s'.threads = s.threads ∧
  s'.toggle_button_scpi_send = s.toggle_button_scpi_send ∧
  ∃ posts : List (Nat × IdleItem), s'.idle = s.idle ++ posts ∧
    (posts.filter (fun p => p.2.is_send_finished)).length = n

/-- The number of completion items of the send worker in the queue. -/
def queued_send_finished (s : State) : Nat :=
  (s.idle.filter (fun p => p.2.is_send_finished)).length

/-- Whether a step around the send control is Enter pressed in the command entry. -/
def SendEvent.is_enter : SendEvent → Bool
  | SendEvent.entry_scpi_enter_pressed => true
  | _ => false

/-- At most one send is in flight (a running send worker, or its completion item still
queued), and none while the send button is sensitive. -/
def send_single_flight (s : State) : Prop :=
  running_send_workers s + queued_send_finished s ≤ 1 ∧
  (s.toggle_button_scpi_send.sensitive = true →
    running_send_workers s + queued_send_finished s = 0)

/-- Whether a library call is `lxi_connect`. -/
def Call.is_lxi_connect : Call → Bool
  | Call.lxi_connect _ _ _ _ => true
  | _ => false

/-- Whether a library call is `lxi_send`. -/
def Call.is_lxi_send : Call → Bool
  | Call.lxi_send _ _ _ => true
  | _ => false

/-- Whether a library call is `lxi_receive`. -/
def Call.is_lxi_receive : Call → Bool
  | Call.lxi_receive _ _ _ => true
  | _ => false

/-- Whether a library call is `lxi_disconnect`. -/
def Call.is_lxi_disconnect : Call → Bool
  | Call.lxi_disconnect _ => true
  | _ => false

/-- Whether a library call reaches out to an instrument: `lxi_connect`, `lxi_send`,
`lxi_receive`, `screenshot` or `benchmark`. -/
def Call.is_instrument_call : Call → Bool
  | Call.lxi_connect _ _ _ _ => true
  | Call.lxi_send _ _ _ => true
  | Call.lxi_receive _ _ _ => true
  | Call.screenshot _ _ => true
  | Call.benchmark _ _ _ _ _ => true
  | _ => false

/-- Whether a work item is `gui_update_script_run_worker_function_finished_thread`. -/
def IdleItem.is_script_finished : IdleItem → Bool
  | IdleItem.gui_update_script_run_worker_function_finished_thread => true
  | _ => false

/-- Whether a work item is a notice for the info bar. -/
def IdleItem.is_notice : IdleItem → Bool
  | IdleItem.show_error_thread _ => true
  | IdleItem.show_info_thread _ => true
  | _ => false

/-! ## More concrete inputs -/

/-- The initialised window after the user has clicked the row of the instrument
`10.0.0.1` with identifier `A`. -/
def selected_state : State :=
  pressed_cb start_state (some (instrument_row ("10.0.0.1", "A"))) 1

/-- The window with the instrument selected and `*IDN?` typed into the command entry. -/
def command_state : State :=
  { selected_state with entry_scpi := "*IDN?" }

/-- Settings: VXI-11, sent commands shown, no bracketed fields. -/
def example_settings : GSettings :=
  { timeout_discover := 3, use_mdns_discovery := false, timeout_scpi := 3,
    show_sent_scpi := true, com_protocol := VXI11, raw_port := 5025,
    scpi_show_message_ip := false, scpi_show_message_type := false,
    scpi_show_message_timestamp := false, timeout_screenshot := 15 }

/-- An instrument that connects, accepts the command and answers with 5 bytes. -/
def example_send_env : send_worker_env :=
  { lxi_connect := 3, lxi_send := 5, lxi_receive := 5, rx_buffer := "ACME\n",
    timestamp_sent := "12:00:00:000", timestamp_received := "12:00:00:010",
    strip_trailing_space := fun text => text,
    question := fun text => decide (text = "*IDN?") }

/-- A script of two lines that loads and runs without error, no stop clicked. -/
def two_line_chunk : lua_Chunk :=
  { load_error := none
    events := [RunEvent.hook LUA_HOOKLINE 1, RunEvent.hook LUA_HOOKLINE 2]
    call_error := none }

/-- The data logger script as a chunk that loads and runs without error. -/
def log_chunk : lua_Chunk :=
  { load_error := none, events := [RunEvent.hook LUA_HOOKLINE 1], call_error := none }

/-- The arguments of the script call `print("a", 1.5, nil, "b")`. -/
def print_args : lua_State :=
  { gettop := 4
    isstring := fun i => decide (i = 1 ∨ i = 2 ∨ i = 4)
    tostring := fun i =>
      if i = 1 then some "a" else if i = 2 then some "1.5" else if i = 4 then some "b"
      else none
    tonumber := fun i => if i = 2 then 3 / 2 else 0
    tointeger := fun _ => 0
    toboolean := fun i => decide (i = 1 ∨ i = 2 ∨ i = 4) }

/-- The arguments of the script call `chart_new("pie", "Shares")`. -/
def pie_chart_args : lua_State :=
  { gettop := 2
    isstring := fun i => decide (1 ≤ i ∧ i ≤ 2)
    tostring := fun i => if i = 1 then some "pie" else if i = 2 then some "Shares" else none
    tonumber := fun _ => 0
    tointeger := fun _ => 0
    toboolean := fun i => decide (1 ≤ i ∧ i ≤ 2) }

/-! ## Schedules of plot calls -/

/-- The script calls `chart_plot` once for each argument list, in order. -/
def plot_calls (Ls : List lua_State) : List Action :=
  Ls.map (Action.call HostCall.chart_plot)

/-- The main loop takes `n` turns. -/
def ui_runs (n : Nat) : List Action := List.replicate n Action.ui_run

/-- The script calls `chart_plot` once for each argument list, and the main loop takes a
turn after each call. -/
def plot_calls_each_run (Ls : List lua_State) : List Action :=
  Ls.flatMap (fun L => [Action.call HostCall.chart_plot L, Action.ui_run])

/-- The point a call of `chart_plot` passes, with the chart widget `widget` it is for. -/
def plot_point (widget : Nat) (L : lua_State) : Nat × lua_Number × lua_Number :=
  (widget, L.tonumber 2, L.tonumber 3)

/-- The arguments of the script call `f(handle, 3, 4)` for an integer `handle`. -/
def plot_args_3_4 (handle : Int) : lua_State :=
  { gettop := 3
    isstring := fun i => decide (1 ≤ i ∧ i ≤ 3)
    tostring := fun i =>
      if i = 1 then some (toString handle) else if i = 2 then some "3"
      else if i = 3 then some "4" else none
    tonumber := fun i => if i = 1 then (handle : Rat) else if i = 2 then 3 else if i = 3 then 4 else 0
    tointeger := fun i => if i = 1 then handle else if i = 2 then 3 else if i = 3 then 4 else 0
    toboolean := fun i => decide (1 ≤ i ∧ i ≤ 3) }

/-- The system after the start-up items have run and the script has created a line chart:
chart 0 is live, its window is window 1 and its chart widget is widget 2, the queue is
empty and the script worker is running. -/
def live_chart_sys : Sys :=
  (run start_sys
    [Action.ui_run, Action.ui_run, Action.call HostCall.chart_new line_chart_args,
     Action.ui_run, Action.worker_resume]).getD start_sys

/-! ## Observations of the discovery list, the benchmark and the send worker -/

/-- The window after the start-up items have run and the instruments `A` and `B` were
discovered through `mdns_service`: the list shows two rows and the queue is empty. -/
def two_instrument_state : State :=
  (mdns_deliver_all (ui_drain start_state)
    [("10.0.0.1", "A"), ("10.0.0.2", "B")]).getD start_state

/-- The fractions the progress callback stores for the updates it posts while `benchmark`
calls it with the given counts, in the order of the posts. -/
def benchmark_updates : State → List Nat → Option (List lua_Number)
  | _, [] => some []
  | s, count :: rest =>
    match benchmark_progress_cb s count with
    | none => none
    | some s' =>
      (benchmark_updates s' rest).map fun fractions =>
        (if s'.idle.length = s.idle.length then [] else [s'.progress_bar_fraction]) ++ fractions

/-- The window with an instrument selected, after the user has started a benchmark of
`requests` requests. -/
def benchmark_start_state (requests : Nat) : State :=
  button_clicked_benchmark_start selected_state requests

/-- The text of the transmit buffer of `send_worker_thread` at the time `question` is
called on it: the stripped command, with the newline appended for the RAW protocol and
erased again when the sent command was shown. -/
def send_worker_tx_buffer (s : State) (settings : GSettings) (env : send_worker_env) :
    String :=
  let tx_buffer := env.strip_trailing_space s.entry_scpi
  let tx_buffer := if settings.com_protocol = RAW then tx_buffer ++ "\n" else tx_buffer
  if settings.show_sent_scpi = true ∧ settings.com_protocol = RAW then
    String.mk tx_buffer.data.dropLast
  else tx_buffer

/-- An instrument that connects, accepts the command and answers with as many bytes as
`rx_buffer` holds, which is the length the send worker asks `lxi_receive` for. -/
def full_buffer_send_env : send_worker_env :=
  { example_send_env with lxi_receive := 65536 }

/-! ## The format of a printed line, as it is worded -/

/-- The fields shown in front of a line of the command view, as the format of the line
is worded: the enabled ones of time stamp, address and type, in this order; the type is
`REQ` for a sent message and `RSP` for a received one.  (A `NULL` address shows as the
empty text.) -/
def scpi_line_fields (settings : GSettings) (sent : Bool) (ip : Option String)
    (timestamp : String) : List String :=
  (if settings.scpi_show_message_timestamp = true then [timestamp] else []) ++
  (if settings.scpi_show_message_ip = true then [ip.getD ""] else []) ++
  (if settings.scpi_show_message_type = true then [if sent = true then "REQ" else "RSP"]
   else [])

/-- The text in front of a line of the command view, as the format of the line is
worded: empty when no field is enabled, otherwise the enabled fields joined by single
spaces between `[` and `] `. -/
def scpi_line_head (settings : GSettings) (sent : Bool) (ip : Option String)
    (timestamp : String) : String :=
  if settings.scpi_show_message_timestamp = false ∧ settings.scpi_show_message_ip = false ∧
      settings.scpi_show_message_type = false then ""
  else "[" ++ " ".intercalate (scpi_line_fields settings sent ip timestamp) ++ "] "

/-- Settings that show all three fields in front of a line. -/
def all_fields_settings : GSettings :=
  { example_settings with
    scpi_show_message_ip := true, scpi_show_message_type := true,
    scpi_show_message_timestamp := true }

/-! ## Pre-order of a widget tree -/

/-- The name of a widget (`gtk_widget_get_name`). -/
def GtkWidget.name : GtkWidget → String
  | GtkWidget.mk name _ _ => name

/-- The number of children of a widget. -/
def GtkWidget.child_count : GtkWidget → Nat
  | GtkWidget.mk _ _ children => children.length

mutual
/-- The widgets of a tree in pre-order: the root first, then the subtree of each child in
sibling order. -/
def GtkWidget.preorder : GtkWidget → List GtkWidget
  | GtkWidget.mk name text children =>
    GtkWidget.mk name text children :: GtkWidget.preorder_children children
/-- The widgets of a list of trees in pre-order, tree after tree. -/
def GtkWidget.preorder_children : List GtkWidget → List GtkWidget
  | [] => []
  | child :: rest => GtkWidget.preorder child ++ GtkWidget.preorder_children rest
end

/-! ## Chart registry: allocation -/

theorem chart_index_of_fin (i : Fin CHARTS_MAX) : chart_index (i.val : Int) = some i := by
  unfold chart_index
  have h : 0 ≤ (i.val : Int) ∧ (i.val : Int) < (CHARTS_MAX : Int) := by
    constructor
    · omega
    · exact_mod_cast i.isLt
  rw [dif_pos h]
  simp

theorem chart_index_eq_some {handle : Int} {chart : Fin CHARTS_MAX}
    (h : chart_index handle = some chart) : handle = (chart.val : Int) := by
  unfold chart_index at h
  split at h
  · next hr =>
    simp only [Option.some.injEq] at h
    rw [← h]
    simp [Int.toNat_of_nonneg hr.1]
  · simp at h

theorem chart_index_isSome (handle : Int) :
    (chart_index handle).isSome = true ↔ 0 ≤ handle ∧ handle < 1024 := by
  unfold chart_index
  split
  · next hr => simpa [CHARTS_MAX] using hr
  · next hr => simpa [CHARTS_MAX] using hr

theorem chart_index_CHARTS_MAX : chart_index (CHARTS_MAX : Int) = none := by
  unfold chart_index
  rw [dif_neg]
  omega

/-- The scan finds the first free slot at or after `handle`. -/
theorem chart_new_scan_found (t : ChartTable) (i : Fin CHARTS_MAX)
    (hfree : (t i).allocated = false) :
    ∀ (fuel handle : Nat), CHARTS_MAX ≤ fuel + handle → handle ≤ i.val →
      (∀ j : Fin CHARTS_MAX, handle ≤ j.val → j.val < i.val → (t j).allocated = true) →
      chart_new_scan fuel handle t =
        (Function.update t i { t i with allocated := true }, i.val) := by
  intro fuel
  induction fuel with
  | zero =>
    intro handle hfuel hle _
    have := i.isLt
    omega
  | succ fuel ih =>
    intro handle hfuel hle hmin
    have hlt : handle < CHARTS_MAX := lt_of_le_of_lt hle i.isLt
    rw [chart_new_scan, dif_pos hlt]
    by_cases heq : handle = i.val
    · have hi : (⟨handle, hlt⟩ : Fin CHARTS_MAX) = i := Fin.ext heq
      rw [hi, if_pos hfree, heq]
    · have hlt2 : handle < i.val := lt_of_le_of_ne hle heq
      have halloc := hmin ⟨handle, hlt⟩ (le_refl _) hlt2
      rw [if_neg (by simp [halloc])]
      apply ih (handle + 1) (by omega) (by omega)
      intro j hj hji
      exact hmin j (by omega) hji

/-- The scan over a table without a free slot at or after `handle` runs to the end. -/
theorem chart_new_scan_full (t : ChartTable) :
    ∀ (fuel handle : Nat), CHARTS_MAX ≤ fuel + handle → handle ≤ CHARTS_MAX →
      (∀ j : Fin CHARTS_MAX, handle ≤ j.val → (t j).allocated = true) →
      chart_new_scan fuel handle t = (t, CHARTS_MAX) := by
  intro fuel
  induction fuel with
  | zero =>
    intro handle hfuel hle _
    have : handle = CHARTS_MAX := by omega
    rw [chart_new_scan, this]
  | succ fuel ih =>
    intro handle hfuel hle hall
    rw [chart_new_scan]
    by_cases hlt : handle < CHARTS_MAX
    · rw [dif_pos hlt, if_neg (by simp [hall ⟨handle, hlt⟩ (le_refl _)])]
      apply ih (handle + 1) (by omega) (by omega)
      intro j hj
      exact hall j (by omega)
    · rw [dif_neg hlt]
      have : handle = CHARTS_MAX := by omega
      rw [this]

theorem chart_new_parse_allocated (L : lua_State) (c : chart_t) :
    (chart_new_parse L c).allocated = c.allocated ∧ (chart_new_parse L c).handle = c.handle ∧
    (chart_new_parse L c).widget = c.widget ∧ (chart_new_parse L c).window = c.window := by
  unfold chart_new_parse
  cases c.type <;> simp

/-- The smallest free slot of a table that has one. -/
theorem exists_first_free (t : ChartTable)
    (hfree : ∃ i : Fin CHARTS_MAX, (t i).allocated = false) :
    ∃ i : Fin CHARTS_MAX, (t i).allocated = false ∧
      ∀ j : Fin CHARTS_MAX, j.val < i.val → (t j).allocated = true := by
  classical
  let P : Nat → Prop := fun n => ∃ h : n < CHARTS_MAX, (t ⟨n, h⟩).allocated = false
  have hP : ∃ n, P n := by
    obtain ⟨i, hi⟩ := hfree
    exact ⟨i.val, i.isLt, hi⟩
  obtain ⟨hlt, hfr⟩ := Nat.find_spec hP
  refine ⟨⟨Nat.find hP, hlt⟩, hfr, ?_⟩
  intro j hj
  have hnot := Nat.find_min hP hj
  by_contra hne
  apply hnot
  refine ⟨j.isLt, ?_⟩
  simpa using hne

/-- What a completed first part of `chart_new` has done. -/
theorem lua_gui_chart_new_post_some {s s' : State} {L : lua_State} {chart : Fin CHARTS_MAX}
    {source : Nat} (h : lua_gui_chart_new_post s L = some (s', chart, source)) :
    ∃ type, L.tostring 1 = some type ∧
      (chart_new_scan CHARTS_MAX 0 s.gui_chart).2 = chart.val ∧
      source = s.next_source ∧
      s' = { s with
        gui_chart := Function.update (chart_new_scan CHARTS_MAX 0 s.gui_chart).1 chart
          (chart_new_parse L
            { (chart_new_scan CHARTS_MAX 0 s.gui_chart).1 chart with
              type := chart_type_of_string type
              handle := ((chart_new_scan CHARTS_MAX 0 s.gui_chart).2 : Int) })
        idle := s.idle ++ [(s.next_source, IdleItem.gui_chart_new_thread chart)]
        next_source := s.next_source + 1 } := by
  unfold lua_gui_chart_new_post at h
  simp only at h
  cases hidx : chart_index ((chart_new_scan CHARTS_MAX 0 s.gui_chart).2 : Int) with
  | none => simp [hidx] at h
  | some c =>
    cases htype : L.tostring 1 with
    | none => simp [hidx, htype] at h
    | some type =>
      simp only [hidx, htype, g_idle_add, Option.some.injEq, Prod.mk.injEq] at h
      obtain ⟨hs, hc, hsrc⟩ := h
      subst hc
      have hval := chart_index_eq_some hidx
      refine ⟨type, rfl, by exact_mod_cast hval, hsrc.symm, hs.symm⟩

/-- The first part of `chart_new` completes when a slot is free and the kind string is
not `NULL`. -/
theorem lua_gui_chart_new_post_isSome (s : State) (L : lua_State) (type : String)
    (htype : L.tostring 1 = some type)
    (hfree : ∃ i : Fin CHARTS_MAX, (s.gui_chart i).allocated = false) :
    ∃ r, lua_gui_chart_new_post s L = some r := by
  obtain ⟨i, hi, hmin⟩ := exists_first_free s.gui_chart hfree
  have hscan := chart_new_scan_found s.gui_chart i hi CHARTS_MAX 0 (by omega) (by omega)
    (fun j _ hj => hmin j hj)
  unfold lua_gui_chart_new_post
  rw [hscan]
  simp only [chart_index_of_fin, htype]
  exact ⟨_, rfl⟩

/-- The scan marks the slot it yields and no other. -/
theorem chart_new_scan_result (t : ChartTable) (chart : Fin CHARTS_MAX)
    (h : (chart_new_scan CHARTS_MAX 0 t).2 = chart.val) :
    (t chart).allocated = false ∧
    (∀ j : Fin CHARTS_MAX, j.val < chart.val → (t j).allocated = true) ∧
    (chart_new_scan CHARTS_MAX 0 t).1 = Function.update t chart { t chart with allocated := true } := by
  by_cases hfree : ∃ i : Fin CHARTS_MAX, (t i).allocated = false
  · obtain ⟨i, hi, hmin⟩ := exists_first_free t hfree
    have hscan := chart_new_scan_found t i hi CHARTS_MAX 0 (by omega) (by omega)
      (fun j _ hj => hmin j hj)
    rw [hscan] at h
    have hic : i = chart := Fin.ext h
    subst hic
    exact ⟨hi, hmin, by rw [hscan]⟩
  · have hall : ∀ j : Fin CHARTS_MAX, 0 ≤ j.val → (t j).allocated = true := by
      intro j _
      by_contra hne
      exact hfree ⟨j, by simpa using hne⟩
    have hscan := chart_new_scan_full t CHARTS_MAX 0 (by omega) (by omega) hall
    rw [hscan] at h
    have := chart.isLt
    simp only at h
    omega

/-- Claim C3: for every table state with a free slot, the allocation step of `chart_new`
(its scan) yields the smallest index `i` whose slot has `allocated == false`, sets that
slot's flag and leaves every other slot unchanged, with `0 <= i < 1024`; and when the
kind string is not `NULL` the function goes on to record `i` as the slot's handle, keeps
the flag of slot `i` set and the flags of all other slots as they were, posts its work
item and returns `i`. -/
theorem chart_new_allocates_first_free_slot (s : State) (L : lua_State)
    (hfree : ∃ i : Fin CHARTS_MAX, (s.gui_chart i).allocated = false) :
    ∃ chart : Fin CHARTS_MAX,
      (chart_new_scan CHARTS_MAX 0 s.gui_chart).2 = chart.val ∧
      (s.gui_chart chart).allocated = false ∧
      (∀ j : Fin CHARTS_MAX, j.val < chart.val → (s.gui_chart j).allocated = true) ∧
      ((chart_new_scan CHARTS_MAX 0 s.gui_chart).1 chart).allocated = true ∧
      (∀ j : Fin CHARTS_MAX, j ≠ chart →
        (chart_new_scan CHARTS_MAX 0 s.gui_chart).1 j = s.gui_chart j) ∧
      0 ≤ (chart.val : Int) ∧ (chart.val : Int) < 1024 ∧
      (∀ type : String, L.tostring 1 = some type →
        ∃ (s' : State) (source : Nat),
          lua_gui_chart_new_post s L = some (s', chart, source) ∧
          (s'.gui_chart chart).allocated = true ∧
          (s'.gui_chart chart).handle = (chart.val : Int) ∧
          (∀ j : Fin CHARTS_MAX, j ≠ chart →
            (s'.gui_chart j).allocated = (s.gui_chart j).allocated) ∧
          lua_gui_chart_new_return chart = [(chart.val : Int)]) := by
  obtain ⟨i, hi, hmin⟩ := exists_first_free s.gui_chart hfree
  have hscan := chart_new_scan_found s.gui_chart i hi CHARTS_MAX 0 (by omega) (by omega)
    (fun j _ hj => hmin j hj)
  have hlt := i.isLt
  refine ⟨i, by rw [hscan], hi, hmin, ?_, ?_, by omega, ?_, ?_⟩
  · rw [hscan]
    simp
  · intro j hj
    rw [hscan]
    simp only [Function.update_noteq hj]
  · unfold CHARTS_MAX at hlt
    omega
  · intro type htype
    obtain ⟨⟨s', chart, source⟩, hpost⟩ :=
      lua_gui_chart_new_post_isSome s L type htype hfree
    obtain ⟨ty, _, hscan', _, hs'⟩ := lua_gui_chart_new_post_some hpost
    have hic : chart = i := by
      rw [hscan] at hscan'
      exact Fin.ext hscan'.symm
    subst hic
    obtain ⟨_, _, ht⟩ := chart_new_scan_result s.gui_chart chart hscan'
    refine ⟨s', source, hpost, ?_, ?_, ?_, rfl⟩
    · rw [hs']
      simp only [Function.update_same]
      rw [(chart_new_parse_allocated L _).1, ht]
      simp
    · rw [hs']
      simp only [Function.update_same]
      rw [(chart_new_parse_allocated L _).2.1, hscan']
    · intro j hj
      rw [hs']
      simp only [Function.update_noteq hj]
      rw [ht, Function.update_noteq hj]

/-- The statement of C3 at the initial table and the call
`chart_new("line", "Voltage", "t", "V", 10, 5, 400, true)`. -/
theorem chart_new_allocates_first_free_slot_witness :
    (∃ i : Fin CHARTS_MAX, (start_state.gui_chart i).allocated = false) ∧
    ∃ chart : Fin CHARTS_MAX,
      (chart_new_scan CHARTS_MAX 0 start_state.gui_chart).2 = chart.val ∧
      (start_state.gui_chart chart).allocated = false ∧
      (∀ j : Fin CHARTS_MAX, j.val < chart.val →
        (start_state.gui_chart j).allocated = true) ∧
      ((chart_new_scan CHARTS_MAX 0 start_state.gui_chart).1
        chart).allocated = true ∧
      (∀ j : Fin CHARTS_MAX, j ≠ chart →
        (chart_new_scan CHARTS_MAX 0 start_state.gui_chart).1 j =
          start_state.gui_chart j) ∧
      0 ≤ (chart.val : Int) ∧ (chart.val : Int) < 1024 ∧
      (∀ type : String, line_chart_args.tostring 1 = some type →
        ∃ (s' : State) (source : Nat),
          lua_gui_chart_new_post start_state line_chart_args =
            some (s', chart, source) ∧
          (s'.gui_chart chart).allocated = true ∧
          (s'.gui_chart chart).handle = (chart.val : Int) ∧
          (∀ j : Fin CHARTS_MAX, j ≠ chart →
            (s'.gui_chart j).allocated =
              (start_state.gui_chart j).allocated) ∧
          lua_gui_chart_new_return chart = [(chart.val : Int)]) :=
  ⟨⟨⟨0, by decide⟩, rfl⟩,
    chart_new_allocates_first_free_slot start_state line_chart_args
      ⟨⟨0, by decide⟩, rfl⟩⟩

/-- The first part of `chart_new` on a table without a free slot: the scan ends at
`CHARTS_MAX` and the slot `gui_chart[CHARTS_MAX]` is outside the table. -/
theorem lua_gui_chart_new_post_full (s : State) (L : lua_State)
    (hfull : ∀ i : Fin CHARTS_MAX, (s.gui_chart i).allocated = true) :
    (chart_new_scan CHARTS_MAX 0 s.gui_chart).2 = CHARTS_MAX ∧
    lua_gui_chart_new_post s L = none := by
  have hscan := chart_new_scan_full s.gui_chart CHARTS_MAX 0 (by omega) (by omega)
    (fun j _ => hfull j)
  refine ⟨by rw [hscan], ?_⟩
  unfold lua_gui_chart_new_post
  rw [hscan]
  simp only [chart_index_CHARTS_MAX]

/-- Claim C4 (the code at the failing input): with all 1024 slots allocated, the scan of
`chart_new` ends with `handle == 1024`, no check follows, and the function goes on to
use `gui_chart[1024]`, which is outside the table: the embedded call has no result. -/
theorem chart_new_full_table_uses_slot_1024 :
    (∀ i : Fin CHARTS_MAX, (full_table_state.gui_chart i).allocated = true) ∧
    (chart_new_scan CHARTS_MAX 0 full_table_state.gui_chart).2 = 1024 ∧
    chart_index 1024 = none ∧
    (lua_gui_chart_new_post full_table_state line_chart_args).isNone = true := by
  have h := lua_gui_chart_new_post_full full_table_state line_chart_args (fun _ => rfl)
  refine ⟨fun _ => rfl, h.1, ?_, ?_⟩
  · exact chart_index_CHARTS_MAX
  · rw [h.2]
    rfl

/-! ## Chart operations on a handle -/

/-- Claim C6 (counterexample): no handle is rejected before the table is indexed.  For
the handles `1024` and `-1` the five operations reach the out-of-range index. -/
theorem chart_ops_out_of_range_handle_counterexample :
    (lua_gui_chart_plot start_state (plot_args 1024)).isNone = true ∧
    (lua_gui_chart_set_value start_state (plot_args 1024)).isNone = true ∧
    (lua_gui_chart_close start_state (plot_args (-1))).isNone = true ∧
    (lua_gui_chart_save_csv_post start_state (save_args (-1))).isNone = true ∧
    (lua_gui_chart_save_png_post start_state (save_args 1024)).isNone = true := by
  decide

/-- Claim C6 (amended): the five chart operations index the table at the `int` value of
their handle argument and nowhere else, so the index lies in `0 .. 1023` exactly when
that value does; for every other handle the out-of-range index is reached. -/
theorem chart_ops_index_in_range_iff (s : State) (L : lua_State) :
    ((lua_gui_chart_plot s L).isSome = true ↔
      0 ≤ c_int (L.tointeger 1) ∧ c_int (L.tointeger 1) < 1024) ∧
    ((lua_gui_chart_set_value s L).isSome = true ↔
      0 ≤ c_int (L.tointeger 1) ∧ c_int (L.tointeger 1) < 1024) ∧
    ((lua_gui_chart_close s L).isSome = true ↔
      0 ≤ c_int (L.tointeger 1) ∧ c_int (L.tointeger 1) < 1024) ∧
    ((lua_gui_chart_save_csv_post s L).isSome = true ↔
      0 ≤ c_int (L.tointeger 1) ∧ c_int (L.tointeger 1) < 1024) ∧
    ((lua_gui_chart_save_png_post s L).isSome = true ↔
      0 ≤ c_int (L.tointeger 1) ∧ c_int (L.tointeger 1) < 1024) := by
  refine ⟨?_, ?_, ?_, ?_, ?_⟩ <;> rw [← chart_index_isSome]
  · unfold lua_gui_chart_plot
    cases h : chart_index (c_int (L.tointeger 1)) with
    | none => simp [h]
    | some chart => simp only [h, Option.isSome_some, iff_true]; split <;> rfl
  · unfold lua_gui_chart_set_value
    cases h : chart_index (c_int (L.tointeger 1)) with
    | none => simp [h]
    | some chart => simp only [h, Option.isSome_some, iff_true]; split <;> rfl
  · unfold lua_gui_chart_close
    cases h : chart_index (c_int (L.tointeger 1)) with
    | none => simp [h]
    | some chart => simp only [h, Option.isSome_some, iff_true]; split <;> rfl
  · unfold lua_gui_chart_save_csv_post
    cases h : chart_index (c_int (L.tointeger 1)) with
    | none => simp [h]
    | some chart => simp only [h, Option.isSome_some, iff_true]; split <;> rfl
  · unfold lua_gui_chart_save_png_post
    cases h : chart_index (c_int (L.tointeger 1)) with
    | none => simp [h]
    | some chart => simp only [h, Option.isSome_some, iff_true]; split <;> rfl

/-- Claim C5 (counterexample): on a slot that was never allocated (slot 0 of the initial
table) each of the five operations returns normally with no values, raises no error and
posts nothing (the queue still holds the two start-up items, the next source id is
still 3); the same holds for `chart_close` on slot 0 after the chart created there was
destroyed and the slot released. -/
theorem chart_ops_unallocated_handle_counterexample :
    (start_state.gui_chart ⟨0, by decide⟩).allocated = false ∧
    (step start_sys (Action.call HostCall.chart_plot (plot_args 0))).map
        (fun s => (s.outcomes, s.worker, s.st.idle.length, s.st.next_source)) =
      some ([(HostCall.chart_plot, lua_Outcome.returns [])], Worker.running, 2, 3) ∧
    (step start_sys (Action.call HostCall.chart_set_value (plot_args 0))).map
        (fun s => (s.outcomes, s.worker, s.st.idle.length, s.st.next_source)) =
      some ([(HostCall.chart_set_value, lua_Outcome.returns [])], Worker.running, 2, 3) ∧
    (step start_sys (Action.call HostCall.chart_close (plot_args 0))).map
        (fun s => (s.outcomes, s.worker, s.st.idle.length, s.st.next_source)) =
      some ([(HostCall.chart_close, lua_Outcome.returns [])], Worker.running, 2, 3) ∧
    (step start_sys (Action.call HostCall.chart_save_csv (save_args 0))).map
        (fun s => (s.outcomes, s.worker, s.st.idle.length, s.st.next_source)) =
      some ([(HostCall.chart_save_csv, lua_Outcome.returns [])], Worker.running, 2, 3) ∧
    (step start_sys (Action.call HostCall.chart_save_png (save_args 0))).map
        (fun s => (s.outcomes, s.worker, s.st.idle.length, s.st.next_source)) =
      some ([(HostCall.chart_save_png, lua_Outcome.returns [])], Worker.running, 2, 3) ∧
    (run start_sys
        [Action.call HostCall.chart_new line_chart_args, Action.ui_run, Action.ui_run,
         Action.ui_run, Action.worker_resume, Action.close_window 1]).map
        (fun s => ((s.st.gui_chart ⟨0, by decide⟩).allocated, s.st.idle.length,
          s.st.next_source)) =
      some (false, 0, 4) ∧
    (run start_sys
        [Action.call HostCall.chart_new line_chart_args, Action.ui_run, Action.ui_run,
         Action.ui_run, Action.worker_resume, Action.close_window 1,
         Action.call HostCall.chart_close (plot_args 0)]).map
        (fun s => (s.outcomes, s.worker, s.st.idle.length, s.st.next_source)) =
      some ([(HostCall.chart_new, lua_Outcome.returns [0]),
             (HostCall.chart_close, lua_Outcome.returns [])], Worker.running, 0, 4) := by
  refine ⟨by decide, by decide, by decide, by decide, by decide, by decide, by decide,
    by decide⟩

/-- Claim C5 (amended): a call of one of the five chart operations with a handle in
`0 .. 1023` whose slot is not allocated reports no error: it returns normally with no
values, raises nothing, posts no work item, waits on no lock, and changes no
`allocated` flag. -/
theorem chart_ops_unallocated_handle_ignored (s : Sys) (f : HostCall) (L : lua_State)
    (chart : Fin CHARTS_MAX) (hf : f ≠ HostCall.chart_new)
    (hworker : s.worker = Worker.running)
    (hidx : chart_index (c_int (L.tointeger 1)) = some chart)
    (hfree : (s.st.gui_chart chart).allocated = false) :
    ∃ s' : Sys, step s (Action.call f L) = some s' ∧
      s'.outcomes = s.outcomes ++ [(f, lua_Outcome.returns [])] ∧
      s'.worker = Worker.running ∧
      s'.st.idle = s.st.idle ∧
      s'.st.next_source = s.st.next_source ∧
      s'.st.mutex_gui_chart = s.st.mutex_gui_chart ∧
      s'.st.mutex_save_csv = s.st.mutex_save_csv ∧
      s'.st.mutex_save_png = s.st.mutex_save_png ∧
      ∀ j : Fin CHARTS_MAX, (s'.st.gui_chart j).allocated = (s.st.gui_chart j).allocated := by
  have hupd : ∀ (c : chart_t), c.allocated = false → ∀ j : Fin CHARTS_MAX,
      (Function.update s.st.gui_chart chart c j).allocated = (s.st.gui_chart j).allocated := by
    intro c hc j
    by_cases hj : j = chart
    · subst hj
      rw [Function.update_same, hc, hfree]
    · rw [Function.update_noteq hj]
  obtain ⟨st, worker, outcomes⟩ := s
  simp only at hworker hfree
  subst hworker
  cases f with
  | chart_new => exact absurd rfl hf
  | chart_plot =>
    simp only [step, host_call, lua_gui_chart_plot, hidx, Function.update_same, hfree,
      Bool.false_eq_true, if_false, Option.map_some']
    exact ⟨_, rfl, rfl, rfl, rfl, rfl, rfl, rfl, rfl, hupd _ rfl⟩
  | chart_set_value =>
    simp only [step, host_call, lua_gui_chart_set_value, hidx, Function.update_same, hfree,
      Bool.false_eq_true, if_false, Option.map_some']
    exact ⟨_, rfl, rfl, rfl, rfl, rfl, rfl, rfl, rfl, hupd _ rfl⟩
  | chart_close =>
    simp only [step, host_call, lua_gui_chart_close, hidx, hfree,
      Bool.false_eq_true, if_false, Option.map_some']
    exact ⟨_, rfl, rfl, rfl, rfl, rfl, rfl, rfl, rfl, fun _ => rfl⟩
  | chart_save_csv =>
    simp only [step, host_call, lua_gui_chart_save_csv_post, hidx, hfree,
      Bool.false_eq_true, if_false, Option.map_some']
    exact ⟨_, rfl, rfl, rfl, rfl, rfl, rfl, rfl, rfl, fun _ => rfl⟩
  | chart_save_png =>
    simp only [step, host_call, lua_gui_chart_save_png_post, hidx, hfree,
      Bool.false_eq_true, if_false, Option.map_some']
    exact ⟨_, rfl, rfl, rfl, rfl, rfl, rfl, rfl, rfl, fun _ => rfl⟩

/-- The amended statement of C5 at the initial state and the call `chart_close(0)`. -/
theorem chart_ops_unallocated_handle_ignored_witness :
    HostCall.chart_close ≠ HostCall.chart_new ∧
    start_sys.worker = Worker.running ∧
    chart_index (c_int ((plot_args 0).tointeger 1)) = some ⟨0, by decide⟩ ∧
    (start_sys.st.gui_chart ⟨0, by decide⟩).allocated = false ∧
    ∃ s' : Sys,
      step start_sys (Action.call HostCall.chart_close (plot_args 0)) = some s' ∧
      s'.outcomes = start_sys.outcomes ++
        [(HostCall.chart_close, lua_Outcome.returns [])] ∧
      s'.worker = Worker.running ∧
      s'.st.idle = start_sys.st.idle ∧
      s'.st.next_source = start_sys.st.next_source ∧
      s'.st.mutex_gui_chart = start_sys.st.mutex_gui_chart ∧
      s'.st.mutex_save_csv = start_sys.st.mutex_save_csv ∧
      s'.st.mutex_save_png = start_sys.st.mutex_save_png ∧
      ∀ j : Fin CHARTS_MAX,
        (s'.st.gui_chart j).allocated = (start_sys.st.gui_chart j).allocated :=
  ⟨by decide, rfl, by decide, rfl,
    chart_ops_unallocated_handle_ignored start_sys HostCall.chart_close
      (plot_args 0) ⟨0, by decide⟩ (by decide) rfl (by decide) rfl⟩

/-! ## Chart registry: release -/

/-- The release loop clears the first slot at or after `handle` that records `widget`. -/
theorem chart_destroyed_cb_loop_found (widget : Nat) (t : ChartTable) (i : Fin CHARTS_MAX)
    (hw : (t i).widget = widget) :
    ∀ (fuel handle : Nat), CHARTS_MAX ≤ fuel + handle → handle ≤ i.val →
      (∀ j : Fin CHARTS_MAX, handle ≤ j.val → j.val < i.val → (t j).widget ≠ widget) →
      chart_destroyed_cb_loop widget fuel handle t =
        Function.update t i { t i with allocated := false } := by
  intro fuel
  induction fuel with
  | zero =>
    intro handle hfuel hle _
    have := i.isLt
    omega
  | succ fuel ih =>
    intro handle hfuel hle hmin
    have hlt : handle < CHARTS_MAX := lt_of_le_of_lt hle i.isLt
    rw [chart_destroyed_cb_loop, dif_pos hlt]
    by_cases heq : handle = i.val
    · have hi : (⟨handle, hlt⟩ : Fin CHARTS_MAX) = i := Fin.ext heq
      rw [hi, if_pos hw]
    · have hlt2 : handle < i.val := lt_of_le_of_ne hle heq
      rw [if_neg (hmin ⟨handle, hlt⟩ (le_refl _) hlt2)]
      apply ih (handle + 1) (by omega) (by omega)
      intro j hj hji
      exact hmin j (by omega) hji

/-- The release loop changes nothing but `allocated` flags, and sets none. -/
theorem chart_destroyed_cb_loop_frame (widget : Nat) (t : ChartTable) :
    ∀ (fuel handle : Nat) (j : Fin CHARTS_MAX),
      ((chart_destroyed_cb_loop widget fuel handle t j).allocated = true →
        (t j).allocated = true) ∧
      chart_destroyed_cb_loop widget fuel handle t j =
        { t j with allocated := (chart_destroyed_cb_loop widget fuel handle t j).allocated } := by
  intro fuel
  induction fuel with
  | zero =>
    intro handle j
    simp [chart_destroyed_cb_loop]
  | succ fuel ih =>
    intro handle j
    rw [chart_destroyed_cb_loop]
    split
    · next hlt =>
      split
      · by_cases hj : j = ⟨handle, hlt⟩
        · subst hj
          simp
        · simp [Function.update_noteq hj]
      · exact ih (handle + 1) j
    · simp

/-- Claim C7 (the code at the failing input).  In `stale_alias_table` the free slot 0
still records the widget pointer of the live slot 1: when the destruction of that widget
is observed the scan of `chart_destroyed_cb` stops at slot 0 and slot 1 stays allocated.
Such a table is reached from the initialised window when the allocator reuses the address
of a destroyed chart widget: the script creates chart 0 and calls `chart_new` again (the
scan takes slot 1), the user closes chart 0 before the UI thread builds chart 1, chart 1
is built with its widget at the freed address, and the user closes chart 1.  At the end no
chart window is open, the destroy handler has run twice, and slot 1 is still allocated. -/
theorem chart_destroyed_cb_stale_alias_keeps_slot_allocated :
    (stale_alias_table ⟨1, by decide⟩).allocated = true ∧
    (stale_alias_table ⟨1, by decide⟩).widget = 7 ∧
    (chart_destroyed_cb stale_alias_table 7 ⟨1, by decide⟩).allocated = true ∧
    (run (Sys.init "Lua 5.4" reused_objects)
        [Action.call HostCall.chart_new line_chart_args, Action.ui_run, Action.ui_run,
         Action.ui_run, Action.worker_resume,
         Action.call HostCall.chart_new line_chart_args,
         Action.close_window 1, Action.ui_run, Action.worker_resume]).map
        (fun s => (s.outcomes, s.st.windows.map ChartWindow.window,
          (s.st.gui_chart ⟨0, by decide⟩).allocated, (s.st.gui_chart ⟨0, by decide⟩).widget,
          (s.st.gui_chart ⟨1, by decide⟩).allocated, (s.st.gui_chart ⟨1, by decide⟩).widget)) =
      some ([(HostCall.chart_new, lua_Outcome.returns [0]),
             (HostCall.chart_new, lua_Outcome.returns [1])], [3], false, 2, true, 2) ∧
    (run (Sys.init "Lua 5.4" reused_objects)
        [Action.call HostCall.chart_new line_chart_args, Action.ui_run, Action.ui_run,
         Action.ui_run, Action.worker_resume,
         Action.call HostCall.chart_new line_chart_args,
         Action.close_window 1, Action.ui_run, Action.worker_resume,
         Action.close_window 3]).map
        (fun s => (s.st.windows.map ChartWindow.window, s.st.destroyed,
          (s.st.gui_chart ⟨1, by decide⟩).allocated)) =
      some ([], [2, 2], true) := by
  refine ⟨by decide, by decide, by decide, by decide, by decide⟩

/-- For every table state and every allocated slot `h` such that no slot of lower index
records the same widget pointer, `chart_destroyed_cb` called with the widget recorded in
slot `h` clears the `allocated` flag of slot `h` and leaves every other slot unchanged. -/
theorem chart_destroyed_cb_releases_slot (t : ChartTable) (h : Fin CHARTS_MAX)
    (_hlive : (t h).allocated = true)
    (hfirst : ∀ j : Fin CHARTS_MAX, j.val < h.val → (t j).widget ≠ (t h).widget) :
    (chart_destroyed_cb t (t h).widget h).allocated = false ∧
    ∀ j : Fin CHARTS_MAX, j ≠ h → chart_destroyed_cb t (t h).widget j = t j := by
  have hcb := chart_destroyed_cb_loop_found (t h).widget t h rfl CHARTS_MAX 0 (by omega)
    (by omega) (fun j _ hj => hfirst j hj)
  unfold chart_destroyed_cb
  rw [hcb]
  refine ⟨by simp, ?_⟩
  intro j hj
  rw [Function.update_noteq hj]

/-- The release of slot 1 of a table with two live charts. -/
theorem chart_destroyed_cb_releases_slot_witness :
    (two_chart_table ⟨1, by decide⟩).allocated = true ∧
    (∀ j : Fin CHARTS_MAX, j.val < 1 →
      (two_chart_table j).widget ≠ (two_chart_table ⟨1, by decide⟩).widget) ∧
    (chart_destroyed_cb two_chart_table (two_chart_table ⟨1, by decide⟩).widget
      ⟨1, by decide⟩).allocated = false ∧
    ∀ j : Fin CHARTS_MAX, j ≠ ⟨1, by decide⟩ →
      chart_destroyed_cb two_chart_table (two_chart_table ⟨1, by decide⟩).widget j =
        two_chart_table j :=
  have hfirst : ∀ j : Fin CHARTS_MAX, j.val < 1 →
      (two_chart_table j).widget ≠ (two_chart_table ⟨1, by decide⟩).widget := by
    intro j hj
    have h0 : j.val = 0 := by omega
    simp [two_chart_table, h0, chart_t.zero]
  ⟨rfl, hfirst, chart_destroyed_cb_releases_slot two_chart_table ⟨1, by decide⟩ rfl hfirst⟩

/-! ## Frame lemmas for the UI thread -/

/-- Signal emission changes `allocated` flags (clearing only) and the record of observed
destructions, nothing else. -/
theorem emit_destroy_eq (widgets : List Nat) : ∀ s : State,
    ∃ (t : ChartTable) (d : List Nat),
      emit_destroy s widgets = { s with gui_chart := t, destroyed := s.destroyed ++ d } ∧
      d = widgets ∧
      (∀ j, t j = { s.gui_chart j with allocated := (t j).allocated }) ∧
      (∀ j, (t j).allocated = true → (s.gui_chart j).allocated = true) := by
  induction widgets with
  | nil =>
    intro s
    exact ⟨s.gui_chart, [], by simp [emit_destroy], rfl, fun _ => rfl, fun _ h => h⟩
  | cons w ws ih =>
    intro s
    obtain ⟨t, d, he, hd, hf, ha⟩ := ih
      { s with gui_chart := chart_destroyed_cb s.gui_chart w, destroyed := s.destroyed ++ [w] }
    refine ⟨t, w :: d, ?_, by rw [hd], ?_, ?_⟩
    · have : emit_destroy s (w :: ws) = emit_destroy
          { s with gui_chart := chart_destroyed_cb s.gui_chart w
                   destroyed := s.destroyed ++ [w] } ws := by
        simp [emit_destroy]
      rw [this, he]
      simp
    · intro j
      have h1 := hf j
      have h2 := (chart_destroyed_cb_loop_frame w s.gui_chart CHARTS_MAX 0 j).2
      simp only at h1
      unfold chart_destroyed_cb at h1
      rw [h1, h2]
    · intro j hj
      have h1 := ha j hj
      exact (chart_destroyed_cb_loop_frame w s.gui_chart CHARTS_MAX 0 j).1 h1

/-- One turn of the main loop, taken apart. -/
theorem ui_run_some {s s' : State} (h : ui_run s = some s') :
    ∃ (source : Nat) (item : IdleItem) (rest : List (Nat × IdleItem)) (t : ChartTable),
      s.idle = (source, item) :: rest ∧
      s' = { (idle_body { s with idle := rest } item).1 with
             gui_chart := t
             destroyed := (idle_body { s with idle := rest } item).1.destroyed ++
               (idle_body { s with idle := rest } item).2
             completed := (idle_body { s with idle := rest } item).1.completed ++ [source] } ∧
      (∀ j, t j = { (idle_body { s with idle := rest } item).1.gui_chart j with
                    allocated := (t j).allocated }) ∧
      (∀ j, (t j).allocated = true →
        ((idle_body { s with idle := rest } item).1.gui_chart j).allocated = true) := by
  unfold ui_run at h
  cases hq : s.idle with
  | nil => simp [hq] at h
  | cons p rest =>
    obtain ⟨source, item⟩ := p
    simp only [hq, Option.some.injEq] at h
    obtain ⟨t, d, he, hd, hf, ha⟩ :=
      emit_destroy_eq (idle_body { s with idle := rest } item).2
        (idle_body { s with idle := rest } item).1
    refine ⟨source, item, rest, t, rfl, ?_, hf, ha⟩
    rw [← h, he, hd]

/-- The statements of a work item other than the six chart items leave the chart table,
the chart histories and the three chart locks as they are, and destroy no widget. -/
theorem idle_body_chart_frame (s : State) (item : IdleItem) (h : item.is_chart_item = false) :
    chart_frame s (idle_body s item).1 ∧ (idle_body s item).2 = [] := by
  cases item with
  | gui_chart_new_thread chart => simp [IdleItem.is_chart_item] at h
  | gui_chart_plot_thread chart => simp [IdleItem.is_chart_item] at h
  | gui_chart_set_value_thread chart => simp [IdleItem.is_chart_item] at h
  | gui_chart_close_thread window => simp [IdleItem.is_chart_item] at h
  | gui_chart_save_csv_thread chart => simp [IdleItem.is_chart_item] at h
  | gui_chart_save_png_thread chart => simp [IdleItem.is_chart_item] at h
  | text_view_add_buffer_thread view buffer =>
    cases view <;> exact ⟨⟨rfl, rfl, rfl, rfl, rfl, rfl, rfl, rfl⟩, rfl⟩
  | text_view_add_markup_buffer_thread view buffer =>
    cases view <;> exact ⟨⟨rfl, rfl, rfl, rfl, rfl, rfl, rfl, rfl⟩, rfl⟩
  | text_view_clear_buffer_thread view =>
    cases view <;> exact ⟨⟨rfl, rfl, rfl, rfl, rfl, rfl, rfl, rfl⟩, rfl⟩
  | gui_update_search_finished_thread =>
    by_cases h1 : s.no_instruments = true <;>
      simp [idle_body, gui_update_search_finished_thread, hide_info_bar, chart_frame, h1]
  | gui_update_grab_screenshot_finished_thread =>
    by_cases h1 : s.screenshot_ready = true
    · cases h2 : s.image_pixbuf with
      | none =>
        simp [idle_body, gui_update_grab_screenshot_finished_thread, show_error, g_idle_add,
          chart_frame, h1, h2]
      | some width =>
        simp [idle_body, gui_update_grab_screenshot_finished_thread, chart_frame, h1, h2]
    · by_cases h3 : s.screenshot_loaded = true <;>
        simp [idle_body, gui_update_grab_screenshot_finished_thread, chart_frame, h1, h3]
  | gui_update_progress_bar_fraction_thread =>
    by_cases h1 : s.progress_count % 2 = 0 <;>
      simp [idle_body, gui_update_progress_bar_fraction_thread, chart_frame, h1]
  | _ => exact ⟨⟨rfl, rfl, rfl, rfl, rfl, rfl, rfl, rfl⟩, rfl⟩

/-- The statements of a work item append to the queue the error notices they post and
nothing else, and leave the record of completed items as it is. -/
theorem idle_body_posts (s : State) (item : IdleItem) :
    ∃ extra : List (Nat × IdleItem),
      (idle_body s item).1.idle = s.idle ++ extra ∧
      (∀ p ∈ extra, p.2.is_show_error = true) ∧
      (idle_body s item).1.completed = s.completed ∧
      s.next_source ≤ (idle_body s item).1.next_source := by
  have triv : ∀ b : State, b.idle = s.idle → b.completed = s.completed →
      b.next_source = s.next_source →
      ∃ extra : List (Nat × IdleItem), b.idle = s.idle ++ extra ∧
        (∀ p ∈ extra, p.2.is_show_error = true) ∧ b.completed = s.completed ∧
        s.next_source ≤ b.next_source :=
    fun b h1 h2 h3 => ⟨[], by rw [h1, List.append_nil], fun _ hp => absurd hp (List.not_mem_nil _),
      h2, by rw [h3]⟩
  cases item with
  | text_view_add_buffer_thread view buffer => cases view <;> exact triv _ rfl rfl rfl
  | text_view_add_markup_buffer_thread view buffer => cases view <;> exact triv _ rfl rfl rfl
  | text_view_clear_buffer_thread view => cases view <;> exact triv _ rfl rfl rfl
  | gui_update_search_finished_thread =>
    apply triv <;> by_cases h1 : s.no_instruments = true <;>
      simp [idle_body, gui_update_search_finished_thread, hide_info_bar, h1]
  | gui_update_grab_screenshot_finished_thread =>
    by_cases h1 : s.screenshot_ready = true
    · cases h2 : s.image_pixbuf with
      | none =>
        refine ⟨[(s.next_source, IdleItem.show_error_thread "Failure handling image format")],
          ?_, ?_, ?_, ?_⟩ <;>
        simp [idle_body, gui_update_grab_screenshot_finished_thread, show_error, g_idle_add,
          IdleItem.is_show_error, h1, h2]
      | some width =>
        apply triv <;>
          simp [idle_body, gui_update_grab_screenshot_finished_thread, h1, h2]
    · apply triv <;> by_cases h3 : s.screenshot_loaded = true <;>
        simp [idle_body, gui_update_grab_screenshot_finished_thread, h1, h3]
  | gui_update_progress_bar_fraction_thread =>
    apply triv <;> by_cases h1 : s.progress_count % 2 = 0 <;>
      simp [idle_body, gui_update_progress_bar_fraction_thread, h1]
  | gui_chart_close_thread window => exact triv _ rfl rfl rfl
  | _ => exact triv _ rfl rfl rfl

/-- What one turn of the main loop does to the state the three rendezvous depend on. -/
theorem ui_run_effect {s s' : State} (h : ui_run s = some s') :
    ∃ (source : Nat) (item : IdleItem) (rest : List (Nat × IdleItem)),
      s.idle = (source, item) :: rest ∧
      (∃ extra : List (Nat × IdleItem), s'.idle = rest ++ extra ∧
        ∀ p ∈ extra, p.2.is_show_error = true) ∧
      s'.completed = s.completed ++ [source] ∧
      s.next_source ≤ s'.next_source ∧
      (∀ j, (s'.gui_chart j).filename_csv = (s.gui_chart j).filename_csv ∧
            (s'.gui_chart j).filename_png = (s.gui_chart j).filename_png) ∧
      (∀ w, w ∈ s.presented → w ∈ s'.presented) ∧
      (∀ f, f ∈ s.saved → f ∈ s'.saved) ∧
      (item.is_chart_new = false →
        s'.mutex_gui_chart = s.mutex_gui_chart ∧
        ∀ j, (s'.gui_chart j).window = (s.gui_chart j).window ∧
             (s'.gui_chart j).widget = (s.gui_chart j).widget) ∧
      (∀ chart, item = IdleItem.gui_chart_new_thread chart →
        s'.mutex_gui_chart = false ∧ (s'.gui_chart chart).window ∈ s'.presented) ∧
      (item.is_save_csv = false → s'.mutex_save_csv = s.mutex_save_csv) ∧
      (∀ chart, item = IdleItem.gui_chart_save_csv_thread chart →
        s'.mutex_save_csv = false ∧
        { widget := (s.gui_chart chart).widget, csv := true,
          filename := (s.gui_chart chart).filename_csv } ∈ s'.saved) ∧
      (item.is_save_png = false → s'.mutex_save_png = s.mutex_save_png) ∧
      (∀ chart, item = IdleItem.gui_chart_save_png_thread chart →
        s'.mutex_save_png = false ∧
        { widget := (s.gui_chart chart).widget, csv := false,
          filename := (s.gui_chart chart).filename_png } ∈ s'.saved) := by
  obtain ⟨source, item, rest, t, hq, hs', hf, _⟩ := ui_run_some h
  refine ⟨source, item, rest, hq, ?_⟩
  subst hs'
  have hfj : ∀ j, (t j).filename_csv = ((idle_body { s with idle := rest } item).1.gui_chart j).filename_csv ∧
      (t j).filename_png = ((idle_body { s with idle := rest } item).1.gui_chart j).filename_png ∧
      (t j).window = ((idle_body { s with idle := rest } item).1.gui_chart j).window ∧
      (t j).widget = ((idle_body { s with idle := rest } item).1.gui_chart j).widget := by
    intro j
    rw [hf j]
    simp
  obtain ⟨extra, hex, hse, hcm, hns⟩ := idle_body_posts { s with idle := rest } item
  refine ⟨⟨extra, hex, hse⟩, ?_, hns, ?_⟩
  · show (idle_body { s with idle := rest } item).1.completed ++ [source] =
      s.completed ++ [source]
    rw [hcm]
  by_cases hci : item.is_chart_item = false
  · obtain ⟨⟨f1, f2, f3, f4, f5, f6, _, _⟩, _⟩ :=
      idle_body_chart_frame { s with idle := rest } item hci
    refine ⟨fun j => ?_, fun w hw => ?_, fun f hf => ?_, fun _ => ⟨f4, fun j => ?_⟩, ?_,
      fun _ => f5, ?_, fun _ => f6, ?_⟩
    · have h := hfj j
      rw [f1] at h
      exact ⟨h.1, h.2.1⟩
    · show w ∈ (idle_body { s with idle := rest } item).1.presented
      rw [f2]
      exact hw
    · show f ∈ (idle_body { s with idle := rest } item).1.saved
      rw [f3]
      exact hf
    · have h := hfj j
      rw [f1] at h
      exact ⟨h.2.2.1, h.2.2.2⟩
    · intro c hc; rw [hc] at hci; simp [IdleItem.is_chart_item] at hci
    · intro c hc; rw [hc] at hci; simp [IdleItem.is_chart_item] at hci
    · intro c hc; rw [hc] at hci; simp [IdleItem.is_chart_item] at hci
  cases item with
  | gui_chart_new_thread chart =>
    simp only [idle_body, gui_chart_new_thread] at hfj
    refine ⟨?_, ?_, fun _ hf => hf, ?_, ?_, fun _ => rfl, ?_, fun _ => rfl, ?_⟩
    · intro j
      show (t j).filename_csv = _ ∧ (t j).filename_png = _
      rw [(hfj j).1, (hfj j).2.1]
      by_cases hj : j = chart
      · subst hj; simp
      · simp [Function.update_noteq hj]
    · intro w hw
      show w ∈ s.presented ++ [(s.builder s.built).1]
      simp [hw]
    · intro hn; simp [IdleItem.is_chart_new] at hn
    · intro c hc
      cases hc
      refine ⟨rfl, ?_⟩
      show (t chart).window ∈ s.presented ++ [(s.builder s.built).1]
      rw [(hfj chart).2.2.1]
      simp
    · intro c hc; cases hc
    · intro c hc; cases hc
  | gui_chart_plot_thread chart =>
    simp only [idle_body, gui_chart_plot_thread] at hfj
    refine ⟨fun j => ⟨(hfj j).1, (hfj j).2.1⟩, fun _ hw => hw, fun _ hf => hf,
      fun _ => ⟨rfl, fun j => ⟨(hfj j).2.2.1, (hfj j).2.2.2⟩⟩, ?_, fun _ => rfl, ?_, fun _ => rfl, ?_⟩ <;>
    · intro c hc; cases hc
  | gui_chart_set_value_thread chart =>
    simp only [idle_body, gui_chart_set_value_thread] at hfj
    refine ⟨fun j => ⟨(hfj j).1, (hfj j).2.1⟩, fun _ hw => hw, fun _ hf => hf,
      fun _ => ⟨rfl, fun j => ⟨(hfj j).2.2.1, (hfj j).2.2.2⟩⟩, ?_, fun _ => rfl, ?_, fun _ => rfl, ?_⟩ <;>
    · intro c hc; cases hc
  | gui_chart_close_thread window =>
    simp only [idle_body, gui_chart_close_thread, gtk_window_close] at hfj
    refine ⟨fun j => ⟨(hfj j).1, (hfj j).2.1⟩, fun _ hw => hw, fun _ hf => hf,
      fun _ => ⟨rfl, fun j => ⟨(hfj j).2.2.1, (hfj j).2.2.2⟩⟩, ?_, fun _ => rfl, ?_, fun _ => rfl, ?_⟩ <;>
    · intro c hc; cases hc
  | gui_chart_save_csv_thread chart =>
    simp only [idle_body, gui_chart_save_csv_thread] at hfj
    refine ⟨fun j => ⟨(hfj j).1, (hfj j).2.1⟩, fun _ hw => hw, ?_,
      fun _ => ⟨rfl, fun j => ⟨(hfj j).2.2.1, (hfj j).2.2.2⟩⟩, ?_, ?_, ?_, fun _ => rfl, ?_⟩
    · intro f hf
      show f ∈ s.saved ++ [_]
      simp [hf]
    · intro c hc; cases hc
    · intro hn; simp [IdleItem.is_save_csv] at hn
    · intro c hc
      cases hc
      refine ⟨rfl, ?_⟩
      show _ ∈ s.saved ++ [_]
      simp
    · intro c hc; cases hc
  | gui_chart_save_png_thread chart =>
    simp only [idle_body, gui_chart_save_png_thread] at hfj
    refine ⟨fun j => ⟨(hfj j).1, (hfj j).2.1⟩, fun _ hw => hw, ?_,
      fun _ => ⟨rfl, fun j => ⟨(hfj j).2.2.1, (hfj j).2.2.2⟩⟩, ?_, fun _ => rfl, ?_, ?_, ?_⟩
    · intro f hf
      show f ∈ s.saved ++ [_]
      simp [hf]
    · intro c hc; cases hc
    · intro c hc; cases hc
    · intro hn; simp [IdleItem.is_save_png] at hn
    · intro c hc
      cases hc
      refine ⟨rfl, ?_⟩
      show _ ∈ s.saved ++ [_]
      simp
  | _ => exact absurd rfl hci

/-- An error notice is none of the rendezvous items and does not touch the instrument
list. -/
theorem show_error_is_plain (item : IdleItem) (h : item.is_show_error = true) :
    item.is_chart_new = false ∧ item.is_save_csv = false ∧ item.is_save_png = false ∧
    item.added_list_box = none ∧ item.is_search_start = false := by
  cases item <;> first
    | exact ⟨rfl, rfl, rfl, rfl, rfl⟩
    | simp [IdleItem.is_show_error] at h

/-- Error notices at the end of a queue do not count for a filter that selects none of
them. -/
theorem filter_append_notices (f : IdleItem → Bool) (rest extra : List (Nat × IdleItem))
    (hf : ∀ item : IdleItem, item.is_show_error = true → f item = false)
    (hex : ∀ p ∈ extra, p.2.is_show_error = true) :
    (rest ++ extra).filter (fun p => f p.2) = rest.filter (fun p => f p.2) := by
  rw [List.filter_append]
  have : extra.filter (fun p => f p.2) = [] := by
    rw [List.filter_eq_nil_iff]
    intro p hp
    rw [hf p.2 (hex p hp)]
    simp
  rw [this, List.append_nil]


/-! ## Frame lemmas for the host calls -/

/-- What a host call does to the state the three rendezvous depend on: it appends its
posts to the queue, touches no lock, and either returns without a rendezvous item posted
or goes to wait with its rendezvous item posted last. -/
theorem host_call_effect {s s' : Sys} {f : HostCall} {L : lua_State}
    (h : host_call s f L = some s') :
    ∃ posted : List (Nat × IdleItem),
      s'.st.idle = s.st.idle ++ posted ∧
      s'.st.mutex_gui_chart = s.st.mutex_gui_chart ∧
      s'.st.mutex_save_csv = s.st.mutex_save_csv ∧
      s'.st.mutex_save_png = s.st.mutex_save_png ∧
      s'.st.completed = s.st.completed ∧
      s'.st.presented = s.st.presented ∧
      s'.st.saved = s.st.saved ∧
      s'.st.destroyed = s.st.destroyed ∧
      (∀ j, (s.st.gui_chart j).allocated = true → (s'.st.gui_chart j).allocated = true) ∧
      ((s'.worker = s.worker ∧
          posted.filter (fun p => p.2.is_chart_new) = [] ∧
          posted.filter (fun p => p.2.is_save_csv) = [] ∧
          posted.filter (fun p => p.2.is_save_png) = []) ∨
        (∃ chart source, s'.worker = Worker.in_chart_new chart source ∧
          posted = [(source, IdleItem.gui_chart_new_thread chart)]) ∨
        (∃ chart source x text,
          s'.worker = Worker.in_chart_save_csv chart (L.tostring 2) source ∧
          posted = [(x, IdleItem.text_view_add_buffer_thread GtkTextView.text_view_script_status text),
                    (source, IdleItem.gui_chart_save_csv_thread chart)] ∧
          (s'.st.gui_chart chart).filename_csv = L.tostring 2) ∨
        (∃ chart source x text,
          s'.worker = Worker.in_chart_save_png chart (L.tostring 2) source ∧
          posted = [(x, IdleItem.text_view_add_buffer_thread GtkTextView.text_view_script_status text),
                    (source, IdleItem.gui_chart_save_png_thread chart)] ∧
          (s'.st.gui_chart chart).filename_png = L.tostring 2)) := by
  have hupd : ∀ (chart : Fin CHARTS_MAX) (c : chart_t),
      c.allocated = (s.st.gui_chart chart).allocated → ∀ j : Fin CHARTS_MAX,
      (s.st.gui_chart j).allocated = true →
      (Function.update s.st.gui_chart chart c j).allocated = true := by
    intro chart c hc j hj
    by_cases hjc : j = chart
    · subst hjc
      rw [Function.update_same, hc, hj]
    · rw [Function.update_noteq hjc, hj]
  cases f with
  | chart_new =>
    simp only [host_call, Option.map_eq_some'] at h
    obtain ⟨⟨st, chart, source⟩, hpost, hs'⟩ := h
    obtain ⟨type, _, hscan, hsrc, hst⟩ := lua_gui_chart_new_post_some hpost
    obtain ⟨_, _, ht⟩ := chart_new_scan_result s.st.gui_chart chart hscan
    subst hs' hst
    refine ⟨[(s.st.next_source, IdleItem.gui_chart_new_thread chart)], rfl, rfl, rfl, rfl, rfl,
      rfl, rfl, rfl, ?_, Or.inr (Or.inl ⟨chart, source, rfl, by rw [hsrc]⟩)⟩
    intro j hj
    by_cases hjc : j = chart
    · subst hjc
      simp only [Function.update_same]
      rw [(chart_new_parse_allocated L _).1, ht]
      simp
    · simp only [Function.update_noteq hjc]
      rw [ht, Function.update_noteq hjc, hj]
  | chart_plot =>
    simp only [host_call, Option.map_eq_some'] at h
    obtain ⟨st, hcall, hs'⟩ := h
    subst hs'
    unfold lua_gui_chart_plot at hcall
    cases hidx : chart_index (c_int (L.tointeger 1)) with
    | none => simp [hidx] at hcall
    | some chart =>
      simp only [hidx] at hcall
      split at hcall
      · simp only [g_idle_add, Option.some.injEq] at hcall
        subst hcall
        exact ⟨[(s.st.next_source, IdleItem.gui_chart_plot_thread chart)], rfl, rfl, rfl, rfl,
          rfl, rfl, rfl, rfl, hupd chart _ rfl, Or.inl ⟨rfl, rfl, rfl, rfl⟩⟩
      · simp only [Option.some.injEq] at hcall
        subst hcall
        exact ⟨[], by simp, rfl, rfl, rfl, rfl, rfl, rfl, rfl, hupd chart _ rfl,
          Or.inl ⟨rfl, rfl, rfl, rfl⟩⟩
  | chart_set_value =>
    simp only [host_call, Option.map_eq_some'] at h
    obtain ⟨st, hcall, hs'⟩ := h
    subst hs'
    unfold lua_gui_chart_set_value at hcall
    cases hidx : chart_index (c_int (L.tointeger 1)) with
    | none => simp [hidx] at hcall
    | some chart =>
      simp only [hidx] at hcall
      split at hcall
      · simp only [g_idle_add, Option.some.injEq] at hcall
        subst hcall
        exact ⟨[(s.st.next_source, IdleItem.gui_chart_set_value_thread chart)], rfl, rfl, rfl,
          rfl, rfl, rfl, rfl, rfl, hupd chart _ rfl, Or.inl ⟨rfl, rfl, rfl, rfl⟩⟩
      · simp only [Option.some.injEq] at hcall
        subst hcall
        exact ⟨[], by simp, rfl, rfl, rfl, rfl, rfl, rfl, rfl, hupd chart _ rfl,
          Or.inl ⟨rfl, rfl, rfl, rfl⟩⟩
  | chart_close =>
    simp only [host_call, Option.map_eq_some'] at h
    obtain ⟨st, hcall, hs'⟩ := h
    subst hs'
    unfold lua_gui_chart_close at hcall
    cases hidx : chart_index (c_int (L.tointeger 1)) with
    | none => simp [hidx] at hcall
    | some chart =>
      simp only [hidx] at hcall
      split at hcall
      · simp only [g_idle_add, Option.some.injEq] at hcall
        subst hcall
        exact ⟨[(s.st.next_source, IdleItem.gui_chart_close_thread (s.st.gui_chart chart).window)],
          rfl, rfl, rfl, rfl, rfl, rfl, rfl, rfl, fun _ hj => hj, Or.inl ⟨rfl, rfl, rfl, rfl⟩⟩
      · simp only [Option.some.injEq] at hcall
        subst hcall
        exact ⟨[], by simp, rfl, rfl, rfl, rfl, rfl, rfl, rfl, fun _ hj => hj,
          Or.inl ⟨rfl, rfl, rfl, rfl⟩⟩
  | chart_save_csv =>
    simp only [host_call, Option.map_eq_some'] at h
    obtain ⟨r, hcall, hs'⟩ := h
    subst hs'
    unfold lua_gui_chart_save_csv_post at hcall
    cases hidx : chart_index (c_int (L.tointeger 1)) with
    | none => simp [hidx] at hcall
    | some chart =>
      simp only [hidx] at hcall
      split at hcall
      · simp only [g_idle_add, text_view_add_buffer, Option.some.injEq] at hcall
        subst hcall
        refine ⟨[(s.st.next_source, IdleItem.text_view_add_buffer_thread
            GtkTextView.text_view_script_status
            (some ("Saving " ++ printf_s (L.tostring 2) ++ "\n"))),
            (s.st.next_source + 1, IdleItem.gui_chart_save_csv_thread chart)], by simp, rfl, rfl,
          rfl, rfl, rfl, rfl, rfl, hupd chart _ rfl,
          Or.inr (Or.inr (Or.inl ⟨chart, _, _, _, rfl, rfl, ?_⟩))⟩
        simp
      · simp only [Option.some.injEq] at hcall
        subst hcall
        exact ⟨[], by simp, rfl, rfl, rfl, rfl, rfl, rfl, rfl, fun _ hj => hj,
          Or.inl ⟨rfl, rfl, rfl, rfl⟩⟩
  | chart_save_png =>
    simp only [host_call, Option.map_eq_some'] at h
    obtain ⟨r, hcall, hs'⟩ := h
    subst hs'
    unfold lua_gui_chart_save_png_post at hcall
    cases hidx : chart_index (c_int (L.tointeger 1)) with
    | none => simp [hidx] at hcall
    | some chart =>
      simp only [hidx] at hcall
      split at hcall
      · simp only [g_idle_add, text_view_add_buffer, Option.some.injEq] at hcall
        subst hcall
        refine ⟨[(s.st.next_source, IdleItem.text_view_add_buffer_thread
            GtkTextView.text_view_script_status
            (some ("Saving " ++ printf_s (L.tostring 2) ++ "\n"))),
            (s.st.next_source + 1, IdleItem.gui_chart_save_png_thread chart)], by simp, rfl, rfl,
          rfl, rfl, rfl, rfl, rfl, hupd chart _ rfl,
          Or.inr (Or.inr (Or.inr ⟨chart, _, _, _, rfl, rfl, ?_⟩))⟩
        simp
      · simp only [Option.some.injEq] at hcall
        subst hcall
        exact ⟨[], by simp, rfl, rfl, rfl, rfl, rfl, rfl, rfl, fun _ hj => hj,
          Or.inl ⟨rfl, rfl, rfl, rfl⟩⟩

/-! ## The rendezvous invariants hold in every reachable state -/

/-- A step that keeps the worker, the locks, the queued rendezvous items and the chart
fields, and only adds to the histories, keeps the invariants. -/
theorem rendezvous_inv_of_frame {s s' : Sys} (hinv : rendezvous_inv s)
    (hworker : s'.worker = s.worker)
    (hm1 : s'.st.mutex_gui_chart = s.st.mutex_gui_chart)
    (hm2 : s'.st.mutex_save_csv = s.st.mutex_save_csv)
    (hm3 : s'.st.mutex_save_png = s.st.mutex_save_png)
    (hq1 : s'.st.idle.filter (fun p => p.2.is_chart_new) =
      s.st.idle.filter (fun p => p.2.is_chart_new))
    (hq2 : s'.st.idle.filter (fun p => p.2.is_save_csv) =
      s.st.idle.filter (fun p => p.2.is_save_csv))
    (hq3 : s'.st.idle.filter (fun p => p.2.is_save_png) =
      s.st.idle.filter (fun p => p.2.is_save_png))
    (hc : ∀ x, x ∈ s.st.completed → x ∈ s'.st.completed)
    (hp : ∀ x, x ∈ s.st.presented → x ∈ s'.st.presented)
    (hs : ∀ x, x ∈ s.st.saved → x ∈ s'.st.saved)
    (hf : ∀ j, (s'.st.gui_chart j).window = (s.st.gui_chart j).window ∧
      (s'.st.gui_chart j).widget = (s.st.gui_chart j).widget ∧
      (s'.st.gui_chart j).filename_csv = (s.st.gui_chart j).filename_csv ∧
      (s'.st.gui_chart j).filename_png = (s.st.gui_chart j).filename_png) :
    rendezvous_inv s' := by
  obtain ⟨h1, h2, h3⟩ := hinv
  unfold chart_new_inv at h1
  unfold save_csv_inv at h2
  unfold save_png_inv at h3
  refine ⟨?_, ?_, ?_⟩
  · unfold chart_new_inv
    rw [hworker, hm1, hq1]
    cases hw : s.worker with
    | in_chart_new chart source =>
      simp only [hw] at h1 ⊢
      rcases h1 with h1 | ⟨a, b, c, d⟩
      · exact Or.inl h1
      · exact Or.inr ⟨a, b, hc _ c, by rw [(hf chart).1]; exact hp _ d⟩
    | running => simpa [hw] using h1
    | in_chart_save_csv _ _ _ => simpa [hw] using h1
    | in_chart_save_png _ _ _ => simpa [hw] using h1
  · unfold save_csv_inv
    rw [hworker, hm2, hq2]
    cases hw : s.worker with
    | in_chart_save_csv chart filename source =>
      simp only [hw] at h2 ⊢
      rcases h2 with ⟨a, b, c⟩ | ⟨a, b, c, d⟩
      · exact Or.inl ⟨a, b, by rw [(hf chart).2.2.1]; exact c⟩
      · exact Or.inr ⟨a, b, hc _ c, by rw [(hf chart).2.1]; exact hs _ d⟩
    | running => simpa [hw] using h2
    | in_chart_new _ _ => simpa [hw] using h2
    | in_chart_save_png _ _ _ => simpa [hw] using h2
  · unfold save_png_inv
    rw [hworker, hm3, hq3]
    cases hw : s.worker with
    | in_chart_save_png chart filename source =>
      simp only [hw] at h3 ⊢
      rcases h3 with ⟨a, b, c⟩ | ⟨a, b, c, d⟩
      · exact Or.inl ⟨a, b, by rw [(hf chart).2.2.2]; exact c⟩
      · exact Or.inr ⟨a, b, hc _ c, by rw [(hf chart).2.1]; exact hs _ d⟩
    | running => simpa [hw] using h3
    | in_chart_new _ _ => simpa [hw] using h3
    | in_chart_save_csv _ _ _ => simpa [hw] using h3

/-- The invariants when the worker is not in a host call: the three locks are held and
no rendezvous item is queued. -/
theorem rendezvous_inv_running {s : Sys} (hinv : rendezvous_inv s)
    (hw : s.worker = Worker.running) :
    (s.st.mutex_gui_chart = true ∧ s.st.idle.filter (fun p => p.2.is_chart_new) = []) ∧
    (s.st.mutex_save_csv = true ∧ s.st.idle.filter (fun p => p.2.is_save_csv) = []) ∧
    (s.st.mutex_save_png = true ∧ s.st.idle.filter (fun p => p.2.is_save_png) = []) := by
  obtain ⟨h1, h2, h3⟩ := hinv
  unfold chart_new_inv at h1
  unfold save_csv_inv at h2
  unfold save_png_inv at h3
  simp only [hw] at h1 h2 h3
  exact ⟨h1, h2, h3⟩

theorem host_call_preserves_inv {s s' : Sys} {f : HostCall} {L : lua_State}
    (h : host_call s f L = some s') (hw : s.worker = Worker.running)
    (hinv : rendezvous_inv s) : rendezvous_inv s' := by
  obtain ⟨⟨m1, q1⟩, ⟨m2, q2⟩, ⟨m3, q3⟩⟩ := rendezvous_inv_running hinv hw
  obtain ⟨posted, hidle, hm1, hm2, hm3, _, _, _, _, _, hcase⟩ := host_call_effect h
  rcases hcase with ⟨hw', p1, p2, p3⟩ | ⟨chart, source, hw', hp⟩ |
      ⟨chart, source, x, text, hw', hp, hfn⟩ | ⟨chart, source, x, text, hw', hp, hfn⟩
  · rw [hw] at hw'
    refine ⟨?_, ?_, ?_⟩
    · unfold chart_new_inv
      simp only [hw', hm1, m1, hidle, List.filter_append, q1, p1, List.append_nil, and_self]
    · unfold save_csv_inv
      simp only [hw', hm2, m2, hidle, List.filter_append, q2, p2, List.append_nil, and_self]
    · unfold save_png_inv
      simp only [hw', hm3, m3, hidle, List.filter_append, q3, p3, List.append_nil, and_self]
  · refine ⟨?_, ?_, ?_⟩
    · unfold chart_new_inv
      simp only [hw', hm1, m1, hidle, List.filter_append, q1, hp]
      left
      simp [IdleItem.is_chart_new]
    · unfold save_csv_inv
      simp only [hw', hm2, m2, hidle, List.filter_append, q2, hp]
      simp [IdleItem.is_save_csv]
    · unfold save_png_inv
      simp only [hw', hm3, m3, hidle, List.filter_append, q3, hp]
      simp [IdleItem.is_save_png]
  · refine ⟨?_, ?_, ?_⟩
    · unfold chart_new_inv
      simp only [hw', hm1, m1, hidle, List.filter_append, q1, hp]
      simp [IdleItem.is_chart_new]
    · unfold save_csv_inv
      simp only [hw', hm2, m2, hidle, List.filter_append, q2, hp]
      left
      simp [IdleItem.is_save_csv, hfn]
    · unfold save_png_inv
      simp only [hw', hm3, m3, hidle, List.filter_append, q3, hp]
      simp [IdleItem.is_save_png]
  · refine ⟨?_, ?_, ?_⟩
    · unfold chart_new_inv
      simp only [hw', hm1, m1, hidle, List.filter_append, q1, hp]
      simp [IdleItem.is_chart_new]
    · unfold save_csv_inv
      simp only [hw', hm2, m2, hidle, List.filter_append, q2, hp]
      simp [IdleItem.is_save_csv]
    · unfold save_png_inv
      simp only [hw', hm3, m3, hidle, List.filter_append, q3, hp]
      left
      simp [IdleItem.is_save_png, hfn]

theorem worker_resume_preserves_inv {s s' : Sys} (h : worker_resume s = some s')
    (hinv : rendezvous_inv s) : rendezvous_inv s' := by
  obtain ⟨h1, h2, h3⟩ := hinv
  unfold chart_new_inv at h1
  unfold save_csv_inv at h2
  unfold save_png_inv at h3
  unfold worker_resume at h
  cases hw : s.worker with
  | running => simp [hw] at h
  | in_chart_new chart source =>
    simp only [hw] at h h1 h2 h3
    split at h
    · simp at h
    · next hm =>
      simp only [Option.some.injEq] at h
      subst h
      rcases h1 with ⟨a, _⟩ | ⟨_, b, _, _⟩
      · exact absurd a hm
      · exact ⟨by unfold chart_new_inv; simp [b], by unfold save_csv_inv; simpa using h2,
          by unfold save_png_inv; simpa using h3⟩
  | in_chart_save_csv chart filename source =>
    simp only [hw] at h h1 h2 h3
    split at h
    · simp at h
    · next hm =>
      simp only [Option.some.injEq] at h
      subst h
      rcases h2 with ⟨a, _⟩ | ⟨_, b, _, _⟩
      · exact absurd a hm
      · exact ⟨by unfold chart_new_inv; simpa using h1, by unfold save_csv_inv; simp [b],
          by unfold save_png_inv; simpa using h3⟩
  | in_chart_save_png chart filename source =>
    simp only [hw] at h h1 h2 h3
    split at h
    · simp at h
    · next hm =>
      simp only [Option.some.injEq] at h
      subst h
      rcases h3 with ⟨a, _⟩ | ⟨_, b, _, _⟩
      · exact absurd a hm
      · exact ⟨by unfold chart_new_inv; simpa using h1, by unfold save_csv_inv; simpa using h2,
          by unfold save_png_inv; simp [b]⟩

theorem ui_run_preserves_inv {s : Sys} {st' : State} (h : ui_run s.st = some st')
    (hinv : rendezvous_inv s) : rendezvous_inv { s with st := st' } := by
  obtain ⟨source, item, rest, hq, ⟨extra, hidle0, hex⟩, hcomp, _, hfn, hpres, hsaved, knew, knew',
    kcsv, kcsv', kpng, kpng'⟩ := ui_run_effect h
  have hidle1 : st'.idle.filter (fun p => p.2.is_chart_new) =
      rest.filter (fun p => p.2.is_chart_new) := by
    rw [hidle0]
    exact filter_append_notices IdleItem.is_chart_new rest extra
      (fun item hi => (show_error_is_plain item hi).1) hex
  have hidle2 : st'.idle.filter (fun p => p.2.is_save_csv) =
      rest.filter (fun p => p.2.is_save_csv) := by
    rw [hidle0]
    exact filter_append_notices IdleItem.is_save_csv rest extra
      (fun item hi => (show_error_is_plain item hi).2.1) hex
  have hidle3 : st'.idle.filter (fun p => p.2.is_save_png) =
      rest.filter (fun p => p.2.is_save_png) := by
    rw [hidle0]
    exact filter_append_notices IdleItem.is_save_png rest extra
      (fun item hi => (show_error_is_plain item hi).2.2.1) hex
  obtain ⟨h1, h2, h3⟩ := hinv
  unfold chart_new_inv at h1
  unfold save_csv_inv at h2
  unfold save_png_inv at h3
  rw [hq] at h1 h2 h3
  have hnew_of_not_waiting : (¬ ∃ chart src, s.worker = Worker.in_chart_new chart src) →
      item.is_chart_new = false := by
    intro hnw
    cases hw : s.worker with
    | in_chart_new chart src => exact absurd ⟨chart, src, hw⟩ hnw
    | running =>
      simp only [hw] at h1
      cases hn : item.is_chart_new with
      | false => rfl
      | true => simp [List.filter_cons, hn] at h1
    | in_chart_save_csv _ _ _ =>
      simp only [hw] at h1
      cases hn : item.is_chart_new with
      | false => rfl
      | true => simp [List.filter_cons, hn] at h1
    | in_chart_save_png _ _ _ =>
      simp only [hw] at h1
      cases hn : item.is_chart_new with
      | false => rfl
      | true => simp [List.filter_cons, hn] at h1
  refine ⟨?_, ?_, ?_⟩
  · unfold chart_new_inv
    cases hw : s.worker with
    | in_chart_new chart src =>
      simp only [hw] at h1 ⊢
      rw [hidle1, hcomp]
      cases hn : item.is_chart_new with
      | true =>
        rcases h1 with ⟨_, hfil⟩ | ⟨_, hfil, _, _⟩
        · simp only [List.filter_cons, hn, if_true, List.cons.injEq, Prod.mk.injEq] at hfil
          obtain ⟨⟨hsrc, hitem⟩, hrest⟩ := hfil
          obtain ⟨hm', hw'⟩ := knew' chart hitem
          exact Or.inr ⟨hm', hrest, by simp [hsrc], hw'⟩
        · simp [List.filter_cons, hn] at hfil
      | false =>
        obtain ⟨hm', hfield⟩ := knew hn
        rcases h1 with ⟨hm, hfil⟩ | ⟨hm, hfil, hc, hp⟩
        · simp only [List.filter_cons, hn, Bool.false_eq_true, if_false] at hfil
          exact Or.inl ⟨by rw [hm', hm], hfil⟩
        · simp only [List.filter_cons, hn, Bool.false_eq_true, if_false] at hfil
          exact Or.inr ⟨by rw [hm', hm], hfil, by simp [hc],
            by rw [(hfield chart).1]; exact hpres _ hp⟩
    | running =>
      have hn := hnew_of_not_waiting (by simp [hw])
      simp only [hw] at h1 ⊢
      simp only [List.filter_cons, hn, Bool.false_eq_true, if_false] at h1
      rw [hidle1, (knew hn).1]
      exact h1
    | in_chart_save_csv _ _ _ =>
      have hn := hnew_of_not_waiting (by simp [hw])
      simp only [hw] at h1 ⊢
      simp only [List.filter_cons, hn, Bool.false_eq_true, if_false] at h1
      rw [hidle1, (knew hn).1]
      exact h1
    | in_chart_save_png _ _ _ =>
      have hn := hnew_of_not_waiting (by simp [hw])
      simp only [hw] at h1 ⊢
      simp only [List.filter_cons, hn, Bool.false_eq_true, if_false] at h1
      rw [hidle1, (knew hn).1]
      exact h1
  · unfold save_csv_inv
    cases hw : s.worker with
    | in_chart_save_csv chart filename src =>
      have hnn := hnew_of_not_waiting (by simp [hw])
      obtain ⟨_, hfield⟩ := knew hnn
      simp only [hw] at h2 ⊢
      rw [hidle2, hcomp]
      cases hn : item.is_save_csv with
      | true =>
        rcases h2 with ⟨_, hfil, hname⟩ | ⟨_, hfil, _, _⟩
        · simp only [List.filter_cons, hn, if_true, List.cons.injEq, Prod.mk.injEq] at hfil
          obtain ⟨⟨hsrc, hitem⟩, hrest⟩ := hfil
          obtain ⟨hm', hs'⟩ := kcsv' chart hitem
          refine Or.inr ⟨hm', hrest, by simp [hsrc], ?_⟩
          rw [(hfield chart).2, ← hname]
          exact hs'
        · simp [List.filter_cons, hn] at hfil
      | false =>
        have hm' := kcsv hn
        rcases h2 with ⟨hm, hfil, hname⟩ | ⟨hm, hfil, hc, hp⟩
        · simp only [List.filter_cons, hn, Bool.false_eq_true, if_false] at hfil
          exact Or.inl ⟨by rw [hm', hm], hfil, by rw [(hfn chart).1]; exact hname⟩
        · simp only [List.filter_cons, hn, Bool.false_eq_true, if_false] at hfil
          exact Or.inr ⟨by rw [hm', hm], hfil, by simp [hc],
            by rw [(hfield chart).2]; exact hsaved _ hp⟩
    | running =>
      simp only [hw] at h2 ⊢
      cases hn : item.is_save_csv with
      | true => simp [List.filter_cons, hn] at h2
      | false =>
        simp only [List.filter_cons, hn, Bool.false_eq_true, if_false] at h2
        rw [hidle2, kcsv hn]
        exact h2
    | in_chart_new _ _ =>
      simp only [hw] at h2 ⊢
      cases hn : item.is_save_csv with
      | true => simp [List.filter_cons, hn] at h2
      | false =>
        simp only [List.filter_cons, hn, Bool.false_eq_true, if_false] at h2
        rw [hidle2, kcsv hn]
        exact h2
    | in_chart_save_png _ _ _ =>
      simp only [hw] at h2 ⊢
      cases hn : item.is_save_csv with
      | true => simp [List.filter_cons, hn] at h2
      | false =>
        simp only [List.filter_cons, hn, Bool.false_eq_true, if_false] at h2
        rw [hidle2, kcsv hn]
        exact h2
  · unfold save_png_inv
    cases hw : s.worker with
    | in_chart_save_png chart filename src =>
      have hnn := hnew_of_not_waiting (by simp [hw])
      obtain ⟨_, hfield⟩ := knew hnn
      simp only [hw] at h3 ⊢
      rw [hidle3, hcomp]
      cases hn : item.is_save_png with
      | true =>
        rcases h3 with ⟨_, hfil, hname⟩ | ⟨_, hfil, _, _⟩
        · simp only [List.filter_cons, hn, if_true, List.cons.injEq, Prod.mk.injEq] at hfil
          obtain ⟨⟨hsrc, hitem⟩, hrest⟩ := hfil
          obtain ⟨hm', hs'⟩ := kpng' chart hitem
          refine Or.inr ⟨hm', hrest, by simp [hsrc], ?_⟩
          rw [(hfield chart).2, ← hname]
          exact hs'
        · simp [List.filter_cons, hn] at hfil
      | false =>
        have hm' := kpng hn
        rcases h3 with ⟨hm, hfil, hname⟩ | ⟨hm, hfil, hc, hp⟩
        · simp only [List.filter_cons, hn, Bool.false_eq_true, if_false] at hfil
          exact Or.inl ⟨by rw [hm', hm], hfil, by rw [(hfn chart).2]; exact hname⟩
        · simp only [List.filter_cons, hn, Bool.false_eq_true, if_false] at hfil
          exact Or.inr ⟨by rw [hm', hm], hfil, by simp [hc],
            by rw [(hfield chart).2]; exact hsaved _ hp⟩
    | running =>
      simp only [hw] at h3 ⊢
      cases hn : item.is_save_png with
      | true => simp [List.filter_cons, hn] at h3
      | false =>
        simp only [List.filter_cons, hn, Bool.false_eq_true, if_false] at h3
        rw [hidle3, kpng hn]
        exact h3
    | in_chart_new _ _ =>
      simp only [hw] at h3 ⊢
      cases hn : item.is_save_png with
      | true => simp [List.filter_cons, hn] at h3
      | false =>
        simp only [List.filter_cons, hn, Bool.false_eq_true, if_false] at h3
        rw [hidle3, kpng hn]
        exact h3
    | in_chart_save_csv _ _ _ =>
      simp only [hw] at h3 ⊢
      cases hn : item.is_save_png with
      | true => simp [List.filter_cons, hn] at h3
      | false =>
        simp only [List.filter_cons, hn, Bool.false_eq_true, if_false] at h3
        rw [hidle3, kpng hn]
        exact h3

theorem user_close_window_preserves_inv {s : Sys} (window : Nat) (hinv : rendezvous_inv s) :
    rendezvous_inv { s with st := user_close_window s.st window } := by
  obtain ⟨t, d, he, _, hf, _⟩ :=
    emit_destroy_eq (gtk_window_close s.st window).2 (gtk_window_close s.st window).1
  have hst : user_close_window s.st window =
      { (gtk_window_close s.st window).1 with
        gui_chart := t
        destroyed := (gtk_window_close s.st window).1.destroyed ++ d } := he
  apply rendezvous_inv_of_frame hinv <;> simp only [hst, gtk_window_close]
  · exact fun _ hx => hx
  · exact fun _ hx => hx
  · exact fun _ hx => hx
  · intro j
    have := hf j
    simp only [gtk_window_close] at this
    rw [this]
    exact ⟨rfl, rfl, rfl, rfl⟩

theorem mdns_service_preserves_inv {s : Sys} {st' : State} {address id : String}
    (h : mdns_service s.st address id = some st') (hinv : rendezvous_inv s) :
    rendezvous_inv { s with st := st' } := by
  unfold mdns_service at h
  split at h
  · simp at h
  · simp only [] at h
    split at h
    · simp only [Option.some.injEq] at h
      subst h
      apply rendezvous_inv_of_frame hinv <;> first | rfl | exact fun _ hx => hx | skip
      exact fun _ => ⟨rfl, rfl, rfl, rfl⟩
    · simp only [Option.some.injEq] at h
      subst h
      apply rendezvous_inv_of_frame hinv <;>
        simp only [list_add_instrument, g_idle_add, List.filter_append] <;>
        first
          | exact fun _ hx => hx
          | exact fun _ => ⟨rfl, rfl, rfl, rfl⟩
          | simp [IdleItem.is_chart_new, IdleItem.is_save_csv, IdleItem.is_save_png]

/-- Every step keeps the rendezvous invariants. -/
theorem step_preserves_inv {s s' : Sys} {a : Action} (h : step s a = some s')
    (hinv : rendezvous_inv s) : rendezvous_inv s' := by
  cases a with
  | call f L =>
    simp only [step] at h
    cases hw : s.worker with
    | running =>
      simp only [hw] at h
      exact host_call_preserves_inv h hw hinv
    | in_chart_new _ _ => simp [hw] at h
    | in_chart_save_csv _ _ _ => simp [hw] at h
    | in_chart_save_png _ _ _ => simp [hw] at h
  | worker_resume =>
    simp only [step] at h
    exact worker_resume_preserves_inv h hinv
  | ui_run =>
    simp only [step] at h
    cases hu : ui_run s.st with
    | none => simp [hu] at h
    | some st' =>
      simp only [hu, Option.some.injEq] at h
      subst h
      exact ui_run_preserves_inv hu hinv
  | close_window window =>
    simp only [step, Option.some.injEq] at h
    subst h
    exact user_close_window_preserves_inv window hinv
  | mdns_service address id =>
    simp only [step] at h
    cases hu : mdns_service s.st address id with
    | none => simp [hu] at h
    | some st' =>
      simp only [hu, Option.some.injEq] at h
      subst h
      exact mdns_service_preserves_inv hu hinv

/-- Every run keeps the rendezvous invariants. -/
theorem run_preserves_inv (acts : List Action) : ∀ {s s' : Sys}, run s acts = some s' →
    rendezvous_inv s → rendezvous_inv s' := by
  induction acts with
  | nil =>
    intro s s' h hinv
    simp only [run, Option.some.injEq] at h
    subst h
    exact hinv
  | cons a rest ih =>
    intro s s' h hinv
    simp only [run] at h
    cases hs : step s a with
    | none => simp [hs] at h
    | some s1 =>
      simp only [hs] at h
      exact ih h (step_preserves_inv hs hinv)

/-- The invariants hold once the window is initialised. -/
theorem init_inv (lua_version : String) (builder : Nat → Nat × Nat) :
    rendezvous_inv (Sys.init lua_version builder) := by
  refine ⟨?_, ?_, ?_⟩
  · simp [chart_new_inv, Sys.init, lxi_gui_window_init, text_view_add_buffer, g_idle_add,
      IdleItem.is_chart_new]
  · simp [save_csv_inv, Sys.init, lxi_gui_window_init, text_view_add_buffer, g_idle_add,
      IdleItem.is_save_csv]
  · simp [save_png_inv, Sys.init, lxi_gui_window_init, text_view_add_buffer, g_idle_add,
      IdleItem.is_save_png]

/-! ## Progress of the UI thread -/

theorem run_append (a b : List Action) : ∀ s : Sys,
    run s (a ++ b) = (run s a).bind (fun s1 => run s1 b) := by
  induction a with
  | nil => intro s; rfl
  | cons x rest ih =>
    intro s
    simp only [List.cons_append, run]
    cases step s x with
    | none => rfl
    | some s1 => exact ih s1

/-- The main loop can always run the item at the head of a queue that is not empty; the
worker and the record of returns are not touched, and after `n` turns the queue holds
what followed its first `n` items, and after that the error notices work items posted. -/
theorem ui_run_steps : ∀ (n : Nat) (s : Sys), n ≤ s.st.idle.length →
    ∃ s' : Sys, run s (List.replicate n Action.ui_run) = some s' ∧
      (∃ extra : List (Nat × IdleItem), s'.st.idle = s.st.idle.drop n ++ extra ∧
        ∀ p ∈ extra, p.2.is_show_error = true) ∧
      s'.worker = s.worker ∧ s'.outcomes = s.outcomes := by
  intro n
  induction n with
  | zero =>
    intro s _
    exact ⟨s, rfl, ⟨[], by simp, fun _ hp => absurd hp (List.not_mem_nil _)⟩, rfl, rfl⟩
  | succ n ih =>
    intro s hn
    cases hq : s.st.idle with
    | nil => rw [hq] at hn; simp at hn
    | cons p rest =>
      have hsome : ∃ st', ui_run s.st = some st' := by
        unfold ui_run
        rw [hq]
        exact ⟨_, rfl⟩
      obtain ⟨st', hst'⟩ := hsome
      obtain ⟨_, _, rest', hq', ⟨extra1, hidle, hex1⟩, _⟩ := ui_run_effect hst'
      rw [hq] at hq'
      have hrest : rest' = rest := by
        simp only [List.cons.injEq] at hq'
        exact hq'.2.symm
      rw [hrest] at hidle
      have hnr : n ≤ rest.length := by
        rw [hq] at hn
        simp at hn
        exact hn
      have hlen : n ≤ ({ s with st := st' } : Sys).st.idle.length := by
        show n ≤ st'.idle.length
        rw [hidle, List.length_append]
        omega
      obtain ⟨s', hrun, ⟨extra2, hl, hex2⟩, hw, ho⟩ := ih { s with st := st' } hlen
      refine ⟨s', ?_, ⟨List.drop (n - rest.length) extra1 ++ extra2, ?_, ?_⟩, hw, ho⟩
      · simp only [List.replicate_succ, run, step, hst']
        exact hrun
      · rw [hl]
        show List.drop n st'.idle ++ extra2 = _
        rw [hidle, List.drop_append_eq_append_drop]
        simp [List.append_assoc]
      · intro q hq2
        rcases List.mem_append.1 hq2 with h1 | h2
        · exact hex1 q (List.mem_of_mem_drop h1)
        · exact hex2 q h2

/-- After as many turns of the main loop as the queue was long, the queue holds error
notices only. -/
theorem ui_run_all (s : Sys) :
    ∃ s' : Sys, run s (List.replicate s.st.idle.length Action.ui_run) = some s' ∧
      (∀ p ∈ s'.st.idle, p.2.is_show_error = true) ∧
      s'.worker = s.worker ∧ s'.outcomes = s.outcomes := by
  obtain ⟨s', hrun, ⟨extra, hl, hex⟩, hw, ho⟩ := ui_run_steps s.st.idle.length s (le_refl _)
  refine ⟨s', hrun, ?_, hw, ho⟩
  rw [hl, List.drop_length, List.nil_append]
  exact hex

/-- A queue of error notices holds none of the rendezvous items. -/
theorem notices_filter (f : IdleItem → Bool) (q : List (Nat × IdleItem))
    (hf : ∀ item : IdleItem, item.is_show_error = true → f item = false)
    (hq : ∀ p ∈ q, p.2.is_show_error = true) :
    q.filter (fun p => f p.2) = [] := by
  have h := filter_append_notices f [] q hf hq
  simpa using h

/-! ## Chart creation rendezvous -/

/-- Claim C1: in every state reachable from the initialised window (where
`mutex_gui_chart` is held): a `chart_new` call posts its `gui_chart_new_thread` item and
then cannot pass its `g_mutex_lock` while the lock is held; when the worker waiting in
`chart_new` does resume, the lock had been released, no `gui_chart_new_thread` item is
queued any more, the item this call posted has run to completion and the window it built
for the slot has been presented; the call then returns the handle with the lock held
again; and the call does return once the UI thread has run its queue. -/
theorem chart_new_returns_after_window_presented (lua_version : String)
    (builder : Nat → Nat × Nat) (acts : List Action) (s : Sys)
    (hrun : run (Sys.init lua_version builder) acts = some s) :
    (∀ (L : lua_State) (s1 : Sys), step s (Action.call HostCall.chart_new L) = some s1 →
      ∃ chart source, s1.worker = Worker.in_chart_new chart source ∧
        s1.st.idle = s.st.idle ++ [(source, IdleItem.gui_chart_new_thread chart)] ∧
        s1.st.mutex_gui_chart = true ∧ s1.outcomes = s.outcomes ∧
        step s1 Action.worker_resume = none) ∧
    (∀ (chart : Fin CHARTS_MAX) (source : Nat) (s' : Sys),
      s.worker = Worker.in_chart_new chart source →
      step s Action.worker_resume = some s' →
        s.st.mutex_gui_chart = false ∧
        s.st.idle.filter (fun p => p.2.is_chart_new) = [] ∧
        source ∈ s.st.completed ∧
        (s.st.gui_chart chart).window ∈ s.st.presented ∧
        s'.st.mutex_gui_chart = true ∧
        s'.worker = Worker.running ∧
        s'.outcomes = s.outcomes ++
          [(HostCall.chart_new, lua_Outcome.returns [(chart.val : Int)])]) ∧
    (∀ (chart : Fin CHARTS_MAX) (source : Nat),
      s.worker = Worker.in_chart_new chart source →
      ∃ s' : Sys,
        run s (List.replicate s.st.idle.length Action.ui_run ++ [Action.worker_resume]) =
          some s' ∧
        s'.st.mutex_gui_chart = true ∧
        s'.worker = Worker.running ∧
        s'.outcomes = s.outcomes ++
          [(HostCall.chart_new, lua_Outcome.returns [(chart.val : Int)])]) := by
  have hinv := run_preserves_inv acts hrun (init_inv lua_version builder)
  refine ⟨?_, ?_, ?_⟩
  · intro L s1 hstep
    simp only [step] at hstep
    cases hw : s.worker with
    | running =>
      simp only [hw] at hstep
      obtain ⟨⟨m1, q1⟩, _, _⟩ := rendezvous_inv_running hinv hw
      obtain ⟨posted, hidle, hm1, _, _, _, _, _, _, _, hcase⟩ := host_call_effect hstep
      have hout : s1.outcomes = s.outcomes := by
        simp only [host_call, Option.map_eq_some'] at hstep
        obtain ⟨r, _, hs1⟩ := hstep
        rw [← hs1]
      have hw1 : ∃ chart source, s1.worker = Worker.in_chart_new chart source := by
        simp only [host_call, Option.map_eq_some'] at hstep
        obtain ⟨r, _, hs1⟩ := hstep
        exact ⟨r.2.1, r.2.2, by rw [← hs1]⟩
      obtain ⟨chart, source, hw1⟩ := hw1
      rcases hcase with ⟨hw', _⟩ | ⟨c, src, hw', hp⟩ | ⟨c, src, _, _, hw', _⟩ |
          ⟨c, src, _, _, hw', _⟩
      · rw [hw1, hw] at hw'
        cases hw'
      · refine ⟨c, src, hw', by rw [hidle, hp], by rw [hm1, m1], hout, ?_⟩
        simp [step, worker_resume, hw', hm1, m1]
      · rw [hw1] at hw'
        cases hw'
      · rw [hw1] at hw'
        cases hw'
    | in_chart_new _ _ => simp [hw] at hstep
    | in_chart_save_csv _ _ _ => simp [hw] at hstep
    | in_chart_save_png _ _ _ => simp [hw] at hstep
  · intro chart source s' hw hstep
    have h1 := hinv.chart_new
    unfold chart_new_inv at h1
    simp only [hw] at h1
    simp only [step, worker_resume, hw] at hstep
    split at hstep
    · simp at hstep
    · next hm =>
      simp only [Option.some.injEq] at hstep
      subst hstep
      rcases h1 with ⟨a, _⟩ | ⟨a, b, c, d⟩
      · exact absurd a hm
      · exact ⟨a, b, c, d, rfl, rfl, rfl⟩
  · intro chart source hw
    obtain ⟨s1, hrun1, hlen, hw1, ho1⟩ := ui_run_all s
    have hinv1 := run_preserves_inv _ hrun1 hinv
    have h1 := hinv1.chart_new
    unfold chart_new_inv at h1
    rw [hw] at hw1
    simp only [hw1] at h1
    have hnil : s1.st.idle.filter (fun p => p.2.is_chart_new) = [] :=
      notices_filter IdleItem.is_chart_new s1.st.idle
        (fun item hi => (show_error_is_plain item hi).1) hlen
    rw [hnil] at h1
    rcases h1 with ⟨_, b⟩ | ⟨a, _, _, _⟩
    · simp at b
    · refine ⟨{ st := { s1.st with mutex_gui_chart := true }
                worker := Worker.running
                outcomes := s1.outcomes ++
                  [(HostCall.chart_new, lua_Outcome.returns (lua_gui_chart_new_return chart))] },
        ?_, rfl, rfl, by rw [ho1]; rfl⟩
      rw [run_append, hrun1]
      simp [Option.bind, run, step, worker_resume, hw1, a]

/-- The statement of C1 at the state reached when the script has called
`chart_new("line", ...)` and the UI thread has run the two start-up items and the posted
`gui_chart_new_thread` item. -/
theorem chart_new_returns_after_window_presented_witness :
    ∃ s : Sys,
      run start_sys
        [Action.call HostCall.chart_new line_chart_args, Action.ui_run, Action.ui_run,
         Action.ui_run] = some s ∧
      s.worker = Worker.in_chart_new ⟨0, by decide⟩ 3 ∧
      (∀ (L : lua_State) (s1 : Sys), step s (Action.call HostCall.chart_new L) = some s1 →
        ∃ chart source, s1.worker = Worker.in_chart_new chart source ∧
          s1.st.idle = s.st.idle ++ [(source, IdleItem.gui_chart_new_thread chart)] ∧
          s1.st.mutex_gui_chart = true ∧ s1.outcomes = s.outcomes ∧
          step s1 Action.worker_resume = none) ∧
      (∀ (chart : Fin CHARTS_MAX) (source : Nat) (s' : Sys),
        s.worker = Worker.in_chart_new chart source →
        step s Action.worker_resume = some s' →
          s.st.mutex_gui_chart = false ∧
          s.st.idle.filter (fun p => p.2.is_chart_new) = [] ∧
          source ∈ s.st.completed ∧
          (s.st.gui_chart chart).window ∈ s.st.presented ∧
          s'.st.mutex_gui_chart = true ∧
          s'.worker = Worker.running ∧
          s'.outcomes = s.outcomes ++
            [(HostCall.chart_new, lua_Outcome.returns [(chart.val : Int)])]) ∧
      (∀ (chart : Fin CHARTS_MAX) (source : Nat),
        s.worker = Worker.in_chart_new chart source →
        ∃ s' : Sys,
          run s (List.replicate s.st.idle.length Action.ui_run ++ [Action.worker_resume]) =
            some s' ∧
          s'.st.mutex_gui_chart = true ∧
          s'.worker = Worker.running ∧
          s'.outcomes = s.outcomes ++
            [(HostCall.chart_new, lua_Outcome.returns [(chart.val : Int)])]) :=
  ⟨_, rfl, rfl,
    chart_new_returns_after_window_presented "Lua 5.4" fresh_objects
      [Action.call HostCall.chart_new line_chart_args, Action.ui_run, Action.ui_run,
       Action.ui_run] _ rfl⟩

/-! ## File save rendezvous -/

/-- Claim C9 (counterexample): `chart_save_csv(0, "chart.out")` and
`chart_save_png(0, "chart.out")` called on the initial table, where slot 0 is not
allocated, return at once: the call is over, no work item has run and no file has been
written. -/
theorem chart_save_unallocated_returns_at_once_counterexample :
    (run start_sys [Action.call HostCall.chart_save_csv (save_args 0)]).map
        (fun s => (s.outcomes, s.worker, s.st.saved, s.st.completed)) =
      some ([(HostCall.chart_save_csv, lua_Outcome.returns [])], Worker.running, [], []) ∧
    (run start_sys [Action.call HostCall.chart_save_png (save_args 0)]).map
        (fun s => (s.outcomes, s.worker, s.st.saved, s.st.completed)) =
      some ([(HostCall.chart_save_png, lua_Outcome.returns [])], Worker.running, [], []) := by
  refine ⟨by decide, by decide⟩

/-- A save call on an allocated slot posts its item and waits. -/
theorem chart_save_csv_call_waits {s s1 : Sys} {L : lua_State} {chart : Fin CHARTS_MAX}
    (hinv : rendezvous_inv s)
    (hidx : chart_index (c_int (L.tointeger 1)) = some chart)
    (halloc : (s.st.gui_chart chart).allocated = true)
    (hstep : step s (Action.call HostCall.chart_save_csv L) = some s1) :
    ∃ source, s1.worker = Worker.in_chart_save_csv chart (L.tostring 2) source ∧
      (source, IdleItem.gui_chart_save_csv_thread chart) ∈ s1.st.idle ∧
      s1.outcomes = s.outcomes ∧
      step s1 Action.worker_resume = none := by
  simp only [step] at hstep
  cases hw : s.worker with
  | running =>
    obtain ⟨_, ⟨m2, _⟩, _⟩ := rendezvous_inv_running hinv hw
    simp only [hw, host_call, lua_gui_chart_save_csv_post, hidx, halloc, if_true,
      Option.map_some', Option.some.injEq] at hstep
    subst hstep
    refine ⟨_, rfl, ?_, rfl, ?_⟩
    · simp [g_idle_add, text_view_add_buffer]
    · simp [step, worker_resume, g_idle_add, text_view_add_buffer, m2]
  | in_chart_new _ _ => simp [hw] at hstep
  | in_chart_save_csv _ _ _ => simp [hw] at hstep
  | in_chart_save_png _ _ _ => simp [hw] at hstep

/-- A save call on an allocated slot posts its item and waits. -/
theorem chart_save_png_call_waits {s s1 : Sys} {L : lua_State} {chart : Fin CHARTS_MAX}
    (hinv : rendezvous_inv s)
    (hidx : chart_index (c_int (L.tointeger 1)) = some chart)
    (halloc : (s.st.gui_chart chart).allocated = true)
    (hstep : step s (Action.call HostCall.chart_save_png L) = some s1) :
    ∃ source, s1.worker = Worker.in_chart_save_png chart (L.tostring 2) source ∧
      (source, IdleItem.gui_chart_save_png_thread chart) ∈ s1.st.idle ∧
      s1.outcomes = s.outcomes ∧
      step s1 Action.worker_resume = none := by
  simp only [step] at hstep
  cases hw : s.worker with
  | running =>
    obtain ⟨_, _, ⟨m3, _⟩⟩ := rendezvous_inv_running hinv hw
    simp only [hw, host_call, lua_gui_chart_save_png_post, hidx, halloc, if_true,
      Option.map_some', Option.some.injEq] at hstep
    subst hstep
    refine ⟨_, rfl, ?_, rfl, ?_⟩
    · simp [g_idle_add, text_view_add_buffer]
    · simp [step, worker_resume, g_idle_add, text_view_add_buffer, m3]
  | in_chart_new _ _ => simp [hw] at hstep
  | in_chart_save_csv _ _ _ => simp [hw] at hstep
  | in_chart_save_png _ _ _ => simp [hw] at hstep

/-- Claim C9 (amended): in every state reachable from the initialised window, a
`chart_save_csv` or `chart_save_png` call whose handle names an allocated slot posts its
save item and cannot pass its `g_mutex_lock` while the lock is held; when the waiting
worker resumes, the item it posted has run to completion on the UI thread and the chart
widget of the slot has written the file named in the call; the call then returns with
the lock held again; and it does return once the UI thread has run its queue. -/
theorem chart_save_returns_after_file_written (lua_version : String)
    (builder : Nat → Nat × Nat) (acts : List Action) (s : Sys)
    (hrun : run (Sys.init lua_version builder) acts = some s) :
    (∀ (L : lua_State) (chart : Fin CHARTS_MAX) (s1 : Sys),
      chart_index (c_int (L.tointeger 1)) = some chart →
      (s.st.gui_chart chart).allocated = true →
      step s (Action.call HostCall.chart_save_csv L) = some s1 →
      ∃ source, s1.worker = Worker.in_chart_save_csv chart (L.tostring 2) source ∧
        (source, IdleItem.gui_chart_save_csv_thread chart) ∈ s1.st.idle ∧
        s1.outcomes = s.outcomes ∧
        step s1 Action.worker_resume = none) ∧
    (∀ (chart : Fin CHARTS_MAX) (filename : Option String) (source : Nat) (s' : Sys),
      s.worker = Worker.in_chart_save_csv chart filename source →
      step s Action.worker_resume = some s' →
        s.st.mutex_save_csv = false ∧
        source ∈ s.st.completed ∧
        { widget := (s.st.gui_chart chart).widget, csv := true, filename := filename } ∈
          s.st.saved ∧
        s'.st.mutex_save_csv = true ∧
        s'.worker = Worker.running ∧
        s'.outcomes = s.outcomes ++ [(HostCall.chart_save_csv, lua_Outcome.returns [])]) ∧
    (∀ (chart : Fin CHARTS_MAX) (filename : Option String) (source : Nat),
      s.worker = Worker.in_chart_save_csv chart filename source →
      ∃ s' : Sys,
        run s (List.replicate s.st.idle.length Action.ui_run ++ [Action.worker_resume]) =
          some s' ∧
        s'.worker = Worker.running ∧
        s'.outcomes = s.outcomes ++ [(HostCall.chart_save_csv, lua_Outcome.returns [])]) ∧
    (∀ (L : lua_State) (chart : Fin CHARTS_MAX) (s1 : Sys),
      chart_index (c_int (L.tointeger 1)) = some chart →
      (s.st.gui_chart chart).allocated = true →
      step s (Action.call HostCall.chart_save_png L) = some s1 →
      ∃ source, s1.worker = Worker.in_chart_save_png chart (L.tostring 2) source ∧
        (source, IdleItem.gui_chart_save_png_thread chart) ∈ s1.st.idle ∧
        s1.outcomes = s.outcomes ∧
        step s1 Action.worker_resume = none) ∧
    (∀ (chart : Fin CHARTS_MAX) (filename : Option String) (source : Nat) (s' : Sys),
      s.worker = Worker.in_chart_save_png chart filename source →
      step s Action.worker_resume = some s' →
        s.st.mutex_save_png = false ∧
        source ∈ s.st.completed ∧
        { widget := (s.st.gui_chart chart).widget, csv := false, filename := filename } ∈
          s.st.saved ∧
        s'.st.mutex_save_png = true ∧
        s'.worker = Worker.running ∧
        s'.outcomes = s.outcomes ++ [(HostCall.chart_save_png, lua_Outcome.returns [])]) ∧
    (∀ (chart : Fin CHARTS_MAX) (filename : Option String) (source : Nat),
      s.worker = Worker.in_chart_save_png chart filename source →
      ∃ s' : Sys,
        run s (List.replicate s.st.idle.length Action.ui_run ++ [Action.worker_resume]) =
          some s' ∧
        s'.worker = Worker.running ∧
        s'.outcomes = s.outcomes ++ [(HostCall.chart_save_png, lua_Outcome.returns [])]) := by
  have hinv := run_preserves_inv acts hrun (init_inv lua_version builder)
  refine ⟨?_, ?_, ?_, ?_, ?_, ?_⟩
  · intro L chart s1 hidx halloc hstep
    exact chart_save_csv_call_waits hinv hidx halloc hstep
  · intro chart filename source s' hw hstep
    have h2 := hinv.save_csv
    unfold save_csv_inv at h2
    simp only [hw] at h2
    simp only [step, worker_resume, hw] at hstep
    split at hstep
    · simp at hstep
    · next hm =>
      simp only [Option.some.injEq] at hstep
      subst hstep
      rcases h2 with ⟨a, _⟩ | ⟨a, _, c, d⟩
      · exact absurd a hm
      · exact ⟨a, c, d, rfl, rfl, rfl⟩
  · intro chart filename source hw
    obtain ⟨s1, hrun1, hlen, hw1, ho1⟩ := ui_run_all s
    have hinv1 := run_preserves_inv _ hrun1 hinv
    have h2 := hinv1.save_csv
    unfold save_csv_inv at h2
    rw [hw] at hw1
    simp only [hw1] at h2
    have hnil : s1.st.idle.filter (fun p => p.2.is_save_csv) = [] :=
      notices_filter IdleItem.is_save_csv s1.st.idle
        (fun item hi => (show_error_is_plain item hi).2.1) hlen
    rw [hnil] at h2
    rcases h2 with ⟨_, b, _⟩ | ⟨a, _, _, _⟩
    · simp at b
    · refine ⟨{ st := { s1.st with mutex_save_csv := true }
                worker := Worker.running
                outcomes := s1.outcomes ++
                  [(HostCall.chart_save_csv, lua_Outcome.returns [])] },
        ?_, rfl, by rw [ho1]⟩
      rw [run_append, hrun1]
      simp [Option.bind, run, step, worker_resume, hw1, a]
  · intro L chart s1 hidx halloc hstep
    exact chart_save_png_call_waits hinv hidx halloc hstep
  · intro chart filename source s' hw hstep
    have h3 := hinv.save_png
    unfold save_png_inv at h3
    simp only [hw] at h3
    simp only [step, worker_resume, hw] at hstep
    split at hstep
    · simp at hstep
    · next hm =>
      simp only [Option.some.injEq] at hstep
      subst hstep
      rcases h3 with ⟨a, _⟩ | ⟨a, _, c, d⟩
      · exact absurd a hm
      · exact ⟨a, c, d, rfl, rfl, rfl⟩
  · intro chart filename source hw
    obtain ⟨s1, hrun1, hlen, hw1, ho1⟩ := ui_run_all s
    have hinv1 := run_preserves_inv _ hrun1 hinv
    have h3 := hinv1.save_png
    unfold save_png_inv at h3
    rw [hw] at hw1
    simp only [hw1] at h3
    have hnil : s1.st.idle.filter (fun p => p.2.is_save_png) = [] :=
      notices_filter IdleItem.is_save_png s1.st.idle
        (fun item hi => (show_error_is_plain item hi).2.2.1) hlen
    rw [hnil] at h3
    rcases h3 with ⟨_, b, _⟩ | ⟨a, _, _, _⟩
    · simp at b
    · refine ⟨{ st := { s1.st with mutex_save_png := true }
                worker := Worker.running
                outcomes := s1.outcomes ++
                  [(HostCall.chart_save_png, lua_Outcome.returns [])] },
        ?_, rfl, by rw [ho1]⟩
      rw [run_append, hrun1]
      simp [Option.bind, run, step, worker_resume, hw1, a]

/-- The amended statement of C9 at the state reached when the script has created a chart
in slot 0 and then called `chart_save_csv(0, "chart.out")`. -/
theorem chart_save_returns_after_file_written_witness :
    ∃ s : Sys,
      run start_sys
        [Action.call HostCall.chart_new line_chart_args, Action.ui_run, Action.ui_run,
         Action.ui_run, Action.worker_resume,
         Action.call HostCall.chart_save_csv (save_args 0)] = some s ∧
      s.worker = Worker.in_chart_save_csv ⟨0, by decide⟩ (some "chart.out") 5 ∧
      (∀ (L : lua_State) (chart : Fin CHARTS_MAX) (s1 : Sys),
        chart_index (c_int (L.tointeger 1)) = some chart →
        (s.st.gui_chart chart).allocated = true →
        step s (Action.call HostCall.chart_save_csv L) = some s1 →
        ∃ source, s1.worker = Worker.in_chart_save_csv chart (L.tostring 2) source ∧
          (source, IdleItem.gui_chart_save_csv_thread chart) ∈ s1.st.idle ∧
          s1.outcomes = s.outcomes ∧
          step s1 Action.worker_resume = none) ∧
      (∀ (chart : Fin CHARTS_MAX) (filename : Option String) (source : Nat) (s' : Sys),
        s.worker = Worker.in_chart_save_csv chart filename source →
        step s Action.worker_resume = some s' →
          s.st.mutex_save_csv = false ∧
          source ∈ s.st.completed ∧
          { widget := (s.st.gui_chart chart).widget, csv := true, filename := filename } ∈
            s.st.saved ∧
          s'.st.mutex_save_csv = true ∧
          s'.worker = Worker.running ∧
          s'.outcomes = s.outcomes ++ [(HostCall.chart_save_csv, lua_Outcome.returns [])]) ∧
      (∀ (chart : Fin CHARTS_MAX) (filename : Option String) (source : Nat),
        s.worker = Worker.in_chart_save_csv chart filename source →
        ∃ s' : Sys,
          run s (List.replicate s.st.idle.length Action.ui_run ++ [Action.worker_resume]) =
            some s' ∧
          s'.worker = Worker.running ∧
          s'.outcomes = s.outcomes ++ [(HostCall.chart_save_csv, lua_Outcome.returns [])]) ∧
      (∀ (L : lua_State) (chart : Fin CHARTS_MAX) (s1 : Sys),
        chart_index (c_int (L.tointeger 1)) = some chart →
        (s.st.gui_chart chart).allocated = true →
        step s (Action.call HostCall.chart_save_png L) = some s1 →
        ∃ source, s1.worker = Worker.in_chart_save_png chart (L.tostring 2) source ∧
          (source, IdleItem.gui_chart_save_png_thread chart) ∈ s1.st.idle ∧
          s1.outcomes = s.outcomes ∧
          step s1 Action.worker_resume = none) ∧
      (∀ (chart : Fin CHARTS_MAX) (filename : Option String) (source : Nat) (s' : Sys),
        s.worker = Worker.in_chart_save_png chart filename source →
        step s Action.worker_resume = some s' →
          s.st.mutex_save_png = false ∧
          source ∈ s.st.completed ∧
          { widget := (s.st.gui_chart chart).widget, csv := false, filename := filename } ∈
            s.st.saved ∧
          s'.st.mutex_save_png = true ∧
          s'.worker = Worker.running ∧
          s'.outcomes = s.outcomes ++ [(HostCall.chart_save_png, lua_Outcome.returns [])]) ∧
      (∀ (chart : Fin CHARTS_MAX) (filename : Option String) (source : Nat),
        s.worker = Worker.in_chart_save_png chart filename source →
        ∃ s' : Sys,
          run s (List.replicate s.st.idle.length Action.ui_run ++ [Action.worker_resume]) =
            some s' ∧
          s'.worker = Worker.running ∧
          s'.outcomes = s.outcomes ++ [(HostCall.chart_save_png, lua_Outcome.returns [])]) :=
  ⟨_, rfl, rfl,
    chart_save_returns_after_file_written "Lua 5.4" fresh_objects
      [Action.call HostCall.chart_new line_chart_args, Action.ui_run, Action.ui_run,
       Action.ui_run, Action.worker_resume,
       Action.call HostCall.chart_save_csv (save_args 0)] _ rfl⟩

/-! ## Release happens only through the destroy handler -/

/-- The release loop changes the flag only of a slot that records the widget. -/
theorem chart_destroyed_cb_loop_changed (widget : Nat) (t : ChartTable) :
    ∀ (fuel handle : Nat) (j : Fin CHARTS_MAX),
      (chart_destroyed_cb_loop widget fuel handle t j).allocated ≠ (t j).allocated →
      (t j).widget = widget := by
  intro fuel
  induction fuel with
  | zero =>
    intro handle j h
    simp [chart_destroyed_cb_loop] at h
  | succ fuel ih =>
    intro handle j h
    rw [chart_destroyed_cb_loop] at h
    split at h
    · next hlt =>
      split at h
      · next hw =>
        by_cases hj : j = ⟨handle, hlt⟩
        · subst hj
          exact hw
        · rw [Function.update_noteq hj] at h
          exact absurd rfl h
      · exact ih (handle + 1) j h
    · exact absurd rfl h

/-- A flag cleared during signal emission belongs to a slot whose widget is among the
destroyed ones. -/
theorem emit_destroy_cleared (widgets : List Nat) : ∀ (s : State) (j : Fin CHARTS_MAX),
    (s.gui_chart j).allocated = true →
    ((emit_destroy s widgets).gui_chart j).allocated = false →
    (s.gui_chart j).widget ∈ widgets := by
  induction widgets with
  | nil =>
    intro s j h1 h2
    simp only [emit_destroy, List.foldl_nil] at h2
    rw [h1] at h2
    cases h2
  | cons w ws ih =>
    intro s j h1 h2
    have hstep : emit_destroy s (w :: ws) = emit_destroy
        { s with gui_chart := chart_destroyed_cb s.gui_chart w
                 destroyed := s.destroyed ++ [w] } ws := by
      simp [emit_destroy]
    rw [hstep] at h2
    by_cases hc : (chart_destroyed_cb s.gui_chart w j).allocated = true
    · have hmem := ih _ j hc h2
      have hfr := (chart_destroyed_cb_loop_frame w s.gui_chart CHARTS_MAX 0 j).2
      have hwid : (chart_destroyed_cb s.gui_chart w j).widget = (s.gui_chart j).widget := by
        unfold chart_destroyed_cb
        rw [hfr]
      simp only at hmem
      rw [hwid] at hmem
      exact List.mem_cons_of_mem _ hmem
    · have hne : (chart_destroyed_cb_loop w CHARTS_MAX 0 s.gui_chart j).allocated ≠
          (s.gui_chart j).allocated := by
        rw [h1]
        exact hc
      rw [chart_destroyed_cb_loop_changed w s.gui_chart CHARTS_MAX 0 j hne]
      exact List.mem_cons_self _ _

/-- The statements of a work item leave every `allocated` flag as it is; a work item
other than `gui_chart_close_thread` destroys no widget, and `gui_chart_close_thread`
leaves the table as it is. -/
theorem idle_body_allocated (s : State) (item : IdleItem) :
    (∀ j, ((idle_body s item).1.gui_chart j).allocated = (s.gui_chart j).allocated) ∧
    (idle_body s item).1.destroyed = s.destroyed ∧
    ((idle_body s item).2 = [] ∨ (idle_body s item).1.gui_chart = s.gui_chart) := by
  by_cases hci : item.is_chart_item = false
  · obtain ⟨⟨f1, _, _, _, _, _, f7, _⟩, f9⟩ := idle_body_chart_frame s item hci
    exact ⟨fun j => by rw [f1], f7, Or.inl f9⟩
  cases item with
  | gui_chart_new_thread chart =>
    refine ⟨?_, rfl, Or.inl rfl⟩
    intro j
    simp only [idle_body, gui_chart_new_thread]
    by_cases hj : j = chart
    · subst hj; simp
    · simp [Function.update_noteq hj]
  | gui_chart_plot_thread chart => exact ⟨fun _ => rfl, rfl, Or.inl rfl⟩
  | gui_chart_set_value_thread chart => exact ⟨fun _ => rfl, rfl, Or.inl rfl⟩
  | gui_chart_close_thread window => exact ⟨fun _ => rfl, rfl, Or.inr rfl⟩
  | gui_chart_save_csv_thread chart => exact ⟨fun _ => rfl, rfl, Or.inl rfl⟩
  | gui_chart_save_png_thread chart => exact ⟨fun _ => rfl, rfl, Or.inl rfl⟩
  | _ => exact absurd rfl hci

/-- A flag cleared by signal emission after the statements of a work item, or after a
window close, belongs to a slot whose widget was destroyed. -/
theorem emit_after_body_cleared (s b : State) (widgets : List Nat) (j : Fin CHARTS_MAX)
    (hb : ∀ j, (b.gui_chart j).allocated = (s.gui_chart j).allocated)
    (hd : b.destroyed = s.destroyed)
    (hw : widgets = [] ∨ b.gui_chart = s.gui_chart)
    (h1 : (s.gui_chart j).allocated = true)
    (h2 : ((emit_destroy b widgets).gui_chart j).allocated = false) :
    ∃ d, (emit_destroy b widgets).destroyed = s.destroyed ++ d ∧ (s.gui_chart j).widget ∈ d := by
  obtain ⟨t, d, he, hdw, _, _⟩ := emit_destroy_eq widgets b
  have hmem := emit_destroy_cleared widgets b j (by rw [hb j]; exact h1) h2
  refine ⟨widgets, by rw [he, hdw, hd], ?_⟩
  rcases hw with hw | hw
  · rw [hw] at hmem
    cases hmem
  · rw [hw] at hmem
    exact hmem

/-- Claim C8: an `allocated` flag goes from true to false only through the destroy
handler.  The six host functions keep every flag that is set; the wait of a host
function changes no slot; the statements of every work item leave every flag as it is;
whenever a step of the system clears the flag of a slot, `chart_destroyed_cb` ran in that
step for the widget recorded in the slot; and `chart_close` itself leaves the whole table
unchanged. -/
theorem allocated_cleared_only_by_destroy_handler :
    (∀ (s s' : Sys) (f : HostCall) (L : lua_State), host_call s f L = some s' →
      ∀ j, (s.st.gui_chart j).allocated = true → (s'.st.gui_chart j).allocated = true) ∧
    (∀ (s s' : Sys), worker_resume s = some s' → s'.st.gui_chart = s.st.gui_chart) ∧
    (∀ (s : State) (item : IdleItem) (j : Fin CHARTS_MAX),
      ((idle_body s item).1.gui_chart j).allocated = (s.gui_chart j).allocated) ∧
    (∀ (s s' : Sys) (a : Action) (j : Fin CHARTS_MAX), step s a = some s' →
      (s.st.gui_chart j).allocated = true → (s'.st.gui_chart j).allocated = false →
      ∃ d, s'.st.destroyed = s.st.destroyed ++ d ∧ (s.st.gui_chart j).widget ∈ d) ∧
    (∀ (s s' : State) (L : lua_State), lua_gui_chart_close s L = some s' →
      s'.gui_chart = s.gui_chart) := by
  have hresume : ∀ (s s' : Sys), worker_resume s = some s' →
      s'.st.gui_chart = s.st.gui_chart ∧ s'.st.destroyed = s.st.destroyed := by
    intro s s' h
    unfold worker_resume at h
    cases hw : s.worker with
    | running => simp [hw] at h
    | in_chart_new _ _ =>
      simp only [hw] at h
      split at h
      · simp at h
      · simp only [Option.some.injEq] at h
        subst h
        exact ⟨rfl, rfl⟩
    | in_chart_save_csv _ _ _ =>
      simp only [hw] at h
      split at h
      · simp at h
      · simp only [Option.some.injEq] at h
        subst h
        exact ⟨rfl, rfl⟩
    | in_chart_save_png _ _ _ =>
      simp only [hw] at h
      split at h
      · simp at h
      · simp only [Option.some.injEq] at h
        subst h
        exact ⟨rfl, rfl⟩
  refine ⟨?_, fun s s' h => (hresume s s' h).1, fun s item j => (idle_body_allocated s item).1 j,
    ?_, ?_⟩
  · intro s s' f L h
    obtain ⟨_, _, _, _, _, _, _, _, _, hkeep, _⟩ := host_call_effect h
    exact hkeep
  · intro s s' a j h h1 h2
    cases a with
    | call f L =>
      simp only [step] at h
      cases hw : s.worker with
      | running =>
        simp only [hw] at h
        obtain ⟨_, _, _, _, _, _, _, _, _, hkeep, _⟩ := host_call_effect h
        rw [hkeep j h1] at h2
        cases h2
      | in_chart_new _ _ => simp [hw] at h
      | in_chart_save_csv _ _ _ => simp [hw] at h
      | in_chart_save_png _ _ _ => simp [hw] at h
    | worker_resume =>
      simp only [step] at h
      rw [(hresume s s' h).1, h1] at h2
      cases h2
    | ui_run =>
      simp only [step] at h
      cases hu : ui_run s.st with
      | none => simp [hu] at h
      | some st' =>
        simp only [hu, Option.some.injEq] at h
        subst h
        unfold ui_run at hu
        cases hq : s.st.idle with
        | nil => simp [hq] at hu
        | cons p rest =>
          simp only [hq, Option.some.injEq] at hu
          subst hu
          obtain ⟨hb, hd, hw⟩ := idle_body_allocated { s.st with idle := rest } p.2
          exact emit_after_body_cleared s.st _ _ j hb hd hw h1 h2
    | close_window window =>
      simp only [step, Option.some.injEq] at h
      subst h
      exact emit_after_body_cleared s.st _ _ j (fun _ => rfl) rfl (Or.inr rfl) h1 h2
    | mdns_service address id =>
      simp only [step] at h
      cases hu : mdns_service s.st address id with
      | none => simp [hu] at h
      | some st' =>
        simp only [hu, Option.some.injEq] at h
        subst h
        unfold mdns_service at hu
        split at hu
        · simp at hu
        · simp only [] at hu
          split at hu
          · simp only [Option.some.injEq] at hu
            subst hu
            simp only [h1] at h2
            cases h2
          · simp only [Option.some.injEq] at hu
            subst hu
            simp only [list_add_instrument, g_idle_add, h1] at h2
            cases h2
  · intro s s' L h
    unfold lua_gui_chart_close at h
    cases hidx : chart_index (c_int (L.tointeger 1)) with
    | none => simp [hidx] at h
    | some chart =>
      simp only [hidx] at h
      split at h
      · simp only [g_idle_add, Option.some.injEq] at h
        subst h
        rfl
      · simp only [Option.some.injEq] at h
        subst h
        rfl

/-- The fourth part of C8 at the step in which the user closes the window of the chart
in slot 0: the flag of slot 0 is cleared, and the destroy handler ran for its widget. -/
theorem allocated_cleared_only_by_destroy_handler_witness :
    ∃ s s' : Sys,
      run start_sys
        [Action.call HostCall.chart_new line_chart_args, Action.ui_run, Action.ui_run,
         Action.ui_run, Action.worker_resume] = some s ∧
      step s (Action.close_window 1) = some s' ∧
      (s.st.gui_chart ⟨0, by decide⟩).allocated = true ∧
      (s'.st.gui_chart ⟨0, by decide⟩).allocated = false ∧
      ∃ d, s'.st.destroyed = s.st.destroyed ++ d ∧
        (s.st.gui_chart ⟨0, by decide⟩).widget ∈ d := by
  refine ⟨_, _, rfl, rfl, by decide, by decide, ?_⟩
  exact allocated_cleared_only_by_destroy_handler.2.2.2.1 _ _ (Action.close_window 1)
    ⟨0, by decide⟩ rfl (by decide) (by decide)

/-! ## Script stop hook -/

/-- Once the stop flag is set, no event of the run makes a line begin, and the flag stays
set. -/
theorem script_run_stopped (events : List RunEvent) : ∀ r : ScriptRun,
    r.st.lua_stop_requested = true →
    (script_run r events).executed = r.executed ∧
    (script_run r events).st.lua_stop_requested = true := by
  induction events with
  | nil =>
    intro r h
    exact ⟨rfl, h⟩
  | cons e rest ih =>
    intro r h
    have hstep : (script_run_step r e).executed = r.executed ∧
        (script_run_step r e).st.lua_stop_requested = true := by
      cases e with
      | stop_clicked => exact ⟨rfl, rfl⟩
      | hook event line =>
        unfold script_run_step lua_line_hook
        by_cases hev : event = LUA_HOOKLINE
        · simp [hev, h]
        · simp [hev, h]
    have hrest := ih (script_run_step r e) hstep.2
    simp only [script_run, List.foldl_cons] at hrest ⊢
    exact ⟨by rw [hrest.1, hstep.1], hrest.2⟩

/-- The first error raised in a run stays the error of the run. -/
theorem script_run_error_stays (events : List RunEvent) : ∀ (r : ScriptRun) (message : String),
    r.error = some message → (script_run r events).error = some message := by
  induction events with
  | nil =>
    intro r message h
    exact h
  | cons e rest ih =>
    intro r message h
    have hstep : (script_run_step r e).error = some message := by
      cases e with
      | stop_clicked => exact h
      | hook event line =>
        unfold script_run_step
        cases hh : lua_line_hook r.st event with
        | error m => simp [hh, h]
        | ok u =>
          simp only [hh]
          split
          · exact h
          · exact h
    have hrest := ih (script_run_step r e) message hstep
    simp only [script_run, List.foldl_cons] at hrest ⊢
    exact hrest

/-- Claim C10: called for a line event, `lua_line_hook` raises an error if and only if
`lua_stop_requested` is set, and the error is the fixed message "Stopped by user";
called for any other event it never raises; hence in a script run, whatever the events
before and after the click on the stop button, no line begins executing after the click,
and the flag stays set to the end of the run; and when no error was raised before the
click, the run ends with the error "Stopped by user" as soon as the interpreter comes to
the next line. -/
theorem lua_line_hook_stops_on_request :
    (∀ s : State, (∃ message, lua_line_hook s LUA_HOOKLINE = Except.error message) ↔
      s.lua_stop_requested = true) ∧
    (∀ (s : State) (message : String), lua_line_hook s LUA_HOOKLINE = Except.error message →
      message = "Stopped by user") ∧
    (∀ (s : State) (event : Int), event ≠ LUA_HOOKLINE →
      lua_line_hook s event = Except.ok ()) ∧
    (∀ (r : ScriptRun) (before after : List RunEvent),
      (script_run r (before ++ RunEvent.stop_clicked :: after)).executed =
        (script_run r before).executed ∧
      (script_run r (before ++ RunEvent.stop_clicked :: after)).st.lua_stop_requested = true) ∧
    (∀ (r : ScriptRun) (before after : List RunEvent) (line : Nat),
      (script_run r before).error = none →
      (script_run r
        (before ++ RunEvent.stop_clicked :: RunEvent.hook LUA_HOOKLINE line :: after)).error =
        some "Stopped by user") := by
  refine ⟨?_, ?_, ?_, ?_, ?_⟩
  · intro s
    unfold lua_line_hook
    cases hs : s.lua_stop_requested with
    | true => simp
    | false => simp
  · intro s message h
    unfold lua_line_hook at h
    cases hs : s.lua_stop_requested with
    | true =>
      simp only [hs, if_true] at h
      cases h
      rfl
    | false => simp [hs] at h
  · intro s event hev
    unfold lua_line_hook
    rw [if_neg hev]
  · intro r before after
    have h := script_run_stopped after
      (script_run_step (script_run r before) RunEvent.stop_clicked) rfl
    simp only [script_run, List.foldl_append, List.foldl_cons] at h ⊢
    exact h
  · intro r before after line hnone
    have hstep : (script_run_step
        (script_run_step (script_run r before) RunEvent.stop_clicked)
        (RunEvent.hook LUA_HOOKLINE line)).error = some "Stopped by user" := by
      simp [script_run_step, lua_line_hook, button_clicked_script_stop, hnone]
    have h := script_run_error_stays after _ _ hstep
    simp only [script_run, List.foldl_append, List.foldl_cons] at h ⊢
    exact h

/-- A run of three lines in which the stop button is clicked while line 2 executes: lines
1 and 2 began, line 3 did not, and the run ended with the error "Stopped by user". -/
theorem lua_line_hook_stops_on_request_witness :
    (script_run { st := start_state, executed := [], error := none }
      [RunEvent.hook LUA_HOOKLINE 1, RunEvent.hook LUA_HOOKLINE 2] ).error = none ∧
    (script_run { st := start_state, executed := [], error := none }
      ([RunEvent.hook LUA_HOOKLINE 1, RunEvent.hook LUA_HOOKLINE 2] ++
        RunEvent.stop_clicked :: RunEvent.hook LUA_HOOKLINE 3 :: [])).error =
      some "Stopped by user" ∧
    (script_run { st := start_state, executed := [], error := none }
      ([RunEvent.hook LUA_HOOKLINE 1, RunEvent.hook LUA_HOOKLINE 2] ++
        RunEvent.stop_clicked :: RunEvent.hook LUA_HOOKLINE 3 :: [])).executed = [1, 2] :=
  ⟨rfl,
    lua_line_hook_stops_on_request.2.2.2.2 { st := start_state, executed := [], error := none }
      [RunEvent.hook LUA_HOOKLINE 1, RunEvent.hook LUA_HOOKLINE 2] [] 3 rfl,
    by decide⟩

/-! ## Discovery list -/

/-- No entries are the first-seen list of no notifications: the four properties (distinct
identifiers, the identifiers notified, order of first occurrence, address of the first
occurrence) hold of the empty lists. -/
theorem first_seen_nil :
    (([] : List (String × String)).map Prod.snd).Nodup ∧
    (∀ id, id ∈ ([] : List (String × String)).map Prod.snd ↔
      id ∈ ([] : List (String × String)).map Prod.snd) ∧
    ([] : List (String × String)).Pairwise (fun p q =>
      List.indexOf p.2 (([] : List (String × String)).map Prod.snd) <
        List.indexOf q.2 (([] : List (String × String)).map Prod.snd)) ∧
    (∀ e ∈ ([] : List (String × String)),
      ([] : List (String × String)).find? (fun n => decide (n.2 = e.2)) = some e) := by
  simp

/-- The four first-seen properties are kept when a notification with a known identifier
arrives and the entries stay as they are. -/
theorem first_seen_snoc_old (es ns : List (String × String)) (n : String × String)
    (h : (es.map Prod.snd).Nodup ∧
      (∀ id, id ∈ es.map Prod.snd ↔ id ∈ ns.map Prod.snd) ∧
      es.Pairwise (fun p q =>
        List.indexOf p.2 (ns.map Prod.snd) < List.indexOf q.2 (ns.map Prod.snd)) ∧
      (∀ e ∈ es, ns.find? (fun m => decide (m.2 = e.2)) = some e))
    (hmem : n.2 ∈ es.map Prod.snd) :
    (es.map Prod.snd).Nodup ∧
      (∀ id, id ∈ es.map Prod.snd ↔ id ∈ (ns ++ [n]).map Prod.snd) ∧
      es.Pairwise (fun p q =>
        List.indexOf p.2 ((ns ++ [n]).map Prod.snd) <
          List.indexOf q.2 ((ns ++ [n]).map Prod.snd)) ∧
      (∀ e ∈ es, (ns ++ [n]).find? (fun m => decide (m.2 = e.2)) = some e) := by
  obtain ⟨hnd, hiff, hpw, hfind⟩ := h
  refine ⟨hnd, ?_, ?_, ?_⟩
  · intro id
    rw [hiff id]
    simp only [List.map_append, List.map_cons, List.map_nil, List.mem_append,
      List.mem_singleton]
    constructor
    · exact Or.inl
    · rintro (h | h)
      · exact h
      · rw [h]
        exact (hiff _).1 hmem
  · have hidx : ∀ e ∈ es, List.indexOf e.2 ((ns ++ [n]).map Prod.snd) =
        List.indexOf e.2 (ns.map Prod.snd) := by
      intro e he
      rw [List.map_append]
      exact List.indexOf_append_of_mem ((hiff _).1 (List.mem_map_of_mem _ he))
    refine List.Pairwise.imp_of_mem ?_ hpw
    intro p q hp hq hlt
    rw [hidx p hp, hidx q hq]
    exact hlt
  · intro e he
    rw [List.find?_append, hfind e he]
    rfl

/-- The four first-seen properties are kept when a notification with a new identifier
arrives and becomes the last entry. -/
theorem first_seen_snoc_new (es ns : List (String × String)) (n : String × String)
    (h : (es.map Prod.snd).Nodup ∧
      (∀ id, id ∈ es.map Prod.snd ↔ id ∈ ns.map Prod.snd) ∧
      es.Pairwise (fun p q =>
        List.indexOf p.2 (ns.map Prod.snd) < List.indexOf q.2 (ns.map Prod.snd)) ∧
      (∀ e ∈ es, ns.find? (fun m => decide (m.2 = e.2)) = some e))
    (hnew : n.2 ∉ es.map Prod.snd) :
    ((es ++ [n]).map Prod.snd).Nodup ∧
      (∀ id, id ∈ (es ++ [n]).map Prod.snd ↔ id ∈ (ns ++ [n]).map Prod.snd) ∧
      (es ++ [n]).Pairwise (fun p q =>
        List.indexOf p.2 ((ns ++ [n]).map Prod.snd) <
          List.indexOf q.2 ((ns ++ [n]).map Prod.snd)) ∧
      (∀ e ∈ es ++ [n], (ns ++ [n]).find? (fun m => decide (m.2 = e.2)) = some e) := by
  obtain ⟨hnd, hiff, hpw, hfind⟩ := h
  have hnew' : n.2 ∉ ns.map Prod.snd := fun hc => hnew ((hiff _).2 hc)
  have hidx : ∀ e ∈ es, List.indexOf e.2 ((ns ++ [n]).map Prod.snd) =
      List.indexOf e.2 (ns.map Prod.snd) := by
    intro e he
    rw [List.map_append]
    exact List.indexOf_append_of_mem ((hiff _).1 (List.mem_map_of_mem _ he))
  refine ⟨?_, ?_, ?_, ?_⟩
  · rw [List.map_append, List.nodup_append]
    refine ⟨hnd, by simp, ?_⟩
    intro x hx hx'
    simp only [List.map_cons, List.map_nil, List.mem_singleton] at hx'
    rw [hx'] at hx
    exact hnew hx
  · intro id
    simp only [List.map_append, List.map_cons, List.map_nil, List.mem_append,
      List.mem_singleton]
    rw [hiff id]
  · rw [List.pairwise_append]
    refine ⟨?_, by simp, ?_⟩
    · refine List.Pairwise.imp_of_mem ?_ hpw
      intro p q hp hq hlt
      rw [hidx p hp, hidx q hq]
      exact hlt
    · intro p hp q hq
      simp only [List.mem_singleton] at hq
      subst hq
      rw [hidx p hp]
      have h1 : List.indexOf p.2 (ns.map Prod.snd) < (ns.map Prod.snd).length :=
        List.indexOf_lt_length.2 ((hiff _).1 (List.mem_map_of_mem _ hp))
      have h2 : List.indexOf q.2 ((ns ++ [q]).map Prod.snd) =
          (ns.map Prod.snd).length + List.indexOf q.2 [q.2] := by
        rw [List.map_append]
        exact List.indexOf_append_of_not_mem hnew'
      rw [h2]
      omega
  · intro e he
    rw [List.mem_append] at he
    rcases he with he | he
    · rw [List.find?_append, hfind e he]
      rfl
    · simp only [List.mem_singleton] at he
      subst he
      have hnone : ns.find? (fun m => decide (m.2 = e.2)) = none := by
        rw [List.find?_eq_none]
        intro m hm hc
        simp only [decide_eq_true_eq] at hc
        apply hnew'
        rw [← hc]
        exact List.mem_map_of_mem _ hm
      rw [List.find?_append, hnone]
      simp

theorem find_subtitle_instrument_row (e : String × String) :
    find_child_by_name (instrument_row e) "list-subtitle" =
      some (GtkWidget.mk "list-subtitle" e.2 []) := by
  simp [instrument_row, instrument_list_box, find_child_by_name, find_child_by_name_children]

theorem row_instrument_instrument_row (e : String × String) :
    row_instrument (instrument_row e) = (some e.1, some e.2) := by
  simp [row_instrument, instrument_row, instrument_list_box, find_child_by_name,
    find_child_by_name_children, gtk_label_get_text]

/-- The scan of `mdns_service` over rows built for the entries `es` finds the identifier
exactly when one of the entries has it. -/
theorem mdns_service_scan_rows (id : String) (es : List (String × String)) :
    mdns_service_scan id (es.map instrument_row) = decide (id ∈ es.map Prod.snd) := by
  induction es with
  | nil => simp [mdns_service_scan]
  | cons e rest ih =>
    simp only [List.map_cons, mdns_service_scan, find_subtitle_instrument_row,
      gtk_label_get_text, ih]
    by_cases h : id = e.2
    · simp [h]
    · simp [h]

/-- What the statements of a work item do to the instrument list and the discovery lock:
`gui_update_search_add_instrument_thread` appends its row and frees the lock, no other
item touches the lock, and no item other than `gui_update_search_start_thread` touches the
list. -/
theorem idle_body_discovery (s : State) (item : IdleItem) :
    (item.is_search_start = false →
      (idle_body s item).1.list_instruments =
        s.list_instruments ++
          (item.added_list_box.toList.map (fun b => GtkWidget.mk "GtkListBoxRow" "" [b]))) ∧
    (idle_body s item).1.mutex_discover =
      (if item.added_list_box.isSome then false else s.mutex_discover) := by
  cases item with
  | text_view_add_buffer_thread view buffer =>
    cases view <;>
      simp [idle_body, text_view_add_buffer_thread, text_view_set_buffer,
        IdleItem.added_list_box]
  | text_view_add_markup_buffer_thread view buffer =>
    cases view <;>
      simp [idle_body, text_view_add_markup_buffer_thread, text_view_set_buffer,
        IdleItem.added_list_box]
  | text_view_clear_buffer_thread view =>
    cases view <;>
      simp [idle_body, text_view_clear_buffer_thread, text_view_set_buffer,
        IdleItem.added_list_box]
  | gui_update_search_finished_thread =>
    by_cases h1 : s.no_instruments = true <;>
      simp [idle_body, gui_update_search_finished_thread, hide_info_bar,
        IdleItem.added_list_box, h1]
  | gui_update_grab_screenshot_finished_thread =>
    by_cases h1 : s.screenshot_ready = true
    · cases h2 : s.image_pixbuf with
      | none =>
        simp [idle_body, gui_update_grab_screenshot_finished_thread, show_error, g_idle_add,
          IdleItem.added_list_box, h1, h2]
      | some width =>
        simp [idle_body, gui_update_grab_screenshot_finished_thread,
          IdleItem.added_list_box, h1, h2]
    · by_cases h3 : s.screenshot_loaded = true <;>
        simp [idle_body, gui_update_grab_screenshot_finished_thread,
          IdleItem.added_list_box, h1, h3]
  | gui_update_progress_bar_fraction_thread =>
    by_cases h1 : s.progress_count % 2 = 0 <;>
      simp [idle_body, gui_update_progress_bar_fraction_thread, IdleItem.added_list_box, h1]
  | gui_update_search_start_thread =>
    simp [idle_body, gui_update_search_start_thread, g_thread_new, IdleItem.added_list_box,
      IdleItem.is_search_start]
  | _ =>
    simp [idle_body, gui_chart_new_thread, gui_chart_plot_thread, gui_chart_set_value_thread,
      gui_chart_close_thread, gtk_window_close, gui_chart_save_csv_thread,
      gui_chart_save_png_thread, gui_update_search_add_instrument_thread, gtk_list_box_append,
      show_error_thread, show_info_thread,
      gui_update_script_run_worker_function_finished_thread,
      gui_update_send_worker_finished_thread, gui_update_benchmark_finished_thread,
      gui_update_progress_bar_reset_thread, IdleItem.added_list_box]

/-- What one turn of the main loop does to the instrument list and the discovery lock. -/
theorem ui_run_discovery {s s' : State} (h : ui_run s = some s') :
    ∃ (source : Nat) (item : IdleItem) (rest : List (Nat × IdleItem)),
      s.idle = (source, item) :: rest ∧
      (∃ extra : List (Nat × IdleItem), s'.idle = rest ++ extra ∧
        ∀ p ∈ extra, p.2.is_show_error = true) ∧
      (item.is_search_start = false →
        s'.list_instruments =
          s.list_instruments ++
            (item.added_list_box.toList.map (fun b => GtkWidget.mk "GtkListBoxRow" "" [b]))) ∧
      s'.mutex_discover = (if item.added_list_box.isSome then false else s.mutex_discover) := by
  obtain ⟨source, item, rest, t, hq, hs', _, _⟩ := ui_run_some h
  refine ⟨source, item, rest, hq, ?_⟩
  subst hs'
  obtain ⟨extra, hex, hse, _, _⟩ := idle_body_posts { s with idle := rest } item
  obtain ⟨hl, hm⟩ := idle_body_discovery { s with idle := rest } item
  exact ⟨⟨extra, hex, hse⟩, hl, hm⟩

/-- The main loop run over the first `n` items of the queue, none of which starts a
search: what followed them stays queued, followed by the error notices work items
posted; the rows of the appends among them join the instrument list in order, and the
discovery lock is free if an append ran. -/
theorem ui_drain_fuel_discovery : ∀ (n : Nat) (s : State) (front back : List (Nat × IdleItem)),
    s.idle = front ++ back → front.length = n →
    (∀ p ∈ front, p.2.is_search_start = false) →
    (∃ extra : List (Nat × IdleItem), (ui_drain_fuel n s).idle = back ++ extra ∧
      ∀ p ∈ extra, p.2.is_show_error = true) ∧
    (ui_drain_fuel n s).list_instruments =
      s.list_instruments ++
        ((front.filterMap (fun p => p.2.added_list_box)).map
          (fun b => GtkWidget.mk "GtkListBoxRow" "" [b])) ∧
    (ui_drain_fuel n s).mutex_discover =
      (if (front.filterMap (fun p => p.2.added_list_box)).isEmpty then s.mutex_discover
       else false) := by
  intro n
  induction n with
  | zero =>
    intro s front back hidle hlen _
    have hnil : front = [] := List.eq_nil_of_length_eq_zero hlen
    subst hnil
    refine ⟨⟨[], ?_, fun _ hp => absurd hp (List.not_mem_nil _)⟩, ?_, ?_⟩
    · simpa [ui_drain_fuel] using hidle
    · simp [ui_drain_fuel]
    · simp [ui_drain_fuel]
  | succ n ih =>
    intro s front back hidle hlen hns
    cases front with
    | nil => simp at hlen
    | cons p front' =>
      have hsome : ∃ s1, ui_run s = some s1 := by
        unfold ui_run
        rw [hidle]
        exact ⟨_, rfl⟩
      obtain ⟨s1, hu⟩ := hsome
      obtain ⟨source, item, rest, hq, ⟨extra1, hidle1, hex1⟩, hlist, hmutex⟩ :=
        ui_run_discovery hu
      rw [hidle] at hq
      simp only [List.cons_append, List.cons.injEq] at hq
      obtain ⟨hp, hrest⟩ := hq
      subst hp
      have hitem : item.is_search_start = false := hns (source, item) (List.mem_cons_self _ _)
      have hidle1' : s1.idle = front' ++ (back ++ extra1) := by
        rw [hidle1, ← hrest, List.append_assoc]
      have hlen' : front'.length = n := by
        simp at hlen
        exact hlen
      obtain ⟨⟨extra2, h1, hex2⟩, h2, h3⟩ :=
        ih s1 front' (back ++ extra1) hidle1' hlen'
          (fun q hq2 => hns q (List.mem_cons_of_mem _ hq2))
      simp only [ui_drain_fuel, hu]
      refine ⟨⟨extra1 ++ extra2, ?_, ?_⟩, ?_, ?_⟩
      · rw [h1, List.append_assoc]
      · intro q hq2
        rcases List.mem_append.1 hq2 with h | h
        · exact hex1 q h
        · exact hex2 q h
      · rw [h2, hlist hitem]
        cases hb : item.added_list_box with
        | none => simp [hb]
        | some b => simp [hb]
      · rw [h3, hmutex]
        cases hb : item.added_list_box with
        | none => simp [hb]
        | some b => simp [hb]

theorem mdns_deliver_all_append (a b : List (String × String)) : ∀ s : State,
    mdns_deliver_all s (a ++ b) = (mdns_deliver_all s a).bind (fun s1 => mdns_deliver_all s1 b) := by
  induction a with
  | nil => intro s; rfl
  | cons x rest ih =>
    intro s
    simp only [List.cons_append, mdns_deliver_all]
    cases mdns_deliver s x with
    | none => rfl
    | some s1 => exact ih s1

/-- The main loop run over the whole queue, in which no item starts a search. -/
theorem ui_drain_discovery (s : State) (hns : ∀ p ∈ s.idle, p.2.is_search_start = false) :
    (∀ p ∈ (ui_drain s).idle, p.2.is_show_error = true) ∧
    (ui_drain s).list_instruments =
      s.list_instruments ++
        ((s.idle.filterMap (fun p => p.2.added_list_box)).map
          (fun b => GtkWidget.mk "GtkListBoxRow" "" [b])) ∧
    (ui_drain s).mutex_discover =
      (if (s.idle.filterMap (fun p => p.2.added_list_box)).isEmpty then s.mutex_discover
       else false) := by
  obtain ⟨⟨extra, h1, hex⟩, h2, h3⟩ :=
    ui_drain_fuel_discovery s.idle.length s s.idle [] (List.append_nil _).symm rfl hns
  refine ⟨?_, h2, h3⟩
  unfold ui_drain
  rw [h1, List.nil_append]
  exact hex

/-- The callback on a list of rows built for the entries `es`, the lock being free. -/
theorem mdns_service_rows (s : State) (es : List (String × String)) (n : String × String)
    (hfree : s.mutex_discover = false) (hlist : s.list_instruments = es.map instrument_row) :
    mdns_service s n.1 n.2 =
      some (if n.2 ∈ es.map Prod.snd then { s with mutex_discover := false }
            else list_add_instrument { s with mutex_discover := true } n.1 n.2) := by
  unfold mdns_service
  simp only [hfree, Bool.false_eq_true, if_false, hlist, mdns_service_scan_rows,
    decide_eq_true_eq]
  by_cases hmem : n.2 ∈ es.map Prod.snd
  · simp only [hmem, if_true]
  · simp only [hmem, if_false]

/-- A queue whose items neither append to the instrument list nor start a search. -/
theorem plain_queue_filterMap (q : List (Nat × IdleItem))
    (hq : ∀ p ∈ q, p.2.added_list_box = none ∧ p.2.is_search_start = false) :
    q.filterMap (fun p => p.2.added_list_box) = [] :=
  List.filterMap_eq_nil_iff.2 (fun p hp => (hq p hp).1)

/-- One more notification fully processed keeps the list the first-seen list. -/
theorem mdns_deliver_first_seen (s : State) (es : List (String × String))
    (n : String × String)
    (hfree : s.mutex_discover = false)
    (hq : ∀ p ∈ s.idle, p.2.added_list_box = none ∧ p.2.is_search_start = false)
    (hlist : s.list_instruments = es.map instrument_row) :
    ∃ s' : State, mdns_deliver s n = some s' ∧
      s'.mutex_discover = false ∧
      (∀ p ∈ s'.idle, p.2.added_list_box = none ∧ p.2.is_search_start = false) ∧
      s'.list_instruments =
        (if n.2 ∈ es.map Prod.snd then es else es ++ [n]).map instrument_row := by
  have hplain : ∀ q : List (Nat × IdleItem), (∀ p ∈ q, p.2.is_show_error = true) →
      ∀ p ∈ q, p.2.added_list_box = none ∧ p.2.is_search_start = false :=
    fun q hq p hp =>
      ⟨(show_error_is_plain p.2 (hq p hp)).2.2.2.1, (show_error_is_plain p.2 (hq p hp)).2.2.2.2⟩
  have hfm := plain_queue_filterMap s.idle hq
  unfold mdns_deliver
  rw [mdns_service_rows s es n hfree hlist]
  by_cases hmem : n.2 ∈ es.map Prod.snd
  · simp only [hmem, if_true]
    obtain ⟨h1, h2, h3⟩ := ui_drain_discovery { s with mutex_discover := false }
      (fun p hp => (hq p hp).2)
    refine ⟨_, rfl, ?_, hplain _ h1, ?_⟩
    · rw [h3]
      simp only [hfm]
      rfl
    · rw [h2]
      simp only [hfm, hlist]
      simp
  · simp only [hmem, if_false]
    have hns : ∀ p ∈ (list_add_instrument { s with mutex_discover := true } n.1 n.2).idle,
        p.2.is_search_start = false := by
      intro p hp
      simp only [list_add_instrument, g_idle_add, List.mem_append, List.mem_singleton] at hp
      rcases hp with hp | hp
      · exact (hq p hp).2
      · rw [hp]
        rfl
    obtain ⟨h1, h2, h3⟩ :=
      ui_drain_discovery (list_add_instrument { s with mutex_discover := true } n.1 n.2) hns
    refine ⟨_, rfl, ?_, hplain _ h1, ?_⟩
    · rw [h3]
      simp only [list_add_instrument, g_idle_add, List.filterMap_append, hfm]
      simp [IdleItem.added_list_box]
    · rw [h2]
      simp only [list_add_instrument, g_idle_add, List.filterMap_append, hfm, hlist]
      simp [IdleItem.added_list_box, instrument_row]

/-- The list after a sequence of notifications is the list of rows of the first-seen
entries. -/
theorem mdns_deliver_all_first_seen (s0 : State) (hempty : s0.list_instruments = [])
    (hfree : s0.mutex_discover = false)
    (hq : ∀ p ∈ s0.idle, p.2.added_list_box = none ∧ p.2.is_search_start = false) :
    ∀ ns : List (String × String),
    ∃ (s : State) (entries : List (String × String)),
      mdns_deliver_all s0 ns = some s ∧
      s.mutex_discover = false ∧
      (∀ p ∈ s.idle, p.2.added_list_box = none ∧ p.2.is_search_start = false) ∧
      s.list_instruments = entries.map instrument_row ∧
      (entries.map Prod.snd).Nodup ∧
      (∀ id, id ∈ entries.map Prod.snd ↔ id ∈ ns.map Prod.snd) ∧
      entries.Pairwise (fun p q =>
        List.indexOf p.2 (ns.map Prod.snd) < List.indexOf q.2 (ns.map Prod.snd)) ∧
      (∀ e ∈ entries, ns.find? (fun m => decide (m.2 = e.2)) = some e) := by
  intro ns
  induction ns using List.reverseRecOn with
  | nil =>
    exact ⟨s0, [], rfl, hfree, hq, by simp [hempty], first_seen_nil⟩
  | append_singleton ns n ih =>
    obtain ⟨s, es, hrun, hf, hqs, hlist, hP⟩ := ih
    obtain ⟨s', hdel, hf', hq', hlist'⟩ := mdns_deliver_first_seen s es n hf hqs hlist
    have hrun' : mdns_deliver_all s0 (ns ++ [n]) = some s' := by
      rw [mdns_deliver_all_append, hrun]
      simp [Option.bind, mdns_deliver_all, hdel]
    by_cases hmem : n.2 ∈ es.map Prod.snd
    · rw [if_pos hmem] at hlist'
      exact ⟨s', es, hrun', hf', hq', hlist', first_seen_snoc_old es ns n hP hmem⟩
    · rw [if_neg hmem] at hlist'
      exact ⟨s', es ++ [n], hrun', hf', hq', hlist', first_seen_snoc_new es ns n hP hmem⟩

/-- Claim C2: starting from an empty instrument list with the discovery lock free and
neither an append nor a start of a search pending, for every sequence `ns` of
notifications `(address, identifier)` delivered through `mdns_service`, each fully
processed before the next is scanned: no delivery is blocked, and the resulting list shows entries whose identifiers are pairwise distinct, are
exactly the identifiers notified, stand in the order of their first occurrence in `ns`,
and are each paired with the address of that first occurrence; the lock is free at the
end.  For the identifiers A, B, A, C the list shows A, B, C. -/
theorem mdns_discovery_list_first_seen (s0 : State) (ns : List (String × String))
    (hempty : s0.list_instruments = [])
    (hfree : s0.mutex_discover = false)
    (hq : ∀ p ∈ s0.idle, p.2.added_list_box = none ∧ p.2.is_search_start = false) :
    (∃ (s : State) (entries : List (String × String)),
      mdns_deliver_all s0 ns = some s ∧
      s.list_instruments.map row_instrument = entries.map (fun e => (some e.1, some e.2)) ∧
      (entries.map Prod.snd).Nodup ∧
      (∀ id, id ∈ entries.map Prod.snd ↔ id ∈ ns.map Prod.snd) ∧
      entries.Pairwise (fun p q =>
        List.indexOf p.2 (ns.map Prod.snd) < List.indexOf q.2 (ns.map Prod.snd)) ∧
      (∀ e ∈ entries, ns.find? (fun m => decide (m.2 = e.2)) = some e) ∧
      s.mutex_discover = false) ∧
    (mdns_deliver_all start_state example_notifications).map
        (fun s => s.list_instruments.map row_instrument) =
      some [(some "10.0.0.1", some "A"), (some "10.0.0.2", some "B"),
            (some "10.0.0.4", some "C")] := by
  refine ⟨?_, by decide⟩
  obtain ⟨s, es, hrun, hf, _, hlist, hnd, hiff, hpw, hfind⟩ :=
    mdns_deliver_all_first_seen s0 hempty hfree hq ns
  refine ⟨s, es, hrun, ?_, hnd, hiff, hpw, hfind, hf⟩
  rw [hlist, List.map_map]
  apply List.map_congr_left
  intro e _
  exact row_instrument_instrument_row e

/-- The statement of C2 at the initialised window and the notifications of the example
scenario. -/
theorem mdns_discovery_list_first_seen_witness :
    start_state.list_instruments = [] ∧
    start_state.mutex_discover = false ∧
    (∀ p ∈ start_state.idle, p.2.added_list_box = none ∧ p.2.is_search_start = false) ∧
    (∃ (s : State) (entries : List (String × String)),
      mdns_deliver_all start_state example_notifications = some s ∧
      s.list_instruments.map row_instrument = entries.map (fun e => (some e.1, some e.2)) ∧
      (entries.map Prod.snd).Nodup ∧
      (∀ id, id ∈ entries.map Prod.snd ↔ id ∈ example_notifications.map Prod.snd) ∧
      entries.Pairwise (fun p q =>
        List.indexOf p.2 (example_notifications.map Prod.snd) <
          List.indexOf q.2 (example_notifications.map Prod.snd)) ∧
      (∀ e ∈ entries, example_notifications.find? (fun m => decide (m.2 = e.2)) = some e) ∧
      s.mutex_discover = false) ∧
    (mdns_deliver_all start_state example_notifications).map
        (fun s => s.list_instruments.map row_instrument) =
      some [(some "10.0.0.1", some "A"), (some "10.0.0.2", some "B"),
            (some "10.0.0.4", some "C")] :=
  have hq : ∀ p ∈ start_state.idle,
      p.2.added_list_box = none ∧ p.2.is_search_start = false := by
    intro p hp
    simp only [start_state, lxi_gui_window_init, text_view_add_buffer, g_idle_add, List.nil_append,
      List.cons_append, List.mem_cons, List.mem_singleton, List.not_mem_nil, or_false] at hp
    rcases hp with hp | hp <;> rw [hp] <;> exact ⟨rfl, rfl⟩
  ⟨rfl, rfl, hq,
    mdns_discovery_list_first_seen start_state example_notifications rfl
      rfl hq⟩

/-! ## What leaves the selected instrument and the stop flag alone -/

theorem same_context_refl (s : State) : same_context s s := ⟨rfl, rfl, rfl⟩

theorem same_context_trans {a b c : State} (h1 : same_context a b) (h2 : same_context b c) :
    same_context a c :=
  ⟨h2.1.trans h1.1, h2.2.1.trans h1.2.1, h2.2.2.trans h1.2.2⟩

/-- The statements of a work item keep the selected instrument and the stop flag. -/
theorem idle_body_same_context (s : State) (item : IdleItem) :
    same_context s (idle_body s item).1 := by
  cases item with
  | text_view_add_buffer_thread view buffer => cases view <;> exact ⟨rfl, rfl, rfl⟩
  | text_view_add_markup_buffer_thread view buffer => cases view <;> exact ⟨rfl, rfl, rfl⟩
  | text_view_clear_buffer_thread view => cases view <;> exact ⟨rfl, rfl, rfl⟩
  | gui_update_search_finished_thread =>
    by_cases h1 : s.no_instruments = true <;>
      simp [idle_body, gui_update_search_finished_thread, hide_info_bar, same_context, h1]
  | gui_update_grab_screenshot_finished_thread =>
    by_cases h1 : s.screenshot_ready = true
    · cases h2 : s.image_pixbuf with
      | none =>
        simp [idle_body, gui_update_grab_screenshot_finished_thread, show_error, g_idle_add,
          same_context, h1, h2]
      | some width =>
        simp [idle_body, gui_update_grab_screenshot_finished_thread, same_context, h1, h2]
    · by_cases h3 : s.screenshot_loaded = true <;>
        simp [idle_body, gui_update_grab_screenshot_finished_thread, same_context, h1, h3]
  | gui_update_progress_bar_fraction_thread =>
    by_cases h1 : s.progress_count % 2 = 0 <;>
      simp [idle_body, gui_update_progress_bar_fraction_thread, same_context, h1]
  | _ => exact ⟨rfl, rfl, rfl⟩

/-- One turn of the main loop keeps the selected instrument and the stop flag. -/
theorem ui_run_same_context {s s' : State} (h : ui_run s = some s') : same_context s s' := by
  obtain ⟨source, item, rest, t, _, hs', _, _⟩ := ui_run_some h
  subst hs'
  exact idle_body_same_context { s with idle := rest } item

/-- The main loop run over a number of items keeps the selected instrument and the stop
flag. -/
theorem ui_drain_fuel_same_context : ∀ (n : Nat) (s : State),
    same_context s (ui_drain_fuel n s) := by
  intro n
  induction n with
  | zero => intro s; exact same_context_refl s
  | succ n ih =>
    intro s
    cases hu : ui_run s with
    | none => simp only [ui_drain_fuel, hu]; exact same_context_refl s
    | some s1 =>
      simp only [ui_drain_fuel, hu]
      exact same_context_trans (ui_run_same_context hu) (ih s1)

theorem ui_drain_same_context (s : State) : same_context s (ui_drain s) :=
  ui_drain_fuel_same_context s.idle.length s

/-- The closing of a chart window by the user keeps the selected instrument and the stop
flag. -/
theorem user_close_window_same_context (s : State) (window : Nat) :
    same_context s (user_close_window s window) := by
  unfold user_close_window
  obtain ⟨t, d, he, _, _, _⟩ := emit_destroy_eq (gtk_window_close s window).2
    (gtk_window_close s window).1
  rw [he]
  exact ⟨rfl, rfl, rfl⟩

/-- The discovery callbacks keep the selected instrument and the stop flag. -/
theorem mdns_service_same_context {s s' : State} {address id : String}
    (h : mdns_service s address id = some s') : same_context s s' := by
  unfold mdns_service at h
  split at h
  · simp at h
  · simp only [] at h
    split at h
    · simp only [Option.some.injEq] at h
      subst h
      exact ⟨rfl, rfl, rfl⟩
    · simp only [Option.some.injEq] at h
      subst h
      exact ⟨rfl, rfl, rfl⟩

theorem vxi11_device_same_context {s s' : State} {address id : String}
    (h : vxi11_device s address id = some s') : same_context s s' := by
  unfold vxi11_device at h
  split at h
  · simp at h
  · simp only [Option.some.injEq] at h
    subst h
    exact ⟨rfl, rfl, rfl⟩

theorem lxi_info_callback_same_context {s s' : State} {e : lxi_info_event}
    (h : lxi_info_callback s e = some s') : same_context s s' := by
  cases e with
  | broadcast address interface =>
    simp only [lxi_info_callback, Option.some.injEq] at h
    subst h
    exact ⟨rfl, rfl, rfl⟩
  | device address id => exact vxi11_device_same_context h
  | service address id service port => exact mdns_service_same_context h

theorem lxi_discover_same_context : ∀ (found : List lxi_info_event) (s s' : State),
    lxi_discover s found = some s' → same_context s s' := by
  intro found
  induction found with
  | nil =>
    intro s s' h
    simp only [lxi_discover, Option.some.injEq] at h
    subst h
    exact same_context_refl s
  | cons e rest ih =>
    intro s s' h
    simp only [lxi_discover] at h
    cases hc : lxi_info_callback s e with
    | none => simp [hc] at h
    | some s1 =>
      simp only [hc] at h
      exact same_context_trans (lxi_info_callback_same_context hc)
        (same_context_trans (ui_drain_same_context s1) (ih _ _ h))

/-- A host call of a chart function keeps the selected instrument and the stop flag. -/
theorem host_call_same_context {s s' : Sys} {f : HostCall} {L : lua_State}
    (h : host_call s f L = some s') : same_context s.st s'.st := by
  cases f with
  | chart_new =>
    simp only [host_call, Option.map_eq_some'] at h
    obtain ⟨⟨st, chart, source⟩, hpost, hs'⟩ := h
    obtain ⟨type, _, _, _, hst⟩ := lua_gui_chart_new_post_some hpost
    subst hs' hst
    exact ⟨rfl, rfl, rfl⟩
  | chart_plot =>
    simp only [host_call, Option.map_eq_some'] at h
    obtain ⟨st, hcall, hs'⟩ := h
    subst hs'
    unfold lua_gui_chart_plot at hcall
    cases hidx : chart_index (c_int (L.tointeger 1)) with
    | none => simp [hidx] at hcall
    | some chart =>
      simp only [hidx] at hcall
      split at hcall <;>
      · simp only [g_idle_add, Option.some.injEq] at hcall
        subst hcall
        exact ⟨rfl, rfl, rfl⟩
  | chart_set_value =>
    simp only [host_call, Option.map_eq_some'] at h
    obtain ⟨st, hcall, hs'⟩ := h
    subst hs'
    unfold lua_gui_chart_set_value at hcall
    cases hidx : chart_index (c_int (L.tointeger 1)) with
    | none => simp [hidx] at hcall
    | some chart =>
      simp only [hidx] at hcall
      split at hcall <;>
      · simp only [g_idle_add, Option.some.injEq] at hcall
        subst hcall
        exact ⟨rfl, rfl, rfl⟩
  | chart_close =>
    simp only [host_call, Option.map_eq_some'] at h
    obtain ⟨st, hcall, hs'⟩ := h
    subst hs'
    unfold lua_gui_chart_close at hcall
    cases hidx : chart_index (c_int (L.tointeger 1)) with
    | none => simp [hidx] at hcall
    | some chart =>
      simp only [hidx] at hcall
      split at hcall <;>
      · simp only [g_idle_add, Option.some.injEq] at hcall
        subst hcall
        exact ⟨rfl, rfl, rfl⟩
  | chart_save_csv =>
    simp only [host_call, Option.map_eq_some'] at h
    obtain ⟨r, hcall, hs'⟩ := h
    subst hs'
    unfold lua_gui_chart_save_csv_post at hcall
    cases hidx : chart_index (c_int (L.tointeger 1)) with
    | none => simp [hidx] at hcall
    | some chart =>
      simp only [hidx] at hcall
      split at hcall
      · simp only [g_idle_add, text_view_add_buffer, Option.some.injEq] at hcall
        subst hcall
        exact ⟨rfl, rfl, rfl⟩
      · simp only [Option.some.injEq] at hcall
        subst hcall
        exact ⟨rfl, rfl, rfl⟩
  | chart_save_png =>
    simp only [host_call, Option.map_eq_some'] at h
    obtain ⟨r, hcall, hs'⟩ := h
    subst hs'
    unfold lua_gui_chart_save_png_post at hcall
    cases hidx : chart_index (c_int (L.tointeger 1)) with
    | none => simp [hidx] at hcall
    | some chart =>
      simp only [hidx] at hcall
      split at hcall
      · simp only [g_idle_add, text_view_add_buffer, Option.some.injEq] at hcall
        subst hcall
        exact ⟨rfl, rfl, rfl⟩
      · simp only [Option.some.injEq] at hcall
        subst hcall
        exact ⟨rfl, rfl, rfl⟩

/-- The end of a wait of the script worker keeps the selected instrument and the stop
flag. -/
theorem worker_resume_same_context {s s' : Sys} (h : worker_resume s = some s') :
    same_context s.st s'.st := by
  unfold worker_resume at h
  split at h
  · simp at h
  all_goals
    split at h
    · simp at h
    · simp only [Option.some.injEq] at h
      subst h
      exact ⟨rfl, rfl, rfl⟩

/-- Every step of the script worker, the UI thread and the user of a chart window keeps
the selected instrument and the stop flag. -/
theorem step_same_context {s s' : Sys} {a : Action} (h : step s a = some s') :
    same_context s.st s'.st := by
  cases a with
  | call f L =>
    simp only [step] at h
    split at h
    · exact host_call_same_context h
    · simp at h
  | worker_resume => exact worker_resume_same_context h
  | ui_run =>
    simp only [step] at h
    cases hu : ui_run s.st with
    | none => simp [hu] at h
    | some st =>
      simp only [hu, Option.some.injEq] at h
      subst h
      exact ui_run_same_context hu
  | close_window window =>
    simp only [step, Option.some.injEq] at h
    subst h
    exact user_close_window_same_context s.st window
  | mdns_service address id =>
    simp only [step] at h
    cases hm : mdns_service s.st address id with
    | none => simp [hm] at h
    | some st =>
      simp only [hm, Option.some.injEq] at h
      subst h
      exact mdns_service_same_context hm

/-- The function `scpi_print` keeps the selected instrument and the stop flag. -/
theorem scpi_print_same_context (s : State) (settings : GSettings) (text : String)
    (sent : Bool) (ip : Option String) (timestamp : String) :
    same_context s (scpi_print s settings text sent ip timestamp) := by
  unfold scpi_print
  cases sent <;> exact ⟨rfl, rfl, rfl⟩

/-! ## The send worker, statement by statement -/

theorem send_frame_refl (s : State) : send_frame 0 s s :=
  ⟨same_context_refl s, rfl, rfl, [], (List.append_nil _).symm, rfl⟩

/-- A statement that posts one item other than the completion item, touching nothing else
that counts. -/
theorem send_frame_post {n : Nat} {s s1 s2 : State} (item : IdleItem)
    (h : send_frame n s s1) (hf : item.is_send_finished = false)
    (hc : same_context s1 s2) (ht : s2.threads = s1.threads)
    (hb : s2.toggle_button_scpi_send = s1.toggle_button_scpi_send)
    (hi : s2.idle = s1.idle ++ [(s1.next_source, item)]) :
    send_frame n s s2 := by
  obtain ⟨c1, t1, b1, posts, i1, f1⟩ := h
  refine ⟨same_context_trans c1 hc, ht.trans t1, hb.trans b1,
    posts ++ [(s1.next_source, item)], ?_, ?_⟩
  · rw [hi, i1, List.append_assoc]
  · rw [List.filter_append, List.length_append, f1]
    simp [hf]

/-- A statement that posts nothing, touching nothing else that counts. -/
theorem send_frame_quiet {n : Nat} {s s1 s2 : State}
    (h : send_frame n s s1) (hc : same_context s1 s2) (ht : s2.threads = s1.threads)
    (hb : s2.toggle_button_scpi_send = s1.toggle_button_scpi_send)
    (hi : s2.idle = s1.idle) : send_frame n s s2 := by
  obtain ⟨c1, t1, b1, posts, i1, f1⟩ := h
  exact ⟨same_context_trans c1 hc, ht.trans t1, hb.trans b1, posts, by rw [hi, i1], f1⟩

theorem send_frame_record_call {n : Nat} {s s1 : State} (c : Call) (h : send_frame n s s1) :
    send_frame n s (record_call s1 c) :=
  send_frame_quiet h ⟨rfl, rfl, rfl⟩ rfl rfl rfl

theorem send_frame_show_error {n : Nat} {s s1 : State} (buffer : String)
    (h : send_frame n s s1) : send_frame n s (show_error s1 buffer) :=
  send_frame_post (IdleItem.show_error_thread buffer) h rfl ⟨rfl, rfl, rfl⟩ rfl rfl rfl

theorem send_frame_delete_text {n : Nat} {s s1 : State} (h : send_frame n s s1) :
    send_frame n s (gtk_entry_buffer_delete_text s1) :=
  send_frame_quiet h ⟨rfl, rfl, rfl⟩ rfl rfl rfl

theorem send_frame_add_buffer {n : Nat} {s s1 : State} (view : GtkTextView)
    (buffer : Option String) (h : send_frame n s s1) :
    send_frame n s (text_view_add_buffer s1 view buffer) :=
  send_frame_post (IdleItem.text_view_add_buffer_thread view buffer) h rfl ⟨rfl, rfl, rfl⟩ rfl
    rfl rfl

theorem send_frame_add_buffer_in_dimgray {n : Nat} {s s1 : State} (view : GtkTextView)
    (buffer : String) (h : send_frame n s s1) :
    send_frame n s (text_view_add_buffer_in_dimgray s1 view buffer) :=
  send_frame_post (IdleItem.text_view_add_markup_buffer_thread view _) h rfl ⟨rfl, rfl, rfl⟩
    rfl rfl rfl

theorem send_frame_scpi_print {n : Nat} {s s1 : State} (settings : GSettings) (text : String)
    (sent : Bool) (ip : Option String) (timestamp : String) (h : send_frame n s s1) :
    send_frame n s (scpi_print s1 settings text sent ip timestamp) := by
  unfold scpi_print
  cases sent
  · exact send_frame_add_buffer _ _ h
  · exact send_frame_add_buffer _ _ (send_frame_add_buffer_in_dimgray _ _ h)

theorem send_frame_ite {n : Nat} {s a b : State} (c : Prop) [Decidable c]
    (ha : send_frame n s a) (hb : send_frame n s b) :
    send_frame n s (if c then a else b) := by
  split
  · exact ha
  · exact hb

theorem send_frame_error_no_input {s s1 : State} (h : send_frame 0 s s1) :
    send_frame 1 s (send_worker_thread_error_no_input s1) := by
  obtain ⟨c1, t1, b1, posts, i1, f1⟩ := h
  refine ⟨c1, t1, b1,
    posts ++ [(s1.next_source, IdleItem.gui_update_send_worker_finished_thread)], ?_, ?_⟩
  · show s1.idle ++ _ = _
    rw [i1, List.append_assoc]
  · rw [List.filter_append, List.length_append, f1]
    rfl

theorem send_frame_error_connect {s s1 : State} (h : send_frame 0 s s1) :
    send_frame 1 s (send_worker_thread_error_connect s1) :=
  send_frame_error_no_input (send_frame_record_call _ h)

theorem send_frame_error_send {s s1 : State} (device : Int) (h : send_frame 0 s s1) :
    send_frame 1 s (send_worker_thread_error_send s1 device) :=
  send_frame_error_connect (send_frame_record_call _ h)

theorem opt_some_intro {P : State → Prop} {x : State} (h : P x) :
    ∀ s' : State, some x = some s' → P s' := by
  intro s' hs
  cases hs
  exact h

theorem opt_none_intro {P : State → Prop} :
    ∀ s' : State, (none : Option State) = some s' → P s' := by
  intro s' hs
  cases hs

theorem opt_ite_intro {P : State → Prop} (c : Prop) [Decidable c] {a b : Option State}
    (ha : ∀ s' : State, a = some s' → P s') (hb : ∀ s' : State, b = some s' → P s') :
    ∀ s' : State, (if c then a else b) = some s' → P s' := by
  split
  · exact ha
  · exact hb

/-- What the send worker leaves alone and what it appends: the selected instrument, the
stop flag, the started threads and the send button stay as they are, and the queue grows
by the posted items, among them exactly one completion item. -/
theorem send_worker_thread_frame (s : State) (settings : GSettings) (env : send_worker_env) :
    ∀ s' : State, send_worker_thread s settings env = some s' → send_frame 1 s s' := by
  unfold send_worker_thread
  simp only []
  split
  · exact opt_some_intro (send_frame_error_no_input (send_frame_show_error _ (send_frame_refl s)))
  · have h0 := send_frame_ite (settings.com_protocol = VXI11)
      (send_frame_record_call (Call.lxi_connect s.ip 0 settings.timeout_scpi VXI11)
        (send_frame_refl s))
      (send_frame_refl s)
    have h1 := send_frame_ite (settings.com_protocol = RAW)
      (send_frame_record_call (Call.lxi_connect
        (if settings.com_protocol = VXI11 then
          record_call s (Call.lxi_connect s.ip 0 settings.timeout_scpi VXI11) else s).ip
        settings.raw_port settings.timeout_scpi RAW) h0) h0
    refine opt_ite_intro _ (opt_some_intro (send_frame_error_no_input (send_frame_refl s))) ?_
    refine opt_ite_intro _
      (opt_some_intro (send_frame_error_connect (send_frame_show_error _ h1))) ?_
    have h2 := send_frame_record_call
      (Call.lxi_send
        (if settings.com_protocol = RAW then env.lxi_connect
         else if settings.com_protocol = VXI11 then env.lxi_connect else 0)
        (if settings.com_protocol = RAW then
          env.strip_trailing_space s.entry_scpi ++ "\n"
         else env.strip_trailing_space s.entry_scpi)
        settings.timeout_scpi) h1
    refine opt_ite_intro _
      (opt_some_intro (send_frame_error_send _ (send_frame_show_error _ h2))) ?_
    have h3 := fun (text : String) (ip : Option String) =>
      send_frame_ite (settings.show_sent_scpi = true)
        (send_frame_scpi_print settings text true ip env.timestamp_sent h2) h2
    refine opt_ite_intro _ ?_ (opt_some_intro (send_frame_error_send _
      (send_frame_delete_text (h3 _ _))))
    have h4 := fun (text : String) (ip : Option String) (device : Int) =>
      send_frame_record_call (Call.lxi_receive device RX_BUFFER_SIZE settings.timeout_scpi)
        (h3 text ip)
    refine opt_ite_intro _
      (opt_some_intro (send_frame_error_send _ (send_frame_show_error _ (h4 _ _ _)))) ?_
    exact opt_ite_intro _
      (opt_some_intro (send_frame_error_send _ (send_frame_delete_text
        (send_frame_scpi_print settings _ false _ env.timestamp_received (h4 _ _ _)))))
      opt_none_intro

/-! ## The other workers and the handlers -/

/-- The screenshot worker keeps the selected instrument and the stop flag. -/
theorem screenshot_grab_worker_thread_same_context (s : State) (settings : GSettings)
    (env : screenshot_env) :
    same_context s (screenshot_grab_worker_thread s settings env) := by
  unfold screenshot_grab_worker_thread grab_screenshot
  cases hip : s.ip with
  | none => exact ⟨hip.symm ▸ rfl, rfl, rfl⟩
  | some ip =>
    by_cases hst : env.status = 0
    · simp only [hst, ne_eq, not_true_eq_false, if_false, if_true]
      exact ⟨hip.symm ▸ rfl, rfl, rfl⟩
    · simp only [hst, ne_eq, not_false_eq_true, if_true, Bool.true_eq_false, if_false]
      exact ⟨hip.symm ▸ rfl, rfl, rfl⟩

/-- The progress callback keeps the selected instrument and the stop flag. -/
theorem benchmark_progress_cb_same_context {s s' : State} {count : Nat}
    (h : benchmark_progress_cb s count = some s') : same_context s s' := by
  unfold benchmark_progress_cb at h
  simp only [] at h
  split at h
  · simp at h
  · split at h
    · simp only [g_idle_add, Option.some.injEq] at h
      subst h
      exact ⟨rfl, rfl, rfl⟩
    · simp only [Option.some.injEq] at h
      subst h
      exact ⟨rfl, rfl, rfl⟩

theorem benchmark_same_context : ∀ (counts : List Nat) (s s' : State),
    benchmark s counts = some s' → same_context s s' := by
  intro counts
  induction counts with
  | nil =>
    intro s s' h
    simp only [benchmark, Option.some.injEq] at h
    subst h
    exact same_context_refl s
  | cons count rest ih =>
    intro s s' h
    simp only [benchmark] at h
    cases hc : benchmark_progress_cb s count with
    | none => simp [hc] at h
    | some s1 =>
      simp only [hc] at h
      exact same_context_trans (benchmark_progress_cb_same_context hc) (ih _ _ h)

/-- The benchmark worker keeps the selected instrument and the stop flag. -/
theorem benchmark_worker_function_same_context {s s' : State} {settings : GSettings}
    {env : benchmark_env} (h : benchmark_worker_function s settings env = some s') :
    same_context s s' := by
  unfold benchmark_worker_function at h
  simp only [] at h
  have step1 : ∀ (c : Prop) [Decidable c] (call : Call) (a b : State),
      (if c then benchmark (record_call a call) env.counts else some a) = some b →
      same_context a b := by
    intro c _ call a b hb
    split at hb
    · exact same_context_trans (a := a) (b := record_call a call) ⟨rfl, rfl, rfl⟩
        (benchmark_same_context _ _ _ hb)
    · simp only [Option.some.injEq] at hb
      subst hb
      exact same_context_refl a
  split at h
  · simp at h
  · next s1 h1 =>
    split at h
    · simp at h
    · next s2 h2 =>
      simp only [g_idle_add, Option.some.injEq] at h
      subst h
      exact same_context_trans (step1 _ _ _ _ h1)
        (same_context_trans (step1 _ _ _ _ h2) ⟨rfl, rfl, rfl⟩)

/-- An event of a script run other than a stop click keeps the whole window state; a stop
click sets the stop flag and keeps the selected instrument. -/
theorem script_run_step_state (r : ScriptRun) (e : RunEvent) :
    (script_run_step r e).st.ip = r.st.ip ∧ (script_run_step r e).st.id = r.st.id ∧
    (script_run_step r e).st.calls = r.st.calls ∧
    (script_run_step r e).st.idle = r.st.idle ∧
    (script_run_step r e).st.next_source = r.st.next_source ∧
    (script_run_step r e).st.text_view_script_status = r.st.text_view_script_status ∧
    (script_run_step r e).st.script_file = r.st.script_file ∧
    (script_run_step r e).st.lua_stop_requested =
      (match e with
       | RunEvent.stop_clicked => true
       | RunEvent.hook _ _ => r.st.lua_stop_requested) := by
  cases e with
  | stop_clicked => exact ⟨rfl, rfl, rfl, rfl, rfl, rfl, rfl, rfl⟩
  | hook event line =>
    simp only [script_run_step]
    cases lua_line_hook r.st event with
    | error message => exact ⟨rfl, rfl, rfl, rfl, rfl, rfl, rfl, rfl⟩
    | ok u =>
      simp only []
      split <;> exact ⟨rfl, rfl, rfl, rfl, rfl, rfl, rfl, rfl⟩

/-- A script run touches the window state only through stop clicks, which set the stop
flag. -/
theorem script_run_state : ∀ (events : List RunEvent) (r : ScriptRun),
    (script_run r events).st.ip = r.st.ip ∧ (script_run r events).st.id = r.st.id ∧
    (script_run r events).st.calls = r.st.calls ∧
    (script_run r events).st.idle = r.st.idle ∧
    (script_run r events).st.next_source = r.st.next_source ∧
    (script_run r events).st.text_view_script_status = r.st.text_view_script_status ∧
    (script_run r events).st.script_file = r.st.script_file ∧
    (script_run r events).st.lua_stop_requested =
      (stop_clicked_in events || r.st.lua_stop_requested) := by
  intro events
  induction events with
  | nil => intro r; simp [script_run, stop_clicked_in]
  | cons e rest ih =>
    intro r
    have h := ih (script_run_step r e)
    have hs := script_run_step_state r e
    have hrun : script_run r (e :: rest) = script_run (script_run_step r e) rest := rfl
    rw [hrun]
    obtain ⟨h1, h2, h3, h4, h5, h6, h7, h8⟩ := h
    obtain ⟨g1, g2, g3, g4, g5, g6, g7, g8⟩ := hs
    refine ⟨h1.trans g1, h2.trans g2, h3.trans g3, h4.trans g4, h5.trans g5, h6.trans g6,
      h7.trans g7, ?_⟩
    rw [h8, g8]
    cases e with
    | stop_clicked => simp [stop_clicked_in]
    | hook event line => simp [stop_clicked_in]

/-! ## The main loop run over a queue, as a fold -/

/-- An observation of the window that every work item changes in a way that depends on
the item and the observation alone is, after the main loop has run the first `n` items of
the queue, the fold of those changes over these items. -/
theorem ui_drain_fuel_fold {α : Type} (obs : State → α) (eff : IdleItem → α → α)
    (hbody : ∀ (s : State) (item : IdleItem), obs (idle_body s item).1 = eff item (obs s))
    (hframe : ∀ (s : State) (t : ChartTable) (d c : List Nat) (q : List (Nat × IdleItem)),
      obs { s with gui_chart := t, destroyed := d, completed := c } = obs s ∧
      obs { s with idle := q } = obs s) :
    ∀ (n : Nat) (s : State) (front back : List (Nat × IdleItem)),
      s.idle = front ++ back → front.length = n →
      obs (ui_drain_fuel n s) = front.foldl (fun a p => eff p.2 a) (obs s) := by
  intro n
  induction n with
  | zero =>
    intro s front back _ hlen
    have hnil : front = [] := List.eq_nil_of_length_eq_zero hlen
    subst hnil
    rfl
  | succ n ih =>
    intro s front back hidle hlen
    cases front with
    | nil => simp at hlen
    | cons p front' =>
      have hsome : ∃ s1, ui_run s = some s1 := by
        unfold ui_run
        rw [hidle]
        exact ⟨_, rfl⟩
      obtain ⟨s1, hu⟩ := hsome
      obtain ⟨source, item, rest, t, hq, hs1, _, _⟩ := ui_run_some hu
      obtain ⟨extra, hex, _, _, _⟩ := idle_body_posts { s with idle := rest } item
      rw [hidle] at hq
      simp only [List.cons_append, List.cons.injEq] at hq
      obtain ⟨hp, hrest⟩ := hq
      subst hp
      have hidle1 : s1.idle = front' ++ (back ++ extra) := by
        rw [hs1]
        show (idle_body { s with idle := rest } item).1.idle = _
        rw [hex]
        show rest ++ extra = _
        rw [← hrest, List.append_assoc]
      have hlen' : front'.length = n := by
        simp at hlen
        exact hlen
      have hobs : obs s1 = eff item (obs s) := by
        rw [hs1, (hframe _ _ _ _ []).1, hbody, (hframe s s.gui_chart [] [] rest).2]
      simp only [ui_drain_fuel, hu, List.foldl_cons]
      rw [ih s1 front' (back ++ extra) hidle1 hlen', hobs]

/-- The same for the main loop run over the whole queue. -/
theorem ui_drain_fold {α : Type} (obs : State → α) (eff : IdleItem → α → α)
    (hbody : ∀ (s : State) (item : IdleItem), obs (idle_body s item).1 = eff item (obs s))
    (hframe : ∀ (s : State) (t : ChartTable) (d c : List Nat) (q : List (Nat × IdleItem)),
      obs { s with gui_chart := t, destroyed := d, completed := c } = obs s ∧
      obs { s with idle := q } = obs s) (s : State) :
    obs (ui_drain s) = s.idle.foldl (fun a p => eff p.2 a) (obs s) :=
  ui_drain_fuel_fold obs eff hbody hframe s.idle.length s s.idle [] (List.append_nil _).symm rfl

/-- What the statements of a work item do to the content of the script status view. -/
theorem idle_body_script_status (s : State) (item : IdleItem) :
    (idle_body s item).1.text_view_script_status =
      item.text_effect GtkTextView.text_view_script_status s.text_view_script_status := by
  cases item with
  | text_view_add_buffer_thread view buffer => cases view <;> rfl
  | text_view_add_markup_buffer_thread view buffer => cases view <;> rfl
  | text_view_clear_buffer_thread view => cases view <;> rfl
  | gui_update_search_finished_thread =>
    by_cases h1 : s.no_instruments = true <;>
      simp [idle_body, gui_update_search_finished_thread, hide_info_bar, IdleItem.text_effect,
        h1]
  | gui_update_grab_screenshot_finished_thread =>
    by_cases h1 : s.screenshot_ready = true
    · cases h2 : s.image_pixbuf with
      | none =>
        simp [idle_body, gui_update_grab_screenshot_finished_thread, show_error, g_idle_add,
          IdleItem.text_effect, h1, h2]
      | some width =>
        simp [idle_body, gui_update_grab_screenshot_finished_thread, IdleItem.text_effect, h1,
          h2]
    · by_cases h3 : s.screenshot_loaded = true <;>
        simp [idle_body, gui_update_grab_screenshot_finished_thread, IdleItem.text_effect, h1,
          h3]
  | gui_update_progress_bar_fraction_thread =>
    by_cases h1 : s.progress_count % 2 = 0 <;>
      simp [idle_body, gui_update_progress_bar_fraction_thread, IdleItem.text_effect, h1]
  | _ => rfl

/-- The script status view once the main loop has run the whole queue. -/
theorem ui_drain_script_status (s : State) :
    (ui_drain s).text_view_script_status =
      text_after GtkTextView.text_view_script_status s.text_view_script_status s.idle :=
  ui_drain_fold (fun s => s.text_view_script_status)
    (IdleItem.text_effect GtkTextView.text_view_script_status)
    idle_body_script_status (fun _ _ _ _ _ => ⟨rfl, rfl⟩) s

/-- Posts of texts for the script status view at the end of a queue append the texts to
what the view shows after the queue before them. -/
theorem text_after_append_texts (content : List String) (queue : List (Nat × IdleItem)) :
    ∀ posts : List (Nat × IdleItem), ∀ texts : List (Option String),
    posts.map Prod.snd =
      texts.map (IdleItem.text_view_add_buffer_thread GtkTextView.text_view_script_status) →
    text_after GtkTextView.text_view_script_status content (queue ++ posts) =
      text_after GtkTextView.text_view_script_status content queue ++
        texts.flatMap Option.toList := by
  intro posts
  induction posts generalizing queue with
  | nil =>
    intro texts h
    cases texts with
    | nil => simp
    | cons t rest => simp at h
  | cons p posts ih =>
    intro texts h
    cases texts with
    | nil => simp at h
    | cons t rest =>
      simp only [List.map_cons, List.cons.injEq] at h
      obtain ⟨hp, hrest⟩ := h
      have hq : queue ++ p :: posts = (queue ++ [p]) ++ posts := by simp
      rw [hq, ih (queue ++ [p]) rest hrest]
      simp only [text_after, List.foldl_append, List.foldl_cons, List.foldl_nil, hp,
        IdleItem.text_effect, if_true, List.flatMap_cons, List.append_assoc]

/-! ## The script harness, chunk by chunk -/

/-- A script run that starts with the stop flag clear and sees no stop click: the hook
raises no error, and every line with a line event begins executing. -/
theorem script_run_not_stopped : ∀ (events : List RunEvent) (r : ScriptRun),
    r.st.lua_stop_requested = false → stop_clicked_in events = false →
    (script_run r events).executed = r.executed ++ hook_lines events ∧
    (script_run r events).error = r.error := by
  intro events
  induction events with
  | nil => intro r _ _; simp [script_run, hook_lines]
  | cons e rest ih =>
    intro r hflag hstop
    have hrun : script_run r (e :: rest) = script_run (script_run_step r e) rest := rfl
    rw [hrun]
    cases e with
    | stop_clicked => simp [stop_clicked_in] at hstop
    | hook event line =>
      simp only [stop_clicked_in] at hstop
      have hflag' : (script_run_step r (RunEvent.hook event line)).st.lua_stop_requested = false := by
        rw [(script_run_step_state r (RunEvent.hook event line)).2.2.2.2.2.2.2]
        exact hflag
      obtain ⟨h1, h2⟩ := ih (script_run_step r (RunEvent.hook event line)) hflag' hstop
      rw [h1, h2]
      by_cases hev : event = LUA_HOOKLINE
      · simp [script_run_step, lua_line_hook, hev, hflag, hook_lines]
      · simp [script_run_step, lua_line_hook, hev, hook_lines]

/-- What `luaL_loadbuffer(...) || lua_pcall(...)` does to the run and the window. -/
theorem lua_load_and_call_effect (r : ScriptRun) (chunkname : String) (c : lua_Chunk) :
    (lua_load_and_call r chunkname c).2 = c.failure ∧
    (lua_load_and_call r chunkname c).1.st.calls = r.st.calls ++ c.calls chunkname ∧
    (lua_load_and_call r chunkname c).1.st.idle = r.st.idle ∧
    (lua_load_and_call r chunkname c).1.st.next_source = r.st.next_source ∧
    (lua_load_and_call r chunkname c).1.st.text_view_script_status =
      r.st.text_view_script_status ∧
    (lua_load_and_call r chunkname c).1.st.script_file = r.st.script_file ∧
    (lua_load_and_call r chunkname c).1.st.ip = r.st.ip ∧
    (lua_load_and_call r chunkname c).1.st.id = r.st.id ∧
    (lua_load_and_call r chunkname c).1.st.lua_stop_requested =
      (c.stopped || r.st.lua_stop_requested) ∧
    (r.st.lua_stop_requested = false → c.stopped = false →
      (lua_load_and_call r chunkname c).1.executed = r.executed ++ c.lines ∧
      (lua_load_and_call r chunkname c).1.error = r.error) := by
  unfold lua_load_and_call lua_Chunk.failure lua_Chunk.calls lua_Chunk.stopped lua_Chunk.lines
  cases hl : c.load_error with
  | some message =>
    refine ⟨rfl, rfl, rfl, rfl, rfl, rfl, rfl, rfl, ?_, fun _ _ => ⟨?_, rfl⟩⟩
    · show r.st.lua_stop_requested = (false || r.st.lua_stop_requested)
      simp
    · show r.executed = r.executed ++ []
      simp
  | none =>
    obtain ⟨h1, h2, h3, h4, h5, h6, h7, h8⟩ := script_run_state c.events
      { r with st := record_call (record_call r.st (Call.luaL_loadbuffer chunkname)) Call.lua_pcall }
    refine ⟨rfl, ?_, h4, h5, h6, h7, h1, h2, h8, ?_⟩
    · rw [h3]
      simp [record_call]
    · intro hflag hstop
      exact script_run_not_stopped c.events _ hflag hstop

/-- What the harness does with one chunk: load, call, and print the error message if
either failed. -/
theorem chunk_effect (r : ScriptRun) (chunkname : String) (c : lua_Chunk) (r' : ScriptRun)
    (hr : r' = (match (lua_load_and_call r chunkname c).2 with
      | some message =>
        { (lua_load_and_call r chunkname c).1 with
          st := lua_print_error (lua_load_and_call r chunkname c).1.st message }
      | none => (lua_load_and_call r chunkname c).1)) :
    r'.st.calls = r.st.calls ++ c.calls chunkname ∧
    (∃ posts : List (Nat × IdleItem), r'.st.idle = r.st.idle ++ posts ∧
      posts.map Prod.snd = c.failure_items) ∧
    r'.st.next_source = r.st.next_source + c.failure_items.length ∧
    r'.st.text_view_script_status = r.st.text_view_script_status ∧
    r'.st.script_file = r.st.script_file ∧
    r'.st.ip = r.st.ip ∧ r'.st.id = r.st.id ∧
    r'.st.lua_stop_requested = (c.stopped || r.st.lua_stop_requested) ∧
    (r.st.lua_stop_requested = false → c.stopped = false →
      r'.executed = r.executed ++ c.lines ∧ r'.error = r.error) := by
  obtain ⟨h0, h1, h2, h3, h4, h5, h6, h7, h8, h9⟩ := lua_load_and_call_effect r chunkname c
  rw [h0] at hr
  unfold lua_Chunk.failure_items
  cases hf : c.failure with
  | none =>
    rw [hf] at hr
    simp only [] at hr
    subst hr
    exact ⟨h1, ⟨[], by rw [h2, List.append_nil], rfl⟩, h3, h4, h5, h6, h7, h8, h9⟩
  | some message =>
    rw [hf] at hr
    simp only [] at hr
    subst hr
    refine ⟨h1, ⟨[(r.st.next_source,
        IdleItem.text_view_add_buffer_thread GtkTextView.text_view_script_status message),
      (r.st.next_source + 1,
        IdleItem.text_view_add_buffer_thread GtkTextView.text_view_script_status (some "\n"))],
      ?_, rfl⟩, ?_, h4, h5, h6, h7, h8, h9⟩
    · simp only [lua_print_error, text_view_add_buffer, g_idle_add, h2, h3, List.append_assoc,
        List.cons_append, List.nil_append]
    · simp only [lua_print_error, text_view_add_buffer, g_idle_add, h3, List.length_cons,
        List.length_nil]

/-- What a whole script run does: the library calls it makes, the items it posts, what it
leaves alone, and the lines that begin executing when no stop is clicked during the
run. -/
theorem script_run_worker_function_effect (s : State) (log user : lua_Chunk) :
    (script_run_worker_function s log user).st.calls =
      s.calls ++
        ([Call.luaL_newstate, Call.luaL_openlibs, Call.luaL_setfuncs, Call.lua_sethook,
          Call.lua_register_lxi] ++ log.calls "lxi-gui" ++ user.calls (script_chunkname s) ++
          [Call.lua_close]) ∧
    (∃ posts : List (Nat × IdleItem),
      (script_run_worker_function s log user).st.idle = s.idle ++ posts ∧
      posts.map Prod.snd =
        log.failure_items ++ user.failure_items ++
          [IdleItem.gui_update_script_run_worker_function_finished_thread]) ∧
    (script_run_worker_function s log user).st.text_view_script_status =
      s.text_view_script_status ∧
    (script_run_worker_function s log user).st.ip = s.ip ∧
    (script_run_worker_function s log user).st.id = s.id ∧
    (script_run_worker_function s log user).st.lua_stop_requested =
      (user.stopped || log.stopped) ∧
    (log.stopped = false → user.stopped = false →
      (script_run_worker_function s log user).executed = log.lines ++ user.lines ∧
      (script_run_worker_function s log user).error = none) := by
  obtain ⟨r0, hr0⟩ : ∃ r0 : ScriptRun, r0 =
      { st := record_call (lua_register_gui (record_call (record_call
          { s with lua_stop_requested := false } Call.luaL_newstate) Call.luaL_openlibs))
          Call.lua_register_lxi
        executed := [], error := none } := ⟨_, rfl⟩
  obtain ⟨r1, hr1⟩ : ∃ r1 : ScriptRun, r1 = load_log_script r0 log := ⟨_, rfl⟩
  obtain ⟨r2, hr2⟩ : ∃ r2 : ScriptRun, r2 =
      (match (lua_load_and_call r1 (script_chunkname r1.st) user).2 with
       | some message =>
         { (lua_load_and_call r1 (script_chunkname r1.st) user).1 with
           st := lua_print_error (lua_load_and_call r1 (script_chunkname r1.st) user).1.st
             message }
       | none => (lua_load_and_call r1 (script_chunkname r1.st) user).1) := ⟨_, rfl⟩
  have hfin : script_run_worker_function s log user =
      { r2 with st := (g_idle_add (record_call r2.st Call.lua_close)
          IdleItem.gui_update_script_run_worker_function_finished_thread).1 } := by
    rw [hr2, hr1, hr0]
    rfl
  obtain ⟨a1, a2, a3, a4, a5, a6, a7, a8, a9⟩ := chunk_effect r0 "lxi-gui" log r1 hr1
  obtain ⟨b1, b2, b3, b4, b5, b6, b7, b8, b9⟩ :=
    chunk_effect r1 (script_chunkname r1.st) user r2 hr2
  have z1 : r0.st.calls = s.calls ++ [Call.luaL_newstate, Call.luaL_openlibs,
      Call.luaL_setfuncs, Call.lua_sethook, Call.lua_register_lxi] := by
    rw [hr0]
    simp [record_call, lua_register_gui]
  have z2 : r0.st.idle = s.idle := by rw [hr0]; rfl
  have z3 : r0.st.text_view_script_status = s.text_view_script_status := by rw [hr0]; rfl
  have z4 : r0.st.script_file = s.script_file := by rw [hr0]; rfl
  have z5 : r0.st.ip = s.ip := by rw [hr0]; rfl
  have z6 : r0.st.id = s.id := by rw [hr0]; rfl
  have z7 : r0.st.lua_stop_requested = false := by rw [hr0]; rfl
  have z8 : r0.executed = [] := by rw [hr0]
  have z9 : r0.error = none := by rw [hr0]
  have hname : script_chunkname r1.st = script_chunkname s := by
    unfold script_chunkname
    rw [a5, z4]
  rw [hname] at b1
  rw [hfin]
  obtain ⟨p1, a2, a2'⟩ := a2
  obtain ⟨p2, b2, b2'⟩ := b2
  refine ⟨?_, ⟨p1 ++ p2 ++
    [(r2.st.next_source, IdleItem.gui_update_script_run_worker_function_finished_thread)],
    ?_, ?_⟩, ?_, ?_, ?_, ?_, ?_⟩
  · show r2.st.calls ++ [Call.lua_close] = _
    rw [b1, a1, z1]
    simp
  · show r2.st.idle ++
      [(_, IdleItem.gui_update_script_run_worker_function_finished_thread)] = _
    rw [b2, a2, z2]
    simp [record_call]
  · simp [a2', b2']
  · show r2.st.text_view_script_status = _
    rw [b4, a4, z3]
  · show r2.st.ip = _
    rw [b6, a6, z5]
  · show r2.st.id = _
    rw [b7, a7, z6]
  · show r2.st.lua_stop_requested = _
    rw [b8, a8, z7]
    simp
  · intro hlog huser
    have c1 := a9 z7 hlog
    have hflag : r1.st.lua_stop_requested = false := by
      rw [a8, hlog, z7]
      rfl
    have c2 := b9 hflag huser
    refine ⟨?_, ?_⟩
    · show r2.executed = _
      rw [c2.1, c1.1, z8]
      simp
    · show r2.error = _
      rw [c2.2, c1.2, z9]

/-! ## The stop flag -/

/-- The search worker clears the selected instrument and keeps the stop flag. -/
theorem search_worker_thread_effect {s s' : State} {settings : GSettings}
    {found : List lxi_info_event} (h : search_worker_thread s settings found = some s') :
    s'.ip = none ∧ s'.id = none ∧ s'.lua_stop_requested = s.lua_stop_requested := by
  unfold search_worker_thread at h
  simp only [] at h
  split at h
  · simp at h
  · next s1 h1 =>
    simp only [g_idle_add, Option.some.injEq] at h
    subst h
    obtain ⟨c1, c2, c3⟩ := lxi_discover_same_context _ _ _ h1
    exact ⟨c1, c2, c3⟩

/-- Every step around the send control keeps the selected instrument and the stop flag. -/
theorem send_step_same_context {s s' : State} {e : SendEvent} (h : send_step s e = some s') :
    same_context s s' := by
  cases e with
  | button_clicked_scpi_send =>
    simp only [send_step] at h
    split at h
    · simp only [Option.some.injEq] at h
      subst h
      exact ⟨rfl, rfl, rfl⟩
    · simp at h
  | entry_scpi_enter_pressed =>
    simp only [send_step, Option.some.injEq] at h
    subst h
    exact ⟨rfl, rfl, rfl⟩
  | send_worker_thread settings env =>
    simp only [send_step] at h
    split at h
    · exact (send_worker_thread_frame _ settings env s' h).1
    · simp at h
  | ui_run => exact ui_run_same_context h

/-- Claim C11: whatever the stop flag was before (a stop requested before the run or
left over from an earlier run), a script run in which the stop button is not clicked
begins executing every line for which the interpreter calls the line hook, in the data
logger script and in the user script, raises no error from the hook and ends with the
flag clear: `script_run_worker_function` resets the flag before the interpreter is
created.  The flag is set by `button_clicked_script_stop`; a hook call, a step of the
script worker, the UI thread or the user of a chart window, a step around the send
control, the search, screenshot and benchmark workers, and the handlers of the selection,
search, screenshot, benchmark and run controls leave the flag as it is. -/
theorem stop_flag_reset_at_run_start (s : State) (log user : lua_Chunk)
    (hlog : log.stopped = false) (huser : user.stopped = false) :
    (script_run_worker_function s log user).executed = log.lines ++ user.lines ∧
    (script_run_worker_function s log user).error = none ∧
    (script_run_worker_function s log user).st.lua_stop_requested = false ∧
    (button_clicked_script_stop s).lua_stop_requested = true ∧
    (∀ (r : ScriptRun) (event : Int) (line : Nat),
      (script_run_step r (RunEvent.hook event line)).st.lua_stop_requested =
        r.st.lua_stop_requested) ∧
    (∀ (x x' : Sys) (a : Action), step x a = some x' →
      x'.st.lua_stop_requested = x.st.lua_stop_requested) ∧
    (∀ (x x' : State) (e : SendEvent), send_step x e = some x' →
      x'.lua_stop_requested = x.lua_stop_requested) ∧
    (∀ (x x' : State) (settings : GSettings) (found : List lxi_info_event),
      search_worker_thread x settings found = some x' →
      x'.lua_stop_requested = x.lua_stop_requested) ∧
    (∀ (x : State) (settings : GSettings) (env : screenshot_env),
      (screenshot_grab_worker_thread x settings env).lua_stop_requested =
        x.lua_stop_requested) ∧
    (∀ (x x' : State) (settings : GSettings) (env : benchmark_env),
      benchmark_worker_function x settings env = some x' →
      x'.lua_stop_requested = x.lua_stop_requested) ∧
    (∀ (x : State) (row : Option GtkWidget) (button requests : Nat),
      (pressed_cb x row button).lua_stop_requested = x.lua_stop_requested ∧
      (button_clicked_search x).lua_stop_requested = x.lua_stop_requested ∧
      (button_clicked_screenshot_grab x).lua_stop_requested = x.lua_stop_requested ∧
      (button_clicked_benchmark_start x requests).lua_stop_requested = x.lua_stop_requested ∧
      (toggle_button_clicked_script_run x).lua_stop_requested = x.lua_stop_requested) := by
  obtain ⟨_, _, _, _, _, h7, h8⟩ := script_run_worker_function_effect s log user
  refine ⟨(h8 hlog huser).1, (h8 hlog huser).2, ?_, rfl, ?_, ?_, ?_, ?_, ?_, ?_, ?_⟩
  · rw [h7, hlog, huser]
    rfl
  · intro r event line
    exact (script_run_step_state r (RunEvent.hook event line)).2.2.2.2.2.2.2
  · intro x x' a h
    exact (step_same_context h).2.2
  · intro x x' e h
    exact (send_step_same_context h).2.2
  · intro x x' settings found h
    exact (search_worker_thread_effect h).2.2
  · intro x settings env
    exact (screenshot_grab_worker_thread_same_context x settings env).2.2
  · intro x x' settings env h
    exact (benchmark_worker_function_same_context h).2.2
  · intro x row button requests
    refine ⟨?_, rfl, ?_, ?_, rfl⟩
    · unfold pressed_cb
      cases row with
      | none => rfl
      | some row =>
        simp only []
        cases find_child_by_name row "list-title" <;>
          cases find_child_by_name row "list-subtitle" <;>
            simp only [] <;> split <;> rfl
    · unfold button_clicked_screenshot_grab
      cases x.ip <;> rfl
    · unfold button_clicked_benchmark_start
      simp only [g_idle_add]
      cases x.ip <;> rfl

/-- The statement of C11 at a window in which the stop button was clicked before the
run, for a run of the data logger script (one line) and a user script of two lines with
no stop click: the three lines begin executing. -/
theorem stop_flag_reset_at_run_start_witness :
    (button_clicked_script_stop start_state).lua_stop_requested = true ∧
    log_chunk.stopped = false ∧ two_line_chunk.stopped = false ∧
    (script_run_worker_function (button_clicked_script_stop start_state) log_chunk
      two_line_chunk).executed = [1, 1, 2] ∧
    (script_run_worker_function (button_clicked_script_stop start_state) log_chunk
      two_line_chunk).error = none ∧
    (script_run_worker_function (button_clicked_script_stop start_state) log_chunk
      two_line_chunk).st.lua_stop_requested = false :=
  have h := stop_flag_reset_at_run_start (button_clicked_script_stop start_state) log_chunk
    two_line_chunk rfl rfl
  ⟨rfl, rfl, rfl, h.1, h.2.1, h.2.2.1⟩

/-! ## The end of a script run -/

theorem posted_of_append {s s' : State} {posts : List (Nat × IdleItem)}
    (h : s'.idle = s.idle ++ posts) : posted s s' = posts.map Prod.snd := by
  unfold posted
  rw [h, List.drop_left]

theorem called_of_append {s s' : State} {calls : List Call}
    (h : s'.calls = s.calls ++ calls) : called s s' = calls := by
  unfold called
  rw [h, List.drop_left]

/-- The content of a text view after a queue depends on the items of the queue alone. -/
theorem text_after_append (view : GtkTextView) (content : List String)
    (queue posts : List (Nat × IdleItem)) :
    text_after view content (queue ++ posts) =
      (posts.map Prod.snd).foldl (fun c item => item.text_effect view c)
        (text_after view content queue) := by
  unfold text_after
  rw [List.foldl_append, List.foldl_map]

/-- Claim C12: for every script run, whatever the interpreter makes of the data logger
script and of the user script: the run makes the library calls `luaL_newstate`,
`luaL_openlibs`, `luaL_setfuncs`, `lua_sethook` and `lua_register_lxi`, then the load
and, if it loads, the call of each of the two chunks, and last `lua_close`, so the
interpreter is created once and closed once; it posts, for each of the two chunks that fails, the error
message and then a newline for the script status view, and last, exactly once, the item
`gui_update_script_run_worker_function_finished_thread`; once the UI thread has run its
queue the script status view has grown by exactly these messages and newlines, so by
nothing when neither chunk fails, and by the message and a newline when the user script
alone fails. -/
theorem script_run_closes_interpreter_and_finishes_once (s : State) (log user : lua_Chunk) :
    called s (script_run_worker_function s log user).st =
      [Call.luaL_newstate, Call.luaL_openlibs, Call.luaL_setfuncs, Call.lua_sethook,
        Call.lua_register_lxi] ++ log.calls "lxi-gui" ++ user.calls (script_chunkname s) ++
        [Call.lua_close] ∧
    (called s (script_run_worker_function s log user).st).count Call.lua_close = 1 ∧
    (called s (script_run_worker_function s log user).st).count Call.luaL_newstate = 1 ∧
    posted s (script_run_worker_function s log user).st =
      log.failure_items ++ user.failure_items ++
        [IdleItem.gui_update_script_run_worker_function_finished_thread] ∧
    ((posted s (script_run_worker_function s log user).st).filter
      IdleItem.is_script_finished).length = 1 ∧
    (ui_drain (script_run_worker_function s log user).st).text_view_script_status =
      (ui_drain s).text_view_script_status ++ log.failure_texts ++ user.failure_texts ∧
    (log.failure = none → user.failure = none →
      posted s (script_run_worker_function s log user).st =
        [IdleItem.gui_update_script_run_worker_function_finished_thread] ∧
      (ui_drain (script_run_worker_function s log user).st).text_view_script_status =
        (ui_drain s).text_view_script_status) ∧
    (log.failure = none → ∀ message : String, user.failure = some (some message) →
      posted s (script_run_worker_function s log user).st =
        [IdleItem.text_view_add_buffer_thread GtkTextView.text_view_script_status (some message),
         IdleItem.text_view_add_buffer_thread GtkTextView.text_view_script_status (some "\n"),
         IdleItem.gui_update_script_run_worker_function_finished_thread] ∧
      (ui_drain (script_run_worker_function s log user).st).text_view_script_status =
        (ui_drain s).text_view_script_status ++ [message, "\n"]) := by
  obtain ⟨h1, ⟨posts, h2, h2'⟩, h3, _, _, _, _⟩ := script_run_worker_function_effect s log user
  have hcalled := called_of_append h1
  have hposted := (posted_of_append h2).trans h2'
  have htext : (ui_drain (script_run_worker_function s log user).st).text_view_script_status =
      (ui_drain s).text_view_script_status ++ log.failure_texts ++ user.failure_texts := by
    rw [ui_drain_script_status, ui_drain_script_status, h2, h3, text_after_append, h2']
    unfold lua_Chunk.failure_items lua_Chunk.failure_texts
    cases log.failure <;> cases user.failure <;>
      simp [IdleItem.text_effect]
  refine ⟨hcalled, ?_, ?_, hposted, ?_, htext, ?_, ?_⟩
  · rw [hcalled]
    unfold lua_Chunk.calls
    cases log.load_error <;> cases user.load_error <;> simp
  · rw [hcalled]
    unfold lua_Chunk.calls
    cases log.load_error <;> cases user.load_error <;> simp
  · rw [hposted]
    unfold lua_Chunk.failure_items
    cases log.failure <;> cases user.failure <;> simp [IdleItem.is_script_finished]
  · intro hl hu
    refine ⟨?_, ?_⟩
    · rw [hposted]
      simp [lua_Chunk.failure_items, hl, hu]
    · rw [htext]
      simp [lua_Chunk.failure_texts, hl, hu]
  · intro hl message hu
    refine ⟨?_, ?_⟩
    · rw [hposted]
      simp [lua_Chunk.failure_items, hl, hu]
    · rw [htext]
      simp [lua_Chunk.failure_texts, hl, hu]

/-! ## Discovery through `vxi11_device` -/

/-- One notification through `vxi11_device`, fully processed, appends its row, whatever
the list shows already. -/
theorem vxi11_deliver_appends (s : State) (es : List (String × String)) (n : String × String)
    (hfree : s.mutex_discover = false)
    (hq : ∀ p ∈ s.idle, p.2.added_list_box = none ∧ p.2.is_search_start = false)
    (hlist : s.list_instruments = es.map instrument_row) :
    ∃ s' : State, vxi11_deliver s n = some s' ∧
      s'.mutex_discover = false ∧
      (∀ p ∈ s'.idle, p.2.added_list_box = none ∧ p.2.is_search_start = false) ∧
      s'.list_instruments = (es ++ [n]).map instrument_row := by
  have hfm := plain_queue_filterMap s.idle hq
  unfold vxi11_deliver vxi11_device
  simp only [hfree, Bool.false_eq_true, if_false]
  have hns : ∀ p ∈ (list_add_instrument { s with mutex_discover := true } n.1 n.2).idle,
      p.2.is_search_start = false := by
    intro p hp
    simp only [list_add_instrument, g_idle_add, List.mem_append, List.mem_singleton] at hp
    rcases hp with hp | hp
    · exact (hq p hp).2
    · rw [hp]
      rfl
  obtain ⟨h1, h2, h3⟩ :=
    ui_drain_discovery (list_add_instrument { s with mutex_discover := true } n.1 n.2) hns
  refine ⟨_, rfl, ?_, ?_, ?_⟩
  · rw [h3]
    simp only [list_add_instrument, g_idle_add, List.filterMap_append, hfm]
    simp [IdleItem.added_list_box]
  · intro p hp
    have hp' := show_error_is_plain p.2 (h1 p hp)
    exact ⟨hp'.2.2.2.1, hp'.2.2.2.2⟩
  · rw [h2]
    simp only [list_add_instrument, g_idle_add, List.filterMap_append, hfm, hlist]
    simp [IdleItem.added_list_box, instrument_row]

/-- A sequence of notifications through `vxi11_device` appends a row for each. -/
theorem vxi11_deliver_all_appends : ∀ (ns : List (String × String)) (s : State)
    (es : List (String × String)),
    s.mutex_discover = false →
    (∀ p ∈ s.idle, p.2.added_list_box = none ∧ p.2.is_search_start = false) →
    s.list_instruments = es.map instrument_row →
    ∃ s' : State, vxi11_deliver_all s ns = some s' ∧
      s'.mutex_discover = false ∧
      s'.list_instruments = (es ++ ns).map instrument_row := by
  intro ns
  induction ns with
  | nil =>
    intro s es hfree _ hlist
    exact ⟨s, rfl, hfree, by simpa using hlist⟩
  | cons n rest ih =>
    intro s es hfree hq hlist
    obtain ⟨s1, hd, hf1, hq1, hl1⟩ := vxi11_deliver_appends s es n hfree hq hlist
    obtain ⟨s', hrun, hf', hl'⟩ := ih s1 (es ++ [n]) hf1 hq1 hl1
    refine ⟨s', ?_, hf', ?_⟩
    · simp only [vxi11_deliver_all, hd]
      exact hrun
    · rw [hl']
      simp

/-- Claim C13, as the code has it: starting from an empty instrument list with the
discovery lock free and neither an append nor a start of a search pending, every sequence
`ns` of notifications delivered through `vxi11_device`, each fully processed before the
next, is delivered without a wait, and the resulting list shows one entry for every
notification, in order of arrival, duplicates included: `vxi11_device` does not scan the
list.  For the identifiers A, B, A, C the list shows A, B, A, C. -/
theorem vxi11_device_appends_every_notification (s0 : State) (ns : List (String × String))
    (hempty : s0.list_instruments = [])
    (hfree : s0.mutex_discover = false)
    (hq : ∀ p ∈ s0.idle, p.2.added_list_box = none ∧ p.2.is_search_start = false) :
    (∃ s : State, vxi11_deliver_all s0 ns = some s ∧
      s.list_instruments.map row_instrument = ns.map (fun e => (some e.1, some e.2)) ∧
      s.mutex_discover = false) ∧
    (vxi11_deliver_all start_state example_notifications).map
        (fun s => s.list_instruments.map row_instrument) =
      some [(some "10.0.0.1", some "A"), (some "10.0.0.2", some "B"),
            (some "10.0.0.3", some "A"), (some "10.0.0.4", some "C")] := by
  refine ⟨?_, by decide⟩
  obtain ⟨s, hrun, hf, hlist⟩ := vxi11_deliver_all_appends ns s0 [] hfree hq (by simp [hempty])
  refine ⟨s, hrun, ?_, hf⟩
  rw [hlist, List.nil_append, List.map_map]
  apply List.map_congr_left
  intro e _
  exact row_instrument_instrument_row e

/-- The statement of C13 at the initialised window and the notifications of the example
scenario. -/
theorem vxi11_device_appends_every_notification_witness :
    start_state.list_instruments = [] ∧
    start_state.mutex_discover = false ∧
    (∀ p ∈ start_state.idle, p.2.added_list_box = none ∧ p.2.is_search_start = false) ∧
    (∃ s : State, vxi11_deliver_all start_state example_notifications = some s ∧
      s.list_instruments.map row_instrument =
        example_notifications.map (fun e => (some e.1, some e.2)) ∧
      s.mutex_discover = false) ∧
    (vxi11_deliver_all start_state example_notifications).map
        (fun s => s.list_instruments.map row_instrument) =
      some [(some "10.0.0.1", some "A"), (some "10.0.0.2", some "B"),
            (some "10.0.0.3", some "A"), (some "10.0.0.4", some "C")] :=
  have hq : ∀ p ∈ start_state.idle,
      p.2.added_list_box = none ∧ p.2.is_search_start = false := by
    intro p hp
    simp only [start_state, lxi_gui_window_init, text_view_add_buffer, g_idle_add, List.nil_append,
      List.cons_append, List.mem_cons, List.mem_singleton, List.not_mem_nil, or_false] at hp
    rcases hp with hp | hp <;> rw [hp] <;> exact ⟨rfl, rfl⟩
  ⟨rfl, rfl, hq,
    vxi11_device_appends_every_notification start_state example_notifications rfl rfl hq⟩

/-! ## The print override -/

/-- The loop of `lua_print` over the argument indices `l`: for each index that holds a
string or a number, in order, the text and a newline are posted for the script status
view; nothing else changes. -/
theorem lua_print_loop_effect (L : lua_State) : ∀ (l : List Nat) (s : State),
    ∃ posts : List (Nat × IdleItem),
      (l.foldl (fun s i => if L.isstring i = true then lua_print_string s (L.tostring i) else s)
        s).idle = s.idle ++ posts ∧
      posts.map Prod.snd =
        (l.filter (fun i => L.isstring i)).flatMap (fun i =>
          [IdleItem.text_view_add_buffer_thread GtkTextView.text_view_script_status
             (L.tostring i),
           IdleItem.text_view_add_buffer_thread GtkTextView.text_view_script_status
             (some "\n")]) ∧
      (l.foldl (fun s i => if L.isstring i = true then lua_print_string s (L.tostring i) else s)
        s).text_view_script_status = s.text_view_script_status ∧
      same_context s
        (l.foldl (fun s i => if L.isstring i = true then lua_print_string s (L.tostring i) else s)
          s) := by
  intro l
  induction l with
  | nil => intro s; exact ⟨[], by simp, by simp, rfl, same_context_refl s⟩
  | cons i rest ih =>
    intro s
    simp only [List.foldl_cons]
    by_cases hi : L.isstring i = true
    · simp only [hi, if_true]
      obtain ⟨posts, h1, h2, h3, h4⟩ := ih (lua_print_string s (L.tostring i))
      refine ⟨[(s.next_source,
          IdleItem.text_view_add_buffer_thread GtkTextView.text_view_script_status (L.tostring i)),
        (s.next_source + 1,
          IdleItem.text_view_add_buffer_thread GtkTextView.text_view_script_status
            (some "\n"))] ++ posts, ?_, ?_, ?_, ?_⟩
      · rw [h1]
        simp [lua_print_string, text_view_add_buffer, g_idle_add]
      · simp [h2, List.filter_cons, hi]
      · rw [h3]
        rfl
      · exact same_context_trans (b := lua_print_string s (L.tostring i)) ⟨rfl, rfl, rfl⟩ h4
    · simp only [hi, if_false]
      obtain ⟨posts, h1, h2, h3, h4⟩ := ih s
      refine ⟨posts, h1, ?_, h3, h4⟩
      simp [h2, List.filter_cons, hi]

/-- Claim C14: for every argument list, `lua_print` returns no values and posts, for each
argument in argument order that `lua_isstring` accepts (a string or a number), that
argument's text and then a newline for the script status view, and nothing for any other
argument; once the UI thread has run its queue the view has grown by exactly these texts
and newlines.  With no arguments nothing is posted.  For `print("a", 1.5, nil, "b")` at
the initialised window the view shows, after the two greeting lines, `a`, newline, `1.5`,
newline, `b`, newline. -/
theorem lua_print_appends_text_arguments (s : State) (L : lua_State) :
    (lua_print s L).2 = [] ∧
    posted s (lua_print s L).1 =
      ((List.range' 1 L.gettop).filter (fun i => L.isstring i)).flatMap (fun i =>
        [IdleItem.text_view_add_buffer_thread GtkTextView.text_view_script_status
           (L.tostring i),
         IdleItem.text_view_add_buffer_thread GtkTextView.text_view_script_status
           (some "\n")]) ∧
    (ui_drain (lua_print s L).1).text_view_script_status =
      (ui_drain s).text_view_script_status ++
        ((List.range' 1 L.gettop).filter (fun i => L.isstring i)).flatMap (fun i =>
          (L.tostring i).toList ++ ["\n"]) ∧
    (L.gettop = 0 → posted s (lua_print s L).1 = []) ∧
    (ui_drain (lua_print start_state print_args).1).text_view_script_status =
      ["Lua 5.4 engine ready\n", "Loaded lxi-tools extensions\n", "a", "\n", "1.5", "\n", "b",
       "\n"] := by
  obtain ⟨posts, h1, h2, h3, _⟩ := lua_print_loop_effect L (List.range' 1 L.gettop) s
  have hposted : posted s (lua_print s L).1 = _ := (posted_of_append h1).trans h2
  refine ⟨rfl, hposted, ?_, ?_, by decide⟩
  · show (ui_drain (lua_print s L).1).text_view_script_status = _
    rw [ui_drain_script_status, ui_drain_script_status]
    show text_after _ (List.foldl _ s (List.range' 1 L.gettop)).text_view_script_status
      (List.foldl _ s (List.range' 1 L.gettop)).idle = _
    rw [h1, h3, text_after_append, h2]
    generalize text_after GtkTextView.text_view_script_status s.text_view_script_status s.idle =
      content
    generalize (List.range' 1 L.gettop).filter (fun i => L.isstring i) = args
    have hstep : ∀ (buffer : Option String) (c : List String),
        (IdleItem.text_view_add_buffer_thread GtkTextView.text_view_script_status
          buffer).text_effect GtkTextView.text_view_script_status c = c ++ buffer.toList := by
      intro buffer c
      simp [IdleItem.text_effect]
    induction args generalizing content with
    | nil => simp
    | cons i rest ih =>
      simp only [List.flatMap_cons, List.foldl_append, List.foldl_cons, List.foldl_nil, hstep]
      rw [ih]
      simp
  · intro h0
    rw [hposted, h0]
    rfl

/-! ## The decoding of the arguments of `chart_new` -/

/-- The `switch` of `lua_gui_chart_new`, kind by kind. -/
theorem chart_new_parse_fields (L : lua_State) (c : chart_t) :
    (chart_new_parse L c).type = c.type ∧
    (c.type = GTK_CHART_TYPE_LINE ∨ c.type = GTK_CHART_TYPE_SCATTER →
      chart_new_parse L c =
        { c with title := L.tostring 2, x_label := L.tostring 3, y_label := L.tostring 4,
                 x_max := L.tonumber 5, y_max := L.tonumber 6,
                 width := c_int (L.tointeger 7), autoscale := L.toboolean 8,
                 no_csv := false }) ∧
    (c.type = GTK_CHART_TYPE_NUMBER →
      chart_new_parse L c =
        { c with title := L.tostring 2, label := L.tostring 3,
                 width := c_int (L.tointeger 4), no_csv := true }) ∧
    (c.type = GTK_CHART_TYPE_GAUGE_LINEAR ∨ c.type = GTK_CHART_TYPE_GAUGE_ANGULAR →
      chart_new_parse L c =
        { c with title := L.tostring 2, label := L.tostring 3,
                 value_min := L.tonumber 4, value_max := L.tonumber 5,
                 width := c_int (L.tointeger 6), no_csv := true }) ∧
    (c.type = GTK_CHART_TYPE_UNKNOWN → chart_new_parse L c = c) := by
  unfold chart_new_parse
  cases hty : c.type <;> simp [hty]

/-- The kind named by a string, string by string. -/
theorem chart_type_of_string_cases (type : String) :
    (type = "line" → chart_type_of_string type = GTK_CHART_TYPE_LINE) ∧
    (type = "scatter" → chart_type_of_string type = GTK_CHART_TYPE_SCATTER) ∧
    (type = "number" → chart_type_of_string type = GTK_CHART_TYPE_NUMBER) ∧
    (type = "linear-gauge" → chart_type_of_string type = GTK_CHART_TYPE_GAUGE_LINEAR) ∧
    (type = "angular-gauge" → chart_type_of_string type = GTK_CHART_TYPE_GAUGE_ANGULAR) ∧
    (type ≠ "line" → type ≠ "scatter" → type ≠ "number" → type ≠ "linear-gauge" →
      type ≠ "angular-gauge" → chart_type_of_string type = GTK_CHART_TYPE_UNKNOWN) := by
  refine ⟨?_, ?_, ?_, ?_, ?_, ?_⟩
  · intro h; subst h; decide
  · intro h; subst h; decide
  · intro h; subst h; decide
  · intro h; subst h; decide
  · intro h; subst h; decide
  · intro h1 h2 h3 h4 h5
    simp [chart_type_of_string, h1, h2, h3, h4, h5]

/-- Counterexample to C15 as stated: `chart_new("pie", "Shares")` at the initialised
window takes slot 0, gives it the kind Unknown, and leaves `no_csv == false`: a chart that
is neither Line nor Scatter has CSV data. -/
theorem chart_new_unknown_kind_has_csv_counterexample :
    (lua_gui_chart_new_post start_state pie_chart_args).map
        (fun r => (r.2.1.val, (r.1.gui_chart r.2.1).type, (r.1.gui_chart r.2.1).no_csv)) =
      some (0, GTK_CHART_TYPE_UNKNOWN, false) := by
  decide

/-- Claim C15, amended: when `chart_new` reaches its post, the first argument is a string
and names the kind of the slot by exact comparison (`line`, `scatter`, `number`,
`linear-gauge`, `angular-gauge`, every other string Unknown); for Line and Scatter the
arguments 2..8 are title, x label, y label, x max, y max, width and autoscale, and
`no_csv` is false; for Number the arguments 2..4 are title, label and width, and `no_csv`
is true; for both gauges the arguments 2..6 are title, label, value-min, value-max and
width, and `no_csv` is true; for Unknown no argument is decoded and these fields,
`no_csv` among them, keep what the slot held before.  So among the five named kinds
`no_csv == false` holds exactly for Line and Scatter. -/
theorem chart_new_decodes_arguments (s : State) (L : lua_State) (s' : State)
    (chart : Fin CHARTS_MAX) (source : Nat)
    (h : lua_gui_chart_new_post s L = some (s', chart, source)) :
    ∃ type : String, L.tostring 1 = some type ∧
      (s'.gui_chart chart).type = chart_type_of_string type ∧
      (type = "line" → (s'.gui_chart chart).type = GTK_CHART_TYPE_LINE) ∧
      (type = "scatter" → (s'.gui_chart chart).type = GTK_CHART_TYPE_SCATTER) ∧
      (type = "number" → (s'.gui_chart chart).type = GTK_CHART_TYPE_NUMBER) ∧
      (type = "linear-gauge" → (s'.gui_chart chart).type = GTK_CHART_TYPE_GAUGE_LINEAR) ∧
      (type = "angular-gauge" → (s'.gui_chart chart).type = GTK_CHART_TYPE_GAUGE_ANGULAR) ∧
      (type ≠ "line" → type ≠ "scatter" → type ≠ "number" → type ≠ "linear-gauge" →
        type ≠ "angular-gauge" → (s'.gui_chart chart).type = GTK_CHART_TYPE_UNKNOWN) ∧
      ((s'.gui_chart chart).type = GTK_CHART_TYPE_LINE ∨
        (s'.gui_chart chart).type = GTK_CHART_TYPE_SCATTER →
        (s'.gui_chart chart).title = L.tostring 2 ∧
        (s'.gui_chart chart).x_label = L.tostring 3 ∧
        (s'.gui_chart chart).y_label = L.tostring 4 ∧
        (s'.gui_chart chart).x_max = L.tonumber 5 ∧
        (s'.gui_chart chart).y_max = L.tonumber 6 ∧
        (s'.gui_chart chart).width = c_int (L.tointeger 7) ∧
        (s'.gui_chart chart).autoscale = L.toboolean 8 ∧
        (s'.gui_chart chart).no_csv = false) ∧
      ((s'.gui_chart chart).type = GTK_CHART_TYPE_NUMBER →
        (s'.gui_chart chart).title = L.tostring 2 ∧
        (s'.gui_chart chart).label = L.tostring 3 ∧
        (s'.gui_chart chart).width = c_int (L.tointeger 4) ∧
        (s'.gui_chart chart).no_csv = true) ∧
      ((s'.gui_chart chart).type = GTK_CHART_TYPE_GAUGE_LINEAR ∨
        (s'.gui_chart chart).type = GTK_CHART_TYPE_GAUGE_ANGULAR →
        (s'.gui_chart chart).title = L.tostring 2 ∧
        (s'.gui_chart chart).label = L.tostring 3 ∧
        (s'.gui_chart chart).value_min = L.tonumber 4 ∧
        (s'.gui_chart chart).value_max = L.tonumber 5 ∧
        (s'.gui_chart chart).width = c_int (L.tointeger 6) ∧
        (s'.gui_chart chart).no_csv = true) ∧
      ((s'.gui_chart chart).type = GTK_CHART_TYPE_UNKNOWN →
        (s'.gui_chart chart).title = (s.gui_chart chart).title ∧
        (s'.gui_chart chart).label = (s.gui_chart chart).label ∧
        (s'.gui_chart chart).x_label = (s.gui_chart chart).x_label ∧
        (s'.gui_chart chart).y_label = (s.gui_chart chart).y_label ∧
        (s'.gui_chart chart).x_max = (s.gui_chart chart).x_max ∧
        (s'.gui_chart chart).y_max = (s.gui_chart chart).y_max ∧
        (s'.gui_chart chart).value_min = (s.gui_chart chart).value_min ∧
        (s'.gui_chart chart).value_max = (s.gui_chart chart).value_max ∧
        (s'.gui_chart chart).width = (s.gui_chart chart).width ∧
        (s'.gui_chart chart).autoscale = (s.gui_chart chart).autoscale ∧
        (s'.gui_chart chart).no_csv = (s.gui_chart chart).no_csv) ∧
      ((s'.gui_chart chart).type ≠ GTK_CHART_TYPE_UNKNOWN →
        ((s'.gui_chart chart).no_csv = false ↔
          (s'.gui_chart chart).type = GTK_CHART_TYPE_LINE ∨
          (s'.gui_chart chart).type = GTK_CHART_TYPE_SCATTER)) := by
  obtain ⟨type, htype, hscan, _, hs'⟩ := lua_gui_chart_new_post_some h
  obtain ⟨_, _, ht⟩ := chart_new_scan_result s.gui_chart chart hscan
  obtain ⟨c0, hc0⟩ : ∃ c0 : chart_t, c0 =
      { (chart_new_scan CHARTS_MAX 0 s.gui_chart).1 chart with
        type := chart_type_of_string type
        handle := ((chart_new_scan CHARTS_MAX 0 s.gui_chart).2 : Int) } := ⟨_, rfl⟩
  have hslot : s'.gui_chart chart = chart_new_parse L c0 := by
    rw [hs', hc0]
    simp only [Function.update_same]
  have hc0type : c0.type = chart_type_of_string type := by rw [hc0]
  have hold : (chart_new_scan CHARTS_MAX 0 s.gui_chart).1 chart =
      { s.gui_chart chart with allocated := true } := by
    rw [ht, Function.update_same]
  obtain ⟨p0, p1, p2, p3, p4⟩ := chart_new_parse_fields L c0
  obtain ⟨m1, m2, m3, m4, m5, m6⟩ := chart_type_of_string_cases type
  have hty : (s'.gui_chart chart).type = chart_type_of_string type := by
    rw [hslot, p0, hc0type]
  refine ⟨type, htype, hty, fun e => hty.trans (m1 e), fun e => hty.trans (m2 e),
    fun e => hty.trans (m3 e), fun e => hty.trans (m4 e), fun e => hty.trans (m5 e),
    fun e1 e2 e3 e4 e5 => hty.trans (m6 e1 e2 e3 e4 e5), ?_, ?_, ?_, ?_, ?_⟩
  · intro hk
    rw [hslot, p0] at hk
    rw [hslot, p1 hk]
    exact ⟨rfl, rfl, rfl, rfl, rfl, rfl, rfl, rfl⟩
  · intro hk
    rw [hslot, p0] at hk
    rw [hslot, p2 hk]
    exact ⟨rfl, rfl, rfl, rfl⟩
  · intro hk
    rw [hslot, p0] at hk
    rw [hslot, p3 hk]
    exact ⟨rfl, rfl, rfl, rfl, rfl, rfl⟩
  · intro hk
    rw [hslot, p0] at hk
    rw [hslot, p4 hk, hc0, hold]
    exact ⟨rfl, rfl, rfl, rfl, rfl, rfl, rfl, rfl, rfl, rfl, rfl⟩
  · intro hk
    rw [hslot, p0] at hk ⊢
    cases hc : c0.type with
    | GTK_CHART_TYPE_UNKNOWN => exact absurd hc hk
    | GTK_CHART_TYPE_LINE => rw [p1 (Or.inl hc)]; simp
    | GTK_CHART_TYPE_SCATTER => rw [p1 (Or.inr hc)]; simp
    | GTK_CHART_TYPE_GAUGE_ANGULAR => rw [p3 (Or.inr hc)]; simp
    | GTK_CHART_TYPE_GAUGE_LINEAR => rw [p3 (Or.inl hc)]; simp
    | GTK_CHART_TYPE_NUMBER => rw [p2 hc]; simp

/-- The amended statement of C15 at the initialised window and the call
`chart_new("line", "Voltage", "t", "V", 10, 5, 400, true)`: the slot gets the kind Line,
the title `Voltage`, the width 400 and `no_csv == false`. -/
theorem chart_new_decodes_arguments_witness :
    ∃ (s' : State) (chart : Fin CHARTS_MAX) (source : Nat),
      lua_gui_chart_new_post start_state line_chart_args = some (s', chart, source) ∧
      (s'.gui_chart chart).type = GTK_CHART_TYPE_LINE ∧
      (s'.gui_chart chart).title = some "Voltage" ∧
      (s'.gui_chart chart).x_label = some "t" ∧
      (s'.gui_chart chart).y_label = some "V" ∧
      (s'.gui_chart chart).x_max = 10 ∧
      (s'.gui_chart chart).y_max = 5 ∧
      (s'.gui_chart chart).width = 400 ∧
      (s'.gui_chart chart).autoscale = true ∧
      (s'.gui_chart chart).no_csv = false := by
  obtain ⟨s', chart, source, hpost⟩ :
      ∃ (s' : State) (chart : Fin CHARTS_MAX) (source : Nat),
        lua_gui_chart_new_post start_state line_chart_args = some (s', chart, source) := by
    obtain ⟨r, hr⟩ := lua_gui_chart_new_post_isSome start_state line_chart_args "line" rfl
      ⟨⟨0, by decide⟩, rfl⟩
    exact ⟨r.1, r.2.1, r.2.2, hr⟩
  obtain ⟨type, htype, _, hline, _, _, _, _, _, hfields, _⟩ :=
    chart_new_decodes_arguments start_state line_chart_args s' chart source hpost
  have htl : type = "line" := by
    have : line_chart_args.tostring 1 = some "line" := rfl
    rw [htype] at this
    exact Option.some.inj this
  obtain ⟨f1, f2, f3, f4, f5, f6, f7, f8⟩ := hfields (Or.inl (hline htl))
  exact ⟨s', chart, source, hpost, hline htl, f1, f2, f3, f4, f5, by rw [f6]; decide, f7, f8⟩

/-! ## The selected instrument -/

/-- Counterexample to C16 as stated: with the instrument `10.0.0.1` (identifier `A`)
selected, a run of the search worker that finds nothing leaves no instrument selected:
`ip` and `id` are both `NULL`. -/
theorem search_worker_resets_selection_counterexample :
    selected_state.ip = some "10.0.0.1" ∧ selected_state.id = some "A" ∧
    (search_worker_thread selected_state example_settings []).map (fun s => (s.ip, s.id)) =
      some (none, none) := by
  decide

/-- The handler `pressed_cb` on a row built by `list_add_instrument` selects the
instrument the row shows; without a row under the pointer it selects nothing new. -/
theorem pressed_cb_selects (s : State) (e : String × String) (button : Nat) :
    (pressed_cb s (some (instrument_row e)) button).ip = some e.1 ∧
    (pressed_cb s (some (instrument_row e)) button).id = some e.2 ∧
    (pressed_cb s none button).ip = s.ip ∧ (pressed_cb s none button).id = s.id := by
  have h1 : find_child_by_name (instrument_row e) "list-title" =
      some (GtkWidget.mk "list-title" e.1 []) := by
    simp [instrument_row, instrument_list_box, find_child_by_name, find_child_by_name_children]
  have h2 := find_subtitle_instrument_row e
  refine ⟨?_, ?_, rfl, rfl⟩
  · simp only [pressed_cb, h1, h2]
    split <;> rfl
  · simp only [pressed_cb, h1, h2]
    split <;> rfl

/-- Claim C16, amended: the selected instrument (`ip`, `id`) is written by the selection
handler `pressed_cb`, which stores the address and identifier of the clicked row, and by
the search worker, which resets both to `NULL` before it searches; window initialisation
leaves both `NULL`.  Every other operation leaves `ip` and `id` as they are: the request
to start a search, every work item run by the main loop (the start of a search among
them), the send, screenshot, benchmark and script workers, every step of the script
worker's host calls, of the UI thread and of the user of a chart window, every step
around the send control, the discovery callbacks, the print override and the handlers of
the screenshot, benchmark, run and stop controls. -/
theorem selection_written_by_pressed_cb_and_search_worker (s : State) (settings : GSettings) :
    (∀ (e : String × String) (button : Nat),
      (pressed_cb s (some (instrument_row e)) button).ip = some e.1 ∧
      (pressed_cb s (some (instrument_row e)) button).id = some e.2) ∧
    (∀ (found : List lxi_info_event) (s' : State),
      search_worker_thread s settings found = some s' → s'.ip = none ∧ s'.id = none) ∧
    (∀ (lua_version : String) (builder : Nat → Nat × Nat),
      (lxi_gui_window_init lua_version builder).ip = none ∧
      (lxi_gui_window_init lua_version builder).id = none) ∧
    ((button_clicked_search s).ip = s.ip ∧ (button_clicked_search s).id = s.id) ∧
    (∀ s' : State, ui_run s = some s' → s'.ip = s.ip ∧ s'.id = s.id) ∧
    ((gui_update_search_start_thread s).ip = s.ip ∧
      (gui_update_search_start_thread s).id = s.id) ∧
    (∀ (env : send_worker_env) (s' : State),
      send_worker_thread s settings env = some s' → s'.ip = s.ip ∧ s'.id = s.id) ∧
    (∀ env : screenshot_env,
      (screenshot_grab_worker_thread s settings env).ip = s.ip ∧
      (screenshot_grab_worker_thread s settings env).id = s.id) ∧
    (∀ (env : benchmark_env) (s' : State),
      benchmark_worker_function s settings env = some s' → s'.ip = s.ip ∧ s'.id = s.id) ∧
    (∀ log user : lua_Chunk,
      (script_run_worker_function s log user).st.ip = s.ip ∧
      (script_run_worker_function s log user).st.id = s.id) ∧
    (∀ (x x' : Sys) (a : Action), step x a = some x' →
      x'.st.ip = x.st.ip ∧ x'.st.id = x.st.id) ∧
    (∀ (e : SendEvent) (s' : State), send_step s e = some s' → s'.ip = s.ip ∧ s'.id = s.id) ∧
    (∀ (e : lxi_info_event) (s' : State),
      lxi_info_callback s e = some s' → s'.ip = s.ip ∧ s'.id = s.id) ∧
    (∀ L : lua_State, (lua_print s L).1.ip = s.ip ∧ (lua_print s L).1.id = s.id) ∧
    (∀ requests : Nat,
      (button_clicked_screenshot_grab s).ip = s.ip ∧
      (button_clicked_screenshot_grab s).id = s.id ∧
      (button_clicked_benchmark_start s requests).ip = s.ip ∧
      (button_clicked_benchmark_start s requests).id = s.id ∧
      (toggle_button_clicked_script_run s).ip = s.ip ∧
      (toggle_button_clicked_script_run s).id = s.id ∧
      (button_clicked_script_stop s).ip = s.ip ∧
      (button_clicked_script_stop s).id = s.id) := by
  refine ⟨?_, ?_, ?_, ⟨rfl, rfl⟩, ?_, ⟨rfl, rfl⟩, ?_, ?_, ?_, ?_, ?_, ?_, ?_, ?_, ?_⟩
  · intro e button
    exact ⟨(pressed_cb_selects s e button).1, (pressed_cb_selects s e button).2.1⟩
  · intro found s' h
    exact ⟨(search_worker_thread_effect h).1, (search_worker_thread_effect h).2.1⟩
  · intro lua_version builder
    exact ⟨rfl, rfl⟩
  · intro s' h
    exact ⟨(ui_run_same_context h).1, (ui_run_same_context h).2.1⟩
  · intro env s' h
    have hf := (send_worker_thread_frame s settings env s' h).1
    exact ⟨hf.1, hf.2.1⟩
  · intro env
    have hf := screenshot_grab_worker_thread_same_context s settings env
    exact ⟨hf.1, hf.2.1⟩
  · intro env s' h
    have hf := benchmark_worker_function_same_context h
    exact ⟨hf.1, hf.2.1⟩
  · intro log user
    obtain ⟨_, _, _, h5, h6, _, _⟩ := script_run_worker_function_effect s log user
    exact ⟨h5, h6⟩
  · intro x x' a h
    exact ⟨(step_same_context h).1, (step_same_context h).2.1⟩
  · intro e s' h
    exact ⟨(send_step_same_context h).1, (send_step_same_context h).2.1⟩
  · intro e s' h
    exact ⟨(lxi_info_callback_same_context h).1, (lxi_info_callback_same_context h).2.1⟩
  · intro L
    obtain ⟨_, _, _, _, h4⟩ := lua_print_loop_effect L (List.range' 1 L.gettop) s
    exact ⟨h4.1, h4.2.1⟩
  · intro requests
    refine ⟨?_, ?_, ?_, ?_, rfl, rfl, rfl, rfl⟩
    · unfold button_clicked_screenshot_grab
      cases hip : s.ip <;> simp [show_error, g_idle_add, g_thread_new, hip]
    · unfold button_clicked_screenshot_grab
      cases hip : s.ip <;> rfl
    · unfold button_clicked_benchmark_start
      simp only [g_idle_add]
      cases hip : s.ip <;> simp [show_error, g_idle_add, g_thread_new, hip]
    · unfold button_clicked_benchmark_start
      simp only [g_idle_add]
      cases hip : s.ip <;> rfl

/-! ## No instrument selected -/

/-- Claim C17: when no instrument is selected (`ip` is `NULL`), the send worker posts the
error notice `No instrument selected` and then its completion item, the screenshot grab
handler posts the notice and releases the grab button, and the benchmark start handler
posts the progress reset and then the notice and presses the start button in; none of
them makes a library call (no `lxi_connect`, `lxi_send`, `lxi_receive`, `screenshot` or
`benchmark`) and none starts a thread, so nothing is tried again.  The screenshot worker,
were it run, would post the notice and its completion item, again without a library
call. -/
theorem no_instrument_selected_aborts (s : State) (settings : GSettings)
    (env : send_worker_env) (shot : screenshot_env) (requests : Nat) (hip : s.ip = none) :
    (∃ s' : State, send_worker_thread s settings env = some s' ∧
      posted s s' =
        [IdleItem.show_error_thread "No instrument selected",
         IdleItem.gui_update_send_worker_finished_thread] ∧
      called s s' = [] ∧ s'.threads = s.threads) ∧
    (posted s (button_clicked_screenshot_grab s) =
        [IdleItem.show_error_thread "No instrument selected"] ∧
      called s (button_clicked_screenshot_grab s) = [] ∧
      (button_clicked_screenshot_grab s).threads = s.threads ∧
      (button_clicked_screenshot_grab s).toggle_button_screenshot_grab.active = false) ∧
    (posted s (button_clicked_benchmark_start s requests) =
        [IdleItem.gui_update_progress_bar_reset_thread,
         IdleItem.show_error_thread "No instrument selected"] ∧
      called s (button_clicked_benchmark_start s requests) = [] ∧
      (button_clicked_benchmark_start s requests).threads = s.threads ∧
      (button_clicked_benchmark_start s requests).toggle_button_benchmark_start.active = true) ∧
    (posted s (screenshot_grab_worker_thread s settings shot) =
        [IdleItem.show_error_thread "No instrument selected",
         IdleItem.gui_update_grab_screenshot_finished_thread] ∧
      called s (screenshot_grab_worker_thread s settings shot) = [] ∧
      (screenshot_grab_worker_thread s settings shot).screenshot_ready = false) := by
  refine ⟨⟨send_worker_thread_error_no_input (show_error s "No instrument selected"),
    ?_, ?_, ?_, ?_⟩, ⟨?_, ?_, ?_, ?_⟩, ⟨?_, ?_, ?_, ?_⟩, ⟨?_, ?_, ?_⟩⟩
  · simp only [send_worker_thread, hip]
  · simp [posted, send_worker_thread_error_no_input, show_error, g_idle_add]
  · simp [called, send_worker_thread_error_no_input, show_error, g_idle_add]
  · rfl
  · simp [posted, button_clicked_screenshot_grab, hip, show_error, g_idle_add]
  · simp [called, button_clicked_screenshot_grab, hip, show_error, g_idle_add]
  · simp [button_clicked_screenshot_grab, hip, show_error, g_idle_add]
  · simp [button_clicked_screenshot_grab, hip, show_error, g_idle_add]
  · simp [posted, button_clicked_benchmark_start, hip, show_error, g_idle_add]
  · simp [called, button_clicked_benchmark_start, hip, show_error, g_idle_add]
  · simp [button_clicked_benchmark_start, hip, show_error, g_idle_add]
  · simp [button_clicked_benchmark_start, hip, show_error, g_idle_add]
  · simp [posted, screenshot_grab_worker_thread, grab_screenshot, hip, show_error, g_idle_add]
  · simp [called, screenshot_grab_worker_thread, grab_screenshot, hip, show_error, g_idle_add]
  · simp [screenshot_grab_worker_thread, grab_screenshot, hip, show_error, g_idle_add]

/-- The statement of C17 at the initialised window, where no instrument is selected. -/
theorem no_instrument_selected_aborts_witness :
    start_state.ip = none ∧
    (∃ s' : State, send_worker_thread start_state example_settings example_send_env = some s' ∧
      posted start_state s' =
        [IdleItem.show_error_thread "No instrument selected",
         IdleItem.gui_update_send_worker_finished_thread] ∧
      called start_state s' = [] ∧ s'.threads = start_state.threads) ∧
    (posted start_state (button_clicked_screenshot_grab start_state) =
        [IdleItem.show_error_thread "No instrument selected"] ∧
      called start_state (button_clicked_screenshot_grab start_state) = [] ∧
      (button_clicked_screenshot_grab start_state).threads = start_state.threads ∧
      (button_clicked_screenshot_grab start_state).toggle_button_screenshot_grab.active =
        false) ∧
    (posted start_state (button_clicked_benchmark_start start_state 100) =
        [IdleItem.gui_update_progress_bar_reset_thread,
         IdleItem.show_error_thread "No instrument selected"] ∧
      called start_state (button_clicked_benchmark_start start_state 100) = [] ∧
      (button_clicked_benchmark_start start_state 100).threads = start_state.threads ∧
      (button_clicked_benchmark_start start_state 100).toggle_button_benchmark_start.active =
        true) :=
  have h := no_instrument_selected_aborts start_state example_settings example_send_env
    { status := 0, pixbuf := some 800 } 100 rfl
  ⟨rfl, h.1, h.2.1, h.2.2.1⟩

/-! ## The empty command -/

/-- Counterexample to C18 as stated: with the instrument `10.0.0.1` selected and the
command entry empty, the send worker posts one item, its completion item, which is no
notice, and makes no library call: the empty command is not reported. -/
theorem send_worker_empty_command_counterexample :
    selected_state.ip = some "10.0.0.1" ∧ selected_state.entry_scpi = "" ∧
    (send_worker_thread selected_state example_settings example_send_env).map
        (fun s' =>
          ((posted selected_state s').map (fun item => (item.is_notice, item.is_send_finished)),
            called selected_state s')) =
      some ([(false, true)], []) := by
  decide

/-- Claim C18, amended: when an instrument is selected and the command entry is empty,
the send worker aborts silently: it posts its completion item and nothing else (no
notice), and makes no library call, so it does not connect to the instrument. -/
theorem send_worker_empty_command_aborts_silently (s : State) (settings : GSettings)
    (env : send_worker_env) (ip : String) (hip : s.ip = some ip)
    (hempty : s.entry_scpi = "") :
    ∃ s' : State, send_worker_thread s settings env = some s' ∧
      posted s s' = [IdleItem.gui_update_send_worker_finished_thread] ∧
      (posted s s').filter IdleItem.is_notice = [] ∧
      called s s' = [] ∧ s'.threads = s.threads := by
  refine ⟨send_worker_thread_error_no_input s, ?_, ?_, ?_, ?_, rfl⟩
  · simp [send_worker_thread, hip, hempty]
  · simp [posted, send_worker_thread_error_no_input, g_idle_add]
  · simp [posted, send_worker_thread_error_no_input, g_idle_add, IdleItem.is_notice]
  · simp [called, send_worker_thread_error_no_input, g_idle_add]

/-- The amended statement of C18 at the window with the instrument `10.0.0.1` selected
and the command entry empty. -/
theorem send_worker_empty_command_aborts_silently_witness :
    selected_state.ip = some "10.0.0.1" ∧ selected_state.entry_scpi = "" ∧
    ∃ s' : State, send_worker_thread selected_state example_settings example_send_env = some s' ∧
      posted selected_state s' = [IdleItem.gui_update_send_worker_finished_thread] ∧
      (posted selected_state s').filter IdleItem.is_notice = [] ∧
      called selected_state s' = [] ∧ s'.threads = selected_state.threads :=
  ⟨rfl, rfl,
    send_worker_empty_command_aborts_silently selected_state example_settings example_send_env
      "10.0.0.1" rfl rfl⟩

/-! ## Transport errors in the send worker -/

/-- Claim C19: with an instrument selected, a command in the entry, the protocol setting
VXI11 or RAW and a byte count of a successful receive that fits `rx_buffer`, the send
worker returns, whatever `lxi_connect`, `lxi_send` and `lxi_receive` give.  It calls
`lxi_connect` once.  When that fails it posts the one notice `Error connecting` and calls
neither `lxi_send` nor `lxi_receive` nor `lxi_disconnect`.  When `lxi_send` fails it
posts the one notice `Error sending` and calls no `lxi_receive`.  When both succeed it
calls `lxi_receive` at most once (for a command that is a question), and posts the one
notice `No response received` if that call fails and no notice otherwise.
`lxi_disconnect` is called once if `lxi_connect` succeeded and not at all if it failed;
the transmit buffer is freed exactly once, as the last library call; and the completion
item `gui_update_send_worker_finished_thread` is posted exactly once. -/
theorem send_worker_transport_outcomes (s : State) (settings : GSettings)
    (env : send_worker_env) (ip : String)
    (hip : s.ip = some ip) (hcmd : s.entry_scpi.length ≠ 0)
    (hproto : settings.com_protocol = VXI11 ∨ settings.com_protocol = RAW)
    (hrx : env.lxi_receive = LXI_ERROR ∨
      (0 ≤ env.lxi_receive ∧ env.lxi_receive < (RX_BUFFER_SIZE : Int))) :
    ∃ s' : State, send_worker_thread s settings env = some s' ∧
      (called s s').countP Call.is_lxi_connect = 1 ∧
      (called s s').count Call.g_string_free = 1 ∧
      (called s s').getLast? = some Call.g_string_free ∧
      ((posted s s').filter IdleItem.is_send_finished).length = 1 ∧
      (called s s').countP Call.is_lxi_disconnect =
        (if env.lxi_connect = LXI_ERROR then 0 else 1) ∧
      (env.lxi_connect = LXI_ERROR →
        (posted s s').filter IdleItem.is_notice =
          [IdleItem.show_error_thread "Error connecting"] ∧
        (called s s').countP Call.is_lxi_send = 0 ∧
        (called s s').countP Call.is_lxi_receive = 0) ∧
      (env.lxi_connect ≠ LXI_ERROR → env.lxi_send = LXI_ERROR →
        (posted s s').filter IdleItem.is_notice =
          [IdleItem.show_error_thread "Error sending"] ∧
        (called s s').countP Call.is_lxi_send = 1 ∧
        (called s s').countP Call.is_lxi_receive = 0) ∧
      (env.lxi_connect ≠ LXI_ERROR → env.lxi_send ≠ LXI_ERROR →
        (called s s').countP Call.is_lxi_send = 1 ∧
        (((called s s').countP Call.is_lxi_receive = 1 ∧ env.lxi_receive = LXI_ERROR ∧
            (posted s s').filter IdleItem.is_notice =
              [IdleItem.show_error_thread "No response received"]) ∨
          ((called s s').countP Call.is_lxi_receive = 1 ∧ env.lxi_receive ≠ LXI_ERROR ∧
            (posted s s').filter IdleItem.is_notice = []) ∨
          ((called s s').countP Call.is_lxi_receive = 0 ∧
            (posted s s').filter IdleItem.is_notice = []))) := by
  have h12 : ¬ (VXI11 = RAW) := by decide
  have h21 : ¬ (RAW = VXI11) := by decide
  have hrng : ¬ env.lxi_receive = LXI_ERROR →
      (0 ≤ env.lxi_receive ∧ env.lxi_receive < (RX_BUFFER_SIZE : Int)) := by
    intro hne
    rcases hrx with h | h
    · exact absurd h hne
    · exact h
  rcases hproto with hp | hp <;>
  by_cases hc : env.lxi_connect = LXI_ERROR <;>
  by_cases hs : env.lxi_send = LXI_ERROR <;>
  cases hshow : settings.show_sent_scpi <;>
  by_cases hr : env.lxi_receive = LXI_ERROR <;>
  simp only [send_worker_thread, hip, hcmd, hp, hc, hs, hshow, hr, hrng, h12, h21, if_true,
    if_false, and_self, and_true, true_and, Bool.false_eq_true, false_and, not_true_eq_false,
    not_false_eq_true, ne_eq, IsEmpty.forall_iff, forall_const] <;>
  (try split_ifs) <;>
  refine ⟨_, rfl, ?_⟩ <;>
  simp [posted, called, send_worker_thread_error_send, send_worker_thread_error_connect,
    send_worker_thread_error_no_input, gtk_entry_buffer_delete_text, scpi_print,
    text_view_add_buffer, text_view_add_buffer_in_dimgray, show_error, record_call, g_idle_add,
    IdleItem.is_notice, IdleItem.is_send_finished, Call.is_lxi_connect, Call.is_lxi_send,
    Call.is_lxi_receive, Call.is_lxi_disconnect]

/-- The statement of C19 at the window with the instrument `10.0.0.1` selected and the
command `*IDN?` in the entry, for an instrument that connects, accepts the command and
answers. -/
theorem send_worker_transport_outcomes_witness :
    command_state.ip = some "10.0.0.1" ∧ command_state.entry_scpi.length ≠ 0 ∧
    ∃ s' : State, send_worker_thread command_state example_settings example_send_env = some s' ∧
      (called command_state s').countP Call.is_lxi_connect = 1 ∧
      (called command_state s').count Call.g_string_free = 1 ∧
      (called command_state s').getLast? = some Call.g_string_free ∧
      ((posted command_state s').filter IdleItem.is_send_finished).length = 1 ∧
      (called command_state s').countP Call.is_lxi_disconnect = 1 :=
  have h := send_worker_transport_outcomes command_state example_settings example_send_env
    "10.0.0.1" rfl (by decide) (Or.inl rfl) (Or.inr ⟨by decide, by decide⟩)
  ⟨rfl, by decide, h.choose, h.choose_spec.1, h.choose_spec.2.1, h.choose_spec.2.2.1,
    h.choose_spec.2.2.2.1, h.choose_spec.2.2.2.2.1, h.choose_spec.2.2.2.2.2.1⟩

/-! ## Send workers outstanding -/

/-- Claim C20, as the code has it: pressing Enter in the command entry is a step that can
always be taken, whatever the state of the send button, and it starts one more send
worker.  From the initialised window, Enter pressed twice leaves two send workers
running, and so does a click on the send button followed by Enter; a second click on the
send button, in contrast, cannot be taken while the first worker is outstanding. -/
theorem enter_pressed_starts_another_send_worker :
    (∀ s : State,
      send_step s SendEvent.entry_scpi_enter_pressed = some (entry_scpi_enter_pressed s) ∧
      running_send_workers (entry_scpi_enter_pressed s) = running_send_workers s + 1) ∧
    (send_run start_state
        [SendEvent.entry_scpi_enter_pressed, SendEvent.entry_scpi_enter_pressed]).map
      running_send_workers = some 2 ∧
    (send_run start_state
        [SendEvent.button_clicked_scpi_send, SendEvent.entry_scpi_enter_pressed]).map
      running_send_workers = some 2 ∧
    (send_run start_state
        [SendEvent.button_clicked_scpi_send, SendEvent.button_clicked_scpi_send]).map
      running_send_workers = none := by
  refine ⟨?_, by decide, by decide, by decide⟩
  intro s
  refine ⟨rfl, ?_⟩
  simp [running_send_workers, entry_scpi_enter_pressed, g_thread_new]

/-! ## The send button alone admits one send at a time -/

/-- What the statements of a work item do to the send button and the started threads:
the completion item of the send worker makes the button sensitive, no other item touches
the button, and no item starts or ends a send worker. -/
theorem idle_body_send (s : State) (item : IdleItem) :
    running_send_workers (idle_body s item).1 = running_send_workers s ∧
    (item.is_send_finished = false →
      (idle_body s item).1.toggle_button_scpi_send = s.toggle_button_scpi_send) := by
  cases item with
  | text_view_add_buffer_thread view buffer => cases view <;> exact ⟨rfl, fun _ => rfl⟩
  | text_view_add_markup_buffer_thread view buffer => cases view <;> exact ⟨rfl, fun _ => rfl⟩
  | text_view_clear_buffer_thread view => cases view <;> exact ⟨rfl, fun _ => rfl⟩
  | gui_update_search_finished_thread =>
    by_cases h1 : s.no_instruments = true <;>
      simp [idle_body, gui_update_search_finished_thread, hide_info_bar,
        running_send_workers, h1]
  | gui_update_grab_screenshot_finished_thread =>
    by_cases h1 : s.screenshot_ready = true
    · cases h2 : s.image_pixbuf with
      | none =>
        simp [idle_body, gui_update_grab_screenshot_finished_thread, show_error, g_idle_add,
          running_send_workers, h1, h2]
      | some width =>
        simp [idle_body, gui_update_grab_screenshot_finished_thread, running_send_workers, h1,
          h2]
    · by_cases h3 : s.screenshot_loaded = true <;>
        simp [idle_body, gui_update_grab_screenshot_finished_thread, running_send_workers, h1,
          h3]
  | gui_update_progress_bar_fraction_thread =>
    by_cases h1 : s.progress_count % 2 = 0 <;>
      simp [idle_body, gui_update_progress_bar_fraction_thread, running_send_workers, h1]
  | gui_update_search_start_thread =>
    simp [idle_body, gui_update_search_start_thread, g_thread_new, running_send_workers]
  | gui_update_send_worker_finished_thread =>
    exact ⟨rfl, fun h => by simp [IdleItem.is_send_finished] at h⟩
  | _ => exact ⟨rfl, fun _ => rfl⟩

/-- An error notice is not the completion item of the send worker. -/
theorem show_error_not_send_finished (item : IdleItem) (h : item.is_show_error = true) :
    item.is_send_finished = false := by
  cases item <;> first | rfl | exact absurd h (by decide)

/-- One turn of the main loop keeps at most one send in flight. -/
theorem ui_run_single_flight {s s' : State} (h : ui_run s = some s')
    (hinv : send_single_flight s) : send_single_flight s' := by
  obtain ⟨source, item, rest, t, hq, hs', _, _⟩ := ui_run_some h
  obtain ⟨extra, hex, hse, _, _⟩ := idle_body_posts { s with idle := rest } item
  obtain ⟨hthreads, htoggle⟩ := idle_body_send { s with idle := rest } item
  have hidle : s'.idle = rest ++ extra := by
    rw [hs']
    exact hex
  have hrun : running_send_workers s' = running_send_workers s := by
    rw [hs']
    exact hthreads
  have hextra : extra.filter (fun p => p.2.is_send_finished) = [] := by
    rw [List.filter_eq_nil_iff]
    intro p hp
    rw [show_error_not_send_finished p.2 (hse p hp)]
    simp
  have hqueued' : queued_send_finished s' =
      (rest.filter (fun p => p.2.is_send_finished)).length := by
    unfold queued_send_finished
    rw [hidle, List.filter_append, hextra, List.append_nil]
  obtain ⟨h1, h2⟩ := hinv
  unfold queued_send_finished at h1 h2
  rw [hq] at h1 h2
  cases hfin : item.is_send_finished with
  | true =>
    simp only [List.filter_cons, hfin, if_true, List.length_cons] at h1 h2
    refine ⟨by rw [hrun, hqueued']; omega, fun _ => by rw [hrun, hqueued']; omega⟩
  | false =>
    simp only [List.filter_cons, hfin, Bool.false_eq_true, if_false] at h1 h2
    refine ⟨by rw [hrun, hqueued']; exact h1, ?_⟩
    intro hsens
    rw [hrun, hqueued']
    apply h2
    have ht : s'.toggle_button_scpi_send = s.toggle_button_scpi_send := by
      rw [hs']
      exact htoggle hfin
    rw [← ht]
    exact hsens

/-- A step around the send control other than Enter keeps at most one send in flight. -/
theorem send_step_single_flight {s s' : State} {e : SendEvent} (h : send_step s e = some s')
    (he : e.is_enter = false) (hinv : send_single_flight s) : send_single_flight s' := by
  cases e with
  | entry_scpi_enter_pressed => simp [SendEvent.is_enter] at he
  | ui_run => exact ui_run_single_flight h hinv
  | button_clicked_scpi_send =>
    simp only [send_step] at h
    split at h
    · next hsens =>
      simp only [Option.some.injEq] at h
      subst h
      have h0 := hinv.2 hsens
      refine ⟨?_, fun hs => by simp [button_clicked_scpi_send, g_thread_new] at hs⟩
      have hr : running_send_workers (button_clicked_scpi_send s) =
          running_send_workers s + 1 := by
        simp [running_send_workers, button_clicked_scpi_send, g_thread_new]
      have hqd : queued_send_finished (button_clicked_scpi_send s) = queued_send_finished s :=
        rfl
      rw [hr, hqd]
      omega
    · simp at h
  | send_worker_thread settings env =>
    simp only [send_step] at h
    split at h
    · next hmem =>
      obtain ⟨_, ht, hb, posts, hi, hf⟩ := send_worker_thread_frame _ settings env s' h
      have hr : running_send_workers s' + 1 = running_send_workers s := by
        unfold running_send_workers
        rw [ht]
        show List.count _ (s.threads.erase _) + 1 = _
        rw [List.count_erase_self]
        have hpos : 0 < List.count GThread.send_worker_thread s.threads :=
          List.count_pos_iff.2 hmem
        omega
      have hqd : queued_send_finished s' = queued_send_finished s + 1 := by
        unfold queued_send_finished
        rw [hi, List.filter_append, List.length_append, hf]
      obtain ⟨h1, h2⟩ := hinv
      refine ⟨by omega, ?_⟩
      intro hsens
      have hsens' : s.toggle_button_scpi_send.sensitive = true := by
        rw [← hsens, hb]
      have := h2 hsens'
      omega
    · simp at h

/-- Without Enter pressed in the command entry, at most one send worker runs at a time:
the send button admits a click only while no send is in flight. -/
theorem send_button_single_flight : ∀ (events : List SendEvent) (s s' : State),
    send_single_flight s → (∀ e ∈ events, e.is_enter = false) →
    send_run s events = some s' →
    send_single_flight s' ∧ running_send_workers s' ≤ 1 := by
  intro events
  induction events with
  | nil =>
    intro s s' hinv _ h
    simp only [send_run, Option.some.injEq] at h
    subst h
    exact ⟨hinv, by have := hinv.1; omega⟩
  | cons e rest ih =>
    intro s s' hinv he h
    simp only [send_run] at h
    cases hstep : send_step s e with
    | none => simp [hstep] at h
    | some s1 =>
      simp only [hstep] at h
      exact ih s1 s' (send_step_single_flight hstep (he e (List.mem_cons_self _ _)) hinv)
        (fun x hx => he x (List.mem_cons_of_mem _ hx)) h

/-- The window starts with no send in flight. -/
theorem start_state_single_flight : send_single_flight start_state := by
  refine ⟨by decide, fun _ => by decide⟩

/-! ## Plot calls and the plot items they post -/

/-- One call of `chart_plot` on a live chart. -/
theorem chart_plot_live_step (s : Sys) (chart : Fin CHARTS_MAX) (L : lua_State)
    (hworker : s.worker = Worker.running)
    (hlive : (s.st.gui_chart chart).allocated = true)
    (hhandle : chart_index (c_int (L.tointeger 1)) = some chart) :
    ∃ s1 : Sys, step s (Action.call HostCall.chart_plot L) = some s1 ∧
      s1.worker = Worker.running ∧ s1.st.plotted = s.st.plotted ∧
      s1.st.idle = s.st.idle ++ [(s.st.next_source, IdleItem.gui_chart_plot_thread chart)] ∧
      (s1.st.gui_chart chart).allocated = true ∧
      (s1.st.gui_chart chart).widget = (s.st.gui_chart chart).widget ∧
      (s1.st.gui_chart chart).x = L.tonumber 2 ∧ (s1.st.gui_chart chart).y = L.tonumber 3 := by
  obtain ⟨st, worker, outcomes⟩ := s
  simp only at hworker hlive
  subst hworker
  simp only [step, host_call, lua_gui_chart_plot, hhandle, Function.update_same, hlive,
    if_true, Option.map_some', g_idle_add]
  exact ⟨_, rfl, rfl, rfl, rfl, by simp [hlive], by simp, by simp, by simp⟩

/-- One turn of the main loop with a plot item at the head of the queue: the point the
slot holds now is plotted. -/
theorem chart_plot_thread_turn (s : Sys) (chart : Fin CHARTS_MAX) (source : Nat)
    (rest : List (Nat × IdleItem))
    (hq : s.st.idle = (source, IdleItem.gui_chart_plot_thread chart) :: rest) :
    ∃ s1 : Sys, step s Action.ui_run = some s1 ∧
      s1.worker = s.worker ∧ s1.st.idle = rest ∧ s1.st.gui_chart = s.st.gui_chart ∧
      s1.st.next_source = s.st.next_source ∧
      s1.st.plotted = s.st.plotted ++
        [((s.st.gui_chart chart).widget, (s.st.gui_chart chart).x, (s.st.gui_chart chart).y)] := by
  simp only [step, ui_run, hq]
  exact ⟨_, rfl, rfl, rfl, rfl, rfl, rfl⟩



/-- A sequence of `chart_plot` calls on a live chart with no turn of the main loop in
between: one plot item is queued per call, nothing is plotted yet, and the slot holds the
point of the last call. -/
theorem chart_plot_calls_queue (chart : Fin CHARTS_MAX) : ∀ (Ls : List lua_State) (s : Sys),
    s.worker = Worker.running → (s.st.gui_chart chart).allocated = true →
    (∀ L ∈ Ls, chart_index (c_int (L.tointeger 1)) = some chart) →
    ∃ (s1 : Sys) (posts : List (Nat × IdleItem)), run s (plot_calls Ls) = some s1 ∧
      s1.worker = Worker.running ∧ s1.st.plotted = s.st.plotted ∧
      s1.st.idle = s.st.idle ++ posts ∧ posts.length = Ls.length ∧
      (∀ p ∈ posts, p.2 = IdleItem.gui_chart_plot_thread chart) ∧
      (s1.st.gui_chart chart).allocated = true ∧
      (s1.st.gui_chart chart).widget = (s.st.gui_chart chart).widget ∧
      (s1.st.gui_chart chart).x = Ls.foldl (fun _ L => L.tonumber 2) (s.st.gui_chart chart).x ∧
      (s1.st.gui_chart chart).y = Ls.foldl (fun _ L => L.tonumber 3) (s.st.gui_chart chart).y
  | [], s, hworker, hlive, _ =>
    ⟨s, [], rfl, hworker, rfl, (List.append_nil _).symm, rfl,
      fun _ hp => absurd hp (List.not_mem_nil _), hlive, rfl, rfl, rfl⟩
  | L :: rest, s, hworker, hlive, hhandle => by
    obtain ⟨s1, hstep, hw1, hp1, hi1, ha1, hwd1, hx1, hy1⟩ :=
      chart_plot_live_step s chart L hworker hlive (hhandle L (List.mem_cons_self _ _))
    obtain ⟨s2, posts, hrun, hw2, hp2, hi2, hlen, hall, ha2, hwd2, hx2, hy2⟩ :=
      chart_plot_calls_queue chart rest s1 hw1 ha1
        (fun M hM => hhandle M (List.mem_cons_of_mem _ hM))
    refine ⟨s2, (s.st.next_source, IdleItem.gui_chart_plot_thread chart) :: posts, ?_, hw2,
      hp2.trans hp1, ?_, by simp [hlen], ?_, ha2, hwd2.trans hwd1, ?_, ?_⟩
    · simp only [plot_calls, List.map_cons, run, hstep]
      exact hrun
    · rw [hi2, hi1, List.append_assoc]
      rfl
    · intro p hp
      rcases List.mem_cons.1 hp with h | h
      · rw [h]
      · exact hall p h
    · rw [hx2, hx1]
      rfl
    · rw [hy2, hy1]
      rfl

/-- The main loop runs a queue of plot items of one chart: every item plots the point
the slot holds. -/
theorem chart_plot_queue_runs (chart : Fin CHARTS_MAX) : ∀ (q : List (Nat × IdleItem)) (s : Sys),
    s.st.idle = q → (∀ p ∈ q, p.2 = IdleItem.gui_chart_plot_thread chart) →
    ∃ s1 : Sys, run s (ui_runs q.length) = some s1 ∧
      s1.worker = s.worker ∧ s1.st.idle = [] ∧ s1.st.gui_chart = s.st.gui_chart ∧
      s1.st.plotted = s.st.plotted ++
        List.replicate q.length
          ((s.st.gui_chart chart).widget, (s.st.gui_chart chart).x, (s.st.gui_chart chart).y)
  | [], s, hq, _ => ⟨s, rfl, rfl, hq, rfl, by simp⟩
  | (source, item) :: rest, s, hq, hall => by
    have hitem : item = IdleItem.gui_chart_plot_thread chart :=
      hall (source, item) (List.mem_cons_self _ _)
    subst hitem
    obtain ⟨s1, hstep, hw1, hi1, hg1, _, hp1⟩ := chart_plot_thread_turn s chart source rest hq
    obtain ⟨s2, hrun, hw2, hi2, hg2, hp2⟩ :=
      chart_plot_queue_runs chart rest s1 hi1 (fun p hp => hall p (List.mem_cons_of_mem _ hp))
    refine ⟨s2, ?_, hw2.trans hw1, hi2, hg2.trans hg1, ?_⟩
    · simp only [ui_runs, List.length_cons, List.replicate_succ, run, hstep]
      exact hrun
    · rw [hp2, hp1, hg1, List.append_assoc]
      rfl

/-- A sequence of `chart_plot` calls on a live chart, the main loop taking a turn after
each call: the points are plotted in call order. -/
theorem chart_plot_calls_each_run (chart : Fin CHARTS_MAX) : ∀ (Ls : List lua_State) (s : Sys),
    s.worker = Worker.running → s.st.idle = [] → (s.st.gui_chart chart).allocated = true →
    (∀ L ∈ Ls, chart_index (c_int (L.tointeger 1)) = some chart) →
    ∃ s1 : Sys, run s (plot_calls_each_run Ls) = some s1 ∧
      s1.st.plotted = s.st.plotted ++ Ls.map (plot_point (s.st.gui_chart chart).widget)
  | [], s, _, _, _, _ => ⟨s, rfl, by simp⟩
  | L :: rest, s, hworker, hidle, hlive, hhandle => by
    obtain ⟨s1, hstep, hw1, hp1, hi1, ha1, hwd1, hx1, hy1⟩ :=
      chart_plot_live_step s chart L hworker hlive (hhandle L (List.mem_cons_self _ _))
    rw [hidle, List.nil_append] at hi1
    obtain ⟨s2, hstep2, hw2, hi2, hg2, _, hp2⟩ := chart_plot_thread_turn s1 chart _ [] hi1
    have ha2 : (s2.st.gui_chart chart).allocated = true := by rw [hg2]; exact ha1
    obtain ⟨s3, hrun, hp3⟩ :=
      chart_plot_calls_each_run chart rest s2 (hw2.trans hw1) hi2 ha2
        (fun M hM => hhandle M (List.mem_cons_of_mem _ hM))
    refine ⟨s3, ?_, ?_⟩
    · simp only [plot_calls_each_run, List.flatMap_cons, List.cons_append, List.nil_append, run,
        hstep, hstep2]
      exact hrun
    · rw [hp3, hp2, hp1, hg2, hwd1, hx1, hy1, List.append_assoc]
      rfl

/-- Claim C21 (the code on queued calls).  On a live chart, with the queue empty and the
script worker running, the script makes the `chart_plot` calls `Ls` and then `last`, and
only then the main loop runs the posted plot items, in FIFO order.  Every one of the
`Ls.length + 1` items plots the point of the call `last`: `gui_chart_plot_thread` reads
`chart->x` and `chart->y` from the slot when it runs, and each call has overwritten them.
So the points drawn are not the points passed in call order unless all the points are
equal.  When the main loop takes its turn after each call (the second part), the points
drawn are the points passed, in call order. -/
theorem chart_plot_queued_updates_plot_last_point (s : Sys) (chart : Fin CHARTS_MAX)
    (Ls : List lua_State) (last : lua_State)
    (hworker : s.worker = Worker.running) (hidle : s.st.idle = [])
    (hlive : (s.st.gui_chart chart).allocated = true)
    (hhandle : ∀ L ∈ Ls ++ [last], chart_index (c_int (L.tointeger 1)) = some chart) :
    (∃ s' : Sys, run s (plot_calls (Ls ++ [last]) ++ ui_runs (Ls.length + 1)) = some s' ∧
      s'.st.idle = [] ∧
      s'.st.plotted =
        s.st.plotted ++
          List.replicate (Ls.length + 1) (plot_point (s.st.gui_chart chart).widget last)) ∧
    (∃ s' : Sys, run s (plot_calls_each_run (Ls ++ [last])) = some s' ∧
      s'.st.plotted =
        s.st.plotted ++ (Ls ++ [last]).map (plot_point (s.st.gui_chart chart).widget)) := by
  refine ⟨?_, chart_plot_calls_each_run chart (Ls ++ [last]) s hworker hidle hlive hhandle⟩
  obtain ⟨s1, posts, hrun1, hw1, hp1, hi1, hlen, hall, ha1, hwd1, hx1, hy1⟩ :=
    chart_plot_calls_queue chart (Ls ++ [last]) s hworker hlive hhandle
  rw [hidle, List.nil_append] at hi1
  obtain ⟨s2, hrun2, _, hi2, _, hp2⟩ := chart_plot_queue_runs chart posts s1 hi1 hall
  have hlen' : posts.length = Ls.length + 1 := by simp [hlen]
  rw [hlen'] at hrun2 hp2
  refine ⟨s2, ?_, hi2, ?_⟩
  · rw [run_append, hrun1]
    exact hrun2
  · rw [hp2, hp1, hwd1, hx1, hy1, List.foldl_append, List.foldl_append]
    rfl

/-- The statement of C21 at the system with the live line chart 0 (chart widget 2): the
script calls `chart_plot(0, 1, 2)` and `chart_plot(0, 3, 4)` before the main loop runs
the two posted items; the point (3, 4) is plotted twice and the point (1, 2) never. -/
theorem chart_plot_queued_updates_plot_last_point_witness :
    live_chart_sys.worker = Worker.running ∧ live_chart_sys.st.idle = [] ∧
    (live_chart_sys.st.gui_chart ⟨0, by decide⟩).allocated = true ∧
    live_chart_sys.st.plotted = [] ∧
    ∃ s' : Sys,
      run live_chart_sys
        [Action.call HostCall.chart_plot (plot_args 0),
         Action.call HostCall.chart_plot (plot_args_3_4 0), Action.ui_run, Action.ui_run] =
        some s' ∧
      s'.st.plotted = [(2, 3, 4), (2, 3, 4)] ∧
      s'.st.plotted ≠ [(2, 1, 2), (2, 3, 4)] :=
  have h := (chart_plot_queued_updates_plot_last_point live_chart_sys ⟨0, by decide⟩
    [plot_args 0] (plot_args_3_4 0) (by decide) rfl (by decide)
    (by
      intro L hL
      simp only [List.cons_append, List.nil_append, List.mem_cons, List.mem_singleton,
        List.not_mem_nil, or_false] at hL
      rcases hL with h | h <;> subst h <;> decide)).1
  ⟨by decide, rfl, by decide, by decide, h.choose, h.choose_spec.1,
    h.choose_spec.2.2.trans (by decide),
    by
      rw [h.choose_spec.2.2]
      decide⟩

/-! ## The start of a search -/

/-- Claim C22 (counterexample): from the initialised window, once the start-up items have
run, the user clicks the search button and the main loop runs the posted
`gui_update_search_start_thread`: the list is empty, one search worker is started, and
the discovery lock `mutex_discover` is not locked. -/
theorem begin_search_leaves_discovery_lock_free_counterexample :
    ∃ s' : State, ui_run (button_clicked_search (ui_drain start_state)) = some s' ∧
      s'.list_instruments = [] ∧ s'.threads = [GThread.search_worker_thread] ∧
      ¬ (s'.mutex_discover = true) :=
  ⟨_, rfl, rfl, rfl, by decide⟩

/-- Claim C22 (amended): the begin-search action leaves the discovery lock as it was:
neither `button_clicked_search` nor the work item `gui_update_search_start_thread` it
posts locks or unlocks `mutex_discover`, and `lxi_gui_window_init` leaves it free (it
locks the three chart locks only).  So after the begin-search action the lock is in the
state it had before, which is free unless a discovery callback holds it. -/
theorem begin_search_keeps_discovery_lock (s : State) (lua_version : String)
    (builder : Nat → Nat × Nat) :
    (gui_update_search_start_thread s).mutex_discover = s.mutex_discover ∧
    (button_clicked_search s).mutex_discover = s.mutex_discover ∧
    (∀ (source : Nat) (rest : List (Nat × IdleItem)),
      s.idle = (source, IdleItem.gui_update_search_start_thread) :: rest →
      ∃ s' : State, ui_run s = some s' ∧ s'.mutex_discover = s.mutex_discover) ∧
    (lxi_gui_window_init lua_version builder).mutex_discover = false := by
  refine ⟨rfl, rfl, ?_, rfl⟩
  intro source rest h
  unfold ui_run
  rw [h]
  exact ⟨_, rfl, rfl⟩

/-! ## Rows leave the instrument list only at the start of a search -/

/-- The clearing loop of `gui_update_search_start_thread` ends with the list empty. -/
theorem gui_update_search_start_thread_clear_eq : ∀ list : List GtkWidget,
    gui_update_search_start_thread_clear list = []
  | [] => rfl
  | _ :: rest => by
    rw [gui_update_search_start_thread_clear]
    exact gui_update_search_start_thread_clear_eq rest

/-- A discovery callback itself leaves the instrument list as it is. -/
theorem lxi_info_callback_list {s s' : State} {e : lxi_info_event}
    (h : lxi_info_callback s e = some s') :
    s'.list_instruments = s.list_instruments ∧
    ((∀ p ∈ s.idle, p.2.is_search_start = false) →
      ∀ p ∈ s'.idle, p.2.is_search_start = false) := by
  cases e with
  | broadcast address interface =>
    simp only [lxi_info_callback, Option.some.injEq] at h
    subst h
    refine ⟨rfl, ?_⟩
    intro hq p hp
    simp only [vxi11_broadcast, show_info, g_idle_add, List.mem_append, List.mem_singleton] at hp
    rcases hp with hp | hp
    · exact hq p hp
    · rw [hp]
      rfl
  | device address id =>
    simp only [lxi_info_callback, vxi11_device] at h
    split at h
    · simp at h
    · simp only [Option.some.injEq] at h
      subst h
      refine ⟨rfl, ?_⟩
      intro hq p hp
      simp only [list_add_instrument, g_idle_add, List.mem_append, List.mem_singleton] at hp
      rcases hp with hp | hp
      · exact hq p hp
      · rw [hp]
        rfl
  | service address id service port =>
    simp only [lxi_info_callback, mdns_service] at h
    split at h
    · simp at h
    · split at h
      · simp only [Option.some.injEq] at h
        subst h
        exact ⟨rfl, fun hq => hq⟩
      · simp only [Option.some.injEq] at h
        subst h
        refine ⟨rfl, ?_⟩
        intro hq p hp
        simp only [list_add_instrument, g_idle_add, List.mem_append, List.mem_singleton] at hp
        rcases hp with hp | hp
        · exact hq p hp
        · rw [hp]
          rfl

/-- The main loop run over a queue in which no item starts a search keeps the instrument
list as a prefix, and leaves no start of a search queued. -/
theorem ui_drain_list_grows (s : State) (hns : ∀ p ∈ s.idle, p.2.is_search_start = false) :
    s.list_instruments <+: (ui_drain s).list_instruments ∧
    ∀ p ∈ (ui_drain s).idle, p.2.is_search_start = false := by
  obtain ⟨h1, h2, _⟩ := ui_drain_discovery s hns
  refine ⟨⟨_, h2.symm⟩, ?_⟩
  intro p hp
  have := h1 p hp
  cases hpi : p.2 <;> simp_all [IdleItem.is_show_error, IdleItem.is_search_start]

/-- The callbacks of a search, each followed by the main loop running its queue, keep the
instrument list as a prefix when no start of a search is pending. -/
theorem lxi_discover_list_grows : ∀ (found : List lxi_info_event) (s s' : State),
    (∀ p ∈ s.idle, p.2.is_search_start = false) → lxi_discover s found = some s' →
    s.list_instruments <+: s'.list_instruments
  | [], s, s', _, h => by
    simp only [lxi_discover, Option.some.injEq] at h
    subst h
    exact List.prefix_refl _
  | e :: rest, s, s', hns, h => by
    simp only [lxi_discover] at h
    cases hcb : lxi_info_callback s e with
    | none => simp [hcb] at h
    | some s1 =>
      simp only [hcb] at h
      obtain ⟨hl, hq⟩ := lxi_info_callback_list hcb
      obtain ⟨hp, hq'⟩ := ui_drain_list_grows s1 (hq hns)
      have := lxi_discover_list_grows rest (ui_drain s1) s' hq' h
      rw [← hl]
      exact hp.trans this

/-- Claim C23: for every state of the window (every instrument list), the work item
`gui_update_search_start_thread` returns (the function is total: its clearing loop removes
the first row until none is left) with the instrument list empty, `no_instruments` true
and exactly one search worker thread started; the same holds for the turn of the main
loop that runs the item.  No other operation removes a row: every other work item, every
turn of the main loop that runs one, the discovery callbacks, a discovery notification
fully processed (through `mdns_service` or `vxi11_device`, no start of a search pending),
the whole search worker, the search button handler and the click handler of the list
leave the previous list as a prefix of the new list. -/
theorem begin_search_clears_list_and_starts_one_worker (s : State) :
    ((gui_update_search_start_thread s).list_instruments = [] ∧
      (gui_update_search_start_thread s).no_instruments = true ∧
      (gui_update_search_start_thread s).threads = s.threads ++ [GThread.search_worker_thread]) ∧
    (∀ (source : Nat) (rest : List (Nat × IdleItem)),
      s.idle = (source, IdleItem.gui_update_search_start_thread) :: rest →
      ∃ s' : State, ui_run s = some s' ∧ s'.list_instruments = [] ∧
        s'.no_instruments = true ∧
        s'.threads = s.threads ++ [GThread.search_worker_thread]) ∧
    (∀ item : IdleItem, item.is_search_start = false →
      s.list_instruments <+: (idle_body s item).1.list_instruments) ∧
    (∀ (source : Nat) (item : IdleItem) (rest : List (Nat × IdleItem)) (s' : State),
      s.idle = (source, item) :: rest → item.is_search_start = false → ui_run s = some s' →
      s.list_instruments <+: s'.list_instruments) ∧
    (∀ (e : lxi_info_event) (s' : State), lxi_info_callback s e = some s' →
      s'.list_instruments = s.list_instruments) ∧
    (∀ (n : String × String) (s' : State),
      (∀ p ∈ s.idle, p.2.is_search_start = false) →
      (mdns_deliver s n = some s' ∨ vxi11_deliver s n = some s') →
      s.list_instruments <+: s'.list_instruments) ∧
    (∀ (settings : GSettings) (found : List lxi_info_event) (s' : State),
      (∀ p ∈ s.idle, p.2.is_search_start = false) →
      search_worker_thread s settings found = some s' →
      s.list_instruments <+: s'.list_instruments) ∧
    ((button_clicked_search s).list_instruments = s.list_instruments ∧
      ∀ (row : Option GtkWidget) (button : Nat),
        (pressed_cb s row button).list_instruments = s.list_instruments) := by
  have hclear := gui_update_search_start_thread_clear_eq s.list_instruments
  refine ⟨⟨?_, rfl, rfl⟩, ?_, ?_, ?_, ?_, ?_, ?_, rfl, ?_⟩
  · show gui_update_search_start_thread_clear s.list_instruments = []
    exact hclear
  · intro source rest h
    unfold ui_run
    rw [h]
    refine ⟨_, rfl, ?_, rfl, rfl⟩
    show gui_update_search_start_thread_clear s.list_instruments = []
    exact hclear
  · intro item hitem
    exact ⟨_, ((idle_body_discovery s item).1 hitem).symm⟩
  · intro source item rest s' hq hitem h
    obtain ⟨source', item', rest', hq', _, hlist, _⟩ := ui_run_discovery h
    rw [hq] at hq'
    simp only [List.cons.injEq, Prod.mk.injEq] at hq'
    obtain ⟨⟨_, hi⟩, _⟩ := hq'
    subst hi
    exact ⟨_, (hlist hitem).symm⟩
  · intro e s' h
    exact (lxi_info_callback_list h).1
  · intro n s' hns h
    rcases h with h | h
    · have h' : lxi_discover s [lxi_info_event.service n.1 n.2 "" 0] = some s' := by
        simp only [mdns_deliver] at h
        simp only [lxi_discover, lxi_info_callback]
        cases hm : mdns_service s n.1 n.2 with
        | none => simp [hm] at h
        | some s1 =>
          simp only [hm] at h
          exact h
      exact lxi_discover_list_grows _ s s' hns h'
    · have h' : lxi_discover s [lxi_info_event.device n.1 n.2] = some s' := by
        simp only [vxi11_deliver] at h
        simp only [lxi_discover, lxi_info_callback]
        cases hm : vxi11_device s n.1 n.2 with
        | none => simp [hm] at h
        | some s1 =>
          simp only [hm] at h
          exact h
      exact lxi_discover_list_grows _ s s' hns h'
  · intro settings found s' hns h
    unfold search_worker_thread at h
    simp only [] at h
    split at h
    · simp at h
    · next s1 h1 =>
      simp only [g_idle_add, Option.some.injEq] at h
      subst h
      have h2 := fun hq => lxi_discover_list_grows found _ s1 hq h1
      exact h2 (fun p hp => hns p hp)
  · intro row button
    cases row with
    | none => rfl
    | some row =>
      simp only [pressed_cb]
      split <;> split <;> split <;> rfl

/-- The statement of C23 at the window that shows the two instruments `A` and `B`: the
user clicks the search button, the main loop runs the posted item, and the list is empty,
with one search worker started. -/
theorem begin_search_clears_list_and_starts_one_worker_witness :
    two_instrument_state.list_instruments.length = 2 ∧
    (button_clicked_search two_instrument_state).list_instruments.length = 2 ∧
    ∃ s' : State, ui_run (button_clicked_search two_instrument_state) = some s' ∧
      s'.list_instruments = [] ∧ s'.no_instruments = true ∧
      s'.threads =
        (button_clicked_search two_instrument_state).threads ++
          [GThread.search_worker_thread] :=
  ⟨by decide, by decide,
    (begin_search_clears_list_and_starts_one_worker
      (button_clicked_search two_instrument_state)).2.1 5 [] rfl⟩

/-! ## One notification through `mdns_service` -/

/-- The main loop run over the first `n` items of the queue, whatever they are: the
discovery lock is free if an append ran, and is as before otherwise. -/
theorem ui_drain_fuel_mutex_discover : ∀ (n : Nat) (s : State)
    (front back : List (Nat × IdleItem)),
    s.idle = front ++ back → front.length = n →
    (ui_drain_fuel n s).mutex_discover =
      (if (front.filterMap (fun p => p.2.added_list_box)).isEmpty then s.mutex_discover
       else false) := by
  intro n
  induction n with
  | zero =>
    intro s front back _ hlen
    have hnil : front = [] := List.eq_nil_of_length_eq_zero hlen
    subst hnil
    simp [ui_drain_fuel]
  | succ n ih =>
    intro s front back hidle hlen
    cases front with
    | nil => simp at hlen
    | cons p front' =>
      have hsome : ∃ s1, ui_run s = some s1 := by
        unfold ui_run
        rw [hidle]
        exact ⟨_, rfl⟩
      obtain ⟨s1, hu⟩ := hsome
      obtain ⟨source, item, rest, hq, ⟨extra1, hidle1, _⟩, _, hmutex⟩ := ui_run_discovery hu
      rw [hidle] at hq
      simp only [List.cons_append, List.cons.injEq] at hq
      obtain ⟨hp, hrest⟩ := hq
      subst hp
      have hidle1' : s1.idle = front' ++ (back ++ extra1) := by
        rw [hidle1, ← hrest, List.append_assoc]
      have hlen' : front'.length = n := by
        simp at hlen
        exact hlen
      have h3 := ih s1 front' (back ++ extra1) hidle1' hlen'
      simp only [ui_drain_fuel, hu]
      rw [h3, hmutex]
      cases hb : item.added_list_box with
      | none => simp [hb]
      | some b => simp [hb]

/-- The main loop run over the whole queue: the discovery lock is free if an append ran,
and is as before otherwise. -/
theorem ui_drain_mutex_discover (s : State) :
    (ui_drain s).mutex_discover =
      (if (s.idle.filterMap (fun p => p.2.added_list_box)).isEmpty then s.mutex_discover
       else false) :=
  ui_drain_fuel_mutex_discover s.idle.length s s.idle [] (List.append_nil _).symm rfl

/-- Claim C24: for every notification `(address, id)` handled by `mdns_service` with
`mutex_discover` free on entry.  If the scan finds a row with the identifier, the
callback returns with the lock released, nothing posted and the list unchanged.
Otherwise it returns with the lock held and exactly one work item posted,
`gui_update_search_add_instrument_thread` with the row content built for the entry; that
item, whenever it runs, appends the row of the entry and releases the lock.  In both
cases the notification can be processed (the callback is not blocked), and once the main
loop has run the queue the lock is free again; with neither an append nor a start of a
search pending before, the list is then unchanged in the first case and longer by the row
of the entry in the second.  On a list of rows built for entries, the scan finds the
identifier exactly when one of the entries has it. -/
theorem mdns_service_releases_or_posts_once (s : State) (address id : String)
    (hfree : s.mutex_discover = false) :
    (mdns_service_scan id s.list_instruments = true →
      ∃ s' : State, mdns_service s address id = some s' ∧
        s'.mutex_discover = false ∧ posted s s' = [] ∧ s'.idle = s.idle ∧
        s'.list_instruments = s.list_instruments) ∧
    (mdns_service_scan id s.list_instruments = false →
      ∃ s' : State, mdns_service s address id = some s' ∧
        s'.mutex_discover = true ∧
        posted s s' =
          [IdleItem.gui_update_search_add_instrument_thread (instrument_list_box address id)] ∧
        s'.list_instruments = s.list_instruments ∧
        ∀ t : State,
          (idle_body t
            (IdleItem.gui_update_search_add_instrument_thread
              (instrument_list_box address id))).1.list_instruments =
            t.list_instruments ++ [instrument_row (address, id)] ∧
          (idle_body t
            (IdleItem.gui_update_search_add_instrument_thread
              (instrument_list_box address id))).1.mutex_discover = false) ∧
    (∃ s'' : State, mdns_deliver s (address, id) = some s'' ∧ s''.mutex_discover = false ∧
      ((∀ p ∈ s.idle, p.2.added_list_box = none ∧ p.2.is_search_start = false) →
        s''.list_instruments =
          (if mdns_service_scan id s.list_instruments = true then s.list_instruments
           else s.list_instruments ++ [instrument_row (address, id)]))) ∧
    (∀ es : List (String × String), s.list_instruments = es.map instrument_row →
      (mdns_service_scan id s.list_instruments = true ↔ id ∈ es.map Prod.snd)) := by
  refine ⟨?_, ?_, ?_, ?_⟩
  · intro hscan
    refine ⟨{ s with mutex_discover := false }, ?_, rfl, ?_, rfl, rfl⟩
    · simp [mdns_service, hfree, hscan]
    · simp [posted]
  · intro hscan
    refine ⟨list_add_instrument { s with mutex_discover := true } address id, ?_, rfl, ?_, rfl,
      fun t => ⟨rfl, rfl⟩⟩
    · simp [mdns_service, hfree, hscan]
    · simp [posted, list_add_instrument, g_idle_add]
  · cases hscan : mdns_service_scan id s.list_instruments with
    | true =>
      have hsvc : mdns_service s address id = some { s with mutex_discover := false } := by
        simp [mdns_service, hfree, hscan]
      refine ⟨ui_drain { s with mutex_discover := false }, ?_, ?_, ?_⟩
      · simp [mdns_deliver, hsvc]
      · rw [ui_drain_mutex_discover]
        simp
      · intro hq
        have hns : ∀ p ∈ ({ s with mutex_discover := false } : State).idle,
            p.2.is_search_start = false := fun p hp => (hq p hp).2
        rw [(ui_drain_discovery _ hns).2.1]
        simp [plain_queue_filterMap s.idle hq]
    | false =>
      have hsvc : mdns_service s address id =
          some (list_add_instrument { s with mutex_discover := true } address id) := by
        simp [mdns_service, hfree, hscan]
      refine ⟨ui_drain (list_add_instrument { s with mutex_discover := true } address id),
        ?_, ?_, ?_⟩
      · simp [mdns_deliver, hsvc]
      · rw [ui_drain_mutex_discover]
        simp [list_add_instrument, g_idle_add, List.filterMap_append, IdleItem.added_list_box]
      · intro hq
        have hns : ∀ p ∈ (list_add_instrument { s with mutex_discover := true } address id).idle,
            p.2.is_search_start = false := by
          intro p hp
          simp only [list_add_instrument, g_idle_add, List.mem_append, List.mem_singleton] at hp
          rcases hp with hp | hp
          · exact (hq p hp).2
          · rw [hp]
            rfl
        have hfm := plain_queue_filterMap s.idle hq
        rw [(ui_drain_discovery _ hns).2.1]
        simp only [list_add_instrument, g_idle_add, List.filterMap_append, hfm]
        simp [IdleItem.added_list_box, instrument_row]
  · intro es hlist
    rw [hlist, mdns_service_scan_rows]
    simp

/-- The statement of C24 at the initialised window and the notification of instrument
`A` at `10.0.0.1`; a second notification of `A` from another address is then dropped: one
row, the lock free, the queue empty. -/
theorem mdns_service_releases_or_posts_once_witness :
    start_state.mutex_discover = false ∧
    (∃ s'' : State, mdns_deliver start_state ("10.0.0.1", "A") = some s'' ∧
      s''.mutex_discover = false) ∧
    (mdns_deliver_all start_state [("10.0.0.1", "A"), ("10.0.0.9", "A")]).map
        (fun s => (s.mutex_discover, s.list_instruments.map row_instrument, s.idle.length)) =
      some (false, [(some "10.0.0.1", some "A")], 0) :=
  have h := (mdns_service_releases_or_posts_once start_state "10.0.0.1" "A" rfl).2.2.1
  ⟨rfl, ⟨h.choose, h.choose_spec.1, h.choose_spec.2.1⟩, by decide⟩

/-! ## Chart operations on a handle that is not live: the chart table -/

/-- Claim C25 (the code on a handle that is not live).  For every handle in `0 .. 1023`
whose slot is not allocated, called while the script worker runs script code: all five
operations post no work item and return without waiting on a lock (the worker is running
afterwards).  `chart_close`, `chart_save_csv` and `chart_save_png` leave the chart table
unchanged.  `chart_plot` and `chart_set_value` do not: they store their arguments in the
slot before they test `allocated`, so after `chart_plot` the fields `x` and `y` of the
slot hold the point passed, and after `chart_set_value` the field `value` holds the value
passed. -/
theorem chart_ops_unallocated_handle_table_effect (s : Sys) (L : lua_State)
    (chart : Fin CHARTS_MAX)
    (hworker : s.worker = Worker.running)
    (hidx : chart_index (c_int (L.tointeger 1)) = some chart)
    (hfree : (s.st.gui_chart chart).allocated = false) :
    (∃ s' : Sys, step s (Action.call HostCall.chart_plot L) = some s' ∧
      s'.st.idle = s.st.idle ∧ s'.worker = Worker.running ∧
      s'.st.gui_chart =
        Function.update s.st.gui_chart chart
          { s.st.gui_chart chart with x := L.tonumber 2, y := L.tonumber 3 }) ∧
    (∃ s' : Sys, step s (Action.call HostCall.chart_set_value L) = some s' ∧
      s'.st.idle = s.st.idle ∧ s'.worker = Worker.running ∧
      s'.st.gui_chart =
        Function.update s.st.gui_chart chart
          { s.st.gui_chart chart with value := L.tonumber 2 }) ∧
    (∀ f : HostCall,
      f = HostCall.chart_close ∨ f = HostCall.chart_save_csv ∨ f = HostCall.chart_save_png →
      ∃ s' : Sys, step s (Action.call f L) = some s' ∧
        s'.st.idle = s.st.idle ∧ s'.worker = Worker.running ∧
        s'.st.gui_chart = s.st.gui_chart) := by
  obtain ⟨st, worker, outcomes⟩ := s
  simp only at hworker hfree
  subst hworker
  refine ⟨?_, ?_, ?_⟩
  · simp only [step, host_call, lua_gui_chart_plot, hidx, Function.update_same, hfree,
      Bool.false_eq_true, if_false, Option.map_some']
    exact ⟨_, rfl, rfl, rfl, rfl⟩
  · simp only [step, host_call, lua_gui_chart_set_value, hidx, Function.update_same, hfree,
      Bool.false_eq_true, if_false, Option.map_some']
    exact ⟨_, rfl, rfl, rfl, rfl⟩
  · intro f hf
    rcases hf with h | h | h <;> subst h
    · simp only [step, host_call, lua_gui_chart_close, hidx, hfree,
        Bool.false_eq_true, if_false, Option.map_some']
      exact ⟨_, rfl, rfl, rfl, rfl⟩
    · simp only [step, host_call, lua_gui_chart_save_csv_post, hidx, hfree,
        Bool.false_eq_true, if_false, Option.map_some']
      exact ⟨_, rfl, rfl, rfl, rfl⟩
    · simp only [step, host_call, lua_gui_chart_save_png_post, hidx, hfree,
        Bool.false_eq_true, if_false, Option.map_some']
      exact ⟨_, rfl, rfl, rfl, rfl⟩

/-- The statement of C25 at the initialised window and the script call
`chart_plot(0, 1, 2)`: slot 0 is free, and after the call its fields `x` and `y` hold 1 and
2 where they held 0, so the chart table is not the table before the call. -/
theorem chart_ops_unallocated_handle_table_effect_witness :
    start_sys.worker = Worker.running ∧
    chart_index (c_int ((plot_args 0).tointeger 1)) = some ⟨0, by decide⟩ ∧
    (start_sys.st.gui_chart ⟨0, by decide⟩).allocated = false ∧
    ((start_sys.st.gui_chart ⟨0, by decide⟩).x, (start_sys.st.gui_chart ⟨0, by decide⟩).y) =
      (0, 0) ∧
    ∃ s' : Sys, step start_sys (Action.call HostCall.chart_plot (plot_args 0)) = some s' ∧
      s'.st.idle = start_sys.st.idle ∧ s'.worker = Worker.running ∧
      s'.st.gui_chart =
        Function.update start_sys.st.gui_chart ⟨0, by decide⟩
          { start_sys.st.gui_chart ⟨0, by decide⟩ with x := (plot_args 0).tonumber 2,
                                                       y := (plot_args 0).tonumber 3 } ∧
      ((s'.st.gui_chart ⟨0, by decide⟩).x, (s'.st.gui_chart ⟨0, by decide⟩).y) = (1, 2) ∧
      s'.st.gui_chart ≠ start_sys.st.gui_chart :=
  have h := (chart_ops_unallocated_handle_table_effect start_sys (plot_args 0) ⟨0, by decide⟩
    rfl (by decide) rfl).1
  ⟨rfl, by decide, rfl, rfl, h.choose, h.choose_spec.1, h.choose_spec.2.1, h.choose_spec.2.2.1,
    h.choose_spec.2.2.2,
    by
      rw [h.choose_spec.2.2.2, Function.update_same]
      decide,
    by
      intro heq
      have hx := congrArg (fun t => (t ⟨0, by decide⟩).x) heq
      rw [h.choose_spec.2.2.2] at hx
      simp only [Function.update_same] at hx
      revert hx
      decide⟩

/-! ## Progress updates of a benchmark run -/

/-- The divisor of the progress callback, `(unsigned int) fraction_count`, is the whole
part of a twentieth of the request count. -/
theorem benchmark_divisor (N : Nat) (hN : N < 2 ^ 32) :
    (Rat.floor ((N : Rat) / 20)).toNat % 2 ^ 32 = N / 20 := by
  have h1 : Rat.floor ((N : Rat) / 20) = ((N / 20 : Nat) : Int) := by
    have h := Rat.floor_intCast_div_natCast (N : Int) 20
    have h2 : Rat.floor ((N : Rat) / 20) = ⌊((N : Rat) / 20)⌋ := rfl
    rw [h2]
    simpa using h
  rw [h1, Int.toNat_natCast]
  apply Nat.mod_eq_of_lt
  omega

/-- The progress callback, case by case: no result when the divisor is zero; otherwise
an update is posted exactly when the incremented count is a multiple of the divisor, and
the fraction stored for it is the incremented count over the request count. -/
theorem benchmark_progress_cb_eq (s : State) (count : Nat)
    (hN : s.benchmark_requests_count < 2 ^ 32) (hcount : count + 1 < 2 ^ 32) :
    benchmark_progress_cb s count =
      if s.benchmark_requests_count / 20 = 0 then none
      else if (count + 1) % (s.benchmark_requests_count / 20) = 0 then
        some (g_idle_add
          { s with progress_bar_fraction :=
              ((count + 1 : Nat) : Rat) / (s.benchmark_requests_count : Rat) }
          IdleItem.gui_update_progress_bar_fraction_thread).1
      else some s := by
  unfold benchmark_progress_cb
  simp only [benchmark_divisor _ hN, Nat.mod_eq_of_lt hcount]
  by_cases h0 : s.benchmark_requests_count / 20 = 0
  · simp [h0]
  · simp only [h0, if_false]
    have hN0 : (s.benchmark_requests_count : Rat) ≠ 0 := by
      have : s.benchmark_requests_count ≠ 0 := by
        intro h
        rw [h] at h0
        exact h0 rfl
      exact_mod_cast this
    have hfrac : ((count + 1 : Nat) : Rat) / ((s.benchmark_requests_count : Rat) / 20) / 20 =
        ((count + 1 : Nat) : Rat) / (s.benchmark_requests_count : Rat) := by
      field_simp
      ring
    rw [hfrac]



/-- The counts below `n` whose successor is a multiple of `d`, each plus one, are the
multiples `d, 2d, ...` up to `n`. -/
theorem range_filter_multiples (d : Nat) (hd : d ≠ 0) : ∀ n : Nat,
    ((List.range n).filter (fun c => decide ((c + 1) % d = 0))).map (fun c => c + 1) =
      (List.range (n / d)).map (fun k => (k + 1) * d)
  | 0 => by simp
  | n + 1 => by
    rw [List.range_succ, List.filter_append, List.map_append, range_filter_multiples d hd n,
      Nat.succ_div]
    by_cases h : (n + 1) % d = 0
    · have hdvd : d ∣ n + 1 := Nat.dvd_of_mod_eq_zero h
      have hmul : (n / d + 1) * d = n + 1 := by
        have h1 : (n + 1) / d = n / d + 1 := by
          rw [Nat.succ_div, if_pos hdvd]
        rw [← h1]
        exact Nat.div_mul_cancel hdvd
      simp [h, hdvd, List.range_succ, hmul]
    · have hdvd : ¬ d ∣ n + 1 := fun hdv => h (Nat.mod_eq_zero_of_dvd hdv)
      simp [h, hdvd]

/-- A run of `benchmark` over a list of counts, for a request count of at least 20: an
update is posted for each count whose successor is a multiple of the divisor, with the
fraction (count + 1) / N. -/
theorem benchmark_run_effect (N : Nat) (hd0 : N / 20 ≠ 0) (hN : N < 2 ^ 32) :
    ∀ (l : List Nat) (s : State), s.benchmark_requests_count = N →
    (∀ c ∈ l, c + 1 < 2 ^ 32) →
    ∃ s' : State, benchmark s l = some s' ∧ s'.benchmark_requests_count = N ∧
      s'.idle.map Prod.snd =
        s.idle.map Prod.snd ++
          List.replicate (l.filter (fun c => decide ((c + 1) % (N / 20) = 0))).length
            IdleItem.gui_update_progress_bar_fraction_thread ∧
      benchmark_updates s l =
        some (((l.filter (fun c => decide ((c + 1) % (N / 20) = 0))).map (fun c => c + 1)).map
          (fun m => ((m : Nat) : Rat) / (N : Rat)))
  | [], s, hs, _ => ⟨s, rfl, hs, by simp, rfl⟩
  | c :: rest, s, hs, hl => by
    subst hs
    have hc : c + 1 < 2 ^ 32 := hl c (List.mem_cons_self _ _)
    have hcb := benchmark_progress_cb_eq s c hN hc
    rw [if_neg hd0] at hcb
    by_cases hm : (c + 1) % (s.benchmark_requests_count / 20) = 0
    · rw [if_pos hm] at hcb
      obtain ⟨s', hrun, hcount, hidle, hupd⟩ :=
        benchmark_run_effect s.benchmark_requests_count hd0 hN rest
          (g_idle_add
            { s with progress_bar_fraction :=
                ((c + 1 : Nat) : Rat) / (s.benchmark_requests_count : Rat) }
            IdleItem.gui_update_progress_bar_fraction_thread).1 rfl
          (fun x hx => hl x (List.mem_cons_of_mem _ hx))
      refine ⟨s', ?_, hcount, ?_, ?_⟩
      · simp only [benchmark, hcb]
        exact hrun
      · rw [hidle]
        simp [g_idle_add, hm, List.replicate_succ]
      · simp only [benchmark_updates, hcb, hupd]
        simp [g_idle_add, hm]
    · rw [if_neg hm] at hcb
      obtain ⟨s', hrun, hcount, hidle, hupd⟩ :=
        benchmark_run_effect s.benchmark_requests_count hd0 hN rest s rfl
          (fun x hx => hl x (List.mem_cons_of_mem _ hx))
      refine ⟨s', ?_, hcount, ?_, ?_⟩
      · simp only [benchmark, hcb]
        exact hrun
      · rw [hidle]
        simp [hm]
      · simp only [benchmark_updates, hcb, hupd]
        simp [hm]

/-- A benchmark run of `N` requests, `20 ≤ N`, in which the callback is called with the
counts `0 .. N - 1`: an update is posted for every `N / 20` requests. -/
theorem benchmark_run_updates (s : State) (N : Nat) (h20 : 20 ≤ N) (hN : N < 2 ^ 32)
    (hs : s.benchmark_requests_count = N) :
    ∃ s' : State, benchmark s (List.range N) = some s' ∧
      posted s s' =
        List.replicate (N / (N / 20)) IdleItem.gui_update_progress_bar_fraction_thread ∧
      benchmark_updates s (List.range N) =
        some ((List.range (N / (N / 20))).map
          (fun k => (((k + 1) * (N / 20) : Nat) : Rat) / (N : Rat))) := by
  have hd0 : N / 20 ≠ 0 := by omega
  obtain ⟨s', hrun, _, hidle, hupd⟩ :=
    benchmark_run_effect N hd0 hN (List.range N) s hs
      (fun c hc => by
        have := List.mem_range.1 hc
        omega)
  have hmult := range_filter_multiples (N / 20) hd0 N
  have hlen : ((List.range N).filter (fun c => decide ((c + 1) % (N / 20) = 0))).length =
      N / (N / 20) := by
    have := congrArg List.length hmult
    simpa using this
  refine ⟨s', hrun, ?_, ?_⟩
  · unfold posted
    rw [List.map_drop, hidle, hlen, ← List.length_map s.idle Prod.snd, List.drop_left]
  · rw [hupd, hmult, List.map_map]
    rfl

/-- Claim C26 (counterexample): a benchmark of 30 requests, the callback called with the
counts 0 .. 29.  The divisor is `(unsigned int) 1.5 = 1`, so an update is posted for every
request: 30 updates, not 20, carrying the fractions 1/30, 2/30, ..., 30/30. -/
theorem benchmark_thirty_requests_counterexample :
    (benchmark_start_state 30).benchmark_requests_count = 30 ∧
    ∃ s' : State, benchmark (benchmark_start_state 30) (List.range 30) = some s' ∧
      (posted (benchmark_start_state 30) s').length = 30 ∧
      ¬ ((posted (benchmark_start_state 30) s').length = 20) ∧
      benchmark_updates (benchmark_start_state 30) (List.range 30) =
        some ((List.range 30).map (fun k => ((k + 1 : Nat) : Rat) / 30)) := by
  obtain ⟨s', hrun, hposted, hupd⟩ :=
    benchmark_run_updates (benchmark_start_state 30) 30 (by decide) (by decide) rfl
  refine ⟨rfl, s', hrun, ?_, ?_, ?_⟩
  · rw [hposted]
    simp
  · rw [hposted]
    simp
  · rw [hupd]
    simp

/-- Claim C26 (amended): over a benchmark run of `N` requests, `N` a positive multiple of
20 (`N = 20 m`, `1 ≤ m`, `N < 2^32`), in which the progress callback is called with
count = 0, 1, ..., N - 1, exactly 20 progress updates are posted and the k-th update
carries the fraction `k / 20`. -/
theorem benchmark_posts_twenty_updates (s : State) (m : Nat) (hm : 1 ≤ m)
    (hN : 20 * m < 2 ^ 32) (hs : s.benchmark_requests_count = 20 * m) :
    ∃ s' : State, benchmark s (List.range (20 * m)) = some s' ∧
      posted s s' = List.replicate 20 IdleItem.gui_update_progress_bar_fraction_thread ∧
      benchmark_updates s (List.range (20 * m)) =
        some ((List.range 20).map (fun k => ((k + 1 : Nat) : Rat) / 20)) := by
  obtain ⟨s', hrun, hposted, hupd⟩ := benchmark_run_updates s (20 * m) (by omega) hN hs
  have hm0 : m ≠ 0 := by omega
  have hdiv : 20 * m / 20 = m := Nat.mul_div_cancel_left m (by decide)
  have hcnt : 20 * m / (20 * m / 20) = 20 := by
    rw [hdiv]
    exact Nat.mul_div_cancel 20 (Nat.pos_of_ne_zero hm0)
  rw [hcnt] at hposted hupd
  rw [hdiv] at hupd
  refine ⟨s', hrun, hposted, ?_⟩
  rw [hupd]
  congr 1
  apply List.map_congr_left
  intro k _
  have hmq : (m : Rat) ≠ 0 := by exact_mod_cast hm0
  push_cast
  field_simp
  ring

/-- The amended statement of C26 for a benchmark of 40 requests started from the window
with an instrument selected. -/
theorem benchmark_posts_twenty_updates_witness :
    (1 : Nat) ≤ 2 ∧ (benchmark_start_state 40).benchmark_requests_count = 20 * 2 ∧
    ∃ s' : State, benchmark (benchmark_start_state 40) (List.range (20 * 2)) = some s' ∧
      posted (benchmark_start_state 40) s' =
        List.replicate 20 IdleItem.gui_update_progress_bar_fraction_thread ∧
      benchmark_updates (benchmark_start_state 40) (List.range (20 * 2)) =
        some ((List.range 20).map (fun k => ((k + 1 : Nat) : Rat) / 20)) :=
  ⟨by decide, rfl,
    benchmark_posts_twenty_updates (benchmark_start_state 40) 2 (by decide) (by decide) rfl⟩

/-! ## The divisor of the progress callback -/

/-- Claim C27 (the code, by request count).  For a request count below 20 the divisor
`(unsigned int) (N / 20.0)` of the remainder in `benchmark_progress_cb` is zero, for every
count: the callback has no result (the remainder by zero is undefined).  For a request
count of at least 20 the divisor is not zero, the callback returns for every count below
`N`, and when it posts an update the fraction it stored is `(count + 1) / N`, which lies
in (0, 1]. -/
theorem benchmark_progress_cb_divisor (s : State) (count : Nat)
    (hN : s.benchmark_requests_count < 2 ^ 32) :
    (s.benchmark_requests_count < 20 → benchmark_progress_cb s count = none) ∧
    (20 ≤ s.benchmark_requests_count → count < s.benchmark_requests_count →
      ∃ s' : State, benchmark_progress_cb s count = some s' ∧
        ((s' = s ∧ posted s s' = []) ∨
         (posted s s' = [IdleItem.gui_update_progress_bar_fraction_thread] ∧
          s'.progress_bar_fraction =
            ((count : Rat) + 1) / (s.benchmark_requests_count : Rat) ∧
          0 < s'.progress_bar_fraction ∧ s'.progress_bar_fraction ≤ 1))) := by
  constructor
  · intro h
    have h0 : s.benchmark_requests_count / 20 = 0 := by omega
    unfold benchmark_progress_cb
    simp only [benchmark_divisor _ hN, h0, if_true]
  · intro h20 hcount
    have h0 : s.benchmark_requests_count / 20 ≠ 0 := by omega
    rw [benchmark_progress_cb_eq s count hN (by omega), if_neg h0]
    by_cases hm : (count + 1) % (s.benchmark_requests_count / 20) = 0
    · rw [if_pos hm]
      refine ⟨_, rfl, Or.inr ⟨?_, ?_, ?_, ?_⟩⟩
      · simp [posted, g_idle_add]
      · simp [g_idle_add]
      · have hpos : (0 : Rat) < (s.benchmark_requests_count : Rat) := by
          exact_mod_cast (by omega : 0 < s.benchmark_requests_count)
        simp only [g_idle_add]
        apply div_pos _ hpos
        exact_mod_cast Nat.succ_pos count
      · have hpos : (0 : Rat) < (s.benchmark_requests_count : Rat) := by
          exact_mod_cast (by omega : 0 < s.benchmark_requests_count)
        simp only [g_idle_add]
        rw [div_le_one hpos]
        exact_mod_cast hcount
    · rw [if_neg hm]
      exact ⟨s, rfl, Or.inl ⟨rfl, by simp [posted]⟩⟩

/-- The statement of C27 for a benchmark of 10 requests started from the window with an
instrument selected: the first call of the progress callback, with count 0, takes the
remainder by zero. -/
theorem benchmark_progress_cb_divisor_witness :
    (benchmark_start_state 10).benchmark_requests_count = 10 ∧
    benchmark_progress_cb (benchmark_start_state 10) 0 = none :=
  ⟨rfl, (benchmark_progress_cb_divisor (benchmark_start_state 10) 0 (by decide)).1 (by decide)⟩

/-! ## The terminator of the response -/

/-- Claim C28 (the code at the terminator).  With an instrument selected, a command in
the entry that is a question, the protocol setting VXI11 or RAW, and `lxi_connect` and
`lxi_send` successful, let `r` be the byte count `lxi_receive` returns, `0 ≤ r ≤ 65536`
(65536 is `sizeof(rx_buffer)`, the length passed to `lxi_receive`).  The send worker
writes the terminator at `rx_buffer[r]`; that index lies inside the 65536-byte buffer
exactly when `r < 65536`.  For `r = 65536`, a response that fills the buffer, the write
goes one byte past the end of `rx_buffer` and the thread function has no result. -/
theorem send_worker_terminator_index (s : State) (settings : GSettings)
    (env : send_worker_env) (ip : String)
    (hip : s.ip = some ip) (hcmd : s.entry_scpi.length ≠ 0)
    (hproto : settings.com_protocol = VXI11 ∨ settings.com_protocol = RAW)
    (hconnect : env.lxi_connect ≠ LXI_ERROR) (hsend : env.lxi_send ≠ LXI_ERROR)
    (hquestion : env.question (send_worker_tx_buffer s settings env) = true)
    (hr : 0 ≤ env.lxi_receive ∧ env.lxi_receive ≤ (RX_BUFFER_SIZE : Int)) :
    ((send_worker_thread s settings env).isSome = true ↔
      env.lxi_receive < (RX_BUFFER_SIZE : Int)) ∧
    (env.lxi_receive = (RX_BUFFER_SIZE : Int) → send_worker_thread s settings env = none) := by
  have h12 : ¬ (VXI11 = RAW) := by decide
  have h21 : ¬ (RAW = VXI11) := by decide
  have hne : ¬ env.lxi_receive = LXI_ERROR := by
    intro h
    rw [h] at hr
    exact absurd hr.1 (by decide)
  have key : send_worker_thread s settings env = none ↔
      ¬ env.lxi_receive < (RX_BUFFER_SIZE : Int) := by
    rcases hproto with hp | hp <;>
    cases hshow : settings.show_sent_scpi <;>
    by_cases hlt : env.lxi_receive < (RX_BUFFER_SIZE : Int) <;>
    simp [send_worker_tx_buffer, hp, hshow, h12, h21] at hquestion <;>
    simp [send_worker_thread, hip, hcmd, hp, hconnect, hsend, hshow, hquestion, hne, hlt,
      hr.1, h12, h21]
  constructor
  · rw [Option.isSome_iff_ne_none, ne_eq, key, not_not]
  · intro h
    rw [key, h]
    exact lt_irrefl _

/-- The statement of C28 at the window with the instrument `10.0.0.1` selected and the
command `*IDN?` in the entry, for an instrument whose answer fills `rx_buffer`:
`lxi_receive` returns 65536 and the terminator is written outside the buffer. -/
theorem send_worker_terminator_index_witness :
    command_state.ip = some "10.0.0.1" ∧ command_state.entry_scpi.length ≠ 0 ∧
    full_buffer_send_env.question
      (send_worker_tx_buffer command_state example_settings full_buffer_send_env) = true ∧
    full_buffer_send_env.lxi_receive = (RX_BUFFER_SIZE : Int) ∧
    send_worker_thread command_state example_settings full_buffer_send_env = none :=
  ⟨rfl, by decide, by decide, rfl,
    (send_worker_terminator_index command_state example_settings full_buffer_send_env
      "10.0.0.1" rfl (by decide) (Or.inl rfl) (by decide) (by decide) (by decide)
      ⟨by decide, by decide⟩).2 rfl⟩

/-! ## The line `scpi_print` builds -/

/-- The empty text in front of a text changes nothing. -/
theorem string_empty_append (a : String) : "" ++ a = a := by
  apply String.ext
  simp

/-- Claim C29: for every text, address, time stamp and every setting of the three
display toggles, the line `scpi_print` builds is the head followed by the text, where the
head is empty when no toggle is set and otherwise is `[`, the enabled fields in the order
time stamp, address, type joined by single spaces, and `] `, the type being `REQ` for a
sent message and `RSP` for a received one (`scpi_line_head` words this).  For a sent
message two items are posted for the command view: the line, wrapped in the dim gray
markup, and then a newline of its own; for a received message one item is posted, the
line as it is, with no newline added.  With all three toggles set the sent line for
`*IDN?` at `10.0.0.1` is `[12:00:00:000 10.0.0.1 REQ] *IDN?`. -/
theorem scpi_print_line_format (s : State) (settings : GSettings) (text : String)
    (sent : Bool) (ip : Option String) (timestamp : String) :
    scpi_print_string settings text sent ip timestamp =
      scpi_line_head settings sent ip timestamp ++ text ∧
    posted s (scpi_print s settings text true ip timestamp) =
      [IdleItem.text_view_add_markup_buffer_thread GtkTextView.text_view_scpi
         ("<span foreground=\"dimgray\">" ++
            (scpi_line_head settings true ip timestamp ++ text) ++ "</span>"),
       IdleItem.text_view_add_buffer_thread GtkTextView.text_view_scpi (some "\n")] ∧
    posted s (scpi_print s settings text false ip timestamp) =
      [IdleItem.text_view_add_buffer_thread GtkTextView.text_view_scpi
         (some (scpi_line_head settings false ip timestamp ++ text))] ∧
    scpi_print_string all_fields_settings "*IDN?" true (some "10.0.0.1") "12:00:00:000" =
      "[12:00:00:000 10.0.0.1 REQ] *IDN?" := by
  have hline : ∀ sent : Bool, scpi_print_string settings text sent ip timestamp =
      scpi_line_head settings sent ip timestamp ++ text := by
    intro sent
    unfold scpi_print_string scpi_line_head scpi_line_fields
    cases settings.scpi_show_message_timestamp <;> cases settings.scpi_show_message_ip <;>
      cases settings.scpi_show_message_type <;>
      simp [String.intercalate, String.intercalate.go, String.append_assoc,
        string_empty_append]
  refine ⟨hline sent, ?_, ?_, by decide⟩
  · rw [← hline true]
    simp [posted, scpi_print, text_view_add_buffer_in_dimgray, text_view_add_buffer, g_idle_add]
  · rw [← hline false]
    simp [posted, scpi_print, text_view_add_buffer, g_idle_add]

/-! ## The widget search -/

mutual
/-- The widget search of a tree is the search of its pre-order list. -/
theorem find_child_by_name_preorder : ∀ (w : GtkWidget) (name : String),
    find_child_by_name w name = (GtkWidget.preorder w).find? (fun x => decide (x.name = name))
  | GtkWidget.mk wname text children, name => by
    rw [find_child_by_name, GtkWidget.preorder, List.find?_cons]
    by_cases h : wname = name
    · simp [h, GtkWidget.name]
    · simp only [h, if_false, GtkWidget.name, decide_False]
      exact find_child_by_name_children_preorder children name
/-- The loop over the children is the search of their pre-order list. -/
theorem find_child_by_name_children_preorder : ∀ (children : List GtkWidget) (name : String),
    find_child_by_name_children children name =
      (GtkWidget.preorder_children children).find? (fun x => decide (x.name = name))
  | [], name => by
    rw [find_child_by_name_children, GtkWidget.preorder_children]
    rfl
  | child :: rest, name => by
    rw [find_child_by_name_children, GtkWidget.preorder_children, List.find?_append,
      ← find_child_by_name_preorder child name, ← find_child_by_name_children_preorder rest name]
    cases find_child_by_name child name <;> rfl
end

/-- Claim C30: for every widget tree and every name, `find_child_by_name` returns (the
function is total: it recurses into the children of a finite tree), and its result is the
first widget in pre-order (the root itself first, then the subtree of each child in
sibling order) whose name equals the given name; it returns `NULL` if and only if no
widget of the tree has that name.  In the row of an instrument, which holds two boxes
named `GtkBox`, the search for `GtkBox` returns the outer one, the box with two
children. -/
theorem find_child_by_name_first_in_preorder (parent : GtkWidget) (name : String) :
    find_child_by_name parent name =
      (GtkWidget.preorder parent).find? (fun w => decide (w.name = name)) ∧
    (find_child_by_name parent name = none ↔
      ∀ w ∈ GtkWidget.preorder parent, w.name ≠ name) ∧
    (∀ w, find_child_by_name parent name = some w →
      ∃ before after, GtkWidget.preorder parent = before ++ w :: after ∧ w.name = name ∧
        ∀ v ∈ before, v.name ≠ name) ∧
    ((GtkWidget.preorder (instrument_row ("10.0.0.1", "A"))).map GtkWidget.name =
        ["GtkListBoxRow", "GtkBox", "GtkImage", "GtkBox", "list-title", "list-subtitle"] ∧
      (find_child_by_name (instrument_row ("10.0.0.1", "A")) "GtkBox").map
          GtkWidget.child_count = some 2 ∧
      (find_child_by_name (instrument_row ("10.0.0.1", "A")) "list-subtitle").map
          gtk_label_get_text = some "A" ∧
      (find_child_by_name (instrument_row ("10.0.0.1", "A")) "GtkLabel").map
          gtk_label_get_text = none) := by
  have h := find_child_by_name_preorder parent name
  refine ⟨h, ?_, ?_, by decide, by decide, by decide, by decide⟩
  · rw [h, List.find?_eq_none]
    simp
  · intro w hw
    rw [h] at hw
    obtain ⟨hp, before, after, heq, hb⟩ := List.find?_eq_some.1 hw
    refine ⟨before, after, heq, by simpa using hp, ?_⟩
    intro v hv
    simpa using hb v hv

end LxiGui
